import Mathlib

/-! ADF4351 wideband synthesizer driver: register planning

A shallow embedding of `src/src/ADF4351.cpp` / `src/src/ADF4351.h`:
the read-back accessors, `SetStepFreq`, `setrf` and the frequency planner `setf`,
followed by the properties proved about them.

Conventions of the embedding.

* `uint8_t` / `uint16_t` / `uint32_t` values are natural numbers, reduced with an explicit
  modulus wherever the C code can wrap; `int32_t` values are integers wrapped by `i32`.
* A call that would execute an integer division by zero (undefined behaviour in C++)
  yields `none`.
* `millis()` is an arbitrary sequence of clock readings supplied to `setf`.
* `double` arithmetic. A `double` value is the rational it denotes, and every function
  that computes in `double` (`ReadPFDfreq`, `SetStepFreq`, `setrf`, `setf`) takes as its
  first argument the rounding `fl` applied to the exact result of each `double` operation:
  `roundBinary 53` for IEEE binary64, `roundBinary 24` where `double` is a 32-bit float.
  `ReadPFDfreq id s` is the value of the expression of `ReadPFDfreq` without any rounding,
  that is, the exact phase-detector frequency of the state `s`.
  `setf` uses the `double` only in the test `ReadPFDfreq() == 0`, so the properties of `setf`
  are stated for every rounding `fl` that sends zero, and only zero, to zero (the hypothesis
  `hfl`); round-to-nearest does so in every binary format (`roundBinary_eq_zero_iff`,
  `binary64_zero`), and the quotients at hand, at least 1/2046, are far from underflow.
-/

namespace ADF4351

/-! ## Constants of `ADF4351.h` -/

def ADF4351_PFD_MAX : Nat := 45000000
def ADF4351_PFD_MAX_FRAC : Nat := 32000000
def ADF4351_PFD_MIN : Nat := 125000
def ADF4351_REFIN_MIN : Nat := 100000
def ADF4351_REFIN_MAX : Nat := 250000000
def ADF4351_REF_FREQ_DEFAULT : Nat := 10000000

def ADF4351_AUX_DIVIDED : Nat := 0
def ADF4351_AUX_FUNDAMENTAL : Nat := 1
def ADF4351_REF_UNDIVIDED : Nat := 0
def ADF4351_REF_HALF : Nat := 1
def ADF4351_REF_DOUBLE : Nat := 2

def ADF4351_ERROR_NONE : Nat := 0
def ADF4351_ERROR_STEP_FREQUENCY_EXCEEDS_PFD : Nat := 1
def ADF4351_ERROR_RF_FREQUENCY : Nat := 2
def ADF4351_ERROR_POWER_LEVEL : Nat := 3
def ADF4351_ERROR_AUX_POWER_LEVEL : Nat := 4
def ADF4351_ERROR_AUX_FREQ_DIVIDER : Nat := 5
def ADF4351_ERROR_ZERO_PFD_FREQUENCY : Nat := 6
def ADF4351_ERROR_MOD_RANGE : Nat := 7
def ADF4351_ERROR_FRAC_RANGE : Nat := 8
def ADF4351_ERROR_N_RANGE : Nat := 9
def ADF4351_ERROR_N_RANGE_OVER_3600_MHz : Nat := 10
def ADF4351_ERROR_RF_FREQUENCY_AND_STEP_FREQUENCY_HAS_REMAINDER : Nat := 11
def ADF4351_ERROR_PFD_EXCEEDED_WITH_FRACTIONAL_MODE : Nat := 12
def ADF4351_ERROR_PRECISION_FREQUENCY_CALCULATION_TIMEOUT : Nat := 13
def ADF4351_WARNING_FREQUENCY_ERROR : Nat := 14
def ADF4351_ERROR_DOUBLER_EXCEEDED : Nat := 15
def ADF4351_ERROR_R_RANGE : Nat := 16
def ADF4351_ERROR_REF_FREQUENCY : Nat := 17
def ADF4351_ERROR_REF_MULTIPLIER_TYPE : Nat := 18
def ADF4351_ERROR_PFD_AND_STEP_FREQUENCY_HAS_REMAINDER : Nat := 19
def ADF4351_ERROR_PFD_LIMITS : Nat := 20

/-! ## Machine integers -/

/-- Conversion of an integer to `uint8_t`. -/
def u8 (x : Int) : Nat := (x % 256).toNat

/-- Conversion of an integer to `uint32_t`. -/
def u32 (x : Int) : Nat := (x % 4294967296).toNat

/-- Conversion of an integer to `int32_t` (two's complement). -/
def i32 (x : Int) : Int := (x + 2147483648) % 4294967296 - 2147483648

/-! ## The decimal type -/

/-- Modelled from the spec: the arbitrary-precision decimal type `BigNumber` (an external
library, not part of the sources) after `BigNumber::begin(12)`. A decimal with twelve
fractional digits is represented by its value in units of `10^-12`. -/
abbrev BigNumber := Int

namespace BigNumber

/-- The decimal `1`. -/
def ONE : Int := 1000000000000

/-- The decimal `0.5`. -/
def HALF : Int := 500000000000

/-- Modelled from the spec: `BigNumber(n)` for an unsigned integer `n` (directly or through
`ultoa`): the exact value. -/
def ofNat (n : Nat) : BigNumber := (n : Int) * ONE

/-- Modelled from the spec: decimal product, digits beyond the twelfth dropped. -/
def mul (a b : BigNumber) : BigNumber := Int.tdiv (a * b) ONE

/-- Modelled from the spec: decimal quotient, digits beyond the twelfth dropped; a zero
divisor leaves the result zero. -/
def div (a b : BigNumber) : BigNumber := Int.tdiv (a * ONE) b

/-- Modelled from the spec: conversion to an integer, which drops the fractional digits
("round off the decimal"). -/
def toLong (a : BigNumber) : Int := Int.tdiv a ONE

end BigNumber

open BigNumber

/-! ## Bit fields -/

/-- Modelled from the spec: `BitFieldManipulation.ReadBF_dword` (an external library): the
field of `BitWidth` bits starting at bit `BitStart`. -/
def ReadBF_dword (BitStart BitWidth data_source : Nat) : Nat :=
  data_source / 2 ^ BitStart % 2 ^ BitWidth

/-- Modelled from the spec: `BitFieldManipulation.WriteBF_dword` (an external library):
`data_source` with the field of `BitWidth` bits at `BitStart` replaced by the low bits of
`data_field`. -/
def WriteBF_dword (BitStart BitWidth data_source data_field : Nat) : Nat :=
  data_source - (data_source / 2 ^ BitStart % 2 ^ BitWidth) * 2 ^ BitStart
    + (data_field % 2 ^ BitWidth) * 2 ^ BitStart

/-! ## Device state -/

/-- The data members of `class ADF4351` that the planner reads or writes; `R0 .. R5` are
`ADF4351_R[0] .. ADF4351_R[5]`. -/
structure State where
  ADF4351_FrequencyError : Int
  ADF4351_reffreq : Nat
  R0 : Nat
  R1 : Nat
  R2 : Nat
  R3 : Nat
  R4 : Nat
  R5 : Nat
  ADF4351_ChanStep : Nat
  deriving DecidableEq

/-- The register image `ADF4351_R[0..5]`. -/
def State.ADF4351_R (s : State) : List Nat := [s.R0, s.R1, s.R2, s.R3, s.R4, s.R5]

/-- The power-on defaults of `ADF4351.h`. -/
def powerOn : State :=
  { ADF4351_FrequencyError := 0
    ADF4351_reffreq := ADF4351_REF_FREQ_DEFAULT
    R0 := 0x00000000
    R1 := 0x00008011
    R2 := 0x00006FC2
    R3 := 0x00E00483
    R4 := 0x00850004
    R5 := 0x00580005
    ADF4351_ChanStep := 100000 }

/-! ## Read-back accessors -/

def ReadR (s : State) : Nat := ReadBF_dword 14 10 s.R2

def ReadInt (s : State) : Nat := ReadBF_dword 15 16 s.R0

def ReadFraction (s : State) : Nat := ReadBF_dword 3 12 s.R0

def ReadMod (s : State) : Nat := ReadBF_dword 3 12 s.R1

def ReadOutDivider (s : State) : Nat := (1 <<< ReadBF_dword 20 3 s.R4) % 256

def ReadOutDivider_PowerOf2 (s : State) : Nat := ReadBF_dword 20 3 s.R4

def ReadRDIV2 (s : State) : Nat := ReadBF_dword 24 1 s.R2

def ReadRefDoubler (s : State) : Nat := ReadBF_dword 25 1 s.R2

def ReadFrequencyError (s : State) : Int := s.ADF4351_FrequencyError

/-- `ReadPFDfreq`. `fl` rounds the exact result of a `double` operation: the conversion of
the reference frequency, the division by R, the halving and the doubling are each rounded
by it; the conversions of `temp` and of the constant 2 are exact in every binary format. -/
def ReadPFDfreq (fl : ℚ → ℚ) (s : State) : ℚ :=
  let value : ℚ := fl s.ADF4351_reffreq
  let temp := ReadR s
  if temp = 0 then 0
  else
    let value := fl (value / temp)
    let value := if ReadRDIV2 s ≠ 0 then fl (value / 2) else value
    let value := if ReadRefDoubler s ≠ 0 then fl (value * 2) else value
    value

/-! ## `SetStepFreq` and `setrf` -/

/-- `SetStepFreq`: the return code and the state after the call; `none` when the call
evaluates `ADF4351_reffreq % 0`. The comparison `value > ReadPFDfreq()` converts `value` to
`double`, which `fl` rounds. -/
def SetStepFreq (fl : ℚ → ℚ) (s : State) (value : Nat) : Option (Nat × State) :=
  if fl (value : ℚ) > ReadPFDfreq fl s then some (ADF4351_ERROR_STEP_FREQUENCY_EXCEEDS_PFD, s)
  else
    let Rvalue := ReadR s
    if Rvalue = 0 then some (ADF4351_ERROR_PFD_AND_STEP_FREQUENCY_HAS_REMAINDER, s)
    else if value = 0 then none
    else if s.ADF4351_reffreq % value ≠ 0 then
      some (ADF4351_ERROR_PFD_AND_STEP_FREQUENCY_HAS_REMAINDER, s)
    else some (ADF4351_ERROR_NONE, { s with ADF4351_ChanStep := value })

/-- `setrf`. `fl` rounds the exact result of a `double` operation: the conversion of `f`,
the quotient and the product of the loop-frequency check are each rounded by it; the factors
1, 1/2 and 2 and the conversion of `r` are exact in every binary format. -/
def setrf (fl : ℚ → ℚ) (s : State) (f r ReferenceDivisionType : Nat) : Nat × State :=
  if r > 1023 ∨ r < 1 then (ADF4351_ERROR_R_RANGE, s)
  else if f < ADF4351_REFIN_MIN ∨ f > ADF4351_REFIN_MAX then (ADF4351_ERROR_REF_FREQUENCY, s)
  else if ReferenceDivisionType ≠ ADF4351_REF_UNDIVIDED ∧ ReferenceDivisionType ≠ ADF4351_REF_HALF
      ∧ ReferenceDivisionType ≠ ADF4351_REF_DOUBLE then (ADF4351_ERROR_REF_MULTIPLIER_TYPE, s)
  else if f > 30000000 ∧ ReferenceDivisionType = ADF4351_REF_DOUBLE then
    (ADF4351_ERROR_DOUBLER_EXCEEDED, s)
  else
    let ReferenceFactor : ℚ :=
      if ReferenceDivisionType = ADF4351_REF_HALF then 1 / 2
      else if ReferenceDivisionType = ADF4351_REF_DOUBLE then 1 * 2
      else 1
    let newfreq : ℚ := fl (fl (f : ℚ) * fl (ReferenceFactor / (r : ℚ)))
    if newfreq > (ADF4351_PFD_MAX : ℚ) ∨ newfreq < (ADF4351_PFD_MIN : ℚ) then
      (ADF4351_ERROR_PFD_LIMITS, s)
    else
      let R2 := WriteBF_dword 14 10 s.R2 r
      let R2 :=
        if ReferenceDivisionType = ADF4351_REF_DOUBLE then WriteBF_dword 24 2 R2 2
        else if ReferenceDivisionType = ADF4351_REF_HALF then WriteBF_dword 24 2 R2 1
        else WriteBF_dword 24 2 R2 0
      (ADF4351_ERROR_NONE, { s with ADF4351_reffreq := f, R2 := R2 })

/-! ## `setf`: the pieces of the planner -/

/-- The phase-detector frequency as `setf` computes it (`BN_ADF4351_PFDFreq`). -/
def BN_ADF4351_PFDFreq (s : State) : BigNumber :=
  div (mul (mul (ofNat s.ADF4351_reffreq) (mul (ofNat 1) (ofNat (1 + ReadRefDoubler s))))
        (div (ofNat 1) (ofNat (1 + ReadRDIV2 s))))
    (ofNat (ReadR s))

/-- The loop `while (ADF4351_outdiv <= localosc_ratio && ADF4351_outdiv <= 64)` on
`uint8_t` values; the first argument bounds the number of iterations. -/
def outdivLoop (localosc_ratio : Nat) : Nat → Nat → Nat → Nat × Nat
  | 0, ADF4351_outdiv, ADF4351_RfDivSel => (ADF4351_outdiv, ADF4351_RfDivSel)
  | fuel + 1, ADF4351_outdiv, ADF4351_RfDivSel =>
    if ADF4351_outdiv ≤ localosc_ratio ∧ ADF4351_outdiv ≤ 64 then
      outdivLoop localosc_ratio fuel (ADF4351_outdiv * 2 % 256) ((ADF4351_RfDivSel + 1) % 256)
    else (ADF4351_outdiv, ADF4351_RfDivSel)

/-- Output divider selection: `(ADF4351_outdiv, ADF4351_RfDivSel)` for the target `freq`
(already cut at the decimal point). -/
def selectOutputDivider (freq : BigNumber) : Nat × Nat :=
  let BN_localosc_ratio := div (ofNat 2200000000) freq
  let localosc_ratio := u8 (u32 (toLong BN_localosc_ratio))
  if freq > ofNat 34375000 then outdivLoop localosc_ratio 8 1 0 else (64, 6)

/-- The variables the MOD match loop of the precision branch updates. -/
structure MatchState where
  ADF4351_FrequencyError : Int
  PreviousFrequencyError : Nat
  ADF4351_Mod : Nat
  ADF4351_Frac : Nat
  CalculationTookTooLong : Bool
  deriving DecidableEq

/-- One pass of the body of `for (word ModToMatch = 2; ModToMatch <= 4095; ModToMatch++)`
after the deadline poll: the updated variables and whether the loop breaks. -/
def modMatchBody (BN_ADF4351_PFDFreq BN_FrequencyRemainder : BigNumber)
    (ADF4351_outdiv MaximumFrequencyError ModToMatch : Nat) (st : MatchState) :
    MatchState × Bool :=
  let BN_ModFrequencyStep := div (div BN_ADF4351_PFDFreq (ofNat ModToMatch)) (ofNat ADF4351_outdiv)
  let BN_TempFrac := div BN_FrequencyRemainder BN_ModFrequencyStep + HALF
  let TempFrac := u32 (toLong BN_TempFrac)
  if TempFrac ≤ ModToMatch then
    let TempFrac := if TempFrac = ModToMatch then TempFrac - 1 else TempFrac
    let BN_FrequencyError := BN_FrequencyRemainder - mul (ofNat TempFrac) BN_ModFrequencyStep
    let BN_FrequencyError :=
      if BN_FrequencyError < 0 then mul BN_FrequencyError (-ONE) else BN_FrequencyError
    let FrequencyError := i32 (toLong BN_FrequencyError)
    let st1 : MatchState :=
      if u32 FrequencyError < st.PreviousFrequencyError then
        { st with ADF4351_FrequencyError := FrequencyError
                  PreviousFrequencyError := u32 FrequencyError
                  ADF4351_Mod := ModToMatch
                  ADF4351_Frac := TempFrac }
      else { st with ADF4351_FrequencyError := FrequencyError }
    (st1, decide (u32 FrequencyError ≤ MaximumFrequencyError))
  else (st, false)

/-- The MOD match loop. The first argument counts the candidates still to be examined:
the candidate examined is `ModToMatch = 4095 - remaining`, so the loop started with
`4094` runs `ModToMatch` from 2 to 4095. `millis ModToMatch` is the clock reading polled in
that pass and `millis 0` the reading `CalculationTimeStart`. -/
def modMatchLoop (millis : Nat → Nat) (BN_ADF4351_PFDFreq BN_FrequencyRemainder : BigNumber)
    (ADF4351_outdiv MaximumFrequencyError CalculationTimeout : Nat) :
    Nat → MatchState → MatchState
  | 0, st => st
  | remaining + 1, st =>
    let ModToMatch := 4095 - remaining
    if CalculationTimeout > 0
        ∧ u32 ((millis ModToMatch : Int) - (millis 0 : Int)) > CalculationTimeout then
      { st with CalculationTookTooLong := true }
    else
      let r := modMatchBody BN_ADF4351_PFDFreq BN_FrequencyRemainder ADF4351_outdiv
        MaximumFrequencyError ModToMatch st
      if r.2 then r.1
      else modMatchLoop millis BN_ADF4351_PFDFreq BN_FrequencyRemainder ADF4351_outdiv
        MaximumFrequencyError CalculationTimeout remaining r.1

/-- What the two decomposition branches hand to the rest of `setf`. -/
structure Decomposition where
  ADF4351_N_Int : Nat
  ADF4351_Mod : Nat
  ADF4351_Frac : Nat
  ADF4351_FrequencyError : Int
  CalculationTookTooLong : Bool
  deriving DecidableEq

/-- The branch `PrecisionFrequency == true`; `FrequencyError0` is the value of
`ADF4351_FrequencyError` on entry. -/
def precisionBranch (millis : Nat → Nat) (BN_ADF4351_PFDFreq freq : BigNumber)
    (ADF4351_outdiv MaximumFrequencyError CalculationTimeout : Nat) (FrequencyError0 : Int) :
    Decomposition :=
  let BN_ADF4351_N_Int := mul (div freq BN_ADF4351_PFDFreq) (ofNat ADF4351_outdiv)
  let ADF4351_N_Int := u32 (toLong BN_ADF4351_N_Int)
  let BN_FrequencyRemainder :=
    div (mul BN_ADF4351_PFDFreq (ofNat ADF4351_N_Int)) (ofNat ADF4351_outdiv) - freq
  let BN_FrequencyRemainder :=
    if BN_FrequencyRemainder < 0 then mul BN_FrequencyRemainder (-ONE) else BN_FrequencyRemainder
  let BN_ADF4351_N_Int_Overflow := BN_ADF4351_N_Int + 244210000
  let ADF4351_N_Int_Overflow := u32 (toLong BN_ADF4351_N_Int_Overflow)
  if ADF4351_N_Int_Overflow = ADF4351_N_Int then
    let FrequencyError := i32 (toLong BN_FrequencyRemainder)
    if u32 FrequencyError > MaximumFrequencyError then
      let st := modMatchLoop millis BN_ADF4351_PFDFreq BN_FrequencyRemainder ADF4351_outdiv
        MaximumFrequencyError CalculationTimeout 4094
        { ADF4351_FrequencyError := FrequencyError
          PreviousFrequencyError := u32 FrequencyError
          ADF4351_Mod := 2
          ADF4351_Frac := 0
          CalculationTookTooLong := false }
      { ADF4351_N_Int := ADF4351_N_Int
        ADF4351_Mod := st.ADF4351_Mod
        ADF4351_Frac := st.ADF4351_Frac
        ADF4351_FrequencyError := st.ADF4351_FrequencyError
        CalculationTookTooLong := st.CalculationTookTooLong }
    else
      { ADF4351_N_Int := ADF4351_N_Int
        ADF4351_Mod := 2
        ADF4351_Frac := 0
        ADF4351_FrequencyError := FrequencyError
        CalculationTookTooLong := false }
  else
    { ADF4351_N_Int := u32 ((ADF4351_N_Int : Int) + 1)
      ADF4351_Mod := 2
      ADF4351_Frac := 0
      ADF4351_FrequencyError := FrequencyError0
      CalculationTookTooLong := false }

/-- The subtraction loop that computes `GCD_t`; the first argument bounds the number of
iterations and `none` means it was too small. -/
def gcdLoop : Nat → Nat → Nat → Option Nat
  | 0, _, _ => none
  | fuel + 1, GCD_ADF4351_Mod2, GCD_ADF4351_Frac2 =>
    if GCD_ADF4351_Mod2 = 0 then some GCD_ADF4351_Frac2
    else if GCD_ADF4351_Frac2 = 0 then some GCD_ADF4351_Mod2
    else if GCD_ADF4351_Mod2 = GCD_ADF4351_Frac2 then some GCD_ADF4351_Mod2
    else if GCD_ADF4351_Mod2 > GCD_ADF4351_Frac2 then
      gcdLoop fuel (GCD_ADF4351_Mod2 - GCD_ADF4351_Frac2) GCD_ADF4351_Frac2
    else gcdLoop fuel GCD_ADF4351_Mod2 (GCD_ADF4351_Frac2 - GCD_ADF4351_Mod2)

/-- The halving loop entered when the reduced MOD exceeds 4095: the pair
`(GCD_ADF4351_Mod2, GCD_ADF4351_Frac2)` on exit; the first argument bounds the number of
iterations and `none` means it was too small. -/
def halveLoop : Nat → Nat → Nat → Option (Nat × Nat)
  | 0, _, _ => none
  | fuel + 1, GCD_ADF4351_Mod2, GCD_ADF4351_Frac2 =>
    let Mod2 := GCD_ADF4351_Mod2 / 2
    let Frac2 := GCD_ADF4351_Frac2 / 2
    if Mod2 ≤ 4095 then
      some (Mod2, if Frac2 = Mod2 then u32 ((Frac2 : Int) - 1) else Frac2)
    else halveLoop fuel Mod2 Frac2

/-- The rational reducer of the channel-step branch: from the unreduced
`(GCD_ADF4351_Mod2, GCD_ADF4351_Frac2)` to the pair `(ADF4351_Mod, ADF4351_Frac)` set at the
end of the branch; `none` when `GCD_t` is zero (division by zero). -/
def reduceFraction (Mod0 Frac0 : Nat) : Option (Nat × Nat) :=
  match gcdLoop (Mod0 + Frac0 + 1) Mod0 Frac0 with
  | none => none
  | some GCD_t =>
    if GCD_t = 0 then none
    else
      let GCD_ADF4351_Mod2 := Mod0 / GCD_t
      let GCD_ADF4351_Frac2 := Frac0 / GCD_t
      if GCD_ADF4351_Mod2 > 4095 then halveLoop 32 GCD_ADF4351_Mod2 GCD_ADF4351_Frac2
      else some (GCD_ADF4351_Mod2, GCD_ADF4351_Frac2)

/-- `ADF4351_N_Int` of the branch `PrecisionFrequency == false`. -/
def channelStepN (BN_ADF4351_PFDFreq freq : BigNumber) (ADF4351_outdiv : Nat) : Nat :=
  u32 (toLong (div (mul freq (ofNat ADF4351_outdiv)) BN_ADF4351_PFDFreq))

/-- The unreduced `GCD_ADF4351_Mod2` of the branch `PrecisionFrequency == false`. -/
def channelStepMod0 (BN_ADF4351_PFDFreq : BigNumber) (ADF4351_outdiv ADF4351_ChanStep : Nat) :
    Nat :=
  let BN_ADF4351_Mod :=
    div BN_ADF4351_PFDFreq (div (ofNat ADF4351_ChanStep) (ofNat ADF4351_outdiv))
  u32 (toLong (div BN_ADF4351_Mod (ofNat ADF4351_outdiv)))

/-- The unreduced `GCD_ADF4351_Frac2` of the branch `PrecisionFrequency == false`. -/
def channelStepFrac0 (BN_ADF4351_PFDFreq freq : BigNumber)
    (ADF4351_outdiv ADF4351_ChanStep : Nat) : Nat :=
  let BN_ADF4351_N_Int := div (mul freq (ofNat ADF4351_outdiv)) BN_ADF4351_PFDFreq
  let ADF4351_N_Int := u32 (toLong BN_ADF4351_N_Int)
  let BN_ADF4351_Mod :=
    div BN_ADF4351_PFDFreq (div (ofNat ADF4351_ChanStep) (ofNat ADF4351_outdiv))
  let BN_ADF4351_Frac := mul (BN_ADF4351_N_Int - ofNat ADF4351_N_Int) BN_ADF4351_Mod + HALF
  u32 (toLong (div BN_ADF4351_Frac (ofNat ADF4351_outdiv)))

/-- The branch `PrecisionFrequency == false`. -/
def channelStepBranch (BN_ADF4351_PFDFreq freq : BigNumber)
    (ADF4351_outdiv ADF4351_ChanStep : Nat) (FrequencyError0 : Int) : Option Decomposition :=
  match reduceFraction (channelStepMod0 BN_ADF4351_PFDFreq ADF4351_outdiv ADF4351_ChanStep)
      (channelStepFrac0 BN_ADF4351_PFDFreq freq ADF4351_outdiv ADF4351_ChanStep) with
  | none => none
  | some (ADF4351_Mod, ADF4351_Frac) =>
    some { ADF4351_N_Int := channelStepN BN_ADF4351_PFDFreq freq ADF4351_outdiv
           ADF4351_Mod := ADF4351_Mod
           ADF4351_Frac := ADF4351_Frac
           ADF4351_FrequencyError := FrequencyError0
           CalculationTookTooLong := false }

/-- The frequency error recomputed from the chosen values (the assignment to
`ADF4351_FrequencyError` after the two branches). -/
def finalFrequencyError (BN_ADF4351_PFDFreq freq : BigNumber)
    (ADF4351_outdiv ADF4351_N_Int ADF4351_Frac ADF4351_Mod : Nat) : Int :=
  let BN_FrequencyRemainder :=
    (div (mul BN_ADF4351_PFDFreq (ofNat ADF4351_N_Int)
          + mul (ofNat ADF4351_Frac) (div BN_ADF4351_PFDFreq (ofNat ADF4351_Mod)))
        (ofNat ADF4351_outdiv) - freq) + HALF
  i32 (toLong BN_FrequencyRemainder)

/-- What a call of `setf` leaves behind: the return code, the object state and the value
now held by the (in-place modified) `freq` buffer. -/
structure SetfResult where
  code : Nat
  state : State
  freq : BigNumber
  deriving DecidableEq

/-- The register writes of `setf`, in source order. -/
def encodeRegisters (s : State) (ADF4351_Frac ADF4351_N_Int ADF4351_Mod ADF4351_Prescaler
    PFDFreq PowerLevel AuxPowerLevel AuxFrequencyDivider ADF4351_RfDivSel : Nat) : State :=
  let R0 := WriteBF_dword 3 12 s.R0 ADF4351_Frac
  let R0 := WriteBF_dword 15 16 R0 ADF4351_N_Int
  let R1 := WriteBF_dword 3 12 s.R1 ADF4351_Mod
  let R1 := WriteBF_dword 27 1 R1 ADF4351_Prescaler
  let R2 :=
    if ADF4351_Frac = 0 then WriteBF_dword 8 1 (WriteBF_dword 7 1 s.R2 1) 1
    else WriteBF_dword 8 1 (WriteBF_dword 7 1 s.R2 0) 0
  let R1 :=
    if ADF4351_Frac = 0 then
      if PFDFreq > 45000000 then WriteBF_dword 28 1 R1 1 else WriteBF_dword 28 1 R1 0
    else WriteBF_dword 28 1 R1 0
  let R3 :=
    if ADF4351_Frac = 0 then WriteBF_dword 22 1 (WriteBF_dword 21 1 s.R3 1) 1
    else WriteBF_dword 22 1 (WriteBF_dword 21 1 s.R3 0) 0
  let R4 :=
    if PowerLevel = 0 then WriteBF_dword 5 1 s.R4 0
    else WriteBF_dword 3 2 (WriteBF_dword 5 1 s.R4 1) (PowerLevel - 1)
  let R4 :=
    if AuxPowerLevel = 0 then WriteBF_dword 8 1 R4 0
    else
      WriteBF_dword 9 1 (WriteBF_dword 8 1 (WriteBF_dword 6 2 R4 (AuxPowerLevel - 1)) 1)
        AuxFrequencyDivider
  let R4 := WriteBF_dword 20 3 R4 ADF4351_RfDivSel
  { s with R0 := R0, R1 := R1, R2 := R2, R3 := R3, R4 := R4 }

/-- The value of `ADF4351_FrequencyError` after `if (ADF4351_FrequencyError < 0)` has
negated it (`^= 0xFFFFFFFF` followed by `++`). -/
def absError (FrequencyError : Int) : Int :=
  if FrequencyError < 0 then i32 (-FrequencyError) else FrequencyError

/-- The end of `setf`: the comparison of `ADF4351_FrequencyError` with the tolerance
after the registers `s2` have been written. -/
def reportFrequencyError (s2 : State) (freq : BigNumber) (FrequencyError : Int)
    (PrecisionFrequency : Bool) (MaximumFrequencyError : Nat) : SetfResult :=
  if (PrecisionFrequency = true ∧ u32 (absError FrequencyError) > MaximumFrequencyError)
      ∨ (PrecisionFrequency = false ∧ absError FrequencyError ≠ 0) then
    ⟨ADF4351_WARNING_FREQUENCY_ERROR,
      { s2 with ADF4351_FrequencyError :=
          if FrequencyError < 0 then i32 (-(absError FrequencyError))
          else absError FrequencyError }, freq⟩
  else ⟨ADF4351_ERROR_NONE, { s2 with ADF4351_FrequencyError := absError FrequencyError }, freq⟩

/-- The range checks of `setf`, the register writes and the tolerance comparison.
`s1` is the state after the error recomputation (`FrequencyError` is the recomputed value)
and `ADF4351_Mod` the modulus after the correction `if (ADF4351_Frac == 0) ADF4351_Mod = 2`. -/
def checkAndCommit (s1 : State) (freq : BigNumber)
    (ADF4351_Frac ADF4351_N_Int ADF4351_Mod ADF4351_Prescaler PFDFreq : Nat)
    (PowerLevel AuxPowerLevel AuxFrequencyDivider ADF4351_RfDivSel : Nat)
    (FrequencyError : Int) (PrecisionFrequency : Bool) (MaximumFrequencyError : Nat) :
    SetfResult :=
  if ADF4351_Mod < 2 ∨ ADF4351_Mod > 4095 then ⟨ADF4351_ERROR_MOD_RANGE, s1, freq⟩
  else if ADF4351_Frac > ADF4351_Mod - 1 then ⟨ADF4351_ERROR_FRAC_RANGE, s1, freq⟩
  else if ADF4351_Prescaler = 0 ∧ (ADF4351_N_Int < 23 ∨ ADF4351_N_Int > 65535) then
    ⟨ADF4351_ERROR_N_RANGE, s1, freq⟩
  else if ADF4351_Prescaler = 1 ∧ (ADF4351_N_Int < 75 ∨ ADF4351_N_Int > 65535) then
    ⟨ADF4351_ERROR_N_RANGE_OVER_3600_MHz, s1, freq⟩
  else if ADF4351_Frac ≠ 0 ∧ PFDFreq > ADF4351_PFD_MAX_FRAC then
    ⟨ADF4351_ERROR_PFD_EXCEEDED_WITH_FRACTIONAL_MODE, s1, freq⟩
  else
    reportFrequencyError
      (encodeRegisters s1 ADF4351_Frac ADF4351_N_Int ADF4351_Mod ADF4351_Prescaler PFDFreq
        PowerLevel AuxPowerLevel AuxFrequencyDivider ADF4351_RfDivSel)
      freq FrequencyError PrecisionFrequency MaximumFrequencyError

/-- `ADF4351_Prescaler` for the target `freq` (already cut at the decimal point). -/
def selectPrescaler (freq : BigNumber) : Nat := if freq > ofNat 3600000000 then 1 else 0

/-- `PFDFreq`, the whole-Hz value used for the fractional-mode ceiling and bit 28. -/
def PFDFreq (s : State) : Nat := u32 (toLong (BN_ADF4351_PFDFreq s))

/-- The correction `if (ADF4351_Frac == 0) ADF4351_Mod = 2`. -/
def correctMod (ADF4351_Frac ADF4351_Mod : Nat) : Nat :=
  if ADF4351_Frac = 0 then 2 else ADF4351_Mod

/-- The decomposition chosen by `setf` for the target `freq` (already cut at the decimal
point): the precision branch or the channel-step branch. `ADF4351_FrequencyError` is zero
on entry (the first statement of `setf`), which is the last argument of both branches. -/
def decompose (millis : Nat → Nat) (BN_ADF4351_PFDFreq : BigNumber) (ADF4351_ChanStep : Nat)
    (freq : BigNumber) (PrecisionFrequency : Bool)
    (MaximumFrequencyError CalculationTimeout : Nat) : Option Decomposition :=
  if PrecisionFrequency = true then
    some (precisionBranch millis BN_ADF4351_PFDFreq freq (selectOutputDivider freq).1
      MaximumFrequencyError CalculationTimeout 0)
  else
    channelStepBranch BN_ADF4351_PFDFreq freq (selectOutputDivider freq).1 ADF4351_ChanStep 0

/-- The part of `setf` after the validation of its arguments: `freq` is the target already
cut at the decimal point. Every exit assigns `ADF4351_FrequencyError`. -/
def planAndCommit (millis : Nat → Nat) (s : State) (freq : BigNumber)
    (PowerLevel AuxPowerLevel AuxFrequencyDivider : Nat) (PrecisionFrequency : Bool)
    (MaximumFrequencyError CalculationTimeout : Nat) : Option SetfResult :=
  match decompose millis (BN_ADF4351_PFDFreq s) s.ADF4351_ChanStep freq PrecisionFrequency
      MaximumFrequencyError CalculationTimeout with
  | none => none
  | some b =>
    if b.CalculationTookTooLong = true then
      some ⟨ADF4351_ERROR_PRECISION_FREQUENCY_CALCULATION_TIMEOUT,
        { s with ADF4351_FrequencyError := b.ADF4351_FrequencyError }, freq⟩
    else
      some (checkAndCommit
        { s with ADF4351_FrequencyError :=
            (finalFrequencyError (BN_ADF4351_PFDFreq s) freq (selectOutputDivider freq).1
              b.ADF4351_N_Int b.ADF4351_Frac b.ADF4351_Mod) }
        freq b.ADF4351_Frac b.ADF4351_N_Int (correctMod b.ADF4351_Frac b.ADF4351_Mod)
        (selectPrescaler freq) (PFDFreq s) PowerLevel AuxPowerLevel AuxFrequencyDivider
        (selectOutputDivider freq).2
        (finalFrequencyError (BN_ADF4351_PFDFreq s) freq (selectOutputDivider freq).1
          b.ADF4351_N_Int b.ADF4351_Frac b.ADF4351_Mod)
        PrecisionFrequency MaximumFrequencyError)

/-- The quotient remainder `BN_freq - ChanSteps` of the channel-step multiple test. -/
def stepRemainder (freq : BigNumber) (ADF4351_ChanStep : Nat) : BigNumber :=
  div freq (ofNat ADF4351_ChanStep) - ofNat (u32 (toLong (div freq (ofNat ADF4351_ChanStep))))

/-- `setf`. The buffer `freq` is represented by the decimal value `BigNumber` reads from it;
cutting the string at its decimal point leaves the whole-Hz part `toLong freq`. `none`
stands for a call that divides by a zero `GCD_t`. `fl` is the rounding of the `double`
arithmetic of `ReadPFDfreq`, whose result is tested against zero. -/
def setf (fl : ℚ → ℚ) (millis : Nat → Nat) (s : State) (freq : BigNumber)
    (PowerLevel AuxPowerLevel AuxFrequencyDivider : Nat) (PrecisionFrequency : Bool)
    (MaximumFrequencyError CalculationTimeout : Nat) : Option SetfResult :=
  if PowerLevel > 4 then
    some ⟨ADF4351_ERROR_POWER_LEVEL, { s with ADF4351_FrequencyError := 0 }, freq⟩
  else if AuxPowerLevel > 4 then
    some ⟨ADF4351_ERROR_AUX_POWER_LEVEL, { s with ADF4351_FrequencyError := 0 }, freq⟩
  else if AuxFrequencyDivider ≠ ADF4351_AUX_DIVIDED
      ∧ AuxFrequencyDivider ≠ ADF4351_AUX_FUNDAMENTAL then
    some ⟨ADF4351_ERROR_AUX_FREQ_DIVIDER, { s with ADF4351_FrequencyError := 0 }, freq⟩
  else if ReadPFDfreq fl s = 0 then
    some ⟨ADF4351_ERROR_ZERO_PFD_FREQUENCY, { s with ADF4351_FrequencyError := 0 }, freq⟩
  else if PrecisionFrequency = false ∧ s.ADF4351_ChanStep > 1
      ∧ (s.ADF4351_reffreq / ReadR s) % s.ADF4351_ChanStep ≠ 0 then
    some ⟨ADF4351_ERROR_PFD_AND_STEP_FREQUENCY_HAS_REMAINDER,
      { s with ADF4351_FrequencyError := 0 }, freq⟩
  else if freq > ofNat 4400000000 ∨ freq < ofNat 34375000 then
    some ⟨ADF4351_ERROR_RF_FREQUENCY, { s with ADF4351_FrequencyError := 0 }, freq⟩
  else if PrecisionFrequency = false ∧ s.ADF4351_ChanStep > 1
      ∧ stepRemainder (toLong freq * ONE) s.ADF4351_ChanStep ≠ 0 then
    some ⟨ADF4351_ERROR_RF_FREQUENCY_AND_STEP_FREQUENCY_HAS_REMAINDER,
      { s with ADF4351_FrequencyError := 0 }, toLong freq * ONE⟩
  else
    planAndCommit millis s (toLong freq * ONE)
      PowerLevel AuxPowerLevel AuxFrequencyDivider PrecisionFrequency MaximumFrequencyError
      CalculationTimeout

/-! ## Definitions used to state the properties -/

/-- The conjunction of the five range checks of `setf`: none of the five error returns that
follow the error recomputation fires. -/
def ChecksPass (Frac N Mod Prescaler PFDFreq : Nat) : Prop :=
  ¬(Mod < 2 ∨ Mod > 4095) ∧ ¬(Frac > Mod - 1)
    ∧ ¬(Prescaler = 0 ∧ (N < 23 ∨ N > 65535))
    ∧ ¬(Prescaler = 1 ∧ (N < 75 ∨ N > 65535))
    ∧ ¬(Frac ≠ 0 ∧ PFDFreq > ADF4351_PFD_MAX_FRAC)

/-- A clock that never advances. -/
def stoppedClock : Nat → Nat := fun _ => 0

/-- A clock that has advanced by ten milliseconds at every poll after the first reading. -/
def lateClock : Nat → Nat := fun k => if k = 0 then 0 else 10

/-- The frequency the registers of `s` encode, `PFD * (N + FRAC / MOD) / divider`, as an
exact rational. -/
def encodedFrequency (s : State) : ℚ :=
  ReadPFDfreq id s * ((ReadInt s : ℚ) + (ReadFraction s : ℚ) / (ReadMod s : ℚ))
    / (ReadOutDivider s : ℚ)

/-- The state `setf` leaves on the power-on state for the target 2,203,333,333 Hz in
precision mode with tolerance 0: N = 220, FRAC = 1, MOD = 3, divider 1. -/
def tolerancePlan : State :=
  { ADF4351_FrequencyError := 0
    ADF4351_reffreq := 10000000
    R0 := 7208968
    R1 := 32793
    R2 := 28226
    R3 := 8389763
    R4 := 8716324
    R5 := 5767173
    ADF4351_ChanStep := 100000 }

/-- The state `setf` leaves on the power-on state for the target 4,007,500,000 Hz in
precision mode with tolerance 7,500,000 Hz: N = 400, FRAC = 0, MOD = 2, divider 1. -/
def coarsePlan : State :=
  { ADF4351_FrequencyError := 7499999
    ADF4351_reffreq := 10000000
    R0 := 13107200
    R1 := 134250513
    R2 := 28610
    R3 := 14681219
    R4 := 8716324
    R5 := 5767173
    ADF4351_ChanStep := 100000 }

/-- The power-on state after `setrf(64000001, 1, ADF4351_REF_HALF)`: the phase-detector
frequency is 32,000,000.5 Hz. -/
def halfHertzState : State :=
  { ADF4351_FrequencyError := 0
    ADF4351_reffreq := 64000001
    R0 := 0
    R1 := 32785
    R2 := 16805826
    R3 := 14681219
    R4 := 8716292
    R5 := 5767173
    ADF4351_ChanStep := 100000 }

/-- The state `setf` leaves on `halfHertzState` for the target 2,256,000,035 Hz in precision
mode with tolerance 1 Hz: N = 70, FRAC = 1, MOD = 2, divider 1. -/
def halfHertzPlan : State :=
  { ADF4351_FrequencyError := 0
    ADF4351_reffreq := 64000001
    R0 := 2293768
    R1 := 32785
    R2 := 16805442
    R3 := 8389763
    R4 := 8716324
    R5 := 5767173
    ADF4351_ChanStep := 100000 }

/-- The state `setf` leaves on the power-on state for the target 3,600,000,000.5 Hz in
precision mode with tolerance 0: N = 360, FRAC = 0, low prescaler. -/
def fractionalTargetPlan : State :=
  { ADF4351_FrequencyError := 0
    ADF4351_reffreq := 10000000
    R0 := 11796480
    R1 := 32785
    R2 := 28610
    R3 := 14681219
    R4 := 8716324
    R5 := 5767173
    ADF4351_ChanStep := 100000 }

/-- Round a non-negative rational to the nearest integer, ties to even. -/
def roundHalfEven (y : ℚ) : Int :=
  if y - ⌊y⌋ < 1 / 2 then ⌊y⌋
  else if 1 / 2 < y - ⌊y⌋ then ⌊y⌋ + 1
  else if ⌊y⌋ % 2 = 0 then ⌊y⌋ else ⌊y⌋ + 1

/-- IEEE 754 round-to-nearest (ties to even) of an exact result `x` to a binary
floating-point number with `prec` significant bits, overflow and underflow aside: the
rounding `fl` of `double` arithmetic, with `prec = 53` for binary64 and `prec = 24` where
`double` is a 32-bit float. -/
def roundBinary (prec : Nat) (x : ℚ) : ℚ :=
  if x = 0 then 0
  else
    let ulp : ℚ := (2 : ℚ) ^ (Int.log 2 |x| + 1 - (prec : Int))
    (if x < 0 then -1 else 1) * (roundHalfEven (|x| / ulp) : ℚ) * ulp

/-- The loop frequency `newfreq` as `setrf` computes it with the rounding `fl`. -/
def loopFrequency (fl : ℚ → ℚ) (f r ReferenceDivisionType : Nat) : ℚ :=
  fl (fl (f : ℚ) * fl ((if ReferenceDivisionType = ADF4351_REF_HALF then (1 : ℚ) / 2
    else if ReferenceDivisionType = ADF4351_REF_DOUBLE then 1 * 2 else 1) / (r : ℚ)))

/-- The phase-detector frequency a call `setrf(f, r, ReferenceDivisionType)` asks for,
`f * (1 + doubler) / (r * (1 + half))`, as an exact rational. -/
def requestedPFD (f r ReferenceDivisionType : Nat) : ℚ :=
  ((f : ℚ) * (1 + (if ReferenceDivisionType = ADF4351_REF_DOUBLE then 1 else 0)))
    / ((r : ℚ) * (1 + (if ReferenceDivisionType = ADF4351_REF_HALF then 1 else 0)))

/-- The state reached from the power-on state by `setrf(10000000, 2, ADF4351_REF_UNDIVIDED)`:
the phase-detector frequency is 5 MHz. -/
def dividedState : State :=
  { ADF4351_FrequencyError := 0
    ADF4351_reffreq := 10000000
    R0 := 0
    R1 := 32785
    R2 := 44994
    R3 := 14681219
    R4 := 8716292
    R5 := 5767173
    ADF4351_ChanStep := 100000 }

/-- `BN_FrequencyRemainder` of the precision branch: the distance of the integer-only
frequency `PFD * N / divider` from the target, made positive. -/
def integerOnlyRemainder (BN_ADF4351_PFDFreq freq : BigNumber) (ADF4351_outdiv : Nat) :
    BigNumber :=
  let BN_ADF4351_N_Int := mul (div freq BN_ADF4351_PFDFreq) (ofNat ADF4351_outdiv)
  let ADF4351_N_Int := u32 (toLong BN_ADF4351_N_Int)
  let BN_FrequencyRemainder :=
    div (mul BN_ADF4351_PFDFreq (ofNat ADF4351_N_Int)) (ofNat ADF4351_outdiv) - freq
  if BN_FrequencyRemainder < 0 then mul BN_FrequencyRemainder (-ONE) else BN_FrequencyRemainder

/-- The whole-Hz integer-only error with which the MOD match loop starts
(`PreviousFrequencyError`). -/
def integerOnlyError (BN_ADF4351_PFDFreq freq : BigNumber) (ADF4351_outdiv : Nat) : Nat :=
  u32 (i32 (toLong (integerOnlyRemainder BN_ADF4351_PFDFreq freq ADF4351_outdiv)))

/-- The condition under which the precision branch runs the MOD match loop: the overflow
test `ADF4351_N_Int_Overflow == ADF4351_N_Int` holds and the integer-only error exceeds the
tolerance. -/
def searchRuns (BN_ADF4351_PFDFreq freq : BigNumber) (ADF4351_outdiv MaximumFrequencyError : Nat) :
    Prop :=
  u32 (toLong (mul (div freq BN_ADF4351_PFDFreq) (ofNat ADF4351_outdiv) + 244210000))
      = u32 (toLong (mul (div freq BN_ADF4351_PFDFreq) (ofNat ADF4351_outdiv)))
    ∧ integerOnlyError BN_ADF4351_PFDFreq freq ADF4351_outdiv > MaximumFrequencyError

instance (BN_ADF4351_PFDFreq freq : BigNumber) (ADF4351_outdiv MaximumFrequencyError : Nat) :
    Decidable (searchRuns BN_ADF4351_PFDFreq freq ADF4351_outdiv MaximumFrequencyError) := by
  unfold searchRuns; infer_instance

/-- One candidate of the MOD match loop: for `ModToMatch`, the pair of the implied FRAC
(`TempFrac`, decremented when it equals `ModToMatch`) and the whole-Hz error
`ADF4351_FrequencyError` of that pair as the loop compares it; `none` when the candidate is
skipped because `TempFrac > ModToMatch`. -/
def candidate (BN_ADF4351_PFDFreq BN_FrequencyRemainder : BigNumber)
    (ADF4351_outdiv ModToMatch : Nat) : Option (Nat × Nat) :=
  let BN_ModFrequencyStep := div (div BN_ADF4351_PFDFreq (ofNat ModToMatch)) (ofNat ADF4351_outdiv)
  let BN_TempFrac := div BN_FrequencyRemainder BN_ModFrequencyStep + HALF
  let TempFrac := u32 (toLong BN_TempFrac)
  if TempFrac ≤ ModToMatch then
    let TempFrac := if TempFrac = ModToMatch then TempFrac - 1 else TempFrac
    let BN_FrequencyError := BN_FrequencyRemainder - mul (ofNat TempFrac) BN_ModFrequencyStep
    let BN_FrequencyError :=
      if BN_FrequencyError < 0 then mul BN_FrequencyError (-ONE) else BN_FrequencyError
    some (TempFrac, u32 (i32 (toLong BN_FrequencyError)))
  else none

/-- `BN_ADF4351_N_Int` of the precision branch: the quotient `(freq / PFD) * divider` in
twelve-digit decimal arithmetic. -/
def trialRatio (BN_ADF4351_PFDFreq freq : BigNumber) (ADF4351_outdiv : Nat) : BigNumber :=
  mul (div freq BN_ADF4351_PFDFreq) (ofNat ADF4351_outdiv)

/-- The state reached from the power-on state by
`setrf(26014497, 1, ADF4351_REF_UNDIVIDED)`: the phase-detector frequency is 26,014,497 Hz. -/
def edgeState : State :=
  { ADF4351_FrequencyError := 0
    ADF4351_reffreq := 26014497
    R0 := 0
    R1 := 32785
    R2 := 28610
    R3 := 14681219
    R4 := 8716292
    R5 := 5767173
    ADF4351_ChanStep := 100000 }

/-- The state `setf` leaves on `edgeState` for the target 91,863,494 Hz in precision mode with
tolerance 300,000 Hz: N = 112, FRAC = 2, MOD = 3, divider 32. -/
def edgePlan : State :=
  { ADF4351_FrequencyError := 270785
    ADF4351_reffreq := 26014497
    R0 := 3670032
    R1 := 32793
    R2 := 28226
    R3 := 8389763
    R4 := 13959204
    R5 := 5767173
    ADF4351_ChanStep := 100000 }

/-- The power-on state with the reference frequency 90,000,001 Hz, R = 1 and the
half-divider set, as `setrf(90000001, 1, ADF4351_REF_HALF)` leaves it where `double` is a
32-bit float: the phase-detector frequency is 45,000,000.5 Hz. -/
def overState : State :=
  { ADF4351_FrequencyError := 0
    ADF4351_reffreq := 90000001
    R0 := 0
    R1 := 32785
    R2 := 16805826
    R3 := 14681219
    R4 := 8716292
    R5 := 5767173
    ADF4351_ChanStep := 100000 }

/-- The state `setf` leaves on `overState` for the target 2,250,000,025 Hz in precision mode
with tolerance 0: N = 50, FRAC = 0, MOD = 2, divider 1, register 1 bit 28 clear. -/
def overPlan : State :=
  { ADF4351_FrequencyError := 0
    ADF4351_reffreq := 90000001
    R0 := 1638400
    R1 := 32785
    R2 := 16805826
    R3 := 14681219
    R4 := 8716324
    R5 := 5767173
    ADF4351_ChanStep := 100000 }

/-- The power-on state after `SetStepFreq(10000000)`: the channel step equals the 10 MHz
phase-detector frequency. -/
def stepState : State := { powerOn with ADF4351_ChanStep := 10000000 }

/-- The state `setrf(10000000, 1, ADF4351_REF_HALF)` leaves on `stepState`: the
phase-detector frequency is 5 MHz and the channel step is still 10 MHz. -/
def halvedState : State :=
  { ADF4351_FrequencyError := 0
    ADF4351_reffreq := 10000000
    R0 := 0
    R1 := 32785
    R2 := 16805826
    R3 := 14681219
    R4 := 8716292
    R5 := 5767173
    ADF4351_ChanStep := 10000000 }

/-! ## Rounding -/

theorem roundHalfEven_near (y : ℚ) (m : Int) (h : |y - m| < 1 / 2) : roundHalfEven y = m := by
  unfold roundHalfEven
  rw [abs_lt] at h
  obtain ⟨h1, h2⟩ := h
  by_cases hle : (m : ℚ) ≤ y
  · have hf : ⌊y⌋ = m := by
      rw [Int.floor_eq_iff]
      constructor
      · exact hle
      · linarith
    rw [hf, if_pos (by linarith)]
  · have hf : ⌊y⌋ = m - 1 := by
      rw [Int.floor_eq_iff]
      push_cast
      constructor
      · linarith
      · linarith
    rw [hf]
    push_cast
    rw [if_neg (by linarith), if_pos (by linarith)]
    ring

/-- The rounding of a positive `x` whose binade `[2^e, 2^(e+1))` is known and which lies
within half a unit in the last place of `m` units. -/
theorem roundBinary_eq (prec : Nat) (x : ℚ) (e m : Int) (ulp : ℚ) (hx : 0 < x)
    (hulp : ulp = (2 : ℚ) ^ (e + 1 - (prec : Int)))
    (h1 : (2 : ℚ) ^ e ≤ x) (h2 : x < (2 : ℚ) ^ (e + 1))
    (h3 : |x / ulp - m| < 1 / 2) :
    roundBinary prec x = m * ulp := by
  have hlog : Int.log 2 |x| = e := by
    rw [abs_of_pos hx]
    apply le_antisymm
    · have := (Int.lt_zpow_iff_log_lt (b := 2) (by norm_num) (x := e + 1) hx).mp
        (by exact_mod_cast h2)
      omega
    · exact (Int.zpow_le_iff_le_log (b := 2) (by norm_num) hx).mp (by exact_mod_cast h1)
  unfold roundBinary
  rw [if_neg (ne_of_gt hx)]
  dsimp only
  rw [hlog, ← hulp, if_neg (not_lt.mpr (le_of_lt hx)), abs_of_pos hx,
    roundHalfEven_near _ m h3]
  ring


theorem roundBinary_at (prec : Nat) (x : ℚ) (e m : Int) (ulp v : ℚ) (hx : 0 < x)
    (hulp : ulp = (2 : ℚ) ^ (e + 1 - (prec : Int)))
    (h1 : (2 : ℚ) ^ e ≤ x) (h2 : x < (2 : ℚ) ^ (e + 1))
    (h3 : |x / ulp - m| < 1 / 2) (hv : (m : ℚ) * ulp = v) :
    roundBinary prec x = v := by
  rw [← hv]
  exact roundBinary_eq prec x e m ulp hx hulp h1 h2 h3

/-- The rounded integer is the floor or the floor plus one. -/
theorem roundHalfEven_bounds (y : ℚ) : ⌊y⌋ ≤ roundHalfEven y ∧ roundHalfEven y ≤ ⌊y⌋ + 1 := by
  unfold roundHalfEven
  split_ifs <;> constructor <;> omega

/-- A non-zero `x` lies in the binade of its logarithm. -/
theorem binade_of_pos (x : ℚ) (hx : 0 < x) :
    (2 : ℚ) ^ (Int.log 2 x) ≤ x ∧ x < (2 : ℚ) ^ (Int.log 2 x + 1) := by
  constructor
  · exact_mod_cast Int.zpow_log_le_self (b := 2) (by norm_num) hx
  · exact_mod_cast Int.lt_zpow_succ_log_self (b := 2) (by norm_num) x

/-- In units of the last place, a positive `x` lies in `[2^(prec-1), 2^prec)`. -/
theorem scaled_bounds (prec : Nat) (hprec : 1 ≤ prec) (x : ℚ) (e : Int)
    (h1 : (2 : ℚ) ^ e ≤ x) (h2 : x < (2 : ℚ) ^ (e + 1)) :
    ((2 ^ (prec - 1) : Nat) : ℚ) ≤ x / (2 : ℚ) ^ (e + 1 - (prec : Int))
    ∧ x / (2 : ℚ) ^ (e + 1 - (prec : Int)) < ((2 ^ prec : Nat) : ℚ) := by
  have hu : (0 : ℚ) < (2 : ℚ) ^ (e + 1 - (prec : Int)) := zpow_pos (by norm_num) _
  have e1 : ((2 ^ (prec - 1) : Nat) : ℚ) * (2 : ℚ) ^ (e + 1 - (prec : Int)) = (2 : ℚ) ^ e := by
    push_cast
    rw [← zpow_natCast, ← zpow_add₀ (by norm_num)]
    congr 1
    have : ((prec - 1 : Nat) : Int) = (prec : Int) - 1 := by omega
    rw [this]; ring
  have e2 : ((2 ^ prec : Nat) : ℚ) * (2 : ℚ) ^ (e + 1 - (prec : Int)) = (2 : ℚ) ^ (e + 1) := by
    push_cast
    rw [← zpow_natCast, ← zpow_add₀ (by norm_num)]
    congr 1
    ring
  constructor
  · rw [le_div_iff₀ hu, e1]; exact h1
  · rw [div_lt_iff₀ hu, e2]; exact h2

/-- Rounding maps only zero to zero. -/
theorem roundBinary_eq_zero_iff (prec : Nat) (hprec : 1 ≤ prec) (x : ℚ) :
    roundBinary prec x = 0 ↔ x = 0 := by
  constructor
  · intro h
    by_contra hx
    unfold roundBinary at h
    rw [if_neg hx] at h
    dsimp only at h
    have hpos : 0 < |x| := abs_pos.mpr hx
    obtain ⟨b1, b2⟩ := binade_of_pos |x| hpos
    obtain ⟨s1, _⟩ := scaled_bounds prec hprec |x| _ b1 b2
    have hfl : (1 : Int) ≤ ⌊|x| / (2 : ℚ) ^ (Int.log 2 |x| + 1 - (prec : Int))⌋ := by
      apply Int.le_floor.mpr
      have : (1 : ℚ) ≤ ((2 ^ (prec - 1) : Nat) : ℚ) := by
        exact_mod_cast Nat.one_le_two_pow
      push_cast at this s1 ⊢
      linarith
    have hr := (roundHalfEven_bounds (|x| / (2 : ℚ) ^ (Int.log 2 |x| + 1 - (prec : Int)))).1
    have hk : (0 : ℚ) < (roundHalfEven (|x| / (2 : ℚ) ^ (Int.log 2 |x| + 1 - (prec : Int))) : ℚ) := by
      exact_mod_cast (by omega : (0 : Int) <
        roundHalfEven (|x| / (2 : ℚ) ^ (Int.log 2 |x| + 1 - (prec : Int))))
    have hu : (0 : ℚ) < (2 : ℚ) ^ (Int.log 2 |x| + 1 - (prec : Int)) := zpow_pos (by norm_num) _
    rcases mul_eq_zero.mp h with h' | h'
    · rcases mul_eq_zero.mp h' with h'' | h''
      · split_ifs at h'' <;> norm_num at h''
      · exact absurd h'' (ne_of_gt hk)
    · exact absurd h' (ne_of_gt hu)
  · intro h
    unfold roundBinary
    rw [if_pos h]

/-- Rounding a positive number gives a positive number. -/
theorem roundBinary_pos (prec : Nat) (hprec : 1 ≤ prec) (x : ℚ) (hx : 0 < x) :
    0 < roundBinary prec x := by
  have hne : roundBinary prec x ≠ 0 :=
    fun h => absurd ((roundBinary_eq_zero_iff prec hprec x).mp h) (ne_of_gt hx)
  have hnn : 0 ≤ roundBinary prec x := by
    unfold roundBinary
    rw [if_neg (ne_of_gt hx)]
    dsimp only
    rw [if_neg (not_lt.mpr (le_of_lt hx)), one_mul]
    apply mul_nonneg
    · have hr := (roundHalfEven_bounds (|x| / (2 : ℚ) ^ (Int.log 2 |x| + 1 - (prec : Int)))).1
      have hf : (0 : Int) ≤ ⌊|x| / (2 : ℚ) ^ (Int.log 2 |x| + 1 - (prec : Int))⌋ :=
        Int.floor_nonneg.mpr (div_nonneg (abs_nonneg _) (le_of_lt (zpow_pos (by norm_num) _)))
      exact_mod_cast le_trans hf hr
    · exact le_of_lt (zpow_pos (by norm_num) _)
  exact lt_of_le_of_ne hnn (Ne.symm hne)

/-- A natural number below `2^prec` is representable: rounding leaves it as it is. -/
theorem roundBinary_natCast (prec n : Nat) (h : n < 2 ^ prec) :
    roundBinary prec (n : ℚ) = n := by
  rcases Nat.eq_zero_or_pos n with h0 | hpos
  · subst h0
    unfold roundBinary
    rw [if_pos (by norm_num)]
    norm_num
  · have hne : n ≠ 0 := by omega
    have l1 : 2 ^ Nat.log 2 n ≤ n := Nat.pow_log_le_self 2 hne
    have l2 : n < 2 ^ (Nat.log 2 n + 1) := Nat.lt_pow_succ_log_self (by norm_num) n
    have hlt : Nat.log 2 n < prec := by
      by_contra hn
      have : 2 ^ prec ≤ 2 ^ Nat.log 2 n := Nat.pow_le_pow_right (by norm_num) (by omega)
      omega
    have hx : (0 : ℚ) < (n : ℚ) := by exact_mod_cast hpos
    have h1 : (2 : ℚ) ^ ((Nat.log 2 n : Nat) : Int) ≤ (n : ℚ) := by
      rw [zpow_natCast]; exact_mod_cast l1
    have h2 : (n : ℚ) < (2 : ℚ) ^ (((Nat.log 2 n : Nat) : Int) + 1) := by
      have : (((Nat.log 2 n : Nat) : Int) + 1) = ((Nat.log 2 n + 1 : Nat) : Int) := by
        push_cast; ring
      rw [this, zpow_natCast]; exact_mod_cast l2
    have hu : (2 : ℚ) ^ (((Nat.log 2 n : Nat) : Int) + 1 - (prec : Int))
        = 1 / ((2 ^ (prec - 1 - Nat.log 2 n) : Nat) : ℚ) := by
      have : (((Nat.log 2 n : Nat) : Int) + 1 - (prec : Int))
          = -((prec - 1 - Nat.log 2 n : Nat) : Int) := by omega
      rw [this, zpow_neg, zpow_natCast]
      push_cast
      rw [one_div]
    have hp : (0 : ℚ) < ((2 ^ (prec - 1 - Nat.log 2 n) : Nat) : ℚ) := by
      exact_mod_cast Nat.pos_pow_of_pos _ (by norm_num)
    have key := roundBinary_eq prec (n : ℚ) ((Nat.log 2 n : Nat) : Int)
      ((n * 2 ^ (prec - 1 - Nat.log 2 n) : Nat) : Int)
      ((2 : ℚ) ^ (((Nat.log 2 n : Nat) : Int) + 1 - (prec : Int))) hx rfl h1 h2 (by
        rw [hu]
        have : (n : ℚ) / (1 / ((2 ^ (prec - 1 - Nat.log 2 n) : Nat) : ℚ))
            - (((n * 2 ^ (prec - 1 - Nat.log 2 n) : Nat) : Int) : ℚ) = 0 := by
          push_cast
          field_simp
        rw [this]
        norm_num)
    rw [key, hu]
    push_cast
    field_simp

/-- The rounding of a positive `x` whose binade `[2^e, 2^(e+1))` is known. -/
theorem roundBinary_of_binade (prec : Nat) (x : ℚ) (e : Int) (hx : 0 < x)
    (h1 : (2 : ℚ) ^ e ≤ x) (h2 : x < (2 : ℚ) ^ (e + 1)) :
    roundBinary prec x
      = (roundHalfEven (x / (2 : ℚ) ^ (e + 1 - (prec : Int))) : ℚ)
        * (2 : ℚ) ^ (e + 1 - (prec : Int)) := by
  have hlog : Int.log 2 |x| = e := by
    rw [abs_of_pos hx]
    apply le_antisymm
    · have := (Int.lt_zpow_iff_log_lt (b := 2) (by norm_num) (x := e + 1) hx).mp
        (by exact_mod_cast h2)
      omega
    · exact (Int.zpow_le_iff_le_log (b := 2) (by norm_num) hx).mp (by exact_mod_cast h1)
  unfold roundBinary
  rw [if_neg (ne_of_gt hx)]
  dsimp only
  rw [hlog, if_neg (not_lt.mpr (le_of_lt hx)), abs_of_pos hx, one_mul]

/-- Doubling commutes with rounding. -/
theorem roundBinary_mul_two (prec : Nat) (x : ℚ) (hx : 0 ≤ x) :
    roundBinary prec (x * 2) = roundBinary prec x * 2 := by
  rcases eq_or_lt_of_le hx with h0 | hpos
  · rw [← h0]
    unfold roundBinary
    rw [if_pos (by norm_num), if_pos rfl]
    norm_num
  · obtain ⟨b1, b2⟩ := binade_of_pos x hpos
    have c1 : (2 : ℚ) ^ (Int.log 2 x + 1) ≤ x * 2 := by
      rw [zpow_add_one₀ (by norm_num)]; linarith
    have c2 : x * 2 < (2 : ℚ) ^ (Int.log 2 x + 1 + 1) := by
      rw [zpow_add_one₀ (by norm_num : (2 : ℚ) ≠ 0) (Int.log 2 x + 1)]; linarith
    rw [roundBinary_of_binade prec (x * 2) (Int.log 2 x + 1) (by linarith) c1 c2,
      roundBinary_of_binade prec x (Int.log 2 x) hpos b1 b2]
    have eu : (2 : ℚ) ^ (Int.log 2 x + 1 + 1 - (prec : Int))
        = (2 : ℚ) ^ (Int.log 2 x + 1 - (prec : Int)) * 2 := by
      rw [← zpow_add_one₀ (by norm_num)]
      congr 1; ring
    have hu : (0 : ℚ) < (2 : ℚ) ^ (Int.log 2 x + 1 - (prec : Int)) := zpow_pos (by norm_num) _
    rw [eu]
    have ey : x * 2 / ((2 : ℚ) ^ (Int.log 2 x + 1 - (prec : Int)) * 2)
        = x / (2 : ℚ) ^ (Int.log 2 x + 1 - (prec : Int)) := by
      field_simp
      ring
    rw [ey]
    ring

/-- Halving commutes with rounding. -/
theorem roundBinary_div_two (prec : Nat) (x : ℚ) (hx : 0 ≤ x) :
    roundBinary prec (x / 2) = roundBinary prec x / 2 := by
  have h := roundBinary_mul_two prec (x / 2) (by linarith)
  rw [div_mul_cancel₀ x (by norm_num : (2 : ℚ) ≠ 0)] at h
  rw [h]
  ring

/-- Rounding is idempotent: a rounded value is representable. -/
theorem roundBinary_idem (prec : Nat) (hprec : 1 ≤ prec) (x : ℚ) (hx : 0 ≤ x) :
    roundBinary prec (roundBinary prec x) = roundBinary prec x := by
  rcases eq_or_lt_of_le hx with h0 | hpos
  · rw [← h0]
    have : roundBinary prec 0 = 0 := by
      unfold roundBinary; rw [if_pos rfl]
    rw [this, this]
  · obtain ⟨b1, b2⟩ := binade_of_pos x hpos
    obtain ⟨s1, s2⟩ := scaled_bounds prec hprec x _ b1 b2
    have hr := roundBinary_of_binade prec x (Int.log 2 x) hpos b1 b2
    have hv := roundBinary_pos prec hprec x hpos
    obtain ⟨r1, r2⟩ := roundHalfEven_bounds (x / (2 : ℚ) ^ (Int.log 2 x + 1 - (prec : Int)))
    have f1 : ((2 ^ (prec - 1) : Nat) : Int)
        ≤ ⌊x / (2 : ℚ) ^ (Int.log 2 x + 1 - (prec : Int))⌋ :=
      Int.le_floor.mpr (by exact_mod_cast s1)
    have f2 : ⌊x / (2 : ℚ) ^ (Int.log 2 x + 1 - (prec : Int))⌋ < ((2 ^ prec : Nat) : Int) :=
      Int.floor_lt.mpr (by exact_mod_cast s2)
    generalize roundHalfEven (x / (2 : ℚ) ^ (Int.log 2 x + 1 - (prec : Int))) = k at hr r1 r2
    generalize roundBinary prec x = v at hr hv ⊢
    have hu : (0 : ℚ) < (2 : ℚ) ^ (Int.log 2 x + 1 - (prec : Int)) := zpow_pos (by norm_num) _
    have e1 : ((2 ^ (prec - 1) : Nat) : ℚ) * (2 : ℚ) ^ (Int.log 2 x + 1 - (prec : Int))
        = (2 : ℚ) ^ (Int.log 2 x) := by
      push_cast
      rw [← zpow_natCast, ← zpow_add₀ (by norm_num)]
      congr 1
      have : ((prec - 1 : Nat) : Int) = (prec : Int) - 1 := by omega
      rw [this]; ring
    have e2 : ((2 ^ prec : Nat) : ℚ) * (2 : ℚ) ^ (Int.log 2 x + 1 - (prec : Int))
        = (2 : ℚ) ^ (Int.log 2 x + 1) := by
      push_cast
      rw [← zpow_natCast, ← zpow_add₀ (by norm_num)]
      congr 1
      ring
    have k1 : ((2 ^ (prec - 1) : Nat) : ℚ) ≤ (k : ℚ) := by
      exact_mod_cast le_trans f1 r1
    have k2 : (k : ℚ) ≤ ((2 ^ prec : Nat) : ℚ) := by
      have : k ≤ ((2 ^ prec : Nat) : Int) := by omega
      exact_mod_cast this
    have v1 : (2 : ℚ) ^ (Int.log 2 x) ≤ v := by
      rw [hr, ← e1]
      exact mul_le_mul_of_nonneg_right k1 (le_of_lt hu)
    rcases eq_or_lt_of_le k2 with hk | hk
    · -- the value rounded up to the next power of two
      have hv2 : v = (2 : ℚ) ^ (Int.log 2 x + 1) := by rw [hr, hk, e2]
      have c2 : v < (2 : ℚ) ^ (Int.log 2 x + 1 + 1) := by
        rw [hv2, zpow_add_one₀ (by norm_num : (2 : ℚ) ≠ 0) (Int.log 2 x + 1)]
        have : (0 : ℚ) < (2 : ℚ) ^ (Int.log 2 x + 1) := zpow_pos (by norm_num) _
        linarith
      have eu : (2 : ℚ) ^ (Int.log 2 x + 1 + 1 - (prec : Int))
          = (2 : ℚ) ^ (Int.log 2 x + 1 - (prec : Int)) * 2 := by
        rw [← zpow_add_one₀ (by norm_num)]
        congr 1; ring
      have hp : 2 ^ prec = 2 ^ (prec - 1) * 2 := by
        rw [← Nat.pow_succ]; congr 1; omega
      have hvu : v / (2 : ℚ) ^ (Int.log 2 x + 1 + 1 - (prec : Int))
          = (((2 ^ (prec - 1) : Nat) : Int) : ℚ) := by
        rw [eu, hv2, ← e2, hp]
        push_cast
        field_simp
        ring
      have key := roundBinary_eq prec v (Int.log 2 x + 1) ((2 ^ (prec - 1) : Nat) : Int)
        ((2 : ℚ) ^ (Int.log 2 x + 1 + 1 - (prec : Int))) hv rfl (le_of_eq hv2.symm) c2 (by
          rw [hvu, sub_self, abs_zero]; norm_num)
      rw [key, eu, hv2, ← e2, hp]
      push_cast
      ring
    · have c2 : v < (2 : ℚ) ^ (Int.log 2 x + 1) := by
        rw [hr, ← e2]
        exact mul_lt_mul_of_pos_right hk hu
      have hvu : v / (2 : ℚ) ^ (Int.log 2 x + 1 - (prec : Int)) = (k : ℚ) := by
        rw [hr]; field_simp
      have key := roundBinary_eq prec v (Int.log 2 x) k
        ((2 : ℚ) ^ (Int.log 2 x + 1 - (prec : Int))) hv rfl v1 c2 (by
          rw [hvu, sub_self, abs_zero]; norm_num)
      rw [key, hr]

/-- IEEE binary64 rounding maps only zero to zero. -/
theorem binary64_zero : ∀ x : ℚ, roundBinary 53 x = 0 ↔ x = 0 :=
  roundBinary_eq_zero_iff 53 (by norm_num)

/-! ## Basic facts -/

/-- With a rounding that maps only zero to zero, `ReadPFDfreq()` is zero exactly when R or
the reference frequency is. -/
theorem ReadPFDfreq_eq_zero_iff (fl : ℚ → ℚ) (hfl : ∀ x : ℚ, fl x = 0 ↔ x = 0) (s : State) :
    ReadPFDfreq fl s = 0 ↔ ReadR s = 0 ∨ s.ADF4351_reffreq = 0 := by
  unfold ReadPFDfreq
  by_cases hR : ReadR s = 0
  · simp [hR]
  · simp only [hR, if_false, false_or]
    have hR' : (ReadR s : ℚ) ≠ 0 := by exact_mod_cast hR
    split_ifs <;> simp [hR, hfl]

/-- The identity, the rounding of exact arithmetic, maps only zero to zero. -/
theorem id_zero : ∀ x : ℚ, id x = 0 ↔ x = 0 := fun _ => Iff.rfl

theorem ReadR_powerOn : ReadR powerOn = 1 := by decide

theorem ReadRDIV2_powerOn : ReadRDIV2 powerOn = 0 := by decide

theorem ReadRefDoubler_powerOn : ReadRefDoubler powerOn = 0 := by decide

theorem ReadPFDfreq_powerOn : ReadPFDfreq id powerOn = 10000000 := by
  unfold ReadPFDfreq
  simp only [ReadR_powerOn, ReadRDIV2_powerOn, ReadRefDoubler_powerOn]
  norm_num [powerOn, ADF4351_REF_FREQ_DEFAULT]

/-! ## The decimal type on non-negative values -/

theorem ofNat_eq_cast (n : Nat) : ofNat n = ((n * 1000000000000 : Nat) : Int) := by
  unfold ofNat ONE; push_cast; rfl

theorem div_cast (a b : Nat) :
    div (a : Int) (b : Int) = ((a * 1000000000000 / b : Nat) : Int) := by
  unfold div ONE
  rw [Int.ofNat_tdiv]; push_cast; rfl

theorem mul_cast (a b : Nat) :
    mul (a : Int) (b : Int) = ((a * b / 1000000000000 : Nat) : Int) := by
  unfold mul ONE
  rw [Int.ofNat_tdiv]; push_cast; rfl

theorem toLong_cast (a : Nat) : toLong (a : Int) = ((a / 1000000000000 : Nat) : Int) := by
  unfold toLong ONE
  rw [Int.ofNat_tdiv]; push_cast; rfl

theorem u32_cast (n : Nat) : u32 (n : Int) = n % 4294967296 := by
  unfold u32; omega

theorem u8_cast (n : Nat) : u8 (n : Int) = n % 256 := by
  unfold u8; omega

theorem i32_cast (n : Nat) (h : n < 2147483648) : i32 (n : Int) = (n : Int) := by
  unfold i32; omega

/-! ## Bit fields -/

/-- The written word, split into the bits above the field, the field and the bits below. -/
theorem WriteBF_dword_eq (o w d v : Nat) :
    WriteBF_dword o w d v = d / 2 ^ (o + w) * 2 ^ (o + w) + v % 2 ^ w * 2 ^ o + d % 2 ^ o := by
  unfold WriteBF_dword
  have e1 := Nat.div_add_mod d (2 ^ o)
  have e2 := Nat.div_add_mod (d / 2 ^ o) (2 ^ w)
  have e3 : d / 2 ^ (o + w) = d / 2 ^ o / 2 ^ w := by
    rw [Nat.pow_add, Nat.div_div_eq_div_mul]
  have hd : d = d / 2 ^ (o + w) * 2 ^ (o + w) + d / 2 ^ o % 2 ^ w * 2 ^ o + d % 2 ^ o := by
    rw [e3, Nat.pow_add]
    conv_lhs => rw [← e1, ← e2]
    ring
  have : d - d / 2 ^ o % 2 ^ w * 2 ^ o = d / 2 ^ (o + w) * 2 ^ (o + w) + d % 2 ^ o := by
    omega
  rw [this]; ring

theorem WriteBF_dword_mod (o w d v : Nat) : WriteBF_dword o w d v % 2 ^ o = d % 2 ^ o := by
  rw [WriteBF_dword_eq]
  have : d / 2 ^ (o + w) * 2 ^ (o + w) + v % 2 ^ w * 2 ^ o + d % 2 ^ o
      = d % 2 ^ o + 2 ^ o * (d / 2 ^ (o + w) * 2 ^ w + v % 2 ^ w) := by
    rw [Nat.pow_add]; ring
  rw [this, Nat.add_mul_mod_self_left, Nat.mod_mod]

theorem WriteBF_dword_div (o w d v : Nat) :
    WriteBF_dword o w d v / 2 ^ (o + w) = d / 2 ^ (o + w) := by
  rw [WriteBF_dword_eq]
  have hlt : v % 2 ^ w * 2 ^ o + d % 2 ^ o < 2 ^ (o + w) := by
    have h1 : v % 2 ^ w < 2 ^ w := Nat.mod_lt _ (Nat.pow_pos (by norm_num))
    have h2 : d % 2 ^ o < 2 ^ o := Nat.mod_lt _ (Nat.pow_pos (by norm_num))
    calc v % 2 ^ w * 2 ^ o + d % 2 ^ o < v % 2 ^ w * 2 ^ o + 2 ^ o := by omega
      _ = (v % 2 ^ w + 1) * 2 ^ o := by ring
      _ ≤ 2 ^ w * 2 ^ o := Nat.mul_le_mul_right _ h1
      _ = 2 ^ (o + w) := by rw [Nat.pow_add]; ring
  have : d / 2 ^ (o + w) * 2 ^ (o + w) + v % 2 ^ w * 2 ^ o + d % 2 ^ o
      = (v % 2 ^ w * 2 ^ o + d % 2 ^ o) + 2 ^ (o + w) * (d / 2 ^ (o + w)) := by ring
  rw [this, Nat.add_mul_div_left _ _ (Nat.pow_pos (by norm_num)), Nat.div_eq_of_lt hlt,
    Nat.zero_add]

/-- Reading back the field just written gives the low bits of the value. -/
theorem ReadBF_WriteBF_same (o w d v : Nat) :
    ReadBF_dword o w (WriteBF_dword o w d v) = v % 2 ^ w := by
  unfold ReadBF_dword
  rw [WriteBF_dword_eq]
  have hp : 0 < 2 ^ o := Nat.pow_pos (by norm_num)
  have : d / 2 ^ (o + w) * 2 ^ (o + w) + v % 2 ^ w * 2 ^ o + d % 2 ^ o
      = d % 2 ^ o + 2 ^ o * (v % 2 ^ w + 2 ^ w * (d / 2 ^ (o + w))) := by
    rw [Nat.pow_add]; ring
  rw [this, Nat.add_mul_div_left _ _ hp, Nat.div_eq_of_lt (Nat.mod_lt _ hp), Nat.zero_add,
    Nat.add_mul_mod_self_left, Nat.mod_mod]

/-- A field that lies entirely below the written one is not changed. -/
theorem ReadBF_WriteBF_below (o w o' w' d v : Nat) (h : o + w ≤ o') :
    ReadBF_dword o w (WriteBF_dword o' w' d v) = ReadBF_dword o w d := by
  unfold ReadBF_dword
  have key : ∀ x : Nat, x / 2 ^ o % 2 ^ w = x % 2 ^ o' % 2 ^ (o + w) / 2 ^ o := by
    intro x
    rw [Nat.mod_mod_of_dvd _ (Nat.pow_dvd_pow 2 h), Nat.pow_add, Nat.mod_mul_right_div_self]
  rw [key (WriteBF_dword o' w' d v), key d, WriteBF_dword_mod]

/-- A field that lies entirely above the written one is not changed. -/
theorem ReadBF_WriteBF_above (o w o' w' d v : Nat) (h : o' + w' ≤ o) :
    ReadBF_dword o w (WriteBF_dword o' w' d v) = ReadBF_dword o w d := by
  unfold ReadBF_dword
  have key : ∀ x : Nat, x / 2 ^ o = x / 2 ^ (o' + w') / 2 ^ (o - (o' + w')) := by
    intro x
    rw [Nat.div_div_eq_div_mul, ← Nat.pow_add]
    congr 2; omega
  rw [key (WriteBF_dword o' w' d v), key d, WriteBF_dword_div]

/-! ## The stages of `setf` -/

theorem reportFrequencyError_code (s2 : State) (freq : BigNumber) (FE : Int) (Prec : Bool)
    (Max : Nat) :
    (reportFrequencyError s2 freq FE Prec Max).code = ADF4351_ERROR_NONE
      ∨ (reportFrequencyError s2 freq FE Prec Max).code = ADF4351_WARNING_FREQUENCY_ERROR := by
  unfold reportFrequencyError
  by_cases h : (Prec = true ∧ u32 (absError FE) > Max) ∨ (Prec = false ∧ absError FE ≠ 0)
  · rw [if_pos h]; exact Or.inr rfl
  · rw [if_neg h]; exact Or.inl rfl

theorem checkAndCommit_of_pass (s1 : State) (freq : BigNumber)
    (Frac N Mod Prescaler PFDFreq PowerLevel AuxPowerLevel AuxFrequencyDivider sel : Nat)
    (FE : Int) (Prec : Bool) (Max : Nat) (h : ChecksPass Frac N Mod Prescaler PFDFreq) :
    checkAndCommit s1 freq Frac N Mod Prescaler PFDFreq PowerLevel AuxPowerLevel
        AuxFrequencyDivider sel FE Prec Max
      = reportFrequencyError
          (encodeRegisters s1 Frac N Mod Prescaler PFDFreq PowerLevel AuxPowerLevel
            AuxFrequencyDivider sel) freq FE Prec Max := by
  obtain ⟨h1, h2, h3, h4, h5⟩ := h
  unfold checkAndCommit
  rw [if_neg h1, if_neg h2, if_neg h3, if_neg h4, if_neg h5]

theorem checkAndCommit_of_fail (s1 : State) (freq : BigNumber)
    (Frac N Mod Prescaler PFDFreq PowerLevel AuxPowerLevel AuxFrequencyDivider sel : Nat)
    (FE : Int) (Prec : Bool) (Max : Nat) (h : ¬ChecksPass Frac N Mod Prescaler PFDFreq) :
    ∃ code, code ≠ ADF4351_ERROR_NONE ∧ code ≠ ADF4351_WARNING_FREQUENCY_ERROR
      ∧ checkAndCommit s1 freq Frac N Mod Prescaler PFDFreq PowerLevel AuxPowerLevel
        AuxFrequencyDivider sel FE Prec Max = ⟨code, s1, freq⟩ := by
  unfold checkAndCommit
  by_cases h1 : Mod < 2 ∨ Mod > 4095
  · rw [if_pos h1]; exact ⟨_, by decide, by decide, rfl⟩
  rw [if_neg h1]
  by_cases h2 : Frac > Mod - 1
  · rw [if_pos h2]; exact ⟨_, by decide, by decide, rfl⟩
  rw [if_neg h2]
  by_cases h3 : Prescaler = 0 ∧ (N < 23 ∨ N > 65535)
  · rw [if_pos h3]; exact ⟨_, by decide, by decide, rfl⟩
  rw [if_neg h3]
  by_cases h4 : Prescaler = 1 ∧ (N < 75 ∨ N > 65535)
  · rw [if_pos h4]; exact ⟨_, by decide, by decide, rfl⟩
  rw [if_neg h4]
  by_cases h5 : Frac ≠ 0 ∧ PFDFreq > ADF4351_PFD_MAX_FRAC
  · rw [if_pos h5]; exact ⟨_, by decide, by decide, rfl⟩
  exact absurd ⟨h1, h2, h3, h4, h5⟩ h

theorem checkAndCommit_error_state (s1 : State) (freq : BigNumber)
    (Frac N Mod Prescaler PFDFreq PowerLevel AuxPowerLevel AuxFrequencyDivider sel : Nat)
    (FE : Int) (Prec : Bool) (Max : Nat)
    (h0 : (checkAndCommit s1 freq Frac N Mod Prescaler PFDFreq PowerLevel AuxPowerLevel
        AuxFrequencyDivider sel FE Prec Max).code ≠ ADF4351_ERROR_NONE)
    (h14 : (checkAndCommit s1 freq Frac N Mod Prescaler PFDFreq PowerLevel AuxPowerLevel
        AuxFrequencyDivider sel FE Prec Max).code ≠ ADF4351_WARNING_FREQUENCY_ERROR) :
    (checkAndCommit s1 freq Frac N Mod Prescaler PFDFreq PowerLevel AuxPowerLevel
        AuxFrequencyDivider sel FE Prec Max).state = s1 := by
  by_cases h : ChecksPass Frac N Mod Prescaler PFDFreq
  · rw [checkAndCommit_of_pass _ _ _ _ _ _ _ _ _ _ _ _ _ _ h] at h0 h14
    rcases reportFrequencyError_code
      (encodeRegisters s1 Frac N Mod Prescaler PFDFreq PowerLevel AuxPowerLevel
        AuxFrequencyDivider sel) freq FE Prec Max with h' | h'
    · exact absurd h' h0
    · exact absurd h' h14
  · obtain ⟨code, _, _, e⟩ := checkAndCommit_of_fail s1 freq Frac N Mod Prescaler PFDFreq
      PowerLevel AuxPowerLevel AuxFrequencyDivider sel FE Prec Max h
    rw [e]

theorem planAndCommit_error_regs (millis : Nat → Nat) (s : State) (freq : BigNumber)
    (PowerLevel AuxPowerLevel AuxFrequencyDivider : Nat) (Prec : Bool)
    (Max Timeout : Nat) (r : SetfResult)
    (h : planAndCommit millis s freq PowerLevel AuxPowerLevel AuxFrequencyDivider Prec Max Timeout
      = some r)
    (h0 : r.code ≠ ADF4351_ERROR_NONE) (h14 : r.code ≠ ADF4351_WARNING_FREQUENCY_ERROR) :
    r.state.ADF4351_R = s.ADF4351_R := by
  unfold planAndCommit at h
  split at h
  · cases h
  · split_ifs at h
    · cases h; rfl
    · cases h
      rw [checkAndCommit_error_state _ _ _ _ _ _ _ _ _ _ _ _ _ _ h0 h14]
      rfl

theorem setf_error_regs (fl : ℚ → ℚ)
    (millis : Nat → Nat) (s : State) (freq : BigNumber)
    (PowerLevel AuxPowerLevel AuxFrequencyDivider : Nat) (PrecisionFrequency : Bool)
    (MaximumFrequencyError CalculationTimeout : Nat) (r : SetfResult)
    (h : setf fl millis s freq PowerLevel AuxPowerLevel AuxFrequencyDivider PrecisionFrequency
      MaximumFrequencyError CalculationTimeout = some r)
    (h0 : r.code ≠ ADF4351_ERROR_NONE) (h14 : r.code ≠ ADF4351_WARNING_FREQUENCY_ERROR) :
    r.state.ADF4351_R = s.ADF4351_R := by
  unfold setf at h
  split_ifs at h <;> first
    | (cases h; rfl)
    | exact planAndCommit_error_regs _ _ _ _ _ _ _ _ _ _ h h0 h14

theorem setrf_error_regs (fl : ℚ → ℚ) (s : State) (f r t : Nat)
    (h : (setrf fl s f r t).1 ≠ ADF4351_ERROR_NONE) :
    (setrf fl s f r t).2.ADF4351_R = s.ADF4351_R := by
  unfold setrf at h ⊢
  dsimp only at h ⊢
  split_ifs at h ⊢ <;> first | rfl | (exfalso; exact h rfl)

theorem SetStepFreq_regs (fl : ℚ → ℚ)
    (s : State) (v : Nat) (q : Nat × State)
    (h : SetStepFreq fl s v = some q) : q.2.ADF4351_R = s.ADF4351_R := by
  unfold SetStepFreq at h
  dsimp only at h
  split_ifs at h <;> (cases h; rfl)

/-- When the argument and state validation of `setf` passes, the call is the planner run
on the whole-Hz target. -/
theorem setf_of_valid (fl : ℚ → ℚ) (hfl : ∀ x : ℚ, fl x = 0 ↔ x = 0)
    (millis : Nat → Nat) (s : State) (freq : BigNumber)
    (PowerLevel AuxPowerLevel AuxFrequencyDivider : Nat) (Prec : Bool) (Max Timeout : Nat)
    (hP : PowerLevel ≤ 4) (hA : AuxPowerLevel ≤ 4)
    (hD : AuxFrequencyDivider = 0 ∨ AuxFrequencyDivider = 1)
    (hR : ReadR s ≠ 0) (href : s.ADF4351_reffreq ≠ 0)
    (hstep : ¬(Prec = false ∧ s.ADF4351_ChanStep > 1
      ∧ (s.ADF4351_reffreq / ReadR s) % s.ADF4351_ChanStep ≠ 0))
    (hlo : ofNat 34375000 ≤ freq) (hhi : freq ≤ ofNat 4400000000)
    (hrem : ¬(Prec = false ∧ s.ADF4351_ChanStep > 1
      ∧ stepRemainder (toLong freq * ONE) s.ADF4351_ChanStep ≠ 0)) :
    setf fl millis s freq PowerLevel AuxPowerLevel AuxFrequencyDivider Prec Max Timeout
      = planAndCommit millis s (toLong freq * ONE)
          PowerLevel AuxPowerLevel AuxFrequencyDivider Prec Max Timeout := by
  unfold setf
  have h1 : ¬PowerLevel > 4 := by omega
  have h2 : ¬AuxPowerLevel > 4 := by omega
  have h3 : ¬(AuxFrequencyDivider ≠ ADF4351_AUX_DIVIDED
      ∧ AuxFrequencyDivider ≠ ADF4351_AUX_FUNDAMENTAL) := by
    unfold ADF4351_AUX_DIVIDED ADF4351_AUX_FUNDAMENTAL; omega
  have h4 : ¬ReadPFDfreq fl s = 0 := by
    rw [ReadPFDfreq_eq_zero_iff fl hfl]; tauto
  have h5 : ¬(freq > ofNat 4400000000 ∨ freq < ofNat 34375000) := by
    intro h; rcases h with h | h
    · exact absurd hhi (not_le.mpr h)
    · exact absurd hlo (not_le.mpr h)
  rw [if_neg h1, if_neg h2, if_neg h3, if_neg h4, if_neg hstep, if_neg h5, if_neg hrem]

/-! ## Read-back of the encoded registers -/

theorem encodeRegisters_ReadFraction (s1 : State)
    (Frac N Mod P PFD PL APL AFD sel : Nat) :
    ReadFraction (encodeRegisters s1 Frac N Mod P PFD PL APL AFD sel) = Frac % 4096 := by
  unfold ReadFraction encodeRegisters
  dsimp only
  rw [ReadBF_WriteBF_below _ _ _ _ _ _ (by norm_num), ReadBF_WriteBF_same]
  norm_num

theorem encodeRegisters_ReadInt (s1 : State)
    (Frac N Mod P PFD PL APL AFD sel : Nat) :
    ReadInt (encodeRegisters s1 Frac N Mod P PFD PL APL AFD sel) = N % 65536 := by
  unfold ReadInt encodeRegisters
  dsimp only
  rw [ReadBF_WriteBF_same]
  norm_num

theorem encodeRegisters_ReadMod (s1 : State)
    (Frac N Mod P PFD PL APL AFD sel : Nat) :
    ReadMod (encodeRegisters s1 Frac N Mod P PFD PL APL AFD sel) = Mod % 4096 := by
  unfold ReadMod encodeRegisters
  dsimp only
  split_ifs <;>
    rw [ReadBF_WriteBF_below _ _ _ _ _ _ (by norm_num),
      ReadBF_WriteBF_below _ _ _ _ _ _ (by norm_num), ReadBF_WriteBF_same] <;> norm_num

theorem encodeRegisters_prescaler (s1 : State)
    (Frac N Mod P PFD PL APL AFD sel : Nat) :
    ReadBF_dword 27 1 (encodeRegisters s1 Frac N Mod P PFD PL APL AFD sel).R1 = P % 2 := by
  unfold encodeRegisters
  dsimp only
  split_ifs <;>
    rw [ReadBF_WriteBF_below _ _ _ _ _ _ (by norm_num), ReadBF_WriteBF_same] <;> norm_num

theorem encodeRegisters_ReadOutDivider_PowerOf2 (s1 : State)
    (Frac N Mod P PFD PL APL AFD sel : Nat) :
    ReadOutDivider_PowerOf2 (encodeRegisters s1 Frac N Mod P PFD PL APL AFD sel) = sel % 8 := by
  unfold ReadOutDivider_PowerOf2 encodeRegisters
  dsimp only
  rw [ReadBF_WriteBF_same]
  norm_num

theorem encodeRegisters_ReadOutDivider (s1 : State)
    (Frac N Mod P PFD PL APL AFD sel : Nat) :
    ReadOutDivider (encodeRegisters s1 Frac N Mod P PFD PL APL AFD sel)
      = (1 <<< (sel % 8)) % 256 := by
  have h := encodeRegisters_ReadOutDivider_PowerOf2 s1 Frac N Mod P PFD PL APL AFD sel
  unfold ReadOutDivider_PowerOf2 at h
  unfold ReadOutDivider
  rw [h]

theorem reportFrequencyError_regs (s2 : State) (freq : BigNumber) (FE : Int) (Prec : Bool)
    (Max : Nat) :
    (reportFrequencyError s2 freq FE Prec Max).state.R0 = s2.R0
    ∧ (reportFrequencyError s2 freq FE Prec Max).state.R1 = s2.R1
    ∧ (reportFrequencyError s2 freq FE Prec Max).state.R2 = s2.R2
    ∧ (reportFrequencyError s2 freq FE Prec Max).state.R3 = s2.R3
    ∧ (reportFrequencyError s2 freq FE Prec Max).state.R4 = s2.R4
    ∧ (reportFrequencyError s2 freq FE Prec Max).state.R5 = s2.R5 := by
  unfold reportFrequencyError
  by_cases h : (Prec = true ∧ u32 (absError FE) > Max) ∨ (Prec = false ∧ absError FE ≠ 0)
  · rw [if_pos h]; exact ⟨rfl, rfl, rfl, rfl, rfl, rfl⟩
  · rw [if_neg h]; exact ⟨rfl, rfl, rfl, rfl, rfl, rfl⟩

/-- What a committing call of `setf` went through. -/
theorem setf_commit_inv (fl : ℚ → ℚ) (hfl : ∀ x : ℚ, fl x = 0 ↔ x = 0)
    (millis : Nat → Nat) (s : State) (freq : BigNumber)
    (PowerLevel AuxPowerLevel AuxFrequencyDivider : Nat) (Prec : Bool) (Max Timeout : Nat)
    (r : SetfResult)
    (h : setf fl millis s freq PowerLevel AuxPowerLevel AuxFrequencyDivider Prec Max Timeout = some r)
    (hc : r.code = ADF4351_ERROR_NONE ∨ r.code = ADF4351_WARNING_FREQUENCY_ERROR) :
    PowerLevel ≤ 4 ∧ AuxPowerLevel ≤ 4 ∧ (AuxFrequencyDivider = 0 ∨ AuxFrequencyDivider = 1)
    ∧ ReadR s ≠ 0 ∧ s.ADF4351_reffreq ≠ 0
    ∧ ofNat 34375000 ≤ freq ∧ freq ≤ ofNat 4400000000
    ∧ ∃ b, decompose millis (BN_ADF4351_PFDFreq s) s.ADF4351_ChanStep (toLong freq * ONE) Prec
        Max Timeout = some b
      ∧ b.CalculationTookTooLong = false
      ∧ ChecksPass b.ADF4351_Frac b.ADF4351_N_Int (correctMod b.ADF4351_Frac b.ADF4351_Mod)
          (selectPrescaler (toLong freq * ONE)) (PFDFreq s)
      ∧ r = reportFrequencyError
          (encodeRegisters
            { s with ADF4351_FrequencyError :=
                (finalFrequencyError (BN_ADF4351_PFDFreq s) (toLong freq * ONE)
                  (selectOutputDivider (toLong freq * ONE)).1
                  b.ADF4351_N_Int b.ADF4351_Frac b.ADF4351_Mod) }
            b.ADF4351_Frac b.ADF4351_N_Int (correctMod b.ADF4351_Frac b.ADF4351_Mod)
            (selectPrescaler (toLong freq * ONE)) (PFDFreq s) PowerLevel AuxPowerLevel
            AuxFrequencyDivider (selectOutputDivider (toLong freq * ONE)).2)
          (toLong freq * ONE)
          (finalFrequencyError (BN_ADF4351_PFDFreq s) (toLong freq * ONE)
            (selectOutputDivider (toLong freq * ONE)).1
            b.ADF4351_N_Int b.ADF4351_Frac b.ADF4351_Mod) Prec Max := by
  have hne : ∀ c : Nat, c ≠ 0 → c ≠ 14 → r.code = c → False := by
    intro c h0 h14 e
    rcases hc with hc | hc
    · rw [hc] at e; exact h0 e.symm
    · rw [hc] at e; exact h14 e.symm
  unfold setf at h
  by_cases h1 : PowerLevel > 4
  · rw [if_pos h1] at h; cases h; exact (hne 3 (by decide) (by decide) rfl).elim
  rw [if_neg h1] at h
  by_cases h2 : AuxPowerLevel > 4
  · rw [if_pos h2] at h; cases h; exact (hne 4 (by decide) (by decide) rfl).elim
  rw [if_neg h2] at h
  by_cases h3 : AuxFrequencyDivider ≠ ADF4351_AUX_DIVIDED
      ∧ AuxFrequencyDivider ≠ ADF4351_AUX_FUNDAMENTAL
  · rw [if_pos h3] at h; cases h; exact (hne 5 (by decide) (by decide) rfl).elim
  rw [if_neg h3] at h
  by_cases h4 : ReadPFDfreq fl s = 0
  · rw [if_pos h4] at h; cases h; exact (hne 6 (by decide) (by decide) rfl).elim
  rw [if_neg h4] at h
  by_cases h5 : Prec = false ∧ s.ADF4351_ChanStep > 1
      ∧ (s.ADF4351_reffreq / ReadR s) % s.ADF4351_ChanStep ≠ 0
  · rw [if_pos h5] at h; cases h; exact (hne 19 (by decide) (by decide) rfl).elim
  rw [if_neg h5] at h
  by_cases h6 : freq > ofNat 4400000000 ∨ freq < ofNat 34375000
  · rw [if_pos h6] at h; cases h; exact (hne 2 (by decide) (by decide) rfl).elim
  rw [if_neg h6] at h
  by_cases h7 : Prec = false ∧ s.ADF4351_ChanStep > 1
      ∧ stepRemainder (toLong freq * ONE) s.ADF4351_ChanStep ≠ 0
  · rw [if_pos h7] at h; cases h; exact (hne 11 (by decide) (by decide) rfl).elim
  rw [if_neg h7] at h
  rw [ReadPFDfreq_eq_zero_iff fl hfl] at h4
  unfold ADF4351_AUX_DIVIDED ADF4351_AUX_FUNDAMENTAL at h3
  refine ⟨by omega, by omega, by omega, by tauto, by tauto, ?_, ?_, ?_⟩
  · exact not_lt.mp (fun h' => h6 (Or.inr h'))
  · exact not_lt.mp (fun h' => h6 (Or.inl h'))
  unfold planAndCommit at h
  split at h
  · cases h
  · rename_i b hb
    by_cases h8 : b.CalculationTookTooLong = true
    · rw [if_pos h8] at h; cases h; exact (hne 13 (by decide) (by decide) rfl).elim
    rw [if_neg h8] at h
    refine ⟨b, hb, by simpa using h8, ?_⟩
    by_cases h9 : ChecksPass b.ADF4351_Frac b.ADF4351_N_Int
        (correctMod b.ADF4351_Frac b.ADF4351_Mod) (selectPrescaler (toLong freq * ONE)) (PFDFreq s)
    · rw [checkAndCommit_of_pass _ _ _ _ _ _ _ _ _ _ _ _ _ _ h9] at h
      exact ⟨h9, (Option.some.inj h).symm⟩
    · obtain ⟨code, c0, c14, e⟩ := checkAndCommit_of_fail
        { s with ADF4351_FrequencyError :=
            (finalFrequencyError (BN_ADF4351_PFDFreq s) (toLong freq * ONE)
              (selectOutputDivider (toLong freq * ONE)).1
              b.ADF4351_N_Int b.ADF4351_Frac b.ADF4351_Mod) }
        (toLong freq * ONE) b.ADF4351_Frac b.ADF4351_N_Int
        (correctMod b.ADF4351_Frac b.ADF4351_Mod) (selectPrescaler (toLong freq * ONE)) (PFDFreq s)
        PowerLevel AuxPowerLevel AuxFrequencyDivider (selectOutputDivider (toLong freq * ONE)).2
        (finalFrequencyError (BN_ADF4351_PFDFreq s) (toLong freq * ONE)
          (selectOutputDivider (toLong freq * ONE)).1
          b.ADF4351_N_Int b.ADF4351_Frac b.ADF4351_Mod) Prec Max h9
      rw [e] at h
      cases h
      exact (hne code c0 c14 rfl).elim
/-! ## Output divider selection -/

theorem outdivLoop_spec : ∀ r < 64,
    r < (outdivLoop r 8 1 0).1 ∧ (outdivLoop r 8 1 0).1 = 2 ^ (outdivLoop r 8 1 0).2
      ∧ (outdivLoop r 8 1 0).2 ≤ 6
      ∧ ((outdivLoop r 8 1 0).2 = 0 ∨ 2 ^ ((outdivLoop r 8 1 0).2 - 1) ≤ r) := by
  decide

set_option maxRecDepth 100000 in
theorem outdivLoop_exit : ∀ r < 256,
    ¬((outdivLoop r 8 1 0).1 ≤ r ∧ (outdivLoop r 8 1 0).1 ≤ 64) := by
  decide

theorem localosc_ratio_eq (f : Nat) (h : 34375000 ≤ f) :
    u8 (u32 (toLong (div (ofNat 2200000000) (ofNat f)))) = 2200000000 / f := by
  rw [ofNat_eq_cast, ofNat_eq_cast, div_cast, toLong_cast, u32_cast]
  have e : 2200000000 * 1000000000000 * 1000000000000 / (f * 1000000000000) / 1000000000000
      = 2200000000 / f := by
    rw [Nat.mul_div_mul_right _ _ (by norm_num)]
    rw [Nat.div_div_eq_div_mul, Nat.mul_comm f, ← Nat.div_div_eq_div_mul]
  rw [e]
  have : 2200000000 / f ≤ 64 := by
    calc 2200000000 / f ≤ 2200000000 / 34375000 := Nat.div_le_div_left h (by norm_num)
      _ = 64 := by norm_num
  rw [u8_cast]
  generalize 2200000000 / f = q at this ⊢
  omega
/-- An accepted target, cut at the decimal point, is a whole number of Hz in the band. -/
theorem accepted_target (freq : Int) (hlo : ofNat 34375000 ≤ freq)
    (hhi : freq ≤ ofNat 4400000000) :
    toLong freq * ONE = ofNat (toLong freq).toNat ∧ 34375000 ≤ (toLong freq).toNat
      ∧ (toLong freq).toNat ≤ 4400000000 := by
  have hlo' : (34375000 : Int) * 1000000000000 ≤ freq := hlo
  have hhi' : (4400000000 : Int) * 1000000000000 ≥ freq := hhi
  unfold toLong ofNat ONE
  have h0 : (0 : Int) ≤ freq := by omega
  rw [Int.tdiv_eq_ediv h0 (by norm_num)]
  have h1 : (34375000 : Int) ≤ freq / 1000000000000 := by omega
  have h2 : freq / 1000000000000 ≤ (4400000000 : Int) := by omega
  refine ⟨?_, by omega, by omega⟩
  rw [Int.toNat_of_nonneg (by omega)]

theorem ofNat_lt_ofNat (a b : Nat) : ofNat a < ofNat b ↔ a < b := by
  show (a : Int) * 1000000000000 < (b : Int) * 1000000000000 ↔ a < b
  omega

theorem ofNat_le_ofNat (a b : Nat) : ofNat a ≤ ofNat b ↔ a ≤ b := by
  show (a : Int) * 1000000000000 ≤ (b : Int) * 1000000000000 ↔ a ≤ b
  omega

theorem selectOutputDivider_low : selectOutputDivider (ofNat 34375000) = (64, 6) := by
  decide

theorem selectOutputDivider_eq (f : Nat) (h1 : 34375000 < f) :
    selectOutputDivider (ofNat f) = outdivLoop (2200000000 / f) 8 1 0
      ∧ 2200000000 / f < 64 := by
  unfold selectOutputDivider
  dsimp only
  have hgt : ofNat f > ofNat 34375000 := (ofNat_lt_ofNat _ _).mpr h1
  rw [if_pos hgt, localosc_ratio_eq f (by omega)]
  refine ⟨rfl, ?_⟩
  rw [Nat.div_lt_iff_lt_mul (by omega)]
  omega

theorem selectOutputDivider_spec (f : Nat) (hlo : 34375000 ≤ f) :
    (f = 34375000 → selectOutputDivider (ofNat f) = (64, 6))
    ∧ (f ≠ 34375000 → 2200000000 / f < (selectOutputDivider (ofNat f)).1
        ∧ ∀ k, 2200000000 / f < 2 ^ k → (selectOutputDivider (ofNat f)).1 ≤ 2 ^ k)
    ∧ (selectOutputDivider (ofNat f)).1 = 2 ^ (selectOutputDivider (ofNat f)).2
    ∧ (selectOutputDivider (ofNat f)).2 ≤ 6
    ∧ 1 ≤ (selectOutputDivider (ofNat f)).1 ∧ (selectOutputDivider (ofNat f)).1 ≤ 64 := by
  by_cases he : f = 34375000
  · subst he
    rw [selectOutputDivider_low]
    exact ⟨fun _ => rfl, fun h => absurd rfl h, by norm_num, by norm_num, by norm_num,
      by norm_num⟩
  · have hgt : 34375000 < f := by omega
    obtain ⟨e, hr⟩ := selectOutputDivider_eq f hgt
    obtain ⟨s1, s2, s3, s4⟩ := outdivLoop_spec (2200000000 / f) hr
    rw [e]
    have hpow : (outdivLoop (2200000000 / f) 8 1 0).1 ≤ 64 := by
      rw [s2]
      calc 2 ^ (outdivLoop (2200000000 / f) 8 1 0).2 ≤ 2 ^ 6 :=
            Nat.pow_le_pow_right (by norm_num) s3
        _ = 64 := by norm_num
    refine ⟨fun h => absurd h he, fun _ => ⟨s1, ?_⟩, s2, s3, ?_, hpow⟩
    · intro k hk
      rw [s2]
      rcases s4 with h0 | hle
      · rw [h0]; exact Nat.one_le_two_pow
      · have hlt : 2 ^ ((outdivLoop (2200000000 / f) 8 1 0).2 - 1) < 2 ^ k :=
          lt_of_le_of_lt hle hk
        have := (Nat.pow_lt_pow_iff_right (by norm_num : 1 < 2)).mp hlt
        exact Nat.pow_le_pow_right (by norm_num) (by omega)
    · rw [s2]; exact Nat.one_le_two_pow

/-! ## Committing calls -/

/-- With `CalculationTimeout = 0` the clock is never consulted. -/
theorem modMatchLoop_no_timeout (millis millis' : Nat → Nat) (PFD Rem : BigNumber)
    (outdiv Max : Nat) (n : Nat) (st : MatchState) :
    modMatchLoop millis PFD Rem outdiv Max 0 n st = modMatchLoop millis' PFD Rem outdiv Max 0 n st := by
  induction n generalizing st with
  | zero => rfl
  | succ k ih =>
    unfold modMatchLoop
    have h : ∀ m : Nat → Nat,
        ¬((0 : Nat) > 0 ∧ u32 ((m (4095 - k) : Int) - (m 0 : Int)) > 0) := fun m h => by
      exact absurd h.1 (by decide)
    dsimp only
    rw [if_neg (h millis), if_neg (h millis'), ih]

theorem precisionBranch_no_timeout (millis millis' : Nat → Nat) (PFD freq : BigNumber)
    (outdiv Max : Nat) (FE0 : Int) :
    precisionBranch millis PFD freq outdiv Max 0 FE0
      = precisionBranch millis' PFD freq outdiv Max 0 FE0 := by
  unfold precisionBranch
  dsimp only
  rw [modMatchLoop_no_timeout millis millis']

theorem decompose_no_timeout (millis millis' : Nat → Nat) (PFD : BigNumber) (step : Nat)
    (freq : BigNumber) (Prec : Bool) (Max : Nat) :
    decompose millis PFD step freq Prec Max 0 = decompose millis' PFD step freq Prec Max 0 := by
  unfold decompose
  rw [precisionBranch_no_timeout millis millis']

/-- The phase-detector frequency computed by `setf` when neither the doubler nor the
half-divider is selected. -/
theorem BN_ADF4351_PFDFreq_plain (s : State) (hT : ReadRDIV2 s = 0) (hD : ReadRefDoubler s = 0) :
    BN_ADF4351_PFDFreq s
      = ((s.ADF4351_reffreq * 1000000000000 * 1000000000000
          / (ReadR s * 1000000000000) : Nat) : Int) := by
  unfold BN_ADF4351_PFDFreq
  rw [hT, hD]
  simp only [ofNat_eq_cast, mul_cast, div_cast]
  norm_num

theorem BN_ADF4351_PFDFreq_R1 (s : State) (hR : ReadR s = 1) (hT : ReadRDIV2 s = 0)
    (hD : ReadRefDoubler s = 0) : BN_ADF4351_PFDFreq s = ofNat s.ADF4351_reffreq := by
  rw [BN_ADF4351_PFDFreq_plain s hT hD, hR, ofNat_eq_cast]
  norm_num

theorem PFDFreq_R1 (s : State) (hR : ReadR s = 1) (hT : ReadRDIV2 s = 0)
    (hD : ReadRefDoubler s = 0) (h : s.ADF4351_reffreq < 4294967296) :
    PFDFreq s = s.ADF4351_reffreq := by
  unfold PFDFreq
  rw [BN_ADF4351_PFDFreq_R1 s hR hT hD, ofNat_eq_cast, toLong_cast, u32_cast]
  rw [Nat.mul_div_cancel _ (by norm_num)]
  exact Nat.mod_eq_of_lt h

/-- A call that passes the validation, whose branch returns `b` without timing out and
whose values pass the range checks, commits. -/
theorem setf_commits (fl : ℚ → ℚ) (hfl : ∀ x : ℚ, fl x = 0 ↔ x = 0)
    (millis : Nat → Nat) (s : State) (freq : BigNumber)
    (PowerLevel AuxPowerLevel AuxFrequencyDivider : Nat) (Prec : Bool) (Max Timeout : Nat)
    (b : Decomposition)
    (hP : PowerLevel ≤ 4) (hA : AuxPowerLevel ≤ 4)
    (hD : AuxFrequencyDivider = 0 ∨ AuxFrequencyDivider = 1)
    (hR : ReadR s ≠ 0) (href : s.ADF4351_reffreq ≠ 0)
    (hstep : ¬(Prec = false ∧ s.ADF4351_ChanStep > 1
      ∧ (s.ADF4351_reffreq / ReadR s) % s.ADF4351_ChanStep ≠ 0))
    (hlo : ofNat 34375000 ≤ freq) (hhi : freq ≤ ofNat 4400000000)
    (hrem : ¬(Prec = false ∧ s.ADF4351_ChanStep > 1
      ∧ stepRemainder (toLong freq * ONE) s.ADF4351_ChanStep ≠ 0))
    (hb : decompose millis (BN_ADF4351_PFDFreq s) s.ADF4351_ChanStep (toLong freq * ONE) Prec
        Max Timeout = some b)
    (ht : b.CalculationTookTooLong = false)
    (hc : ChecksPass b.ADF4351_Frac b.ADF4351_N_Int (correctMod b.ADF4351_Frac b.ADF4351_Mod)
          (selectPrescaler (toLong freq * ONE)) (PFDFreq s)) :
    setf fl millis s freq PowerLevel AuxPowerLevel AuxFrequencyDivider Prec Max Timeout
      = some (reportFrequencyError
          (encodeRegisters
            { s with ADF4351_FrequencyError :=
                (finalFrequencyError (BN_ADF4351_PFDFreq s) (toLong freq * ONE)
                  (selectOutputDivider (toLong freq * ONE)).1
                  b.ADF4351_N_Int b.ADF4351_Frac b.ADF4351_Mod) }
            b.ADF4351_Frac b.ADF4351_N_Int (correctMod b.ADF4351_Frac b.ADF4351_Mod)
            (selectPrescaler (toLong freq * ONE)) (PFDFreq s) PowerLevel AuxPowerLevel
            AuxFrequencyDivider (selectOutputDivider (toLong freq * ONE)).2)
          (toLong freq * ONE)
          (finalFrequencyError (BN_ADF4351_PFDFreq s) (toLong freq * ONE)
            (selectOutputDivider (toLong freq * ONE)).1
            b.ADF4351_N_Int b.ADF4351_Frac b.ADF4351_Mod) Prec Max) := by
  rw [setf_of_valid _ hfl millis s freq PowerLevel AuxPowerLevel AuxFrequencyDivider Prec Max Timeout
    hP hA hD hR href hstep hlo hhi hrem]
  unfold planAndCommit
  rw [hb]
  dsimp only
  rw [if_neg (by rw [ht]; decide), checkAndCommit_of_pass _ _ _ _ _ _ _ _ _ _ _ _ _ _ hc]

/-- The values a committing call wrote can be read back unchanged. -/
theorem committed_readback (s1 : State) (freq : BigNumber)
    (Frac N Mod P PFD PL APL AFD sel : Nat) (FE : Int) (Prec : Bool) (Max : Nat)
    (hc : ChecksPass Frac N Mod P PFD) (hP : P ≤ 1) (hsel : sel ≤ 6) :
    ReadFraction (reportFrequencyError (encodeRegisters s1 Frac N Mod P PFD PL APL AFD sel)
        freq FE Prec Max).state = Frac
    ∧ ReadInt (reportFrequencyError (encodeRegisters s1 Frac N Mod P PFD PL APL AFD sel)
        freq FE Prec Max).state = N
    ∧ ReadMod (reportFrequencyError (encodeRegisters s1 Frac N Mod P PFD PL APL AFD sel)
        freq FE Prec Max).state = Mod
    ∧ ReadBF_dword 27 1 (reportFrequencyError (encodeRegisters s1 Frac N Mod P PFD PL APL AFD sel)
        freq FE Prec Max).state.R1 = P
    ∧ ReadOutDivider_PowerOf2 (reportFrequencyError
        (encodeRegisters s1 Frac N Mod P PFD PL APL AFD sel) freq FE Prec Max).state = sel
    ∧ ReadOutDivider (reportFrequencyError
        (encodeRegisters s1 Frac N Mod P PFD PL APL AFD sel) freq FE Prec Max).state = 2 ^ sel := by
  obtain ⟨r0, r1, _, _, r4, _⟩ := reportFrequencyError_regs
    (encodeRegisters s1 Frac N Mod P PFD PL APL AFD sel) freq FE Prec Max
  obtain ⟨c1, c2, c3, c4, _⟩ := hc
  have hN : N ≤ 65535 := by
    rcases Nat.lt_or_ge P 1 with h | h
    · have : P = 0 := by omega
      by_contra hn; exact c3 ⟨this, Or.inr (by omega)⟩
    · have : P = 1 := by omega
      by_contra hn; exact c4 ⟨this, Or.inr (by omega)⟩
  have e1 := encodeRegisters_ReadFraction s1 Frac N Mod P PFD PL APL AFD sel
  have e2 := encodeRegisters_ReadInt s1 Frac N Mod P PFD PL APL AFD sel
  have e3 := encodeRegisters_ReadMod s1 Frac N Mod P PFD PL APL AFD sel
  have e4 := encodeRegisters_prescaler s1 Frac N Mod P PFD PL APL AFD sel
  have e5 := encodeRegisters_ReadOutDivider_PowerOf2 s1 Frac N Mod P PFD PL APL AFD sel
  have e6 := encodeRegisters_ReadOutDivider s1 Frac N Mod P PFD PL APL AFD sel
  unfold ReadFraction ReadInt ReadMod ReadOutDivider_PowerOf2 ReadOutDivider at *
  rw [r0, r1, r4, e1, e2, e3, e4, e5]
  have hsel8 : sel % 8 = sel := Nat.mod_eq_of_lt (by omega)
  refine ⟨Nat.mod_eq_of_lt (by omega), Nat.mod_eq_of_lt (by omega), Nat.mod_eq_of_lt (by omega),
    Nat.mod_eq_of_lt (by omega), hsel8, ?_⟩
  rw [hsel8, Nat.one_shiftLeft]
  apply Nat.mod_eq_of_lt
  calc 2 ^ sel ≤ 2 ^ 6 := Nat.pow_le_pow_right (by norm_num) hsel
    _ < 256 := by norm_num

theorem reportFrequencyError_none (s2 : State) (freq : BigNumber) (FE : Int) (Prec : Bool)
    (Max : Nat)
    (h : ¬((Prec = true ∧ u32 (absError FE) > Max) ∨ (Prec = false ∧ absError FE ≠ 0))) :
    reportFrequencyError s2 freq FE Prec Max
      = ⟨ADF4351_ERROR_NONE, { s2 with ADF4351_FrequencyError := absError FE }, freq⟩ := by
  unfold reportFrequencyError
  rw [if_neg h]

theorem reportFrequencyError_warning (s2 : State) (freq : BigNumber) (FE : Int) (Prec : Bool)
    (Max : Nat)
    (h : (Prec = true ∧ u32 (absError FE) > Max) ∨ (Prec = false ∧ absError FE ≠ 0)) :
    reportFrequencyError s2 freq FE Prec Max
      = ⟨ADF4351_WARNING_FREQUENCY_ERROR,
          { s2 with ADF4351_FrequencyError :=
              if FE < 0 then i32 (-(absError FE)) else absError FE }, freq⟩ := by
  unfold reportFrequencyError
  rw [if_pos h]
theorem selectPrescaler_le_one (freq : BigNumber) : selectPrescaler freq ≤ 1 := by
  unfold selectPrescaler; split_ifs <;> omega

/-- A call that passes the validation, whose branch returns `b` without timing out and
whose values pass the range checks: the return code, the stored error and the values read
back from the registers. `FE` is the recomputed frequency error. -/
theorem setf_commit_summary (fl : ℚ → ℚ) (hfl : ∀ x : ℚ, fl x = 0 ↔ x = 0)
    (millis : Nat → Nat) (s : State) (freq : BigNumber)
    (PowerLevel AuxPowerLevel AuxFrequencyDivider : Nat) (Prec : Bool) (Max Timeout : Nat)
    (b : Decomposition) (FE : Int)
    (hP : PowerLevel ≤ 4) (hA : AuxPowerLevel ≤ 4)
    (hD : AuxFrequencyDivider = 0 ∨ AuxFrequencyDivider = 1)
    (hR : ReadR s ≠ 0) (href : s.ADF4351_reffreq ≠ 0)
    (hstep : ¬(Prec = false ∧ s.ADF4351_ChanStep > 1
      ∧ (s.ADF4351_reffreq / ReadR s) % s.ADF4351_ChanStep ≠ 0))
    (hlo : ofNat 34375000 ≤ freq) (hhi : freq ≤ ofNat 4400000000)
    (hrem : ¬(Prec = false ∧ s.ADF4351_ChanStep > 1
      ∧ stepRemainder (toLong freq * ONE) s.ADF4351_ChanStep ≠ 0))
    (hb : decompose millis (BN_ADF4351_PFDFreq s) s.ADF4351_ChanStep (toLong freq * ONE) Prec
        Max Timeout = some b)
    (ht : b.CalculationTookTooLong = false)
    (hc : ChecksPass b.ADF4351_Frac b.ADF4351_N_Int (correctMod b.ADF4351_Frac b.ADF4351_Mod)
          (selectPrescaler (toLong freq * ONE)) (PFDFreq s))
    (hFE : finalFrequencyError (BN_ADF4351_PFDFreq s) (toLong freq * ONE)
        (selectOutputDivider (toLong freq * ONE)).1 b.ADF4351_N_Int b.ADF4351_Frac b.ADF4351_Mod
        = FE) :
    ∃ r, setf fl millis s freq PowerLevel AuxPowerLevel AuxFrequencyDivider Prec Max Timeout = some r
      ∧ (¬((Prec = true ∧ u32 (absError FE) > Max) ∨ (Prec = false ∧ absError FE ≠ 0)) →
          r.code = ADF4351_ERROR_NONE ∧ r.state.ADF4351_FrequencyError = absError FE)
      ∧ (((Prec = true ∧ u32 (absError FE) > Max) ∨ (Prec = false ∧ absError FE ≠ 0)) →
          r.code = ADF4351_WARNING_FREQUENCY_ERROR
          ∧ r.state.ADF4351_FrequencyError = if FE < 0 then i32 (-(absError FE)) else absError FE)
      ∧ ReadFraction r.state = b.ADF4351_Frac
      ∧ ReadInt r.state = b.ADF4351_N_Int
      ∧ ReadMod r.state = correctMod b.ADF4351_Frac b.ADF4351_Mod
      ∧ ReadBF_dword 27 1 r.state.R1 = selectPrescaler (toLong freq * ONE)
      ∧ ReadOutDivider_PowerOf2 r.state = (selectOutputDivider (toLong freq * ONE)).2
      ∧ ReadOutDivider r.state = (selectOutputDivider (toLong freq * ONE)).1 := by
  have h := setf_commits _ hfl millis s freq PowerLevel AuxPowerLevel AuxFrequencyDivider Prec Max
    Timeout b hP hA hD hR href hstep hlo hhi hrem hb ht hc
  rw [hFE] at h
  obtain ⟨e, h1, _⟩ := accepted_target freq hlo hhi
  obtain ⟨_, _, p3, p4, _, _⟩ := selectOutputDivider_spec (toLong freq).toNat h1
  rw [← e] at p3 p4
  obtain ⟨q1, q2, q3, q4, q5, q6⟩ := committed_readback
    { s with ADF4351_FrequencyError := FE } (toLong freq * ONE) b.ADF4351_Frac b.ADF4351_N_Int
    (correctMod b.ADF4351_Frac b.ADF4351_Mod) (selectPrescaler (toLong freq * ONE)) (PFDFreq s)
    PowerLevel AuxPowerLevel AuxFrequencyDivider (selectOutputDivider (toLong freq * ONE)).2
    FE Prec Max hc (selectPrescaler_le_one _) p4
  refine ⟨_, h, ?_, ?_, q1, q2, q3, q4, q5, ?_⟩
  · intro hn
    rw [reportFrequencyError_none _ _ _ _ _ hn]
    exact ⟨rfl, rfl⟩
  · intro hw
    rw [reportFrequencyError_warning _ _ _ _ _ hw]
    exact ⟨rfl, rfl⟩
  · rw [q6, p3]

/-- A call that passes the earlier checks but whose target is not a multiple of the channel
step is rejected (channel-step mode only). -/
theorem setf_of_step_remainder (fl : ℚ → ℚ) (hfl : ∀ x : ℚ, fl x = 0 ↔ x = 0)
    (millis : Nat → Nat) (s : State) (freq : BigNumber)
    (PowerLevel AuxPowerLevel AuxFrequencyDivider : Nat) (Prec : Bool) (Max Timeout : Nat)
    (hP : PowerLevel ≤ 4) (hA : AuxPowerLevel ≤ 4)
    (hD : AuxFrequencyDivider = 0 ∨ AuxFrequencyDivider = 1)
    (hR : ReadR s ≠ 0) (href : s.ADF4351_reffreq ≠ 0)
    (hstep : ¬(Prec = false ∧ s.ADF4351_ChanStep > 1
      ∧ (s.ADF4351_reffreq / ReadR s) % s.ADF4351_ChanStep ≠ 0))
    (hlo : ofNat 34375000 ≤ freq) (hhi : freq ≤ ofNat 4400000000)
    (hrem : Prec = false ∧ s.ADF4351_ChanStep > 1
      ∧ stepRemainder (toLong freq * ONE) s.ADF4351_ChanStep ≠ 0) :
    setf fl millis s freq PowerLevel AuxPowerLevel AuxFrequencyDivider Prec Max Timeout
      = some ⟨ADF4351_ERROR_RF_FREQUENCY_AND_STEP_FREQUENCY_HAS_REMAINDER,
          { s with ADF4351_FrequencyError := 0 }, toLong freq * ONE⟩ := by
  unfold setf
  have h1 : ¬PowerLevel > 4 := by omega
  have h2 : ¬AuxPowerLevel > 4 := by omega
  have h3 : ¬(AuxFrequencyDivider ≠ ADF4351_AUX_DIVIDED
      ∧ AuxFrequencyDivider ≠ ADF4351_AUX_FUNDAMENTAL) := by
    unfold ADF4351_AUX_DIVIDED ADF4351_AUX_FUNDAMENTAL; omega
  have h4 : ¬ReadPFDfreq fl s = 0 := by
    rw [ReadPFDfreq_eq_zero_iff fl hfl]; tauto
  have h5 : ¬(freq > ofNat 4400000000 ∨ freq < ofNat 34375000) := by
    intro h; rcases h with h | h
    · exact absurd hhi (not_le.mpr h)
    · exact absurd hlo (not_le.mpr h)
  rw [if_neg h1, if_neg h2, if_neg h3, if_neg h4, if_neg hstep, if_neg h5, if_pos hrem]

theorem checkAndCommit_code_ne_two (s1 : State) (freq : BigNumber)
    (Frac N Mod Prescaler PFDFreq PowerLevel AuxPowerLevel AuxFrequencyDivider sel : Nat)
    (FE : Int) (Prec : Bool) (Max : Nat) :
    (checkAndCommit s1 freq Frac N Mod Prescaler PFDFreq PowerLevel AuxPowerLevel
        AuxFrequencyDivider sel FE Prec Max).code ≠ ADF4351_ERROR_RF_FREQUENCY := by
  unfold checkAndCommit
  by_cases h1 : Mod < 2 ∨ Mod > 4095
  · rw [if_pos h1]; dsimp only; decide
  rw [if_neg h1]
  by_cases h2 : Frac > Mod - 1
  · rw [if_pos h2]; dsimp only; decide
  rw [if_neg h2]
  by_cases h3 : Prescaler = 0 ∧ (N < 23 ∨ N > 65535)
  · rw [if_pos h3]; dsimp only; decide
  rw [if_neg h3]
  by_cases h4 : Prescaler = 1 ∧ (N < 75 ∨ N > 65535)
  · rw [if_pos h4]; dsimp only; decide
  rw [if_neg h4]
  by_cases h5 : Frac ≠ 0 ∧ PFDFreq > ADF4351_PFD_MAX_FRAC
  · rw [if_pos h5]; dsimp only; decide
  rw [if_neg h5]
  rcases reportFrequencyError_code
    (encodeRegisters s1 Frac N Mod Prescaler PFDFreq PowerLevel AuxPowerLevel
      AuxFrequencyDivider sel) freq FE Prec Max with h | h <;> rw [h] <;> decide

theorem planAndCommit_code_ne_two (millis : Nat → Nat) (s : State) (freq : BigNumber)
    (PowerLevel AuxPowerLevel AuxFrequencyDivider : Nat) (Prec : Bool)
    (Max Timeout : Nat) (r : SetfResult)
    (h : planAndCommit millis s freq PowerLevel AuxPowerLevel AuxFrequencyDivider Prec Max Timeout
      = some r) : r.code ≠ ADF4351_ERROR_RF_FREQUENCY := by
  unfold planAndCommit at h
  split at h
  · cases h
  · split_ifs at h
    · cases h; dsimp only; decide
    · cases h
      exact checkAndCommit_code_ne_two _ _ _ _ _ _ _ _ _ _ _ _ _ _

/-! ## The rational reducer -/

/-- The subtraction loop computes the greatest common divisor, given enough iterations. -/
theorem gcdLoop_eq : ∀ (fuel a b : Nat), a + b < fuel → gcdLoop fuel a b = some (Nat.gcd a b) := by
  intro fuel
  induction fuel with
  | zero => intro a b h; omega
  | succ n ih =>
    intro a b h
    unfold gcdLoop
    by_cases ha : a = 0
    · rw [if_pos ha, ha, Nat.gcd_zero_left]
    rw [if_neg ha]
    by_cases hb : b = 0
    · rw [if_pos hb, hb, Nat.gcd_zero_right]
    rw [if_neg hb]
    by_cases hab : a = b
    · rw [if_pos hab, hab, Nat.gcd_self]
    rw [if_neg hab]
    by_cases hgt : a > b
    · rw [if_pos hgt, ih (a - b) b (by omega)]
      congr 1
      have : a = (a - b) + b := by omega
      conv_rhs => rw [this, Nat.gcd_add_self_left]
    · rw [if_neg hgt, ih a (b - a) (by omega)]
      congr 1
      have : b = (b - a) + a := by omega
      conv_rhs => rw [this, Nat.gcd_add_self_right]

/-- The halving loop ends with a modulus in `[2048, 4095]` and a smaller numerator. -/
theorem halveLoop_spec : ∀ (fuel m f : Nat), 4095 < m → m < 2 ^ fuel * 4096 → f ≤ m →
    ∃ M F, halveLoop fuel m f = some (M, F) ∧ 2048 ≤ M ∧ M ≤ 4095 ∧ F < M := by
  intro fuel
  induction fuel with
  | zero => intro m f h1 h2 _; omega
  | succ n ih =>
    intro m f h1 h2 h3
    unfold halveLoop
    dsimp only
    by_cases hm : m / 2 ≤ 4095
    · rw [if_pos hm]
      refine ⟨_, _, rfl, by omega, hm, ?_⟩
      by_cases hf : f / 2 = m / 2
      · rw [if_pos hf, hf]
        unfold u32
        omega
      · rw [if_neg hf]
        omega
    · rw [if_neg hm]
      apply ih
      · omega
      · rw [Nat.pow_succ] at h2; omega
      · omega

/-- The chosen divider puts the VCO frequency `target * divider` in `[2.2 GHz, 4.4 GHz]`. -/
theorem vco_band (f : Nat) (hlo : 34375000 ≤ f) (hhi : f ≤ 4400000000) :
    2200000000 ≤ f * (selectOutputDivider (ofNat f)).1
    ∧ f * (selectOutputDivider (ofNat f)).1 ≤ 4400000000 := by
  by_cases he : f = 34375000
  · subst he; rw [selectOutputDivider_low]; norm_num
  · have hgt : 34375000 < f := by omega
    obtain ⟨e, hr⟩ := selectOutputDivider_eq f hgt
    obtain ⟨s1, s2, _, s4⟩ := outdivLoop_spec (2200000000 / f) hr
    rw [e]
    have hdm := Nat.div_add_mod 2200000000 f
    have hml : 2200000000 % f < f := Nat.mod_lt _ (by omega)
    have hfr : f * (2200000000 / f) ≤ 2200000000 := by omega
    constructor
    · have : f * (2200000000 / f + 1) ≤ f * (outdivLoop (2200000000 / f) 8 1 0).1 :=
        Nat.mul_le_mul_left _ s1
      rw [Nat.mul_add, Nat.mul_one] at this
      omega
    · rcases s4 with h0 | hle
      · rw [s2, h0]; omega
      · have hj : (outdivLoop (2200000000 / f) 8 1 0).2
            = ((outdivLoop (2200000000 / f) 8 1 0).2 - 1) + 1 := by
          have : (outdivLoop (2200000000 / f) 8 1 0).2 ≠ 0 := by
            intro h0
            rw [h0] at hle
            have : 1 ≤ 2200000000 / f := by simpa using hle
            rw [s2, h0] at s1
            omega
          omega
        have h2 : (outdivLoop (2200000000 / f) 8 1 0).1 ≤ 2 * (2200000000 / f) := by
          rw [s2, hj, Nat.pow_succ]; omega
        calc f * (outdivLoop (2200000000 / f) 8 1 0).1
            ≤ f * (2 * (2200000000 / f)) := Nat.mul_le_mul_left _ h2
          _ = 2 * (f * (2200000000 / f)) := by ring
          _ ≤ 4400000000 := by omega

/-- The chosen divider is one of 1, 2, 4, ..., 64. -/
theorem outdiv_dvd (f : Nat) (hlo : 34375000 ≤ f) :
    (selectOutputDivider (ofNat f)).1 ∣ 64 ∧ 0 < (selectOutputDivider (ofNat f)).1 := by
  obtain ⟨_, _, p3, p4, p5, _⟩ := selectOutputDivider_spec f hlo
  refine ⟨?_, by omega⟩
  rw [p3]
  exact Nat.pow_dvd_pow 2 p4

/-! ## The channel-step branch on exact multiples -/

theorem bnN_whole (k m step o : Nat) (hs : 0 < step) :
    div (mul (ofNat (k * step)) (ofNat o)) (ofNat (m * step))
      = ((k * o * 1000000000000 / m : Nat) : Int) := by
  rw [ofNat_eq_cast, ofNat_eq_cast, ofNat_eq_cast, mul_cast, div_cast]
  refine congrArg Nat.cast ?_
  have e1 : k * step * 1000000000000 * (o * 1000000000000) / 1000000000000
      = k * step * o * 1000000000000 := by
    rw [show k * step * 1000000000000 * (o * 1000000000000)
        = k * step * o * 1000000000000 * 1000000000000 by ring]
    exact Nat.mul_div_cancel _ (by norm_num)
  rw [e1, Nat.mul_div_mul_right _ _ (by norm_num : 0 < 1000000000000)]
  rw [show k * step * o * 1000000000000 = (k * o * 1000000000000) * step by ring,
    Nat.mul_div_mul_right _ _ hs]

theorem bnMod_whole (m step o : Nat) (hs : 0 < step) (ho : o ∣ 64) (ho0 : 0 < o) :
    div (ofNat (m * step)) (div (ofNat step) (ofNat o))
      = ((m * o * 1000000000000 : Nat) : Int) := by
  obtain ⟨c, hc⟩ := ho
  have hc0 : 0 < c := by
    rcases Nat.eq_zero_or_pos c with h | h
    · rw [h] at hc; omega
    · exact h
  simp only [ofNat_eq_cast, div_cast]
  refine congrArg Nat.cast ?_
  have e1 : step * 1000000000000 * 1000000000000 / (o * 1000000000000)
      = step * (15625000000 * c) := by
    rw [Nat.mul_div_mul_right _ _ (by norm_num : 0 < 1000000000000)]
    have : step * 1000000000000 = o * (step * (15625000000 * c)) := by
      have : (1000000000000 : Nat) = 64 * 15625000000 := by norm_num
      rw [this, hc]; ring
    rw [this, Nat.mul_div_cancel_left _ ho0]
  rw [e1]
  have : m * step * 1000000000000 * 1000000000000
      = (step * (15625000000 * c)) * (m * o * 1000000000000) := by
    have h64 : o * c = 64 := hc.symm
    calc m * step * 1000000000000 * 1000000000000
        = m * step * (64 * 15625000000) * 1000000000000 := by norm_num
      _ = m * step * ((o * c) * 15625000000) * 1000000000000 := by rw [h64]
      _ = (step * (15625000000 * c)) * (m * o * 1000000000000) := by ring
  rw [this, Nat.mul_div_cancel_left _ (by positivity)]

theorem channelStepN_multiple (k m step o : Nat) (hs : 0 < step)
    (hq : k * o / m < 4294967296) :
    channelStepN (ofNat (m * step)) (ofNat (k * step)) o = k * o / m := by
  unfold channelStepN
  rw [bnN_whole k m step o hs, toLong_cast, u32_cast,
    Nat.div_div_eq_div_mul, Nat.mul_div_mul_right _ _ (by norm_num : 0 < 1000000000000)]
  exact Nat.mod_eq_of_lt hq

theorem channelStepMod0_multiple (m step o : Nat) (hs : 0 < step) (ho : o ∣ 64) (ho0 : 0 < o)
    (hm : m < 4294967296) :
    channelStepMod0 (ofNat (m * step)) o step = m := by
  unfold channelStepMod0
  dsimp only
  rw [bnMod_whole m step o hs ho ho0, ofNat_eq_cast, div_cast, toLong_cast, u32_cast]
  have e3 : m * o * 1000000000000 * 1000000000000 / (o * 1000000000000) / 1000000000000 = m := by
    rw [Nat.mul_div_mul_right _ _ (by norm_num : 0 < 1000000000000)]
    rw [show m * o * 1000000000000 = o * (m * 1000000000000) by ring,
      Nat.mul_div_cancel_left _ ho0, Nat.mul_div_cancel _ (by norm_num)]
  rw [e3]
  exact Nat.mod_eq_of_lt hm

/-- The unreduced numerator of the channel-step branch is the exact remainder: the
twelve-digit truncation of the quotient is absorbed by the rounding. -/
theorem channelStepFrac0_multiple (k m step o : Nat) (hs : 0 < step) (hm0 : 0 < m)
    (ho : o ∣ 64) (ho0 : 0 < o) (hm : m < 4294967296) (hq : k * o / m < 4294967296) :
    channelStepFrac0 (ofNat (m * step)) (ofNat (k * step)) o step = k * o % m := by
  have ho64 : o ≤ 64 := Nat.le_of_dvd (by norm_num) ho
  unfold channelStepFrac0
  dsimp only
  rw [bnN_whole k m step o hs, bnMod_whole m step o hs ho ho0, toLong_cast, u32_cast]
  have hq' : k * o * 1000000000000 / m / 1000000000000 = k * o / m := by
    rw [Nat.div_div_eq_div_mul, Nat.mul_div_mul_right _ _ (by norm_num : 0 < 1000000000000)]
  rw [hq', Nat.mod_eq_of_lt hq]
  -- the fractional part of the quotient
  have hsplit : k * o * 1000000000000 / m
      = k * o / m * 1000000000000 + (k * o % m) * 1000000000000 / m := by
    have h1 : k * o * 1000000000000
        = (k * o % m) * 1000000000000 + m * (k * o / m * 1000000000000) := by
      have := Nat.div_add_mod (k * o) m
      calc k * o * 1000000000000 = (m * (k * o / m) + k * o % m) * 1000000000000 := by rw [this]
        _ = (k * o % m) * 1000000000000 + m * (k * o / m * 1000000000000) := by ring
    rw [h1, Nat.add_mul_div_left _ _ hm0]
    have : ((k * o % m) * 1000000000000 + m * (k * o / m * 1000000000000)) % m
        = (k * o % m) * 1000000000000 % m := Nat.add_mul_mod_self_left _ _ _
    omega
  have hsub : ((k * o * 1000000000000 / m : Nat) : Int) - ofNat (k * o / m)
      = (((k * o % m) * 1000000000000 / m : Nat) : Int) := by
    rw [ofNat_eq_cast, hsplit]; push_cast; ring
  rw [hsub, mul_cast]
  have hH : HALF = ((500000000000 : Nat) : Int) := by unfold HALF; norm_num
  rw [hH, ← Nat.cast_add, ofNat_eq_cast, div_cast, toLong_cast, u32_cast]
  -- the arithmetic
  generalize hr : k * o % m = r
  have hrm : r < m := by rw [← hr]; exact Nat.mod_lt _ hm0
  have hA : r * 1000000000000 / m * (m * o * 1000000000000) / 1000000000000
      = r * 1000000000000 / m * m * o := by
    rw [show r * 1000000000000 / m * (m * o * 1000000000000)
        = r * 1000000000000 / m * m * o * 1000000000000 by ring]
    exact Nat.mul_div_cancel _ (by norm_num)
  rw [hA, Nat.mul_div_mul_right _ _ (by norm_num : 0 < 1000000000000),
    Nat.div_div_eq_div_mul]
  have hdm := Nat.div_add_mod (r * 1000000000000) m
  have hml : r * 1000000000000 % m < m := Nat.mod_lt _ hm0
  have hY : r * 1000000000000 / m * m = r * 1000000000000 - r * 1000000000000 % m := by
    rw [Nat.mul_comm]; omega
  have heo : r * 1000000000000 % m * o ≤ 4294967296 * 64 :=
    Nat.mul_le_mul (by omega) ho64
  have hle : r * 1000000000000 % m ≤ r * 1000000000000 := Nat.mod_le _ _
  have hval : (r * 1000000000000 / m * m * o + 500000000000) / (o * 1000000000000) = r := by
    rw [hY, Nat.sub_mul]
    have h1 : r * 1000000000000 % m * o ≤ r * 1000000000000 * o :=
      Nat.mul_le_mul_right _ hle
    apply Nat.div_eq_of_lt_le
    · have : r * (o * 1000000000000) = r * 1000000000000 * o := by ring
      omega
    · have : (r + 1) * (o * 1000000000000) = r * 1000000000000 * o + o * 1000000000000 := by
        ring
      omega
  rw [hval]
  exact Nat.mod_eq_of_lt (by omega)
/-- What the reducer returns on a pair of `uint32_t` values with `Frac0 < Mod0`. -/
theorem reduceFraction_spec (Mod0 Frac0 : Nat) (h : Frac0 < Mod0) (h32 : Mod0 < 4294967296) :
    ∃ Mod Frac, reduceFraction Mod0 Frac0 = some (Mod, Frac)
      ∧ (Mod0 / Nat.gcd Frac0 Mod0 ≤ 4095 →
          Nat.gcd Frac Mod = 1 ∧ Frac * Mod0 = Frac0 * Mod)
      ∧ (4095 < Mod0 / Nat.gcd Frac0 Mod0 →
          halveLoop 32 (Mod0 / Nat.gcd Frac0 Mod0) (Frac0 / Nat.gcd Frac0 Mod0) = some (Mod, Frac)
          ∧ 2048 ≤ Mod ∧ Mod ≤ 4095 ∧ Frac < Mod) := by
  have hg : gcdLoop (Mod0 + Frac0 + 1) Mod0 Frac0 = some (Nat.gcd Frac0 Mod0) := by
    rw [gcdLoop_eq _ _ _ (by omega), Nat.gcd_comm]
  have hpos : 0 < Nat.gcd Frac0 Mod0 := Nat.gcd_pos_of_pos_right _ (by omega)
  have hne : ¬Nat.gcd Frac0 Mod0 = 0 := by omega
  unfold reduceFraction
  rw [hg]
  dsimp only
  rw [if_neg hne]
  by_cases hbig : Mod0 / Nat.gcd Frac0 Mod0 > 4095
  · rw [if_pos hbig]
    have hle : Mod0 / Nat.gcd Frac0 Mod0 ≤ Mod0 := Nat.div_le_self _ _
    obtain ⟨M, F, e, b1, b2, b3⟩ := halveLoop_spec 32 (Mod0 / Nat.gcd Frac0 Mod0)
      (Frac0 / Nat.gcd Frac0 Mod0) hbig (by norm_num; omega)
      (Nat.div_le_div_right (le_of_lt h))
    exact ⟨M, F, e, fun h' => absurd hbig (by omega), fun _ => ⟨e, b1, b2, b3⟩⟩
  · rw [if_neg hbig]
    refine ⟨_, _, rfl, fun _ => ⟨?_, ?_⟩, fun h' => absurd h' hbig⟩
    · exact Nat.coprime_div_gcd_div_gcd hpos
    · have d1 : Nat.gcd Frac0 Mod0 ∣ Frac0 := Nat.gcd_dvd_left _ _
      have d2 : Nat.gcd Frac0 Mod0 ∣ Mod0 := Nat.gcd_dvd_right _ _
      calc Frac0 / Nat.gcd Frac0 Mod0 * Mod0
          = Frac0 / Nat.gcd Frac0 Mod0 * (Nat.gcd Frac0 Mod0 * (Mod0 / Nat.gcd Frac0 Mod0)) := by
            rw [Nat.mul_div_cancel' d2]
        _ = (Frac0 / Nat.gcd Frac0 Mod0 * Nat.gcd Frac0 Mod0) * (Mod0 / Nat.gcd Frac0 Mod0) := by
            ring
        _ = Frac0 * (Mod0 / Nat.gcd Frac0 Mod0) := by rw [Nat.div_mul_cancel d1]

theorem toLong_ofNat (f : Nat) : toLong (ofNat f) * ONE = ofNat f := by
  rw [ofNat_eq_cast, toLong_cast, Nat.mul_div_cancel _ (by norm_num)]
  unfold ONE; push_cast; rfl

/-- The channel-step multiple test passes on an exact multiple. -/
theorem stepRemainder_multiple (k step : Nat) (hs : 0 < step) (hk : k < 4294967296) :
    stepRemainder (ofNat (k * step)) step = 0 := by
  unfold stepRemainder
  have e : div (ofNat (k * step)) (ofNat step) = ((k * 1000000000000 : Nat) : Int) := by
    rw [ofNat_eq_cast, ofNat_eq_cast, div_cast]
    refine congrArg Nat.cast ?_
    rw [Nat.mul_div_mul_right _ _ (by norm_num : 0 < 1000000000000),
      show k * step * 1000000000000 = (k * 1000000000000) * step by ring,
      Nat.mul_div_cancel _ hs]
  rw [e, toLong_cast, Nat.mul_div_cancel _ (by norm_num), u32_cast, Nat.mod_eq_of_lt hk,
    ofNat_eq_cast]
  exact sub_self _

/-- Without halving the reducer divides both values by their greatest common divisor. -/
theorem reduceFraction_small (Mod0 Frac0 : Nat) (h : 0 < Mod0)
    (hsmall : Mod0 / Nat.gcd Frac0 Mod0 ≤ 4095) :
    reduceFraction Mod0 Frac0
      = some (Mod0 / Nat.gcd Frac0 Mod0, Frac0 / Nat.gcd Frac0 Mod0) := by
  have hg : gcdLoop (Mod0 + Frac0 + 1) Mod0 Frac0 = some (Nat.gcd Frac0 Mod0) := by
    rw [gcdLoop_eq _ _ _ (by omega), Nat.gcd_comm]
  have hpos : 0 < Nat.gcd Frac0 Mod0 := Nat.gcd_pos_of_pos_right _ h
  unfold reduceFraction
  rw [hg]
  dsimp only
  rw [if_neg (by omega), if_neg (by omega)]

/-- On an exact multiple the recomputed frequency error is zero. -/
theorem finalFrequencyError_multiple (k m step o q r g MOD FRAC : Nat)
    (hko : k * o = q * m + r) (hM : MOD * g = m) (hF : FRAC * g = r) (hMOD : 0 < MOD)
    (ho : 0 < o) :
    finalFrequencyError (ofNat (m * step)) (ofNat (k * step)) o q FRAC MOD = 0 := by
  unfold finalFrequencyError
  dsimp only
  have e1 : mul (ofNat (m * step)) (ofNat q) = ((m * step * q * 1000000000000 : Nat) : Int) := by
    rw [ofNat_eq_cast, ofNat_eq_cast, mul_cast]
    refine congrArg Nat.cast ?_
    rw [show m * step * 1000000000000 * (q * 1000000000000)
        = m * step * q * 1000000000000 * 1000000000000 by ring]
    exact Nat.mul_div_cancel _ (by norm_num)
  have e2 : div (ofNat (m * step)) (ofNat MOD) = ((g * step * 1000000000000 : Nat) : Int) := by
    rw [ofNat_eq_cast, ofNat_eq_cast, div_cast]
    refine congrArg Nat.cast ?_
    rw [Nat.mul_div_mul_right _ _ (by norm_num : 0 < 1000000000000), ← hM,
      show MOD * g * step * 1000000000000 = MOD * (g * step * 1000000000000) by ring,
      Nat.mul_div_cancel_left _ hMOD]
  have e3 : mul (ofNat FRAC) ((g * step * 1000000000000 : Nat) : Int)
      = ((r * step * 1000000000000 : Nat) : Int) := by
    rw [ofNat_eq_cast, mul_cast]
    refine congrArg Nat.cast ?_
    rw [← hF, show FRAC * 1000000000000 * (g * step * 1000000000000)
        = FRAC * g * step * 1000000000000 * 1000000000000 by ring]
    exact Nat.mul_div_cancel _ (by norm_num)
  rw [e1, e2, e3, ← Nat.cast_add]
  have e4 : m * step * q * 1000000000000 + r * step * 1000000000000
      = k * step * 1000000000000 * o := by
    calc m * step * q * 1000000000000 + r * step * 1000000000000
        = (q * m + r) * step * 1000000000000 := by ring
      _ = k * o * step * 1000000000000 := by rw [hko]
      _ = k * step * 1000000000000 * o := by ring
  have e5 : div ((k * step * 1000000000000 * o : Nat) : Int) (ofNat o)
      = ((k * step * 1000000000000 : Nat) : Int) := by
    rw [ofNat_eq_cast, div_cast]
    refine congrArg Nat.cast ?_
    rw [Nat.mul_div_mul_right _ _ (by norm_num : 0 < 1000000000000)]
    exact Nat.mul_div_cancel _ ho
  rw [e4, e5, ofNat_eq_cast, sub_self, zero_add]
  decide
theorem BN_ADF4351_PFDFreq_whole (s : State) (pfd : Nat) (hT : ReadRDIV2 s = 0)
    (hD : ReadRefDoubler s = 0) (hR0 : 0 < ReadR s) (hpfd : s.ADF4351_reffreq = pfd * ReadR s) :
    BN_ADF4351_PFDFreq s = ofNat pfd := by
  rw [BN_ADF4351_PFDFreq_plain s hT hD, hpfd, ofNat_eq_cast]
  refine congrArg Nat.cast ?_
  rw [Nat.mul_div_mul_right _ _ (by norm_num : 0 < 1000000000000),
    show pfd * ReadR s * 1000000000000 = (pfd * 1000000000000) * ReadR s by ring,
    Nat.mul_div_cancel _ hR0]

theorem PFDFreq_whole (s : State) (pfd : Nat) (hT : ReadRDIV2 s = 0)
    (hD : ReadRefDoubler s = 0) (hR0 : 0 < ReadR s) (hpfd : s.ADF4351_reffreq = pfd * ReadR s)
    (h : pfd < 4294967296) : PFDFreq s = pfd := by
  unfold PFDFreq
  rw [BN_ADF4351_PFDFreq_whole s pfd hT hD hR0 hpfd, ofNat_eq_cast, toLong_cast, u32_cast,
    Nat.mul_div_cancel _ (by norm_num)]
  exact Nat.mod_eq_of_lt h

theorem encodeRegisters_reference (s1 : State) (Frac N Mod P PFD PL APL AFD sel : Nat) :
    ReadR (encodeRegisters s1 Frac N Mod P PFD PL APL AFD sel) = ReadR s1
    ∧ ReadRDIV2 (encodeRegisters s1 Frac N Mod P PFD PL APL AFD sel) = ReadRDIV2 s1
    ∧ ReadRefDoubler (encodeRegisters s1 Frac N Mod P PFD PL APL AFD sel) = ReadRefDoubler s1
    ∧ (encodeRegisters s1 Frac N Mod P PFD PL APL AFD sel).ADF4351_reffreq = s1.ADF4351_reffreq
    ∧ (encodeRegisters s1 Frac N Mod P PFD PL APL AFD sel).ADF4351_ChanStep
        = s1.ADF4351_ChanStep := by
  unfold ReadR ReadRDIV2 ReadRefDoubler encodeRegisters
  dsimp only
  refine ⟨?_, ?_, ?_, rfl, rfl⟩ <;> split_ifs <;>
    rw [ReadBF_WriteBF_above _ _ _ _ _ _ (by norm_num),
      ReadBF_WriteBF_above _ _ _ _ _ _ (by norm_num)]

theorem reportFrequencyError_fields (s2 : State) (freq : BigNumber) (FE : Int) (Prec : Bool)
    (Max : Nat) :
    (reportFrequencyError s2 freq FE Prec Max).state.ADF4351_reffreq = s2.ADF4351_reffreq
    ∧ (reportFrequencyError s2 freq FE Prec Max).state.ADF4351_ChanStep = s2.ADF4351_ChanStep := by
  unfold reportFrequencyError
  by_cases h : (Prec = true ∧ u32 (absError FE) > Max) ∨ (Prec = false ∧ absError FE ≠ 0)
  · rw [if_pos h]; exact ⟨rfl, rfl⟩
  · rw [if_neg h]; exact ⟨rfl, rfl⟩

/-- The reference path is the same before and after a committing call. -/
theorem committed_reference (s1 : State) (freq : BigNumber)
    (Frac N Mod P PFD PL APL AFD sel : Nat) (FE : Int) (Prec : Bool) (Max : Nat) :
    ReadR (reportFrequencyError (encodeRegisters s1 Frac N Mod P PFD PL APL AFD sel)
        freq FE Prec Max).state = ReadR s1
    ∧ ReadRDIV2 (reportFrequencyError (encodeRegisters s1 Frac N Mod P PFD PL APL AFD sel)
        freq FE Prec Max).state = ReadRDIV2 s1
    ∧ ReadRefDoubler (reportFrequencyError (encodeRegisters s1 Frac N Mod P PFD PL APL AFD sel)
        freq FE Prec Max).state = ReadRefDoubler s1
    ∧ (reportFrequencyError (encodeRegisters s1 Frac N Mod P PFD PL APL AFD sel)
        freq FE Prec Max).state.ADF4351_reffreq = s1.ADF4351_reffreq := by
  obtain ⟨_, _, r2, _, _, _⟩ := reportFrequencyError_regs
    (encodeRegisters s1 Frac N Mod P PFD PL APL AFD sel) freq FE Prec Max
  obtain ⟨f1, _⟩ := reportFrequencyError_fields
    (encodeRegisters s1 Frac N Mod P PFD PL APL AFD sel) freq FE Prec Max
  obtain ⟨e1, e2, e3, e4, _⟩ := encodeRegisters_reference s1 Frac N Mod P PFD PL APL AFD sel
  unfold ReadR ReadRDIV2 ReadRefDoubler at *
  rw [r2, f1]
  exact ⟨e1, e2, e3, e4⟩

theorem BN_ADF4351_PFDFreq_congr (s s' : State) (h1 : ReadR s' = ReadR s)
    (h2 : ReadRDIV2 s' = ReadRDIV2 s) (h3 : ReadRefDoubler s' = ReadRefDoubler s)
    (h4 : s'.ADF4351_reffreq = s.ADF4351_reffreq) :
    BN_ADF4351_PFDFreq s' = BN_ADF4351_PFDFreq s := by
  unfold BN_ADF4351_PFDFreq
  rw [h1, h2, h3, h4]

theorem ReadPFDfreq_congr (fl : ℚ → ℚ) (s s' : State) (h1 : ReadR s' = ReadR s)
    (h2 : ReadRDIV2 s' = ReadRDIV2 s) (h3 : ReadRefDoubler s' = ReadRefDoubler s)
    (h4 : s'.ADF4351_reffreq = s.ADF4351_reffreq) :
    ReadPFDfreq fl s' = ReadPFDfreq fl s := by
  unfold ReadPFDfreq
  rw [h1, h2, h3, h4]

/-- `ADF4351_N_Int` of the channel-step branch for a whole-Hz phase-detector frequency. -/
theorem channelStepN_whole (pfd f o : Nat) :
    channelStepN (ofNat pfd) (ofNat f) o = (f * o / pfd) % 4294967296 := by
  unfold channelStepN
  simp only [ofNat_eq_cast, mul_cast, div_cast, toLong_cast, u32_cast]
  refine congrArg (fun n => n % 4294967296) ?_
  have e1 : f * 1000000000000 * (o * 1000000000000) / 1000000000000
      = f * o * 1000000000000 := by
    rw [show f * 1000000000000 * (o * 1000000000000)
        = f * o * 1000000000000 * 1000000000000 by ring]
    exact Nat.mul_div_cancel _ (by norm_num)
  rw [e1, Nat.mul_div_mul_right _ _ (by norm_num : 0 < 1000000000000),
    Nat.div_div_eq_div_mul, Nat.mul_div_mul_right _ _ (by norm_num : 0 < 1000000000000)]

/-! ## Targets that are an integer multiple of the PFD -/

theorem ReadRDIV2_le_one (s : State) : ReadRDIV2 s ≤ 1 := by
  unfold ReadRDIV2 ReadBF_dword
  have := Nat.mod_lt (s.R2 / 2 ^ 24) (by norm_num : 0 < 2 ^ 1)
  omega

theorem ReadRefDoubler_le_one (s : State) : ReadRefDoubler s ≤ 1 := by
  unfold ReadRefDoubler ReadBF_dword
  have := Nat.mod_lt (s.R2 / 2 ^ 25) (by norm_num : 0 < 2 ^ 1)
  omega

/-- The phase-detector frequency computed by `setf`, as a natural number of `10^-12` Hz. -/
theorem BN_ADF4351_PFDFreq_cast (s : State) :
    BN_ADF4351_PFDFreq s
      = ((s.ADF4351_reffreq * (1 + ReadRefDoubler s) * (1000000000000 / (1 + ReadRDIV2 s))
          / ReadR s : Nat) : Int) := by
  unfold BN_ADF4351_PFDFreq
  rw [ofNat_eq_cast, ofNat_eq_cast, ofNat_eq_cast, ofNat_eq_cast, ofNat_eq_cast, mul_cast,
    mul_cast, div_cast, mul_cast, div_cast]
  refine congrArg Nat.cast ?_
  have e1 : 1 * 1000000000000 * ((1 + ReadRefDoubler s) * 1000000000000) / 1000000000000
      = (1 + ReadRefDoubler s) * 1000000000000 := by
    rw [Nat.one_mul, Nat.mul_comm 1000000000000, Nat.mul_div_cancel _ (by norm_num)]
  have e2 : s.ADF4351_reffreq * 1000000000000 * ((1 + ReadRefDoubler s) * 1000000000000)
      / 1000000000000 = s.ADF4351_reffreq * (1 + ReadRefDoubler s) * 1000000000000 := by
    rw [show s.ADF4351_reffreq * 1000000000000 * ((1 + ReadRefDoubler s) * 1000000000000)
        = s.ADF4351_reffreq * (1 + ReadRefDoubler s) * 1000000000000 * 1000000000000 by ring]
    exact Nat.mul_div_cancel _ (by norm_num)
  have e3 : 1 * 1000000000000 * 1000000000000 / ((1 + ReadRDIV2 s) * 1000000000000)
      = 1000000000000 / (1 + ReadRDIV2 s) := by
    rw [Nat.one_mul, Nat.mul_div_mul_right _ _ (by norm_num : 0 < 1000000000000)]
  rw [e1, e2, e3]
  have e4 : s.ADF4351_reffreq * (1 + ReadRefDoubler s) * 1000000000000
        * (1000000000000 / (1 + ReadRDIV2 s)) / 1000000000000
      = s.ADF4351_reffreq * (1 + ReadRefDoubler s) * (1000000000000 / (1 + ReadRDIV2 s)) := by
    rw [show s.ADF4351_reffreq * (1 + ReadRefDoubler s) * 1000000000000
          * (1000000000000 / (1 + ReadRDIV2 s))
        = s.ADF4351_reffreq * (1 + ReadRefDoubler s) * (1000000000000 / (1 + ReadRDIV2 s))
          * 1000000000000 by ring]
    exact Nat.mul_div_cancel _ (by norm_num)
  rw [e4, Nat.mul_div_mul_right _ _ (by norm_num : 0 < 1000000000000)]

/-- A phase-detector frequency that is a whole number of hertz is computed exactly. -/
theorem BN_ADF4351_PFDFreq_exact (s : State) (pfd : Nat) (hR0 : 0 < ReadR s)
    (hpfd : s.ADF4351_reffreq * (1 + ReadRefDoubler s) = pfd * (ReadR s * (1 + ReadRDIV2 s))) :
    BN_ADF4351_PFDFreq s = ofNat pfd := by
  rw [BN_ADF4351_PFDFreq_cast, hpfd, ofNat_eq_cast]
  refine congrArg Nat.cast ?_
  have hT := ReadRDIV2_le_one s
  have hT' : (1 + ReadRDIV2 s) * (1000000000000 / (1 + ReadRDIV2 s)) = 1000000000000 := by
    rcases Nat.lt_or_ge (ReadRDIV2 s) 1 with h | h
    · have : ReadRDIV2 s = 0 := by omega
      rw [this]
    · have : ReadRDIV2 s = 1 := by omega
      rw [this]
  rw [show pfd * (ReadR s * (1 + ReadRDIV2 s)) * (1000000000000 / (1 + ReadRDIV2 s))
      = pfd * ((1 + ReadRDIV2 s) * (1000000000000 / (1 + ReadRDIV2 s))) * ReadR s by ring, hT']
  exact Nat.mul_div_cancel _ hR0

/-- The precision branch on a target that is an exact integer multiple of the PFD: the
trial N is exact, the residual is zero and the search is not entered. -/
theorem precisionBranch_multiple (millis : Nat → Nat) (pfd f o k Max Timeout : Nat)
    (hp : 0 < pfd) (ho : o ∣ 64) (ho0 : 0 < o) (hmul : f * o = k * pfd)
    (hk : k < 4294967296) :
    precisionBranch millis (ofNat pfd) (ofNat f) o Max Timeout 0 = ⟨k, 2, 0, 0, false⟩ := by
  obtain ⟨c, hc⟩ := ho
  have hE : (1000000000000 : Nat) = o * (15625000000 * c) := by
    have : (1000000000000 : Nat) = 64 * 15625000000 := by norm_num
    rw [this, hc]; ring
  -- BN_ADF4351_N_Int
  have e1 : mul (div (ofNat f) (ofNat pfd)) (ofNat o) = ((k * 1000000000000 : Nat) : Int) := by
    rw [ofNat_eq_cast, ofNat_eq_cast, ofNat_eq_cast, div_cast, mul_cast]
    refine congrArg Nat.cast ?_
    have h1 : f * 1000000000000 * 1000000000000 / (pfd * 1000000000000)
        = k * (15625000000 * c) := by
      rw [Nat.mul_div_mul_right _ _ (by norm_num : 0 < 1000000000000)]
      have : f * 1000000000000 = pfd * (k * (15625000000 * c)) := by
        calc f * 1000000000000 = f * (o * (15625000000 * c)) := by rw [← hE]
          _ = (f * o) * (15625000000 * c) := by ring
          _ = pfd * (k * (15625000000 * c)) := by rw [hmul]; ring
      rw [this, Nat.mul_div_cancel_left _ hp]
    rw [h1, show k * (15625000000 * c) * (o * 1000000000000)
        = k * (o * (15625000000 * c)) * 1000000000000 by ring, ← hE]
    exact Nat.mul_div_cancel _ (by norm_num)
  have e2 : u32 (toLong ((k * 1000000000000 : Nat) : Int)) = k := by
    rw [toLong_cast, Nat.mul_div_cancel _ (by norm_num), u32_cast]
    exact Nat.mod_eq_of_lt hk
  have e3 : div (mul (ofNat pfd) (ofNat k)) (ofNat o) - ofNat f = 0 := by
    rw [ofNat_eq_cast, ofNat_eq_cast, ofNat_eq_cast, ofNat_eq_cast, mul_cast, div_cast]
    have : pfd * 1000000000000 * (k * 1000000000000) / 1000000000000 * 1000000000000
        / (o * 1000000000000) = f * 1000000000000 := by
      rw [show pfd * 1000000000000 * (k * 1000000000000)
          = (k * pfd) * 1000000000000 * 1000000000000 by ring, ← hmul,
        Nat.mul_div_cancel _ (by norm_num),
        Nat.mul_div_mul_right _ _ (by norm_num : 0 < 1000000000000),
        show f * o * 1000000000000 = (f * 1000000000000) * o by ring,
        Nat.mul_div_cancel _ ho0]
    rw [this]
    exact sub_self _
  have e4 : u32 (toLong (((k * 1000000000000 : Nat) : Int) + 244210000)) = k := by
    have : ((k * 1000000000000 : Nat) : Int) + 244210000
        = ((k * 1000000000000 + 244210000 : Nat) : Int) := by push_cast; rfl
    rw [this, toLong_cast, u32_cast]
    have : (k * 1000000000000 + 244210000) / 1000000000000 = k := by omega
    rw [this]
    exact Nat.mod_eq_of_lt hk
  unfold precisionBranch
  dsimp only
  rw [e1, e2, e3, e4]
  have h0 : ¬((0 : Int) < 0) := by decide
  have hz : i32 (toLong 0) = 0 := by decide
  have hu : ¬(u32 0 > Max) := by
    have : u32 0 = 0 := by decide
    rw [this]; omega
  rw [if_neg h0, if_pos rfl, hz, if_neg hu]
theorem channelStepFrac0_zero (pfd f o k step : Nat) (hp : 0 < pfd) (ho0 : 0 < o)
    (hmul : f * o = k * pfd) (hk : k < 4294967296) :
    channelStepFrac0 (ofNat pfd) (ofNat f) o step = 0 := by
  have e1 : div (mul (ofNat f) (ofNat o)) (ofNat pfd) = ((k * 1000000000000 : Nat) : Int) := by
    rw [ofNat_eq_cast, ofNat_eq_cast, ofNat_eq_cast, mul_cast, div_cast]
    refine congrArg Nat.cast ?_
    rw [show f * 1000000000000 * (o * 1000000000000)
        = (f * o) * 1000000000000 * 1000000000000 by ring, hmul,
      Nat.mul_div_cancel _ (by norm_num),
      Nat.mul_div_mul_right _ _ (by norm_num : 0 < 1000000000000),
      show k * pfd * 1000000000000 = (k * 1000000000000) * pfd by ring,
      Nat.mul_div_cancel _ hp]
  have e2 : u32 (toLong ((k * 1000000000000 : Nat) : Int)) = k := by
    rw [toLong_cast, Nat.mul_div_cancel _ (by norm_num), u32_cast]
    exact Nat.mod_eq_of_lt hk
  unfold channelStepFrac0
  dsimp only
  rw [e1, e2, ofNat_eq_cast k, sub_self]
  have e3 : ∀ x : BigNumber, mul 0 x = 0 := by
    intro x; unfold mul; simp
  have hH : (0 : Int) + HALF = ((500000000000 : Nat) : Int) := by unfold HALF; norm_num
  rw [e3, hH, ofNat_eq_cast, div_cast, toLong_cast, u32_cast,
    Nat.mul_div_mul_right _ _ (by norm_num : 0 < 1000000000000), Nat.div_div_eq_div_mul]
  have : 500000000000 / (o * 1000000000000) = 0 := by
    apply Nat.div_eq_of_lt
    calc 500000000000 < 1 * 1000000000000 := by norm_num
      _ ≤ o * 1000000000000 := Nat.mul_le_mul_right _ ho0
  rw [this]

theorem reduceFraction_zero (Mod0 : Nat) (M F : Nat)
    (h : reduceFraction Mod0 0 = some (M, F)) : M = 1 ∧ F = 0 := by
  unfold reduceFraction at h
  rw [gcdLoop_eq _ _ _ (by omega), Nat.gcd_zero_right] at h
  dsimp only at h
  by_cases h0 : Mod0 = 0
  · rw [if_pos h0] at h; cases h
  · rw [if_neg h0, Nat.div_self (by omega), Nat.zero_div, if_neg (by decide)] at h
    cases h
    exact ⟨rfl, rfl⟩

/-- Both branches on a target that is an exact integer multiple of the PFD: N is the
multiple and FRAC is zero. -/
theorem decompose_multiple (millis : Nat → Nat) (pfd f k step : Nat) (Prec : Bool)
    (Max Timeout : Nat) (b : Decomposition)
    (hp : 0 < pfd) (hf : 34375000 ≤ f)
    (hmul : f * (selectOutputDivider (ofNat f)).1 = k * pfd) (hk : k < 4294967296)
    (hb : decompose millis (ofNat pfd) step (ofNat f) Prec Max Timeout = some b) :
    b.ADF4351_N_Int = k ∧ b.ADF4351_Frac = 0 := by
  obtain ⟨hod, ho0⟩ := outdiv_dvd f hf
  unfold decompose at hb
  by_cases hP : Prec = true
  · rw [if_pos hP, precisionBranch_multiple millis pfd f _ k Max Timeout hp hod ho0 hmul hk] at hb
    cases hb
    exact ⟨rfl, rfl⟩
  · rw [if_neg hP] at hb
    unfold channelStepBranch at hb
    rw [channelStepFrac0_zero pfd f _ k step hp ho0 hmul hk] at hb
    split at hb
    · cases hb
    · rename_i M F hred
      cases hb
      obtain ⟨_, hF⟩ := reduceFraction_zero _ M F hred
      refine ⟨?_, hF⟩
      dsimp only
      rw [channelStepN_whole, hmul, Nat.mul_div_cancel _ hp]
      exact Nat.mod_eq_of_lt hk

/-! ## Bounds on N and on the phase-detector frequency -/

/-- The whole-Hz part of the phase-detector frequency. -/
theorem toLong_BN_ADF4351_PFDFreq (s : State) :
    toLong (BN_ADF4351_PFDFreq s)
      = ((s.ADF4351_reffreq * (1 + ReadRefDoubler s) / (ReadR s * (1 + ReadRDIV2 s)) : Nat)
          : Int) := by
  rw [BN_ADF4351_PFDFreq_cast, toLong_cast]
  refine congrArg Nat.cast ?_
  rw [Nat.div_div_eq_div_mul]
  have hT := ReadRDIV2_le_one s
  rcases Nat.lt_or_ge (ReadRDIV2 s) 1 with h | h
  · have : ReadRDIV2 s = 0 := by omega
    rw [this]
    norm_num
    rw [Nat.mul_div_mul_right _ _ (by norm_num : 0 < 1000000000000)]
  · have : ReadRDIV2 s = 1 := by omega
    rw [this]
    norm_num
    rw [show ReadR s * 1000000000000 = (ReadR s * 2) * 500000000000 by ring,
      Nat.mul_div_mul_right _ _ (by norm_num : 0 < 500000000000)]

/-- Without rounding `ReadPFDfreq` is `reffreq * (1 + doubler) / (R * (1 + half))`. -/
theorem ReadPFDfreq_eq (s : State) (hR : ReadR s ≠ 0) :
    ReadPFDfreq id s = ((s.ADF4351_reffreq * (1 + ReadRefDoubler s) : Nat) : ℚ)
      / ((ReadR s * (1 + ReadRDIV2 s) : Nat) : ℚ) := by
  have hT := ReadRDIV2_le_one s
  have hD := ReadRefDoubler_le_one s
  have hR' : (ReadR s : ℚ) ≠ 0 := by exact_mod_cast hR
  unfold ReadPFDfreq
  simp only [hR, if_false]
  rcases Nat.lt_or_ge (ReadRDIV2 s) 1 with h | h
  · have hT0 : ReadRDIV2 s = 0 := by omega
    rcases Nat.lt_or_ge (ReadRefDoubler s) 1 with h' | h'
    · have hD0 : ReadRefDoubler s = 0 := by omega
      simp [hT0, hD0]
    · have hD1 : ReadRefDoubler s = 1 := by omega
      simp [hT0, hD1]
      field_simp
  · have hT1 : ReadRDIV2 s = 1 := by omega
    rcases Nat.lt_or_ge (ReadRefDoubler s) 1 with h' | h'
    · have hD0 : ReadRefDoubler s = 0 := by omega
      simp [hT1, hD0]
      field_simp
    · have hD1 : ReadRefDoubler s = 1 := by omega
      simp [hT1, hD1]
      field_simp
      ring

/-- Rounding a non-negative number gives a non-negative number. -/
theorem roundBinary_nonneg (prec : Nat) (hprec : 1 ≤ prec) (x : ℚ) (hx : 0 ≤ x) :
    0 ≤ roundBinary prec x := by
  rcases eq_or_lt_of_le hx with h0 | hpos
  · rw [← h0, (roundBinary_eq_zero_iff prec hprec 0).mpr rfl]
  · exact le_of_lt (roundBinary_pos prec hprec x hpos)

/-- With a reference frequency that the format represents (below `2^prec`), `ReadPFDfreq()`
returns the exact phase-detector frequency rounded once: the division by R is the only
operation that rounds, the halving and the doubling are exact. -/
theorem ReadPFDfreq_roundBinary (prec : Nat) (hprec : 1 ≤ prec) (s : State)
    (hf : s.ADF4351_reffreq < 2 ^ prec) :
    ReadPFDfreq (roundBinary prec) s = roundBinary prec (ReadPFDfreq id s) := by
  unfold ReadPFDfreq
  by_cases hR : ReadR s = 0
  · simp only [hR, if_true]
    exact ((roundBinary_eq_zero_iff prec hprec 0).mpr rfl).symm
  · simp only [hR, if_false, id]
    rw [roundBinary_natCast prec _ hf]
    have hq : (0 : ℚ) ≤ (s.ADF4351_reffreq : ℚ) / (ReadR s : ℚ) :=
      div_nonneg (Nat.cast_nonneg _) (Nat.cast_nonneg _)
    generalize (s.ADF4351_reffreq : ℚ) / (ReadR s : ℚ) = q at hq
    have hv := roundBinary_nonneg prec hprec q hq
    have hi := roundBinary_idem prec hprec q hq
    by_cases hT : ReadRDIV2 s ≠ 0
    · rw [if_pos hT, if_pos hT]
      have e1 : roundBinary prec (roundBinary prec q / 2) = roundBinary prec q / 2 := by
        rw [roundBinary_div_two prec _ hv, hi]
      rw [e1]
      by_cases hD : ReadRefDoubler s ≠ 0
      · rw [if_pos hD, if_pos hD, div_mul_cancel₀ _ (by norm_num : (2 : ℚ) ≠ 0),
          div_mul_cancel₀ _ (by norm_num : (2 : ℚ) ≠ 0), hi]
      · rw [if_neg hD, if_neg hD, roundBinary_div_two prec _ hq]
    · rw [if_neg hT, if_neg hT]
      by_cases hD : ReadRefDoubler s ≠ 0
      · rw [if_pos hD, if_pos hD, roundBinary_mul_two prec _ hv, hi,
          roundBinary_mul_two prec _ hq]
      · rw [if_neg hD, if_neg hD]

/-- In binary64 arithmetic `ReadPFDfreq()` returns 10 MHz on the power-on state. -/
theorem ReadPFDfreq_binary64_powerOn : ReadPFDfreq (roundBinary 53) powerOn = 10000000 := by
  rw [ReadPFDfreq_roundBinary 53 (by norm_num) powerOn (by decide), ReadPFDfreq_powerOn]
  exact roundBinary_natCast 53 10000000 (by norm_num)

theorem rat_div_lt_floor_succ (a b : Nat) (hb : 0 < b) : (a : ℚ) / (b : ℚ) < ((a / b : Nat) : ℚ) + 1 := by
  have hb' : (0 : ℚ) < (b : ℚ) := by exact_mod_cast hb
  rw [div_lt_iff₀ hb']
  have h : a < (a / b + 1) * b := by
    have := Nat.div_add_mod a b
    have := Nat.mod_lt a hb
    rw [Nat.add_mul, Nat.one_mul, Nat.mul_comm]
    omega
  exact_mod_cast h

/-- The trial N of the precision branch is at most `target * divider / PFD`. -/
theorem precision_trialN_le (p f o : Nat) (hp : 0 < p) :
    u32 (toLong (mul (div (ofNat f) (p : Int)) (ofNat o)))
      ≤ f * o * 1000000000000 / p := by
  rw [ofNat_eq_cast, ofNat_eq_cast, div_cast, mul_cast, toLong_cast, u32_cast]
  refine le_trans (Nat.mod_le _ _) ?_
  have e1 : f * 1000000000000 * 1000000000000 / p * (o * 1000000000000) / 1000000000000
      = f * 1000000000000 * 1000000000000 / p * o := by
    rw [show f * 1000000000000 * 1000000000000 / p * (o * 1000000000000)
        = f * 1000000000000 * 1000000000000 / p * o * 1000000000000 by ring]
    exact Nat.mul_div_cancel _ (by norm_num)
  rw [e1, Nat.le_div_iff_mul_le hp]
  have h1 : f * 1000000000000 * 1000000000000 / p * o / 1000000000000 * 1000000000000
      ≤ f * 1000000000000 * 1000000000000 / p * o := Nat.div_mul_le_self _ _
  have h2 : f * 1000000000000 * 1000000000000 / p * p ≤ f * 1000000000000 * 1000000000000 :=
    Nat.div_mul_le_self _ _
  have h3 : f * 1000000000000 * 1000000000000 / p * o / 1000000000000 * 1000000000000 * p
      ≤ f * 1000000000000 * 1000000000000 / p * o * p := Nat.mul_le_mul_right _ h1
  have h4 : f * 1000000000000 * 1000000000000 / p * o * p
      = (f * 1000000000000 * 1000000000000 / p * p) * o := by ring
  have h5 : (f * 1000000000000 * 1000000000000 / p * p) * o
      ≤ f * 1000000000000 * 1000000000000 * o := Nat.mul_le_mul_right _ h2
  have h6 : f * 1000000000000 * 1000000000000 / p * o / 1000000000000 * p * 1000000000000
      ≤ f * o * 1000000000000 * 1000000000000 := by
    calc f * 1000000000000 * 1000000000000 / p * o / 1000000000000 * p * 1000000000000
        = f * 1000000000000 * 1000000000000 / p * o / 1000000000000 * 1000000000000 * p := by
          ring
      _ ≤ f * 1000000000000 * 1000000000000 / p * o * p := h3
      _ = (f * 1000000000000 * 1000000000000 / p * p) * o := h4
      _ ≤ f * 1000000000000 * 1000000000000 * o := h5
      _ = f * o * 1000000000000 * 1000000000000 := by ring
  exact Nat.le_of_mul_le_mul_right h6 (by norm_num)

/-- The N of the channel-step branch is at most `target * divider / PFD`. -/
theorem channelStepN_le (p f o : Nat) :
    channelStepN (p : Int) (ofNat f) o ≤ f * o * 1000000000000 / p := by
  unfold channelStepN
  rw [ofNat_eq_cast, ofNat_eq_cast, mul_cast, div_cast, toLong_cast, u32_cast]
  refine le_trans (Nat.mod_le _ _) ?_
  have e1 : f * 1000000000000 * (o * 1000000000000) / 1000000000000
      = f * o * 1000000000000 := by
    rw [show f * 1000000000000 * (o * 1000000000000)
        = f * o * 1000000000000 * 1000000000000 by ring]
    exact Nat.mul_div_cancel _ (by norm_num)
  rw [e1, Nat.div_div_eq_div_mul, Nat.mul_comm p, ← Nat.div_div_eq_div_mul,
    Nat.mul_div_cancel _ (by norm_num)]

/-- The N returned by the precision branch is the trial N or its successor. -/
theorem precisionBranch_N (millis : Nat → Nat) (P freq : BigNumber) (o Max Timeout : Nat) :
    (precisionBranch millis P freq o Max Timeout 0).ADF4351_N_Int
        = u32 (toLong (mul (div freq P) (ofNat o)))
    ∨ (precisionBranch millis P freq o Max Timeout 0).ADF4351_N_Int
        = u32 ((u32 (toLong (mul (div freq P) (ofNat o))) : Int) + 1) := by
  unfold precisionBranch
  dsimp only
  split_ifs <;> first | exact Or.inl rfl | exact Or.inr rfl

/-- In both branches N is at most `target * divider / PFD + 1`. -/
theorem decompose_N_le (millis : Nat → Nat) (p step f : Nat) (Prec : Bool) (Max Timeout : Nat)
    (b : Decomposition) (hp : 0 < p)
    (hb : decompose millis (p : Int) step (ofNat f) Prec Max Timeout = some b) :
    b.ADF4351_N_Int
      ≤ f * (selectOutputDivider (ofNat f)).1 * 1000000000000 / p + 1 := by
  unfold decompose at hb
  by_cases hP : Prec = true
  · rw [if_pos hP] at hb
    have hb' := Option.some.inj hb
    have hle := precision_trialN_le p f (selectOutputDivider (ofNat f)).1 hp
    rcases precisionBranch_N millis (p : Int) (ofNat f) (selectOutputDivider (ofNat f)).1 Max
      Timeout with h | h
    · rw [← hb', h]; omega
    · rw [← hb', h, ← Nat.cast_one, ← Nat.cast_add, u32_cast]
      exact le_trans (Nat.mod_le _ _) (by omega)
  · rw [if_neg hP] at hb
    unfold channelStepBranch at hb
    split at hb
    · cases hb
    · cases hb
      dsimp only
      exact le_trans (channelStepN_le p f _) (by omega)

/-- A committing call implies a phase-detector frequency below `2^32` Hz: above that the
computed N is at most 2 and the N range check fails. -/
theorem committed_pfd_small (millis : Nat → Nat) (s : State) (f : Nat) (Prec : Bool)
    (Max Timeout : Nat) (b : Decomposition) (Mod' P PFD : Nat)
    (hf1 : 34375000 ≤ f) (hf2 : f ≤ 4400000000)
    (hb : decompose millis (BN_ADF4351_PFDFreq s) s.ADF4351_ChanStep (ofNat f) Prec Max Timeout
      = some b)
    (hP : P ≤ 1) (hc : ChecksPass b.ADF4351_Frac b.ADF4351_N_Int Mod' P PFD) :
    s.ADF4351_reffreq * (1 + ReadRefDoubler s) / (ReadR s * (1 + ReadRDIV2 s)) < 4294967296 := by
  by_contra hbig
  have hbig' : 4294967296
      ≤ s.ADF4351_reffreq * (1 + ReadRefDoubler s) / (ReadR s * (1 + ReadRDIV2 s)) := by omega
  have hfl := toLong_BN_ADF4351_PFDFreq s
  rw [BN_ADF4351_PFDFreq_cast] at hb hfl
  rw [toLong_cast] at hfl
  have hfl' := Int.ofNat.inj hfl
  generalize s.ADF4351_reffreq * (1 + ReadRefDoubler s) * (1000000000000 / (1 + ReadRDIV2 s))
    / ReadR s = p at hb hfl'
  rw [← hfl'] at hbig'
  have hp : 4294967296 * 1000000000000 ≤ p := by
    have := Nat.div_mul_le_self p 1000000000000
    omega
  have hN := decompose_N_le millis p _ f Prec Max Timeout b (by omega) hb
  obtain ⟨_, hv⟩ := vco_band f hf1 hf2
  have hq : f * (selectOutputDivider (ofNat f)).1 * 1000000000000 / p ≤ 1 := by
    calc f * (selectOutputDivider (ofNat f)).1 * 1000000000000 / p
        ≤ 4400000000 * 1000000000000 / p :=
          Nat.div_le_div_right (Nat.mul_le_mul_right _ hv)
      _ ≤ 4400000000 * 1000000000000 / (4294967296 * 1000000000000) :=
          Nat.div_le_div_left hp (by norm_num)
      _ = 1 := by norm_num
  obtain ⟨_, _, c3, c4, _⟩ := hc
  rcases Nat.lt_or_ge P 1 with h | h
  · exact c3 ⟨by omega, Or.inl (by omega)⟩
  · exact c4 ⟨by omega, Or.inl (by omega)⟩

/-! ## Rounding and the loop-frequency check of `setrf` -/

/-- A `setrf` call that passes its five checks stores `f`, the ten bits of `r` and the two
reference bits. -/
theorem setrf_accept (fl : ℚ → ℚ) (s : State) (f r t : Nat)
    (h1 : ¬(r > 1023 ∨ r < 1)) (h2 : ¬(f < ADF4351_REFIN_MIN ∨ f > ADF4351_REFIN_MAX))
    (h3 : ¬(t ≠ ADF4351_REF_UNDIVIDED ∧ t ≠ ADF4351_REF_HALF ∧ t ≠ ADF4351_REF_DOUBLE))
    (h4 : ¬(f > 30000000 ∧ t = ADF4351_REF_DOUBLE))
    (h5 : ¬(loopFrequency fl f r t > (ADF4351_PFD_MAX : ℚ)
        ∨ loopFrequency fl f r t < (ADF4351_PFD_MIN : ℚ))) :
    setrf fl s f r t
      = (ADF4351_ERROR_NONE, { s with
          ADF4351_reffreq := f
          R2 := if t = ADF4351_REF_DOUBLE then WriteBF_dword 24 2 (WriteBF_dword 14 10 s.R2 r) 2
            else if t = ADF4351_REF_HALF then WriteBF_dword 24 2 (WriteBF_dword 14 10 s.R2 r) 1
            else WriteBF_dword 24 2 (WriteBF_dword 14 10 s.R2 r) 0 }) := by
  unfold loopFrequency at h5
  unfold setrf
  rw [if_neg h1, if_neg h2, if_neg h3, if_neg h4]
  dsimp only
  rw [if_neg h5]

/-- A `setrf` call that passes the first four checks and whose loop frequency is out of
range returns `ADF4351_ERROR_PFD_LIMITS` and leaves the state as it was. -/
theorem setrf_reject (fl : ℚ → ℚ) (s : State) (f r t : Nat)
    (h1 : ¬(r > 1023 ∨ r < 1)) (h2 : ¬(f < ADF4351_REFIN_MIN ∨ f > ADF4351_REFIN_MAX))
    (h3 : ¬(t ≠ ADF4351_REF_UNDIVIDED ∧ t ≠ ADF4351_REF_HALF ∧ t ≠ ADF4351_REF_DOUBLE))
    (h4 : ¬(f > 30000000 ∧ t = ADF4351_REF_DOUBLE))
    (h5 : loopFrequency fl f r t > (ADF4351_PFD_MAX : ℚ)
        ∨ loopFrequency fl f r t < (ADF4351_PFD_MIN : ℚ)) :
    setrf fl s f r t = (ADF4351_ERROR_PFD_LIMITS, s) := by
  unfold loopFrequency at h5
  unfold setrf
  rw [if_neg h1, if_neg h2, if_neg h3, if_neg h4]
  dsimp only
  rw [if_pos h5]

/-- The loop frequency of `setrf(64000001, 1, ADF4351_REF_HALF)` in binary64 arithmetic. -/
theorem loopFrequency_halfHertz :
    loopFrequency (roundBinary 53) 64000001 1 ADF4351_REF_HALF
      = 64000001 / 2 := by
  have h0 : ∀ x : ℚ, x = 64000001 → roundBinary 53 x = 64000001 := by
    intro x hx
    rw [hx]
    exact roundBinary_at 53 64000001 25 8589934726217728 (1 / 134217728) 64000001 (by norm_num)
      (by norm_num) (by norm_num) (by norm_num) (by rw [abs_lt]; constructor <;> norm_num)
      (by norm_num)
  have h1 : ∀ x : ℚ, x = 1 / 2 → roundBinary 53 x = 1 / 2 := by
    intro x hx
    rw [hx]
    exact roundBinary_at 53 (1 / 2) (-1) 4503599627370496 (1 / 9007199254740992) (1 / 2)
      (by norm_num)
      (by norm_num) (by norm_num) (by norm_num) (by rw [abs_lt]; constructor <;> norm_num)
      (by norm_num)
  have h2 : ∀ x : ℚ, x = 64000001 / 2 → roundBinary 53 x = 64000001 / 2 := by
    intro x hx
    rw [hx]
    exact roundBinary_at 53 (64000001 / 2) 24 8589934726217728 (1 / 268435456) (64000001 / 2)
      (by norm_num)
      (by norm_num) (by norm_num) (by norm_num) (by rw [abs_lt]; constructor <;> norm_num)
      (by norm_num)
  unfold loopFrequency
  rw [if_pos rfl]
  have e0 := h0 ((64000001 : Nat) : ℚ) (by norm_num)
  have e1 := h1 (1 / 2 / ((1 : Nat) : ℚ)) (by norm_num)
  rw [e0, e1]
  exact h2 _ (by norm_num)

/-- The loop frequency of `setrf(10000000, 2, ADF4351_REF_UNDIVIDED)` in binary64 arithmetic. -/
theorem loopFrequency_divided :
    loopFrequency (roundBinary 53) 10000000 2 ADF4351_REF_UNDIVIDED
      = 5000000 := by
  have h0 : ∀ x : ℚ, x = 10000000 → roundBinary 53 x = 10000000 := by
    intro x hx
    rw [hx]
    exact roundBinary_at 53 10000000 23 5368709120000000 (1 / 536870912) 10000000 (by norm_num)
      (by norm_num) (by norm_num) (by norm_num) (by rw [abs_lt]; constructor <;> norm_num)
      (by norm_num)
  have h1 : ∀ x : ℚ, x = 1 / 2 → roundBinary 53 x = 1 / 2 := by
    intro x hx
    rw [hx]
    exact roundBinary_at 53 (1 / 2) (-1) 4503599627370496 (1 / 9007199254740992) (1 / 2)
      (by norm_num)
      (by norm_num) (by norm_num) (by norm_num) (by rw [abs_lt]; constructor <;> norm_num)
      (by norm_num)
  have h2 : ∀ x : ℚ, x = 5000000 → roundBinary 53 x = 5000000 := by
    intro x hx
    rw [hx]
    exact roundBinary_at 53 5000000 22 5368709120000000 (1 / 1073741824) 5000000 (by norm_num)
      (by norm_num) (by norm_num) (by norm_num) (by rw [abs_lt]; constructor <;> norm_num)
      (by norm_num)
  unfold loopFrequency
  rw [if_neg (by decide), if_neg (by decide)]
  have e0 := h0 ((10000000 : Nat) : ℚ) (by norm_num)
  have e1 := h1 (1 / ((2 : Nat) : ℚ)) (by norm_num)
  rw [e0, e1]
  exact h2 _ (by norm_num)

/-- The loop frequency of `setrf(26014497, 1, ADF4351_REF_UNDIVIDED)` in binary64 arithmetic. -/
theorem loopFrequency_edge :
    loopFrequency (roundBinary 53) 26014497 1 ADF4351_REF_UNDIVIDED
      = 26014497 := by
  have h0 : ∀ x : ℚ, x = 26014497 → roundBinary 53 x = 26014497 := by
    intro x hx
    rw [hx]
    exact roundBinary_at 53 26014497 24 6983213364805632 (1 / 268435456) 26014497 (by norm_num)
      (by norm_num) (by norm_num) (by norm_num) (by rw [abs_lt]; constructor <;> norm_num)
      (by norm_num)
  have h1 : ∀ x : ℚ, x = 1 → roundBinary 53 x = 1 := by
    intro x hx
    rw [hx]
    exact roundBinary_at 53 1 0 4503599627370496 (1 / 4503599627370496) 1 (by norm_num)
      (by norm_num) (by norm_num) (by norm_num) (by rw [abs_lt]; constructor <;> norm_num)
      (by norm_num)
  have h2 : ∀ x : ℚ, x = 26014497 → roundBinary 53 x = 26014497 := by
    intro x hx
    rw [hx]
    exact roundBinary_at 53 26014497 24 6983213364805632 (1 / 268435456) 26014497 (by norm_num)
      (by norm_num) (by norm_num) (by norm_num) (by rw [abs_lt]; constructor <;> norm_num)
      (by norm_num)
  unfold loopFrequency
  rw [if_neg (by decide), if_neg (by decide)]
  have e0 := h0 ((26014497 : Nat) : ℚ) (by norm_num)
  have e1 := h1 (1 / ((1 : Nat) : ℚ)) (by norm_num)
  rw [e0, e1]
  exact h2 _ (by norm_num)

/-- The loop frequency of `setrf(13375000, 107, ADF4351_REF_UNDIVIDED)` in binary64 arithmetic:
1/107 rounds down and the product rounds to the double just below 125,000,
124,999.99999999998544808477163314819335937500. -/
theorem loopFrequency_boundary :
    loopFrequency (roundBinary 53) 13375000 107 ADF4351_REF_UNDIVIDED
      = 8589934591999999 / 68719476736 := by
  have h0 : ∀ x : ℚ, x = 13375000 → roundBinary 53 x = 13375000 := by
    intro x hx
    rw [hx]
    exact roundBinary_at 53 13375000 23 7180648448000000 (1 / 536870912) 13375000 (by norm_num)
      (by norm_num) (by norm_num) (by norm_num) (by rw [abs_lt]; constructor <;> norm_num)
      (by norm_num)
  have h1 : ∀ x : ℚ, x = 1 / 107 → roundBinary 53 x = 5387483666387135 / 576460752303423488 := by
    intro x hx
    rw [hx]
    exact roundBinary_at 53 (1 / 107) (-7) 5387483666387135 (1 / 576460752303423488)
      (5387483666387135 / 576460752303423488) (by norm_num)
      (by norm_num) (by norm_num) (by norm_num) (by rw [abs_lt]; constructor <;> norm_num)
      (by norm_num)
  have h2 : ∀ x : ℚ, x = 9007199254740991328125 / 72057594037927936 → roundBinary 53 x = 8589934591999999 / 68719476736 := by
    intro x hx
    rw [hx]
    exact roundBinary_at 53 (9007199254740991328125 / 72057594037927936) 16 8589934591999999
      (1 / 68719476736) (8589934591999999 / 68719476736) (by norm_num)
      (by norm_num) (by norm_num) (by norm_num) (by rw [abs_lt]; constructor <;> norm_num)
      (by norm_num)
  unfold loopFrequency
  rw [if_neg (by decide), if_neg (by decide)]
  have e0 := h0 ((13375000 : Nat) : ℚ) (by norm_num)
  have e1 := h1 (1 / ((107 : Nat) : ℚ)) (by norm_num)
  rw [e0, e1]
  exact h2 _ (by norm_num)

/-- The loop frequency of `setrf(13375000, 107, ADF4351_REF_UNDIVIDED)` where `double` is a
32-bit float: 124,999.9921875. -/
theorem loopFrequency_boundary_single :
    loopFrequency (roundBinary 24) 13375000 107 ADF4351_REF_UNDIVIDED
      = 15999999 / 128 := by
  have h0 : ∀ x : ℚ, x = 13375000 → roundBinary 24 x = 13375000 := by
    intro x hx
    rw [hx]
    exact roundBinary_at 24 13375000 23 13375000 1 13375000 (by norm_num)
      (by norm_num) (by norm_num) (by norm_num) (by rw [abs_lt]; constructor <;> norm_num)
      (by norm_num)
  have h1 : ∀ x : ℚ, x = 1 / 107 → roundBinary 24 x = 5017485 / 536870912 := by
    intro x hx
    rw [hx]
    exact roundBinary_at 24 (1 / 107) (-7) 10034970 (1 / 1073741824) (5017485 / 536870912)
      (by norm_num)
      (by norm_num) (by norm_num) (by norm_num) (by rw [abs_lt]; constructor <;> norm_num)
      (by norm_num)
  have h2 : ∀ x : ℚ, x = 8388607734375 / 67108864 → roundBinary 24 x = 15999999 / 128 := by
    intro x hx
    rw [hx]
    exact roundBinary_at 24 (8388607734375 / 67108864) 16 15999999 (1 / 128) (15999999 / 128)
      (by norm_num)
      (by norm_num) (by norm_num) (by norm_num) (by rw [abs_lt]; constructor <;> norm_num)
      (by norm_num)
  unfold loopFrequency
  rw [if_neg (by decide), if_neg (by decide)]
  have e0 := h0 ((13375000 : Nat) : ℚ) (by norm_num)
  have e1 := h1 (1 / ((107 : Nat) : ℚ)) (by norm_num)
  rw [e0, e1]
  exact h2 _ (by norm_num)

theorem setrf_halfHertz :
    setrf (roundBinary 53) powerOn 64000001 1 ADF4351_REF_HALF
      = (ADF4351_ERROR_NONE, halfHertzState) := by
  rw [setrf_accept _ _ _ _ _ (by decide) (by decide) (by decide) (by decide) (by
    rw [loopFrequency_halfHertz]
    norm_num [ADF4351_PFD_MAX, ADF4351_PFD_MIN])]
  decide

theorem setf_halfHertz :
    setf (roundBinary 53) stoppedClock halfHertzState (ofNat 2256000035) 1 0 0 true 1 0
      = some ⟨ADF4351_ERROR_NONE, halfHertzPlan, ofNat 2256000035⟩ := by
  rw [setf_of_valid _ binary64_zero _ _ _ _ _ _ _ _ _ (by decide) (by decide) (by decide)
      (by decide)
    (by decide) (by decide) (by decide) (by decide) (by decide)]
  decide

theorem setf_fractionalTarget :
    setf (roundBinary 53) stoppedClock powerOn (ofNat 3600000000 + HALF) 1 0 0 true 0 0
      = some ⟨ADF4351_ERROR_NONE, fractionalTargetPlan, ofNat 3600000000⟩ := by
  rw [setf_of_valid _ binary64_zero _ _ _ _ _ _ _ _ _ (by decide) (by decide) (by decide)
      (by decide)
    (by decide) (by decide) (by decide) (by decide) (by decide)]
  decide

/-! ## The reference path -/

/-- The loop frequency `newfreq` checked by `setrf` is, before any rounding, the requested
phase-detector frequency. -/
theorem setrf_newfreq (f r t : Nat) :
    (f : ℚ) * ((if t = ADF4351_REF_HALF then (1 : ℚ) / 2
        else if t = ADF4351_REF_DOUBLE then 1 * 2 else 1) / (r : ℚ))
      = requestedPFD f r t := by
  unfold requestedPFD ADF4351_REF_HALF ADF4351_REF_DOUBLE
  by_cases h1 : t = 1
  · subst h1
    rw [if_pos rfl, if_neg (by decide), if_pos rfl]
    by_cases hr : (r : ℚ) = 0
    · rw [hr]; simp
    · field_simp
      left; ring
  · rw [if_neg h1, if_neg h1]
    by_cases h2 : t = 2
    · rw [if_pos h2, if_pos h2]
      by_cases hr : (r : ℚ) = 0
      · rw [hr]; simp
      · field_simp
        left; norm_num
    · rw [if_neg h2, if_neg h2]
      by_cases hr : (r : ℚ) = 0
      · rw [hr]; simp
      · field_simp

/-- With exact arithmetic the loop frequency is the requested phase-detector frequency. -/
theorem loopFrequency_exact (f r t : Nat) : loopFrequency id f r t = requestedPFD f r t := by
  unfold loopFrequency
  simp only [id]
  exact setrf_newfreq f r t

/-- The return code of `setrf`, by precedence of its checks, and the state it leaves. -/
theorem setrf_code (fl : ℚ → ℚ) (s : State) (f r t : Nat) :
    (setrf fl s f r t).1
      = (if r > 1023 ∨ r < 1 then ADF4351_ERROR_R_RANGE
        else if f < ADF4351_REFIN_MIN ∨ f > ADF4351_REFIN_MAX then ADF4351_ERROR_REF_FREQUENCY
        else if t ≠ ADF4351_REF_UNDIVIDED ∧ t ≠ ADF4351_REF_HALF ∧ t ≠ ADF4351_REF_DOUBLE then
          ADF4351_ERROR_REF_MULTIPLIER_TYPE
        else if f > 30000000 ∧ t = ADF4351_REF_DOUBLE then ADF4351_ERROR_DOUBLER_EXCEEDED
        else if loopFrequency fl f r t > (ADF4351_PFD_MAX : ℚ)
            ∨ loopFrequency fl f r t < (ADF4351_PFD_MIN : ℚ) then ADF4351_ERROR_PFD_LIMITS
        else ADF4351_ERROR_NONE)
    ∧ ((setrf fl s f r t).1 ≠ ADF4351_ERROR_NONE → (setrf fl s f r t).2 = s) := by
  unfold setrf loopFrequency
  by_cases h1 : r > 1023 ∨ r < 1
  · rw [if_pos h1, if_pos h1]; exact ⟨rfl, fun _ => rfl⟩
  rw [if_neg h1, if_neg h1]
  by_cases h2 : f < ADF4351_REFIN_MIN ∨ f > ADF4351_REFIN_MAX
  · rw [if_pos h2, if_pos h2]; exact ⟨rfl, fun _ => rfl⟩
  rw [if_neg h2, if_neg h2]
  by_cases h3 : t ≠ ADF4351_REF_UNDIVIDED ∧ t ≠ ADF4351_REF_HALF ∧ t ≠ ADF4351_REF_DOUBLE
  · rw [if_pos h3, if_pos h3]; exact ⟨rfl, fun _ => rfl⟩
  rw [if_neg h3, if_neg h3]
  by_cases h4 : f > 30000000 ∧ t = ADF4351_REF_DOUBLE
  · rw [if_pos h4, if_pos h4]; exact ⟨rfl, fun _ => rfl⟩
  rw [if_neg h4, if_neg h4]
  dsimp only
  generalize fl (fl (f : ℚ) * fl ((if t = ADF4351_REF_HALF then (1 : ℚ) / 2
    else if t = ADF4351_REF_DOUBLE then 1 * 2 else 1) / (r : ℚ))) = newfreq
  by_cases h5 : newfreq > (ADF4351_PFD_MAX : ℚ) ∨ newfreq < (ADF4351_PFD_MIN : ℚ)
  · rw [if_pos h5, if_pos h5]; exact ⟨rfl, fun _ => rfl⟩
  rw [if_neg h5, if_neg h5]
  exact ⟨rfl, fun h => absurd rfl h⟩

/-- The decimal phase-detector frequency of `setf` is the exact one cut to twelve decimal
digits. -/
theorem BN_ADF4351_PFDFreq_floor (s : State) (hT : ReadRDIV2 s ≤ 1) :
    BN_ADF4351_PFDFreq s
      = ⌊(((s.ADF4351_reffreq * (1 + ReadRefDoubler s) : Nat) : ℚ)
          / ((ReadR s * (1 + ReadRDIV2 s) : Nat) : ℚ)) * 1000000000000⌋ := by
  rw [BN_ADF4351_PFDFreq_cast]
  have e : (((s.ADF4351_reffreq * (1 + ReadRefDoubler s) : Nat) : ℚ)
          / ((ReadR s * (1 + ReadRDIV2 s) : Nat) : ℚ)) * 1000000000000
      = ((s.ADF4351_reffreq * (1 + ReadRefDoubler s) * 1000000000000 : Nat) : ℚ)
          / ((ReadR s * (1 + ReadRDIV2 s) : Nat) : ℚ) := by
    push_cast; ring
  rw [e, Rat.floor_natCast_div_natCast]
  refine congrArg Nat.cast ?_
  generalize s.ADF4351_reffreq * (1 + ReadRefDoubler s) = a
  rcases Nat.le_one_iff_eq_zero_or_eq_one.mp hT with h0 | h1
  · rw [h0]
    norm_num
  · rw [h1]
    have e2 : a * 1000000000000 = a * 500000000000 * 2 := by ring
    rw [show (1000000000000 : Nat) / (1 + 1) = 500000000000 by norm_num,
      show ReadR s * (1 + 1) = 2 * ReadR s by ring, e2, ← Nat.div_div_eq_div_mul,
      Nat.mul_div_cancel _ (by norm_num : 0 < 2)]

theorem setrf_divided :
    setrf (roundBinary 53) powerOn 10000000 2 ADF4351_REF_UNDIVIDED
      = (ADF4351_ERROR_NONE, dividedState) := by
  rw [setrf_accept _ _ _ _ _ (by decide) (by decide) (by decide) (by decide) (by
    rw [loopFrequency_divided]
    norm_num [ADF4351_PFD_MAX, ADF4351_PFD_MIN])]
  decide

theorem ReadPFDfreq_divided : ReadPFDfreq id dividedState = 5000000 := by
  have hR : ReadR dividedState = 2 := by decide
  have hT : ReadRDIV2 dividedState = 0 := by decide
  have hD : ReadRefDoubler dividedState = 0 := by decide
  unfold ReadPFDfreq
  simp only [hR, hT, hD]
  norm_num [dividedState]

/-! ## The channel-step multiple test -/

/-- The codes `checkAndCommit` can return. -/
theorem checkAndCommit_codes (s1 : State) (freq : BigNumber)
    (Frac N Mod Prescaler PFDFreq PowerLevel AuxPowerLevel AuxFrequencyDivider sel : Nat)
    (FE : Int) (Prec : Bool) (Max : Nat) :
    (checkAndCommit s1 freq Frac N Mod Prescaler PFDFreq PowerLevel AuxPowerLevel
        AuxFrequencyDivider sel FE Prec Max).code
      ∈ [ADF4351_ERROR_MOD_RANGE, ADF4351_ERROR_FRAC_RANGE, ADF4351_ERROR_N_RANGE,
          ADF4351_ERROR_N_RANGE_OVER_3600_MHz, ADF4351_ERROR_PFD_EXCEEDED_WITH_FRACTIONAL_MODE,
          ADF4351_ERROR_NONE, ADF4351_WARNING_FREQUENCY_ERROR] := by
  unfold checkAndCommit
  by_cases h1 : Mod < 2 ∨ Mod > 4095
  · rw [if_pos h1]; dsimp only; decide
  rw [if_neg h1]
  by_cases h2 : Frac > Mod - 1
  · rw [if_pos h2]; dsimp only; decide
  rw [if_neg h2]
  by_cases h3 : Prescaler = 0 ∧ (N < 23 ∨ N > 65535)
  · rw [if_pos h3]; dsimp only; decide
  rw [if_neg h3]
  by_cases h4 : Prescaler = 1 ∧ (N < 75 ∨ N > 65535)
  · rw [if_pos h4]; dsimp only; decide
  rw [if_neg h4]
  by_cases h5 : Frac ≠ 0 ∧ PFDFreq > ADF4351_PFD_MAX_FRAC
  · rw [if_pos h5]; dsimp only; decide
  rw [if_neg h5]
  rcases reportFrequencyError_code
    (encodeRegisters s1 Frac N Mod Prescaler PFDFreq PowerLevel AuxPowerLevel
      AuxFrequencyDivider sel) freq FE Prec Max with h | h <;> rw [h] <;> decide

/-- The codes the planning part of `setf` can return. -/
theorem planAndCommit_codes (millis : Nat → Nat) (s : State) (freq : BigNumber)
    (PowerLevel AuxPowerLevel AuxFrequencyDivider : Nat) (Prec : Bool)
    (Max Timeout : Nat) (r : SetfResult)
    (h : planAndCommit millis s freq PowerLevel AuxPowerLevel AuxFrequencyDivider Prec Max Timeout
      = some r) :
    r.code ∈ [ADF4351_ERROR_PRECISION_FREQUENCY_CALCULATION_TIMEOUT,
      ADF4351_ERROR_MOD_RANGE, ADF4351_ERROR_FRAC_RANGE, ADF4351_ERROR_N_RANGE,
      ADF4351_ERROR_N_RANGE_OVER_3600_MHz, ADF4351_ERROR_PFD_EXCEEDED_WITH_FRACTIONAL_MODE,
      ADF4351_ERROR_NONE, ADF4351_WARNING_FREQUENCY_ERROR] := by
  unfold planAndCommit at h
  split at h
  · cases h
  · split_ifs at h
    · cases h; dsimp only; decide
    · cases h
      exact List.mem_cons_of_mem _ (checkAndCommit_codes _ _ _ _ _ _ _ _ _ _ _ _ _ _)

/-- The twelve-digit quotient of the channel-step multiple test leaves a non-zero remainder
exactly when the step does not divide the target. -/
theorem stepRemainder_ne_zero_iff (f step : Nat) (hs : 1 < step) (hstep : step ≤ 1000000000000)
    (hf : f ≤ 4400000000) :
    stepRemainder (ofNat f) step ≠ 0 ↔ ¬(step ∣ f) := by
  constructor
  · intro h hd
    obtain ⟨k, hk⟩ := hd
    apply h
    have hk32 : k < 4294967296 := by
      have : k * 2 ≤ k * step := Nat.mul_le_mul_left _ hs
      have : k * step = f := by rw [hk]; ring
      omega
    rw [hk, Nat.mul_comm]
    exact stepRemainder_multiple k step (by omega) hk32
  · intro hnd h0
    apply hnd
    unfold stepRemainder at h0
    have e : div (ofNat f) (ofNat step) = ((f * 1000000000000 / step : Nat) : Int) := by
      rw [ofNat_eq_cast, ofNat_eq_cast, div_cast]
      refine congrArg Nat.cast ?_
      rw [Nat.mul_div_mul_right _ _ (by norm_num : 0 < 1000000000000)]
    have hq : f * 1000000000000 / step / 1000000000000 = f / step := by
      rw [Nat.div_div_eq_div_mul, Nat.mul_comm step, ← Nat.div_div_eq_div_mul,
        Nat.mul_div_cancel _ (by norm_num : 0 < 1000000000000)]
    have hfs : f / step < 4294967296 := by
      have : f / step ≤ f / 2 := Nat.div_le_div_left hs (by norm_num)
      omega
    rw [e, toLong_cast, hq, u32_cast, Nat.mod_eq_of_lt hfs, ofNat_eq_cast] at h0
    have h1 : f * 1000000000000 / step = f / step * 1000000000000 := by
      have := sub_eq_zero.mp h0
      exact_mod_cast this
    -- the remainder `f % step` times `10^12` is below `step`, so it is zero
    have hdm := Nat.div_add_mod f step
    have hlt := Nat.mod_lt f (by omega : 0 < step)
    by_contra hnd'
    have hr : 0 < f % step := Nat.pos_of_ne_zero (fun h => hnd' (Nat.dvd_of_mod_eq_zero h))
    have hge : f / step * 1000000000000 + 1 ≤ f * 1000000000000 / step := by
      rw [Nat.le_div_iff_mul_le (by omega)]
      have h3 : step * 1 ≤ f % step * 1000000000000 := by
        calc step * 1 = step := Nat.mul_one _
          _ ≤ 1000000000000 := hstep
          _ = 1 * 1000000000000 := (Nat.one_mul _).symm
          _ ≤ f % step * 1000000000000 := Nat.mul_le_mul_right _ hr
      calc (f / step * 1000000000000 + 1) * step
          = step * (f / step) * 1000000000000 + step * 1 := by ring
        _ ≤ step * (f / step) * 1000000000000 + f % step * 1000000000000 :=
            Nat.add_le_add_left h3 _
        _ = (step * (f / step) + f % step) * 1000000000000 := by ring
        _ = f * 1000000000000 := by rw [hdm]
    omega

/-! ## The power fields of register 4 -/

/-- Register 4 as `setf` encodes it. -/
theorem encodeRegisters_R4 (s1 : State) (Frac N Mod P PFD PL APL AFD sel : Nat) :
    (encodeRegisters s1 Frac N Mod P PFD PL APL AFD sel).R4
      = WriteBF_dword 20 3
          (if APL = 0 then
            WriteBF_dword 8 1
              (if PL = 0 then WriteBF_dword 5 1 s1.R4 0
                else WriteBF_dword 3 2 (WriteBF_dword 5 1 s1.R4 1) (PL - 1)) 0
          else
            WriteBF_dword 9 1 (WriteBF_dword 8 1 (WriteBF_dword 6 2
              (if PL = 0 then WriteBF_dword 5 1 s1.R4 0
                else WriteBF_dword 3 2 (WriteBF_dword 5 1 s1.R4 1) (PL - 1)) (APL - 1)) 1) AFD)
          sel := rfl

/-- The power fields read back from the encoded register 4. -/
theorem encodeRegisters_power (s1 : State) (Frac N Mod P PFD PL APL AFD sel : Nat) :
    ReadBF_dword 5 1 (encodeRegisters s1 Frac N Mod P PFD PL APL AFD sel).R4
        = (if PL = 0 then 0 else 1)
    ∧ (PL ≠ 0 →
        ReadBF_dword 3 2 (encodeRegisters s1 Frac N Mod P PFD PL APL AFD sel).R4 = (PL - 1) % 4)
    ∧ ReadBF_dword 8 1 (encodeRegisters s1 Frac N Mod P PFD PL APL AFD sel).R4
        = (if APL = 0 then 0 else 1)
    ∧ (APL ≠ 0 →
        ReadBF_dword 6 2 (encodeRegisters s1 Frac N Mod P PFD PL APL AFD sel).R4 = (APL - 1) % 4
        ∧ ReadBF_dword 9 1 (encodeRegisters s1 Frac N Mod P PFD PL APL AFD sel).R4 = AFD % 2)
    ∧ ReadBF_dword 20 3 (encodeRegisters s1 Frac N Mod P PFD PL APL AFD sel).R4 = sel % 8 := by
  rw [encodeRegisters_R4]
  have hY5 : ReadBF_dword 5 1 (if PL = 0 then WriteBF_dword 5 1 s1.R4 0
      else WriteBF_dword 3 2 (WriteBF_dword 5 1 s1.R4 1) (PL - 1)) = (if PL = 0 then 0 else 1) := by
    by_cases h : PL = 0
    · rw [if_pos h, if_pos h, ReadBF_WriteBF_same]; norm_num
    · rw [if_neg h, if_neg h, ReadBF_WriteBF_above 5 1 3 2 _ _ (by norm_num),
        ReadBF_WriteBF_same]
      norm_num
  have hY3 : PL ≠ 0 → ReadBF_dword 3 2 (if PL = 0 then WriteBF_dword 5 1 s1.R4 0
      else WriteBF_dword 3 2 (WriteBF_dword 5 1 s1.R4 1) (PL - 1)) = (PL - 1) % 4 := by
    intro h
    rw [if_neg h, ReadBF_WriteBF_same]
    norm_num
  generalize (if PL = 0 then WriteBF_dword 5 1 s1.R4 0
      else WriteBF_dword 3 2 (WriteBF_dword 5 1 s1.R4 1) (PL - 1)) = Y at hY5 hY3
  by_cases hA : APL = 0
  · rw [if_pos hA, if_pos hA]
    refine ⟨?_, ?_, ?_, fun h => absurd hA h, ?_⟩
    · rw [ReadBF_WriteBF_below 5 1 20 3 _ _ (by norm_num),
        ReadBF_WriteBF_below 5 1 8 1 _ _ (by norm_num), hY5]
    · intro h
      rw [ReadBF_WriteBF_below 3 2 20 3 _ _ (by norm_num),
        ReadBF_WriteBF_below 3 2 8 1 _ _ (by norm_num), hY3 h]
    · rw [ReadBF_WriteBF_below 8 1 20 3 _ _ (by norm_num), ReadBF_WriteBF_same]; norm_num
    · rw [ReadBF_WriteBF_same]; norm_num
  · rw [if_neg hA, if_neg hA]
    refine ⟨?_, ?_, ?_, fun _ => ⟨?_, ?_⟩, ?_⟩
    · rw [ReadBF_WriteBF_below 5 1 20 3 _ _ (by norm_num),
        ReadBF_WriteBF_below 5 1 9 1 _ _ (by norm_num),
        ReadBF_WriteBF_below 5 1 8 1 _ _ (by norm_num),
        ReadBF_WriteBF_below 5 1 6 2 _ _ (by norm_num), hY5]
    · intro h
      rw [ReadBF_WriteBF_below 3 2 20 3 _ _ (by norm_num),
        ReadBF_WriteBF_below 3 2 9 1 _ _ (by norm_num),
        ReadBF_WriteBF_below 3 2 8 1 _ _ (by norm_num),
        ReadBF_WriteBF_below 3 2 6 2 _ _ (by norm_num), hY3 h]
    · rw [ReadBF_WriteBF_below 8 1 20 3 _ _ (by norm_num),
        ReadBF_WriteBF_below 8 1 9 1 _ _ (by norm_num), ReadBF_WriteBF_same]
      norm_num
    · rw [ReadBF_WriteBF_below 6 2 20 3 _ _ (by norm_num),
        ReadBF_WriteBF_below 6 2 9 1 _ _ (by norm_num),
        ReadBF_WriteBF_below 6 2 8 1 _ _ (by norm_num), ReadBF_WriteBF_same]
      norm_num
    · rw [ReadBF_WriteBF_below 9 1 20 3 _ _ (by norm_num), ReadBF_WriteBF_same]
      norm_num
    · rw [ReadBF_WriteBF_same]; norm_num

/-! ## Repeating a call -/

/-- Writing a field the value it already holds changes nothing. -/
theorem WriteBF_dword_noop (o w d v : Nat) (h : ReadBF_dword o w d = v % 2 ^ w) :
    WriteBF_dword o w d v = d := by
  unfold WriteBF_dword
  unfold ReadBF_dword at h
  rw [← h]
  have hle : d / 2 ^ o % 2 ^ w * 2 ^ o ≤ d :=
    le_trans (Nat.mul_le_mul_right _ (Nat.mod_le _ _)) (Nat.div_mul_le_self _ _)
  omega

/-- Two writes to disjoint fields, repeated, change nothing. -/
theorem WriteBF_dword_pair_again (o1 w1 o2 w2 d v1 v2 : Nat) (h : o1 + w1 ≤ o2) :
    WriteBF_dword o2 w2
        (WriteBF_dword o1 w1 (WriteBF_dword o2 w2 (WriteBF_dword o1 w1 d v1) v2) v1) v2
      = WriteBF_dword o2 w2 (WriteBF_dword o1 w1 d v1) v2 := by
  rw [WriteBF_dword_noop o1 w1 (WriteBF_dword o2 w2 (WriteBF_dword o1 w1 d v1) v2) v1
    (by rw [ReadBF_WriteBF_below o1 w1 o2 w2 _ _ h, ReadBF_WriteBF_same])]
  exact WriteBF_dword_noop _ _ _ _ (ReadBF_WriteBF_same _ _ _ _)

/-- Three writes to disjoint fields, repeated, change nothing. -/
theorem WriteBF_dword_triple_again (o1 w1 o2 w2 o3 w3 d v1 v2 v3 : Nat) (h12 : o1 + w1 ≤ o2)
    (h23 : o2 + w2 ≤ o3) :
    WriteBF_dword o3 w3 (WriteBF_dword o2 w2 (WriteBF_dword o1 w1
        (WriteBF_dword o3 w3 (WriteBF_dword o2 w2 (WriteBF_dword o1 w1 d v1) v2) v3) v1) v2) v3
      = WriteBF_dword o3 w3 (WriteBF_dword o2 w2 (WriteBF_dword o1 w1 d v1) v2) v3 := by
  rw [WriteBF_dword_noop o1 w1
    (WriteBF_dword o3 w3 (WriteBF_dword o2 w2 (WriteBF_dword o1 w1 d v1) v2) v3) v1
    (by rw [ReadBF_WriteBF_below o1 w1 o3 w3 _ _ (by omega),
      ReadBF_WriteBF_below o1 w1 o2 w2 _ _ h12, ReadBF_WriteBF_same])]
  rw [WriteBF_dword_noop o2 w2
    (WriteBF_dword o3 w3 (WriteBF_dword o2 w2 (WriteBF_dword o1 w1 d v1) v2) v3) v2
    (by rw [ReadBF_WriteBF_below o2 w2 o3 w3 _ _ h23, ReadBF_WriteBF_same])]
  exact WriteBF_dword_noop _ _ _ _ (ReadBF_WriteBF_same _ _ _ _)

/-- Two states with the same fields are equal. -/
theorem State.eq_of_fields (a b : State)
    (hE : a.ADF4351_FrequencyError = b.ADF4351_FrequencyError)
    (hf : a.ADF4351_reffreq = b.ADF4351_reffreq)
    (h0 : a.R0 = b.R0) (h1 : a.R1 = b.R1) (h2 : a.R2 = b.R2) (h3 : a.R3 = b.R3)
    (h4 : a.R4 = b.R4) (h5 : a.R5 = b.R5) (hs : a.ADF4351_ChanStep = b.ADF4351_ChanStep) :
    a = b := by
  cases a; cases b
  simp only [State.mk.injEq]
  exact ⟨hE, hf, h0, h1, h2, h3, h4, h5, hs⟩

/-- Encoding the same values over an already encoded state changes nothing. -/
theorem encodeRegisters_again (s1 : State) (Frac N Mod P PFD PL APL AFD sel : Nat) :
    encodeRegisters (encodeRegisters s1 Frac N Mod P PFD PL APL AFD sel)
        Frac N Mod P PFD PL APL AFD sel
      = encodeRegisters s1 Frac N Mod P PFD PL APL AFD sel := by
  refine State.eq_of_fields _ _ rfl rfl ?_ ?_ ?_ ?_ ?_ rfl rfl
  · exact WriteBF_dword_pair_again 3 12 15 16 s1.R0 Frac N (by norm_num)
  · show (if Frac = 0 then
          if PFD > 45000000 then
            WriteBF_dword 28 1 (WriteBF_dword 27 1 (WriteBF_dword 3 12
              (encodeRegisters s1 Frac N Mod P PFD PL APL AFD sel).R1 Mod) P) 1
          else WriteBF_dword 28 1 (WriteBF_dword 27 1 (WriteBF_dword 3 12
              (encodeRegisters s1 Frac N Mod P PFD PL APL AFD sel).R1 Mod) P) 0
        else WriteBF_dword 28 1 (WriteBF_dword 27 1 (WriteBF_dword 3 12
              (encodeRegisters s1 Frac N Mod P PFD PL APL AFD sel).R1 Mod) P) 0)
      = (encodeRegisters s1 Frac N Mod P PFD PL APL AFD sel).R1
    have hR1 : (encodeRegisters s1 Frac N Mod P PFD PL APL AFD sel).R1
        = (if Frac = 0 then
            if PFD > 45000000 then
              WriteBF_dword 28 1 (WriteBF_dword 27 1 (WriteBF_dword 3 12 s1.R1 Mod) P) 1
            else WriteBF_dword 28 1 (WriteBF_dword 27 1 (WriteBF_dword 3 12 s1.R1 Mod) P) 0
          else WriteBF_dword 28 1 (WriteBF_dword 27 1 (WriteBF_dword 3 12 s1.R1 Mod) P) 0) := rfl
    rw [hR1]
    by_cases hF : Frac = 0
    · rw [if_pos hF, if_pos hF]
      by_cases hp : PFD > 45000000
      · rw [if_pos hp, if_pos hp]
        exact WriteBF_dword_triple_again 3 12 27 1 28 1 s1.R1 Mod P 1 (by norm_num) (by norm_num)
      · rw [if_neg hp, if_neg hp]
        exact WriteBF_dword_triple_again 3 12 27 1 28 1 s1.R1 Mod P 0 (by norm_num) (by norm_num)
    · rw [if_neg hF, if_neg hF]
      exact WriteBF_dword_triple_again 3 12 27 1 28 1 s1.R1 Mod P 0 (by norm_num) (by norm_num)
  · show (if Frac = 0 then WriteBF_dword 8 1 (WriteBF_dword 7 1
            (encodeRegisters s1 Frac N Mod P PFD PL APL AFD sel).R2 1) 1
        else WriteBF_dword 8 1 (WriteBF_dword 7 1
            (encodeRegisters s1 Frac N Mod P PFD PL APL AFD sel).R2 0) 0)
      = (encodeRegisters s1 Frac N Mod P PFD PL APL AFD sel).R2
    have hR2 : (encodeRegisters s1 Frac N Mod P PFD PL APL AFD sel).R2
        = (if Frac = 0 then WriteBF_dword 8 1 (WriteBF_dword 7 1 s1.R2 1) 1
          else WriteBF_dword 8 1 (WriteBF_dword 7 1 s1.R2 0) 0) := rfl
    rw [hR2]
    by_cases hF : Frac = 0
    · rw [if_pos hF, if_pos hF]
      exact WriteBF_dword_pair_again 7 1 8 1 s1.R2 1 1 (by norm_num)
    · rw [if_neg hF, if_neg hF]
      exact WriteBF_dword_pair_again 7 1 8 1 s1.R2 0 0 (by norm_num)
  · show (if Frac = 0 then WriteBF_dword 22 1 (WriteBF_dword 21 1
            (encodeRegisters s1 Frac N Mod P PFD PL APL AFD sel).R3 1) 1
        else WriteBF_dword 22 1 (WriteBF_dword 21 1
            (encodeRegisters s1 Frac N Mod P PFD PL APL AFD sel).R3 0) 0)
      = (encodeRegisters s1 Frac N Mod P PFD PL APL AFD sel).R3
    have hR3 : (encodeRegisters s1 Frac N Mod P PFD PL APL AFD sel).R3
        = (if Frac = 0 then WriteBF_dword 22 1 (WriteBF_dword 21 1 s1.R3 1) 1
          else WriteBF_dword 22 1 (WriteBF_dword 21 1 s1.R3 0) 0) := rfl
    rw [hR3]
    by_cases hF : Frac = 0
    · rw [if_pos hF, if_pos hF]
      exact WriteBF_dword_pair_again 21 1 22 1 s1.R3 1 1 (by norm_num)
    · rw [if_neg hF, if_neg hF]
      exact WriteBF_dword_pair_again 21 1 22 1 s1.R3 0 0 (by norm_num)
  · rw [encodeRegisters_R4 (encodeRegisters s1 Frac N Mod P PFD PL APL AFD sel)]
    obtain ⟨p5, p3, p8, p69, p20⟩ :=
      encodeRegisters_power s1 Frac N Mod P PFD PL APL AFD sel
    generalize (encodeRegisters s1 Frac N Mod P PFD PL APL AFD sel).R4 = Z at p5 p3 p8 p69 p20 ⊢
    have hY : (if PL = 0 then WriteBF_dword 5 1 Z 0
        else WriteBF_dword 3 2 (WriteBF_dword 5 1 Z 1) (PL - 1)) = Z := by
      by_cases hP : PL = 0
      · rw [if_pos hP]
        exact WriteBF_dword_noop _ _ _ _ (by rw [p5, if_pos hP]; norm_num)
      · rw [if_neg hP, WriteBF_dword_noop 5 1 Z 1 (by rw [p5, if_neg hP]; norm_num)]
        exact WriteBF_dword_noop _ _ _ _ (by rw [p3 hP]; norm_num)
    rw [hY]
    have hX : (if APL = 0 then WriteBF_dword 8 1 Z 0
        else WriteBF_dword 9 1 (WriteBF_dword 8 1 (WriteBF_dword 6 2 Z (APL - 1)) 1) AFD) = Z := by
      by_cases hA : APL = 0
      · rw [if_pos hA]
        exact WriteBF_dword_noop _ _ _ _ (by rw [p8, if_pos hA]; norm_num)
      · rw [if_neg hA, WriteBF_dword_noop 6 2 Z (APL - 1) (by rw [(p69 hA).1]; norm_num),
          WriteBF_dword_noop 8 1 Z 1 (by rw [p8, if_neg hA]; norm_num)]
        exact WriteBF_dword_noop _ _ _ _ (by rw [(p69 hA).2]; norm_num)
    rw [hX]
    exact WriteBF_dword_noop _ _ _ _ (by rw [p20]; norm_num)

/-- The incoming value of `ADF4351_FrequencyError` does not influence `setf`. -/
theorem setf_frequencyError_irrelevant (fl : ℚ → ℚ)
    (millis : Nat → Nat) (s : State) (e : Int)
    (freq : BigNumber) (PowerLevel AuxPowerLevel AuxFrequencyDivider : Nat) (Prec : Bool)
    (Max Timeout : Nat) :
    setf fl millis { s with ADF4351_FrequencyError := e } freq PowerLevel AuxPowerLevel
        AuxFrequencyDivider Prec Max Timeout
      = setf fl millis s freq PowerLevel AuxPowerLevel AuxFrequencyDivider Prec Max Timeout := rfl

/-- A call that got as far as planning gives the same result when it is made again on the
state and target it left behind. -/
theorem planAndCommit_again (fl : ℚ → ℚ) (hfl : ∀ x : ℚ, fl x = 0 ↔ x = 0)
    (millis millis' : Nat → Nat) (s : State) (n : Nat)
    (PowerLevel AuxPowerLevel AuxFrequencyDivider : Nat) (Prec : Bool) (Max : Nat)
    (r1 : SetfResult)
    (hP : PowerLevel ≤ 4) (hA : AuxPowerLevel ≤ 4)
    (hD : AuxFrequencyDivider = 0 ∨ AuxFrequencyDivider = 1)
    (hR : ReadR s ≠ 0) (href : s.ADF4351_reffreq ≠ 0)
    (hstep : ¬(Prec = false ∧ s.ADF4351_ChanStep > 1
      ∧ (s.ADF4351_reffreq / ReadR s) % s.ADF4351_ChanStep ≠ 0))
    (hlo : 34375000 ≤ n) (hhi : n ≤ 4400000000)
    (hrem : ¬(Prec = false ∧ s.ADF4351_ChanStep > 1
      ∧ stepRemainder (ofNat n) s.ADF4351_ChanStep ≠ 0))
    (h : planAndCommit millis s (ofNat n) PowerLevel AuxPowerLevel AuxFrequencyDivider Prec Max 0
      = some r1) :
    setf fl millis' r1.state r1.freq PowerLevel AuxPowerLevel AuxFrequencyDivider Prec Max 0
      = some r1 := by
  have hcut := toLong_ofNat n
  have hlo' : ofNat 34375000 ≤ ofNat n := (ofNat_le_ofNat _ _).mpr hlo
  have hhi' : ofNat n ≤ ofNat 4400000000 := (ofNat_le_ofNat _ _).mpr hhi
  have hrem' : ¬(Prec = false ∧ s.ADF4351_ChanStep > 1
      ∧ stepRemainder (toLong (ofNat n) * ONE) s.ADF4351_ChanStep ≠ 0) := by
    rw [hcut]; exact hrem
  -- the same call on `s`, with the other clock
  have hsame : setf fl millis' s (ofNat n) PowerLevel AuxPowerLevel AuxFrequencyDivider Prec Max 0
      = some r1 := by
    rw [setf_of_valid _ hfl millis' s (ofNat n) PowerLevel AuxPowerLevel AuxFrequencyDivider Prec Max 0
      hP hA hD hR href hstep hlo' hhi' hrem', hcut, ← h]
    unfold planAndCommit
    rw [decompose_no_timeout millis' millis]
  unfold planAndCommit at h
  cases hdec : decompose millis (BN_ADF4351_PFDFreq s) s.ADF4351_ChanStep (ofNat n) Prec Max 0 with
  | none => rw [hdec] at h; cases h
  | some b =>
    rw [hdec] at h
    dsimp only at h
    by_cases ht : b.CalculationTookTooLong = true
    · rw [if_pos ht] at h
      have hr := (Option.some.inj h).symm
      rw [hr] at hsame ⊢
      exact hsame
    rw [if_neg ht] at h
    by_cases hc : ChecksPass b.ADF4351_Frac b.ADF4351_N_Int
        (correctMod b.ADF4351_Frac b.ADF4351_Mod) (selectPrescaler (ofNat n)) (PFDFreq s)
    · -- the call commits
      rw [checkAndCommit_of_pass _ _ _ _ _ _ _ _ _ _ _ _ _ _ hc] at h
      have hr := (Option.some.inj h).symm
      generalize hfe : finalFrequencyError (BN_ADF4351_PFDFreq s) (ofNat n)
        (selectOutputDivider (ofNat n)).1 b.ADF4351_N_Int b.ADF4351_Frac b.ADF4351_Mod
        = fe at hr
      obtain ⟨f1, f2, f3, f4⟩ := committed_reference
        { s with ADF4351_FrequencyError := fe } (ofNat n) b.ADF4351_Frac b.ADF4351_N_Int
        (correctMod b.ADF4351_Frac b.ADF4351_Mod) (selectPrescaler (ofNat n)) (PFDFreq s)
        PowerLevel AuxPowerLevel AuxFrequencyDivider (selectOutputDivider (ofNat n)).2 fe Prec Max
      obtain ⟨_, f5⟩ := reportFrequencyError_fields
        (encodeRegisters { s with ADF4351_FrequencyError := fe } b.ADF4351_Frac b.ADF4351_N_Int
          (correctMod b.ADF4351_Frac b.ADF4351_Mod) (selectPrescaler (ofNat n)) (PFDFreq s)
          PowerLevel AuxPowerLevel AuxFrequencyDivider (selectOutputDivider (ofNat n)).2)
        (ofNat n) fe Prec Max
      rw [← hr] at f1 f2 f3 f4 f5
      have f5' : r1.state.ADF4351_ChanStep = s.ADF4351_ChanStep := f5
      have f4' : r1.state.ADF4351_reffreq = s.ADF4351_reffreq := f4
      have hfreq : r1.freq = ofNat n := by
        rw [hr]; unfold reportFrequencyError; split_ifs <;> rfl
      have hBN := BN_ADF4351_PFDFreq_congr s r1.state f1 f2 f3 f4'
      have hPF : PFDFreq r1.state = PFDFreq s := by unfold PFDFreq; rw [hBN]
      rw [hfreq, setf_of_valid _ hfl millis' r1.state (ofNat n) PowerLevel AuxPowerLevel
        AuxFrequencyDivider Prec Max 0 hP hA hD (by rw [f1]; exact hR) (by rw [f4']; exact href)
        (by rw [f5', f4', f1]; exact hstep) hlo' hhi' (by rw [f5']; exact hrem'), hcut]
      unfold planAndCommit
      rw [hBN, f5', decompose_no_timeout millis' millis, hdec]
      dsimp only
      rw [if_neg ht, hPF, hfe, checkAndCommit_of_pass _ _ _ _ _ _ _ _ _ _ _ _ _ _ hc]
      -- the registers written the second time
      have henc : encodeRegisters { r1.state with ADF4351_FrequencyError := fe }
            b.ADF4351_Frac b.ADF4351_N_Int (correctMod b.ADF4351_Frac b.ADF4351_Mod)
            (selectPrescaler (ofNat n)) (PFDFreq s) PowerLevel AuxPowerLevel AuxFrequencyDivider
            (selectOutputDivider (ofNat n)).2
          = encodeRegisters { s with ADF4351_FrequencyError := fe }
            b.ADF4351_Frac b.ADF4351_N_Int (correctMod b.ADF4351_Frac b.ADF4351_Mod)
            (selectPrescaler (ofNat n)) (PFDFreq s) PowerLevel AuxPowerLevel AuxFrequencyDivider
            (selectOutputDivider (ofNat n)).2 := by
        have hst : ({ r1.state with ADF4351_FrequencyError := fe } : State)
            = encodeRegisters { s with ADF4351_FrequencyError := fe }
              b.ADF4351_Frac b.ADF4351_N_Int (correctMod b.ADF4351_Frac b.ADF4351_Mod)
              (selectPrescaler (ofNat n)) (PFDFreq s) PowerLevel AuxPowerLevel
              AuxFrequencyDivider (selectOutputDivider (ofNat n)).2 := by
          rw [hr]; unfold reportFrequencyError; split_ifs <;> rfl
        rw [hst]
        exact encodeRegisters_again _ _ _ _ _ _ _ _ _ _
      have hgoal : reportFrequencyError
          (encodeRegisters { r1.state with ADF4351_FrequencyError := fe }
            b.ADF4351_Frac b.ADF4351_N_Int (correctMod b.ADF4351_Frac b.ADF4351_Mod)
            (selectPrescaler (ofNat n)) (PFDFreq s) PowerLevel AuxPowerLevel AuxFrequencyDivider
            (selectOutputDivider (ofNat n)).2) (ofNat n) fe Prec Max = r1 := by
        rw [henc, ← hr]
      rw [← f5']
      exact congrArg some hgoal
    · -- one of the range checks fails
      obtain ⟨code, _, _, hfail⟩ := checkAndCommit_of_fail
        { s with ADF4351_FrequencyError :=
            (finalFrequencyError (BN_ADF4351_PFDFreq s) (ofNat n)
              (selectOutputDivider (ofNat n)).1 b.ADF4351_N_Int b.ADF4351_Frac b.ADF4351_Mod) }
        (ofNat n) b.ADF4351_Frac b.ADF4351_N_Int
        (correctMod b.ADF4351_Frac b.ADF4351_Mod) (selectPrescaler (ofNat n)) (PFDFreq s)
        PowerLevel AuxPowerLevel AuxFrequencyDivider (selectOutputDivider (ofNat n)).2
        (finalFrequencyError (BN_ADF4351_PFDFreq s) (ofNat n)
          (selectOutputDivider (ofNat n)).1 b.ADF4351_N_Int b.ADF4351_Frac b.ADF4351_Mod)
        Prec Max hc
      rw [hfail] at h
      have hr := (Option.some.inj h).symm
      rw [hr] at hsame ⊢
      exact hsame

/-! ## The MOD match loop -/

/-- A pass of the loop body in terms of the candidate it examines. -/
theorem modMatchBody_candidate (PFD Rem : BigNumber) (outdiv Max M : Nat) (st : MatchState) :
    (candidate PFD Rem outdiv M = none → modMatchBody PFD Rem outdiv Max M st = (st, false))
    ∧ (∀ F e, candidate PFD Rem outdiv M = some (F, e) →
        (modMatchBody PFD Rem outdiv Max M st).2 = decide (e ≤ Max)
        ∧ (modMatchBody PFD Rem outdiv Max M st).1.CalculationTookTooLong
            = st.CalculationTookTooLong
        ∧ (e < st.PreviousFrequencyError →
            (modMatchBody PFD Rem outdiv Max M st).1.PreviousFrequencyError = e
            ∧ (modMatchBody PFD Rem outdiv Max M st).1.ADF4351_Mod = M
            ∧ (modMatchBody PFD Rem outdiv Max M st).1.ADF4351_Frac = F)
        ∧ (¬e < st.PreviousFrequencyError →
            (modMatchBody PFD Rem outdiv Max M st).1.PreviousFrequencyError
              = st.PreviousFrequencyError
            ∧ (modMatchBody PFD Rem outdiv Max M st).1.ADF4351_Mod = st.ADF4351_Mod
            ∧ (modMatchBody PFD Rem outdiv Max M st).1.ADF4351_Frac = st.ADF4351_Frac)) := by
  unfold candidate modMatchBody
  dsimp only
  by_cases hv : u32 (toLong (div Rem (div (div PFD (ofNat M)) (ofNat outdiv)) + HALF)) ≤ M
  · rw [if_pos hv, if_pos hv]
    refine ⟨(fun h => by cases h), ?_⟩
    intro F e h
    have h' := Option.some.inj h
    have hF := congrArg Prod.fst h'
    have he := congrArg Prod.snd h'
    dsimp only at hF he
    rw [hF] at he
    rw [hF, he]
    refine ⟨rfl, ?_, ?_, ?_⟩
    · by_cases hlt : e < st.PreviousFrequencyError
      · rw [if_pos hlt]
      · rw [if_neg hlt]
    · intro hlt
      rw [if_pos hlt]
      exact ⟨rfl, rfl, rfl⟩
    · intro hlt
      rw [if_neg hlt]
      exact ⟨rfl, rfl, rfl⟩
  · rw [if_neg hv, if_neg hv]
    exact ⟨fun _ => rfl, fun F e h => by cases h⟩

/-- The implied FRAC of a candidate is below its MOD. -/
theorem candidate_frac_lt (PFD Rem : BigNumber) (outdiv M F e : Nat) (hM : 2 ≤ M)
    (h : candidate PFD Rem outdiv M = some (F, e)) : F < M := by
  unfold candidate at h
  dsimp only at h
  by_cases hv : u32 (toLong (div Rem (div (div PFD (ofNat M)) (ofNat outdiv)) + HALF)) ≤ M
  · rw [if_pos hv] at h
    have hF := congrArg Prod.fst (Option.some.inj h)
    dsimp only at hF
    rw [← hF]
    by_cases heq : u32 (toLong (div Rem (div (div PFD (ofNat M)) (ofNat outdiv)) + HALF)) = M
    · rw [if_pos heq, heq]; omega
    · rw [if_neg heq]; omega
  · rw [if_neg hv] at h; cases h

/-- A candidate with FRAC = 0 has the integer-only error. -/
theorem candidate_frac_zero (PFD Rem : BigNumber) (outdiv M e : Nat) (hRem : 0 ≤ Rem)
    (h : candidate PFD Rem outdiv M = some (0, e)) : e = u32 (i32 (toLong Rem)) := by
  unfold candidate at h
  dsimp only at h
  by_cases hv : u32 (toLong (div Rem (div (div PFD (ofNat M)) (ofNat outdiv)) + HALF)) ≤ M
  · rw [if_pos hv] at h
    have h' := Option.some.inj h
    have hF := congrArg Prod.fst h'
    have he := congrArg Prod.snd h'
    dsimp only at hF he
    rw [hF] at he
    have hz : mul (ofNat 0) (div (div PFD (ofNat M)) (ofNat outdiv)) = 0 := by
      unfold mul ofNat; simp
    rw [hz, sub_zero, if_neg (not_lt.mpr hRem)] at he
    exact he.symm
  · rw [if_neg hv] at h; cases h

/-- The MOD match loop without a deadline: what it leaves when it starts at candidate
`4096 - remaining` having kept the best of the earlier candidates. -/
theorem modMatchLoop_best (millis : Nat → Nat) (PFD Rem : BigNumber) (outdiv Max : Nat)
    (remaining : Nat) (st : MatchState) (hrem : remaining ≤ 4094)
    (hprev : st.PreviousFrequencyError ≤ u32 (i32 (toLong Rem)))
    (hexam : ∀ m F e, 2 ≤ m → m < 4096 - remaining → candidate PFD Rem outdiv m = some (F, e) →
      Max < e ∧ st.PreviousFrequencyError ≤ e)
    (hkept : (st.PreviousFrequencyError = u32 (i32 (toLong Rem)) ∧ st.ADF4351_Mod = 2
        ∧ st.ADF4351_Frac = 0)
      ∨ (2 ≤ st.ADF4351_Mod ∧ st.ADF4351_Mod < 4096 - remaining
        ∧ candidate PFD Rem outdiv st.ADF4351_Mod
            = some (st.ADF4351_Frac, st.PreviousFrequencyError)
        ∧ st.PreviousFrequencyError < u32 (i32 (toLong Rem))
        ∧ ∀ m F e, 2 ≤ m → m < st.ADF4351_Mod → candidate PFD Rem outdiv m = some (F, e) →
            st.PreviousFrequencyError < e)) :
    ∃ M, 2 ≤ M ∧ M ≤ 4095
      ∧ (M = 4095 ∨ ∃ F e, candidate PFD Rem outdiv M = some (F, e) ∧ e ≤ Max)
      ∧ (∀ m F e, 2 ≤ m → m < M → candidate PFD Rem outdiv m = some (F, e) → Max < e)
      ∧ (∀ m F e, 2 ≤ m → m ≤ M → candidate PFD Rem outdiv m = some (F, e) →
          (modMatchLoop millis PFD Rem outdiv Max 0 remaining st).PreviousFrequencyError ≤ e)
      ∧ (((modMatchLoop millis PFD Rem outdiv Max 0 remaining st).PreviousFrequencyError
            = u32 (i32 (toLong Rem))
          ∧ (modMatchLoop millis PFD Rem outdiv Max 0 remaining st).ADF4351_Mod = 2
          ∧ (modMatchLoop millis PFD Rem outdiv Max 0 remaining st).ADF4351_Frac = 0)
        ∨ (2 ≤ (modMatchLoop millis PFD Rem outdiv Max 0 remaining st).ADF4351_Mod
          ∧ (modMatchLoop millis PFD Rem outdiv Max 0 remaining st).ADF4351_Mod ≤ M
          ∧ candidate PFD Rem outdiv
              (modMatchLoop millis PFD Rem outdiv Max 0 remaining st).ADF4351_Mod
              = some ((modMatchLoop millis PFD Rem outdiv Max 0 remaining st).ADF4351_Frac,
                  (modMatchLoop millis PFD Rem outdiv Max 0 remaining st).PreviousFrequencyError)
          ∧ (modMatchLoop millis PFD Rem outdiv Max 0 remaining st).PreviousFrequencyError
              < u32 (i32 (toLong Rem))
          ∧ ∀ m F e, 2 ≤ m →
              m < (modMatchLoop millis PFD Rem outdiv Max 0 remaining st).ADF4351_Mod →
              candidate PFD Rem outdiv m = some (F, e) →
              (modMatchLoop millis PFD Rem outdiv Max 0 remaining st).PreviousFrequencyError
                < e)) := by
  induction remaining generalizing st with
  | zero =>
    have hz : modMatchLoop millis PFD Rem outdiv Max 0 0 st = st := rfl
    rw [hz]
    refine ⟨4095, by norm_num, le_refl _, Or.inl rfl, ?_, ?_, ?_⟩
    · intro m F e h2 hm hc
      exact (hexam m F e h2 (by omega) hc).1
    · intro m F e h2 hm hc
      exact (hexam m F e h2 (by omega) hc).2
    · rcases hkept with hk | ⟨k1, k2, k3, k4, k5⟩
      · exact Or.inl hk
      · exact Or.inr ⟨k1, by omega, k3, k4, k5⟩
  | succ k ih =>
    unfold modMatchLoop
    dsimp only
    rw [if_neg (fun h => absurd h.1 (by decide))]
    have hk : 4096 - (k + 1) = 4095 - k := by omega
    rw [hk] at hexam hkept
    obtain ⟨bnone, bsome⟩ := modMatchBody_candidate PFD Rem outdiv Max (4095 - k) st
    cases hc : candidate PFD Rem outdiv (4095 - k) with
    | none =>
      rw [bnone hc]
      dsimp only
      rw [if_neg (by decide)]
      refine ih st (by omega) hprev ?_ ?_
      · intro m F e h2 hm hcm
        by_cases hmk : m = 4095 - k
        · rw [hmk, hc] at hcm; cases hcm
        · exact hexam m F e h2 (by omega) hcm
      · rcases hkept with hk0 | ⟨k1, k2, k3, k4, k5⟩
        · exact Or.inl hk0
        · exact Or.inr ⟨k1, by omega, k3, k4, k5⟩
    | some p =>
      obtain ⟨F, e⟩ := p
      obtain ⟨b2, _, bwin, blose⟩ := bsome F e hc
      -- the state after this pass
      have hprev1 : (modMatchBody PFD Rem outdiv Max (4095 - k) st).1.PreviousFrequencyError
          ≤ u32 (i32 (toLong Rem)) := by
        by_cases hlt : e < st.PreviousFrequencyError
        · rw [(bwin hlt).1]; omega
        · rw [(blose hlt).1]; exact hprev
      have hle1 : (modMatchBody PFD Rem outdiv Max (4095 - k) st).1.PreviousFrequencyError ≤ e
          ∧ (modMatchBody PFD Rem outdiv Max (4095 - k) st).1.PreviousFrequencyError
            ≤ st.PreviousFrequencyError := by
        by_cases hlt : e < st.PreviousFrequencyError
        · rw [(bwin hlt).1]; omega
        · rw [(blose hlt).1]; omega
      have hkept1 : ((modMatchBody PFD Rem outdiv Max (4095 - k) st).1.PreviousFrequencyError
              = u32 (i32 (toLong Rem))
            ∧ (modMatchBody PFD Rem outdiv Max (4095 - k) st).1.ADF4351_Mod = 2
            ∧ (modMatchBody PFD Rem outdiv Max (4095 - k) st).1.ADF4351_Frac = 0)
          ∨ (2 ≤ (modMatchBody PFD Rem outdiv Max (4095 - k) st).1.ADF4351_Mod
            ∧ (modMatchBody PFD Rem outdiv Max (4095 - k) st).1.ADF4351_Mod ≤ 4095 - k
            ∧ candidate PFD Rem outdiv (modMatchBody PFD Rem outdiv Max (4095 - k) st).1.ADF4351_Mod
                = some ((modMatchBody PFD Rem outdiv Max (4095 - k) st).1.ADF4351_Frac,
                    (modMatchBody PFD Rem outdiv Max (4095 - k) st).1.PreviousFrequencyError)
            ∧ (modMatchBody PFD Rem outdiv Max (4095 - k) st).1.PreviousFrequencyError
                < u32 (i32 (toLong Rem))
            ∧ ∀ m F' e', 2 ≤ m →
                m < (modMatchBody PFD Rem outdiv Max (4095 - k) st).1.ADF4351_Mod →
                candidate PFD Rem outdiv m = some (F', e') →
                (modMatchBody PFD Rem outdiv Max (4095 - k) st).1.PreviousFrequencyError
                  < e') := by
        by_cases hlt : e < st.PreviousFrequencyError
        · obtain ⟨w1, w2, w3⟩ := bwin hlt
          rw [w1, w2, w3]
          refine Or.inr ⟨by omega, le_refl _, hc, by omega, ?_⟩
          intro m F' e' h2 hm hcm
          have := (hexam m F' e' h2 hm hcm).2
          omega
        · obtain ⟨w1, w2, w3⟩ := blose hlt
          rw [w1, w2, w3]
          rcases hkept with hk0 | ⟨k1, k2, k3, k4, k5⟩
          · exact Or.inl hk0
          · exact Or.inr ⟨k1, by omega, k3, k4, k5⟩
      by_cases hbrk : e ≤ Max
      · -- tolerance reached: the loop breaks
        rw [b2, if_pos (by rw [decide_eq_true_eq]; exact hbrk)]
        refine ⟨4095 - k, by omega, by omega, Or.inr ⟨F, e, hc, hbrk⟩, ?_, ?_, hkept1⟩
        · intro m F' e' h2 hm hcm
          exact (hexam m F' e' h2 hm hcm).1
        · intro m F' e' h2 hm hcm
          by_cases hmk : m = 4095 - k
          · rw [hmk, hc] at hcm
            have he := congrArg Prod.snd (Option.some.inj hcm)
            dsimp only at he
            rw [← he]; exact hle1.1
          · have := (hexam m F' e' h2 (by omega) hcm).2
            omega
      · rw [b2, if_neg (by rw [decide_eq_true_eq]; exact hbrk)]
        refine ih _ (by omega) hprev1 ?_ ?_
        · intro m F' e' h2 hm hcm
          by_cases hmk : m = 4095 - k
          · rw [hmk, hc] at hcm
            have he := congrArg Prod.snd (Option.some.inj hcm)
            dsimp only at he
            rw [← he]
            exact ⟨by omega, hle1.1⟩
          · have := hexam m F' e' h2 (by omega) hcm
            exact ⟨this.1, by omega⟩
        · rcases hkept1 with hk0 | ⟨k1, k2, k3, k4, k5⟩
          · exact Or.inl hk0
          · exact Or.inr ⟨k1, by omega, k3, k4, k5⟩

/-- A MOD match loop that did not run out of time went through the same passes as one
without a deadline. -/
theorem modMatchLoop_in_time (millis : Nat → Nat) (PFD Rem : BigNumber)
    (outdiv Max Timeout : Nat) (n : Nat) (st : MatchState)
    (h : (modMatchLoop millis PFD Rem outdiv Max Timeout n st).CalculationTookTooLong = false) :
    modMatchLoop millis PFD Rem outdiv Max Timeout n st
      = modMatchLoop millis PFD Rem outdiv Max 0 n st := by
  induction n generalizing st with
  | zero => rfl
  | succ k ih =>
    unfold modMatchLoop at h ⊢
    dsimp only at h ⊢
    rw [if_neg (fun h' : (0 : Nat) > 0 ∧ _ => absurd h'.1 (by decide))]
    by_cases hl : Timeout > 0 ∧ u32 ((millis (4095 - k) : Int) - (millis 0 : Int)) > Timeout
    · rw [if_pos hl] at h
      exact absurd h (by simp)
    · rw [if_neg hl] at h ⊢
      by_cases hb : (modMatchBody PFD Rem outdiv Max (4095 - k) st).2 = true
      · rw [if_pos hb, if_pos hb]
      · rw [if_neg hb] at h
        rw [if_neg hb, if_neg hb]
        exact ih _ h

theorem integerOnlyRemainder_nonneg (PFD freq : BigNumber) (outdiv : Nat) :
    0 ≤ integerOnlyRemainder PFD freq outdiv := by
  have hneg : ∀ x : Int, x < 0 → 0 ≤ Int.tdiv (x * -1000000000000) 1000000000000 := by
    intro x hx
    rw [mul_neg, Int.neg_tdiv, Int.mul_tdiv_cancel _ (by norm_num)]
    omega
  unfold integerOnlyRemainder
  dsimp only
  split_ifs with h
  · exact hneg _ h
  · exact not_lt.mp h

/-- The precision branch when the search runs. -/
theorem precisionBranch_search (millis : Nat → Nat) (PFD freq : BigNumber)
    (outdiv Max Timeout : Nat) (FE0 : Int) (h : searchRuns PFD freq outdiv Max) :
    (precisionBranch millis PFD freq outdiv Max Timeout FE0).ADF4351_Mod
        = (modMatchLoop millis PFD (integerOnlyRemainder PFD freq outdiv) outdiv Max Timeout 4094
            ⟨i32 (toLong (integerOnlyRemainder PFD freq outdiv)),
              integerOnlyError PFD freq outdiv, 2, 0, false⟩).ADF4351_Mod
    ∧ (precisionBranch millis PFD freq outdiv Max Timeout FE0).ADF4351_Frac
        = (modMatchLoop millis PFD (integerOnlyRemainder PFD freq outdiv) outdiv Max Timeout 4094
            ⟨i32 (toLong (integerOnlyRemainder PFD freq outdiv)),
              integerOnlyError PFD freq outdiv, 2, 0, false⟩).ADF4351_Frac
    ∧ (precisionBranch millis PFD freq outdiv Max Timeout FE0).CalculationTookTooLong
        = (modMatchLoop millis PFD (integerOnlyRemainder PFD freq outdiv) outdiv Max Timeout 4094
            ⟨i32 (toLong (integerOnlyRemainder PFD freq outdiv)),
              integerOnlyError PFD freq outdiv, 2, 0, false⟩).CalculationTookTooLong
    ∧ (precisionBranch millis PFD freq outdiv Max Timeout FE0).ADF4351_N_Int
        = u32 (toLong (mul (div freq PFD) (ofNat outdiv))) := by
  obtain ⟨h1, h2⟩ := h
  unfold integerOnlyError at h2 ⊢
  unfold integerOnlyRemainder at h2 ⊢
  unfold precisionBranch
  dsimp only at h2 ⊢
  rw [if_pos h1, if_pos h2]
  exact ⟨rfl, rfl, rfl, rfl⟩

/-! ## The trial N of the precision branch -/

theorem trialRatio_cast (p f o : Nat) :
    trialRatio (p : Int) (ofNat f) o
      = ((f * 1000000000000 * 1000000000000 / p * o : Nat) : Int) := by
  unfold trialRatio
  rw [ofNat_eq_cast, ofNat_eq_cast, div_cast, mul_cast]
  refine congrArg Nat.cast ?_
  rw [show f * 1000000000000 * 1000000000000 / p * (o * 1000000000000)
      = f * 1000000000000 * 1000000000000 / p * o * 1000000000000 by ring]
  exact Nat.mul_div_cancel _ (by norm_num)

/-- The overflow test of the precision branch on the twelve-digit quotient `Q` (in units of
`10^-12`): N is `floor(Q) + 1` with FRAC = 0, MOD = 2 when the fractional part of `Q` is at
least `1 - 0.00024421`, and `floor(Q)` otherwise. -/
theorem precisionBranch_edge (millis : Nat → Nat) (P freq : BigNumber) (o Max Timeout Q : Nat)
    (hQ : trialRatio P freq o = (Q : Int)) (hsmall : Q / 1000000000000 + 1 < 4294967296) :
    (999755790000 ≤ Q % 1000000000000 →
      precisionBranch millis P freq o Max Timeout 0 = ⟨Q / 1000000000000 + 1, 2, 0, 0, false⟩)
    ∧ (Q % 1000000000000 < 999755790000 →
      (precisionBranch millis P freq o Max Timeout 0).ADF4351_N_Int = Q / 1000000000000) := by
  unfold trialRatio at hQ
  have hN : u32 (toLong (mul (div freq P) (ofNat o))) = Q / 1000000000000 := by
    rw [hQ, toLong_cast, u32_cast]
    exact Nat.mod_eq_of_lt (by omega)
  have hO : u32 (toLong (mul (div freq P) (ofNat o) + 244210000))
      = (Q + 244210000) / 1000000000000 := by
    rw [hQ, show ((Q : Int) + 244210000) = ((Q + 244210000 : Nat) : Int) by push_cast; rfl,
      toLong_cast, u32_cast]
    exact Nat.mod_eq_of_lt (by omega)
  constructor
  · intro hge
    unfold precisionBranch
    dsimp only
    rw [hO, hN, if_neg (by omega)]
    have e : u32 ((Q / 1000000000000 : Nat) + 1 : Int) = Q / 1000000000000 + 1 := by
      rw [show ((Q / 1000000000000 : Nat) + 1 : Int) = ((Q / 1000000000000 + 1 : Nat) : Int) by
        push_cast; rfl, u32_cast]
      exact Nat.mod_eq_of_lt hsmall
    rw [e]
  · intro hlt
    unfold precisionBranch
    dsimp only
    rw [hO, hN, if_pos (by omega)]
    split_ifs <;> rfl

/-- The twelve-digit quotient is at most the exact ratio and less than `divider * 10^-12`
below it. -/
theorem trialRatio_near (p f o : Nat) (hp : 0 < p) (ho : 0 < o) :
    f * 1000000000000 * 1000000000000 / p * o ≤ f * o * 1000000000000 * 1000000000000 / p
    ∧ f * o * 1000000000000 * 1000000000000 / p
        < f * 1000000000000 * 1000000000000 / p * o + o := by
  generalize hx : f * 1000000000000 * 1000000000000 = x
  have hxo : f * o * 1000000000000 * 1000000000000 = x * o := by rw [← hx]; ring
  rw [hxo]
  have hdm := Nat.div_add_mod x p
  have hml := Nat.mod_lt x hp
  constructor
  · rw [Nat.le_div_iff_mul_le hp]
    calc x / p * o * p = (p * (x / p)) * o := by ring
      _ ≤ x * o := Nat.mul_le_mul_right _ (by omega)
  · rw [Nat.div_lt_iff_lt_mul hp]
    calc x * o = (p * (x / p) + x % p) * o := by rw [hdm]
      _ = (x / p * o) * p + x % p * o := by ring
      _ < (x / p * o) * p + p * o :=
          Nat.add_lt_add_left (Nat.mul_lt_mul_of_pos_right hml ho) _
      _ = (x / p * o + o) * p := by ring

/-- The exact ratio in units of `10^-12`, split into its whole and fractional parts. -/
theorem exact_ratio_split (A p : Nat) (hp : 0 < p) :
    A * 1000000000000 / p = A / p * 1000000000000 + A % p * 1000000000000 / p := by
  have hdm := Nat.div_add_mod A p
  calc A * 1000000000000 / p
      = (A % p * 1000000000000 + A / p * 1000000000000 * p) / p := by
        refine congrArg (fun n => n / p) ?_
        calc A * 1000000000000 = (p * (A / p) + A % p) * 1000000000000 := by rw [hdm]
          _ = A % p * 1000000000000 + A / p * 1000000000000 * p := by ring
    _ = A % p * 1000000000000 / p + A / p * 1000000000000 := Nat.add_mul_div_right _ _ hp
    _ = A / p * 1000000000000 + A % p * 1000000000000 / p := Nat.add_comm _ _

theorem setrf_edge :
    setrf (roundBinary 53) powerOn 26014497 1 ADF4351_REF_UNDIVIDED
      = (ADF4351_ERROR_NONE, edgeState) := by
  rw [setrf_accept _ _ _ _ _ (by decide) (by decide) (by decide) (by decide) (by
    rw [loopFrequency_edge]
    norm_num [ADF4351_PFD_MAX, ADF4351_PFD_MIN])]
  decide

theorem setf_edge :
    setf (roundBinary 53) stoppedClock edgeState (ofNat 91863494) 1 0 0 true 300000 0
      = some ⟨ADF4351_ERROR_NONE, edgePlan, ofNat 91863494⟩ := by
  rw [setf_of_valid _ binary64_zero _ _ _ _ _ _ _ _ _ (by decide) (by decide) (by decide)
      (by decide)
    (by decide) (by decide) (by decide) (by decide) (by decide)]
  decide

/-! ## The fixed-policy bits -/

/-- The policy bits written by `encodeRegisters`. -/
theorem encodeRegisters_policy (s1 : State) (Frac N Mod P PFD PL APL AFD sel : Nat) :
    ReadBF_dword 7 1 (encodeRegisters s1 Frac N Mod P PFD PL APL AFD sel).R2
        = (if Frac = 0 then 1 else 0)
    ∧ ReadBF_dword 8 1 (encodeRegisters s1 Frac N Mod P PFD PL APL AFD sel).R2
        = (if Frac = 0 then 1 else 0)
    ∧ ReadBF_dword 21 1 (encodeRegisters s1 Frac N Mod P PFD PL APL AFD sel).R3
        = (if Frac = 0 then 1 else 0)
    ∧ ReadBF_dword 22 1 (encodeRegisters s1 Frac N Mod P PFD PL APL AFD sel).R3
        = (if Frac = 0 then 1 else 0)
    ∧ ReadBF_dword 28 1 (encodeRegisters s1 Frac N Mod P PFD PL APL AFD sel).R1
        = (if Frac = 0 ∧ PFD > 45000000 then 1 else 0) := by
  unfold encodeRegisters
  dsimp only
  by_cases hF : Frac = 0
  · simp only [hF, if_true, true_and]
    refine ⟨?_, ?_, ?_, ?_, ?_⟩
    · rw [ReadBF_WriteBF_below _ _ _ _ _ _ (by norm_num), ReadBF_WriteBF_same]; norm_num
    · rw [ReadBF_WriteBF_same]; norm_num
    · rw [ReadBF_WriteBF_below _ _ _ _ _ _ (by norm_num), ReadBF_WriteBF_same]; norm_num
    · rw [ReadBF_WriteBF_same]; norm_num
    · by_cases hp : PFD > 45000000
      · rw [if_pos hp, if_pos hp, ReadBF_WriteBF_same]; norm_num
      · rw [if_neg hp, if_neg hp, ReadBF_WriteBF_same]; norm_num
  · simp only [hF, if_false, false_and]
    refine ⟨?_, ?_, ?_, ?_, ?_⟩
    · rw [ReadBF_WriteBF_below _ _ _ _ _ _ (by norm_num), ReadBF_WriteBF_same]; norm_num
    · rw [ReadBF_WriteBF_same]; norm_num
    · rw [ReadBF_WriteBF_below _ _ _ _ _ _ (by norm_num), ReadBF_WriteBF_same]; norm_num
    · rw [ReadBF_WriteBF_same]; norm_num
    · rw [ReadBF_WriteBF_same]; norm_num

/-- When the whole-Hz phase-detector frequency fits a `uint32_t`, `PFDFreq` exceeds `k`
exactly when the phase-detector frequency is at least `k + 1`. -/
theorem PFDFreq_gt_iff (s : State) (k : Nat) (hR : ReadR s ≠ 0)
    (hsmall : s.ADF4351_reffreq * (1 + ReadRefDoubler s) / (ReadR s * (1 + ReadRDIV2 s))
      < 4294967296) :
    PFDFreq s > k ↔ ((k : ℚ) + 1) ≤ ReadPFDfreq id s := by
  have hb : 0 < ReadR s * (1 + ReadRDIV2 s) := Nat.mul_pos (Nat.pos_of_ne_zero hR) (by omega)
  have hP : PFDFreq s
      = s.ADF4351_reffreq * (1 + ReadRefDoubler s) / (ReadR s * (1 + ReadRDIV2 s)) := by
    unfold PFDFreq
    rw [toLong_BN_ADF4351_PFDFreq, u32_cast]
    exact Nat.mod_eq_of_lt hsmall
  rw [hP, ReadPFDfreq_eq s hR]
  generalize s.ADF4351_reffreq * (1 + ReadRefDoubler s) = a at *
  generalize ReadR s * (1 + ReadRDIV2 s) = b at *
  have hbq : (0 : ℚ) < (b : ℚ) := by exact_mod_cast hb
  rw [le_div_iff₀ hbq]
  constructor
  · intro h
    have h1 : (k + 1) * b ≤ a := (Nat.le_div_iff_mul_le hb).mp h
    exact_mod_cast h1
  · intro h
    have h1 : (k + 1) * b ≤ a := by exact_mod_cast h
    exact (Nat.le_div_iff_mul_le hb).mpr h1

/-- The loop frequency of `setrf(90000001, 1, ADF4351_REF_HALF)` where `double` is a 32-bit
float: the conversion of 90,000,001 rounds to 90,000,000, so the product is 45,000,000. -/
theorem loopFrequency_overHalf :
    loopFrequency (roundBinary 24) 90000001 1 ADF4351_REF_HALF
      = 45000000 := by
  have h0 : ∀ x : ℚ, x = 90000001 → roundBinary 24 x = 90000000 := by
    intro x hx
    rw [hx]
    exact roundBinary_at 24 90000001 26 11250000 8 90000000 (by norm_num)
      (by norm_num) (by norm_num) (by norm_num) (by rw [abs_lt]; constructor <;> norm_num)
      (by norm_num)
  have h1 : ∀ x : ℚ, x = 1 / 2 → roundBinary 24 x = 1 / 2 := by
    intro x hx
    rw [hx]
    exact roundBinary_at 24 (1 / 2) (-1) 8388608 (1 / 16777216) (1 / 2) (by norm_num)
      (by norm_num) (by norm_num) (by norm_num) (by rw [abs_lt]; constructor <;> norm_num)
      (by norm_num)
  have h2 : ∀ x : ℚ, x = 45000000 → roundBinary 24 x = 45000000 := by
    intro x hx
    rw [hx]
    exact roundBinary_at 24 45000000 25 11250000 4 45000000 (by norm_num)
      (by norm_num) (by norm_num) (by norm_num) (by rw [abs_lt]; constructor <;> norm_num)
      (by norm_num)
  unfold loopFrequency
  rw [if_pos rfl]
  have e0 := h0 ((90000001 : Nat) : ℚ) (by norm_num)
  have e1 := h1 (1 / 2 / ((1 : Nat) : ℚ)) (by norm_num)
  rw [e0, e1]
  exact h2 _ (by norm_num)

theorem setrf_over :
    setrf (roundBinary 24) powerOn 90000001 1 ADF4351_REF_HALF
      = (ADF4351_ERROR_NONE, overState) := by
  rw [setrf_accept _ _ _ _ _ (by decide) (by decide) (by decide) (by decide) (by
    rw [loopFrequency_overHalf]
    norm_num [ADF4351_PFD_MAX, ADF4351_PFD_MIN])]
  decide

theorem setf_over :
    setf (roundBinary 53) stoppedClock overState (ofNat 2250000025) 1 0 0 true 0 0
      = some ⟨ADF4351_ERROR_NONE, overPlan, ofNat 2250000025⟩ := by
  rw [setf_of_valid _ binary64_zero _ _ _ _ _ _ _ _ _ (by decide) (by decide) (by decide)
      (by decide)
    (by decide) (by decide) (by decide) (by decide) (by decide)]
  decide

theorem ReadPFDfreq_overPlan : ReadPFDfreq id overPlan = 90000001 / 2 := by
  have hR : ReadR overPlan = 1 := by decide
  have hT : ReadRDIV2 overPlan = 1 := by decide
  have hD : ReadRefDoubler overPlan = 0 := by decide
  unfold ReadPFDfreq
  simp only [hR, hT, hD]
  norm_num [overPlan]

/-! ## A stale channel step -/

/-- The loop frequency of `setrf(10000000, 1, ADF4351_REF_HALF)` in binary64 arithmetic. -/
theorem loopFrequency_stepHalf :
    loopFrequency (roundBinary 53) 10000000 1 ADF4351_REF_HALF
      = 5000000 := by
  have h0 : ∀ x : ℚ, x = 10000000 → roundBinary 53 x = 10000000 := by
    intro x hx
    rw [hx]
    exact roundBinary_at 53 10000000 23 5368709120000000 (1 / 536870912) 10000000 (by norm_num)
      (by norm_num) (by norm_num) (by norm_num) (by rw [abs_lt]; constructor <;> norm_num)
      (by norm_num)
  have h1 : ∀ x : ℚ, x = 1 / 2 → roundBinary 53 x = 1 / 2 := by
    intro x hx
    rw [hx]
    exact roundBinary_at 53 (1 / 2) (-1) 4503599627370496 (1 / 9007199254740992) (1 / 2)
      (by norm_num)
      (by norm_num) (by norm_num) (by norm_num) (by rw [abs_lt]; constructor <;> norm_num)
      (by norm_num)
  have h2 : ∀ x : ℚ, x = 5000000 → roundBinary 53 x = 5000000 := by
    intro x hx
    rw [hx]
    exact roundBinary_at 53 5000000 22 5368709120000000 (1 / 1073741824) 5000000 (by norm_num)
      (by norm_num) (by norm_num) (by norm_num) (by rw [abs_lt]; constructor <;> norm_num)
      (by norm_num)
  unfold loopFrequency
  rw [if_pos rfl]
  have e0 := h0 ((10000000 : Nat) : ℚ) (by norm_num)
  have e1 := h1 (1 / 2 / ((1 : Nat) : ℚ)) (by norm_num)
  rw [e0, e1]
  exact h2 _ (by norm_num)

/-- The loop frequency of `setrf(10000000, 1, ADF4351_REF_HALF)` where `double` is a 32-bit
float. -/
theorem loopFrequency_stepHalf_single :
    loopFrequency (roundBinary 24) 10000000 1 ADF4351_REF_HALF
      = 5000000 := by
  have h0 : ∀ x : ℚ, x = 10000000 → roundBinary 24 x = 10000000 := by
    intro x hx
    rw [hx]
    exact roundBinary_at 24 10000000 23 10000000 1 10000000 (by norm_num)
      (by norm_num) (by norm_num) (by norm_num) (by rw [abs_lt]; constructor <;> norm_num)
      (by norm_num)
  have h1 : ∀ x : ℚ, x = 1 / 2 → roundBinary 24 x = 1 / 2 := by
    intro x hx
    rw [hx]
    exact roundBinary_at 24 (1 / 2) (-1) 8388608 (1 / 16777216) (1 / 2) (by norm_num)
      (by norm_num) (by norm_num) (by norm_num) (by rw [abs_lt]; constructor <;> norm_num)
      (by norm_num)
  have h2 : ∀ x : ℚ, x = 5000000 → roundBinary 24 x = 5000000 := by
    intro x hx
    rw [hx]
    exact roundBinary_at 24 5000000 22 10000000 (1 / 2) 5000000 (by norm_num)
      (by norm_num) (by norm_num) (by norm_num) (by rw [abs_lt]; constructor <;> norm_num)
      (by norm_num)
  unfold loopFrequency
  rw [if_pos rfl]
  have e0 := h0 ((10000000 : Nat) : ℚ) (by norm_num)
  have e1 := h1 (1 / 2 / ((1 : Nat) : ℚ)) (by norm_num)
  rw [e0, e1]
  exact h2 _ (by norm_num)


theorem SetStepFreq_step :
    SetStepFreq (roundBinary 53) powerOn 10000000 = some (ADF4351_ERROR_NONE, stepState) := by
  unfold SetStepFreq
  rw [ReadPFDfreq_binary64_powerOn, roundBinary_natCast 53 10000000 (by norm_num),
    if_neg (by norm_num)]
  decide

theorem setrf_halved :
    setrf (roundBinary 53) stepState 10000000 1 ADF4351_REF_HALF
      = (ADF4351_ERROR_NONE, halvedState) := by
  rw [setrf_accept _ _ _ _ _ (by decide) (by decide) (by decide) (by decide) (by
    rw [loopFrequency_stepHalf]
    norm_num [ADF4351_PFD_MAX, ADF4351_PFD_MIN])]
  decide

theorem setrf_halved_single :
    setrf (roundBinary 24) stepState 10000000 1 ADF4351_REF_HALF
      = (ADF4351_ERROR_NONE, halvedState) := by
  rw [setrf_accept _ _ _ _ _ (by decide) (by decide) (by decide) (by decide) (by
    rw [loopFrequency_stepHalf_single]
    norm_num [ADF4351_PFD_MAX, ADF4351_PFD_MIN])]
  decide

theorem ReadPFDfreq_halved : ReadPFDfreq id halvedState = 5000000 := by
  have hR : ReadR halvedState = 1 := by decide
  have hT : ReadRDIV2 halvedState = 1 := by decide
  have hD : ReadRefDoubler halvedState = 0 := by decide
  unfold ReadPFDfreq
  simp only [hR, hT, hD]
  norm_num [halvedState]

/-! ## The range of N under a valid reference path -/

/-- The trial N of the precision branch in natural-number arithmetic. -/
theorem precision_trialN_eq (p f o : Nat) :
    u32 (toLong (mul (div (ofNat f) (p : Int)) (ofNat o)))
      = f * 1000000000000 * 1000000000000 / p * o / 1000000000000 % 4294967296 := by
  rw [ofNat_eq_cast, ofNat_eq_cast, div_cast, mul_cast, toLong_cast, u32_cast]
  have e1 : f * 1000000000000 * 1000000000000 / p * (o * 1000000000000) / 1000000000000
      = f * 1000000000000 * 1000000000000 / p * o := by
    rw [show f * 1000000000000 * 1000000000000 / p * (o * 1000000000000)
        = f * 1000000000000 * 1000000000000 / p * o * 1000000000000 by ring]
    exact Nat.mul_div_cancel _ (by norm_num)
  rw [e1]

/-- The N of the channel-step branch in natural-number arithmetic. -/
theorem channelStepN_eq (p f o : Nat) :
    channelStepN (p : Int) (ofNat f) o
      = f * o * 1000000000000 * 1000000000000 / p / 1000000000000 % 4294967296 := by
  unfold channelStepN
  rw [ofNat_eq_cast, ofNat_eq_cast, mul_cast, div_cast, toLong_cast, u32_cast]
  have e1 : f * 1000000000000 * (o * 1000000000000) / 1000000000000
      = f * o * 1000000000000 := by
    rw [show f * 1000000000000 * (o * 1000000000000)
        = f * o * 1000000000000 * 1000000000000 by ring]
    exact Nat.mul_div_cancel _ (by norm_num)
  rw [e1]

/-- With a phase-detector frequency in `[125 kHz, 45 MHz]` (`p` in units of `10^-12` Hz) and
a VCO frequency `f * o` in `[2.2 GHz, 4.4 GHz]`, the trial N of the precision branch lies
in `[48, 35200]`, and is at least 80 when the divider is 1 and the target at least
3.6 GHz. -/
theorem precision_trialN_range (p f o : Nat)
    (hp1 : 125000 * 1000000000000 ≤ p) (hp2 : p ≤ 45000000 * 1000000000000)
    (ho1 : 1 ≤ o) (ho2 : o ≤ 64)
    (hv1 : 2200000000 ≤ f * o) (hv2 : f * o ≤ 4400000000) :
    48 ≤ u32 (toLong (mul (div (ofNat f) (p : Int)) (ofNat o)))
    ∧ u32 (toLong (mul (div (ofNat f) (p : Int)) (ofNat o))) ≤ 35200
    ∧ (o = 1 → 3600000000 ≤ f →
        80 ≤ u32 (toLong (mul (div (ofNat f) (p : Int)) (ofNat o)))) := by
  have hp : 0 < p := by omega
  have hle := precision_trialN_le p f o hp
  have hq : f * o * 1000000000000 / p ≤ 35200 := by
    calc f * o * 1000000000000 / p
        ≤ 4400000000 * 1000000000000 / p :=
          Nat.div_le_div_right (Nat.mul_le_mul_right _ hv2)
      _ ≤ 4400000000 * 1000000000000 / (125000 * 1000000000000) :=
          Nat.div_le_div_left hp1 (by norm_num)
      _ = 35200 := by norm_num
  have hup : u32 (toLong (mul (div (ofNat f) (p : Int)) (ofNat o))) ≤ 35200 :=
    le_trans hle hq
  rw [precision_trialN_eq] at hup ⊢
  -- the value before the reduction modulo 2^32
  have hA : f * 1000000000000 * 1000000000000
      < (f * 1000000000000 * 1000000000000 / p + 1) * p := by
    have h0 := Nat.lt_mul_div_succ (f * 1000000000000 * 1000000000000) hp
    rw [Nat.mul_comm p] at h0
    exact h0
  have hAle : f * 1000000000000 * 1000000000000 / p * p ≤ f * 1000000000000 * 1000000000000 :=
    Nat.div_mul_le_self _ _
  generalize f * 1000000000000 * 1000000000000 / p = A at hup hA hAle ⊢
  -- A * o is below 2^32 * 10^12
  have hAo : A * o * p ≤ 4400000000 * 1000000000000 * 1000000000000 := by
    calc A * o * p = A * p * o := by ring
      _ ≤ f * 1000000000000 * 1000000000000 * o := Nat.mul_le_mul_right _ hAle
      _ = f * o * (1000000000000 * 1000000000000) := by ring
      _ ≤ 4400000000 * (1000000000000 * 1000000000000) := Nat.mul_le_mul_right _ hv2
      _ = 4400000000 * 1000000000000 * 1000000000000 := by ring
  have hAo2 : A * o * (125000 * 1000000000000) ≤ A * o * p := Nat.mul_le_mul_left _ hp1
  have hAo3 : A * o ≤ 35200 * 1000000000000 := by
    generalize A * o = X at hAo hAo2
    generalize X * p = Y at hAo hAo2
    omega
  have hsmall : A * o / 1000000000000 < 4294967296 := by
    have := Nat.div_le_div_right (c := 1000000000000) hAo3
    omega
  rw [Nat.mod_eq_of_lt hsmall] at hup ⊢
  have h48 : 48 * 1000000000000 ≤ A * o := by
    by_contra hn
    have hX : A * o + o ≤ 48 * 1000000000000 + 63 := by omega
    have h1 : f * 1000000000000 * 1000000000000 * o < (A + 1) * p * o :=
      Nat.mul_lt_mul_of_pos_right hA (by omega)
    have h2 : (A + 1) * p * o = (A * o + o) * p := by ring
    have h3 : (A * o + o) * p ≤ (48 * 1000000000000 + 63) * p := Nat.mul_le_mul_right _ hX
    have h4 : f * 1000000000000 * 1000000000000 * o
        = f * o * (1000000000000 * 1000000000000) := by ring
    have h5 : 2200000000 * (1000000000000 * 1000000000000)
        ≤ f * o * (1000000000000 * 1000000000000) := Nat.mul_le_mul_right _ hv1
    rw [h2, h4] at h1
    generalize (A * o + o) * p = Y at h1 h3
    generalize f * o * (1000000000000 * 1000000000000) = Z at h1 h5
    omega
  refine ⟨?_, hup, ?_⟩
  · exact (Nat.le_div_iff_mul_le (by norm_num)).mpr h48
  · intro ho hf
    subst ho
    rw [Nat.mul_one]
    apply (Nat.le_div_iff_mul_le (by norm_num)).mpr
    have h1 : 80 * 1000000000000 * p ≤ f * 1000000000000 * 1000000000000 := by
      have : 80 * 1000000000000 * p ≤ 80 * 1000000000000 * (45000000 * 1000000000000) :=
        Nat.mul_le_mul_left _ hp2
      have : 3600000000 * (1000000000000 * 1000000000000)
          ≤ f * (1000000000000 * 1000000000000) := Nat.mul_le_mul_right _ hf
      have e : f * 1000000000000 * 1000000000000 = f * (1000000000000 * 1000000000000) := by
        ring
      rw [e]
      omega
    by_contra hn
    have hA1 : A + 1 ≤ 80 * 1000000000000 := by omega
    have := Nat.mul_le_mul_right p hA1
    omega

/-- Under the same bounds the N of the channel-step branch lies in `[48, 35200]`, and is at
least 80 when the divider is 1 and the target at least 3.6 GHz. -/
theorem channelStepN_range (p f o : Nat)
    (hp1 : 125000 * 1000000000000 ≤ p) (hp2 : p ≤ 45000000 * 1000000000000)
    (hv1 : 2200000000 ≤ f * o) (hv2 : f * o ≤ 4400000000) :
    48 ≤ channelStepN (p : Int) (ofNat f) o
    ∧ channelStepN (p : Int) (ofNat f) o ≤ 35200
    ∧ (o = 1 → 3600000000 ≤ f → 80 ≤ channelStepN (p : Int) (ofNat f) o) := by
  have hp : 0 < p := by omega
  have hle := channelStepN_le p f o
  have hq : f * o * 1000000000000 / p ≤ 35200 := by
    calc f * o * 1000000000000 / p
        ≤ 4400000000 * 1000000000000 / p :=
          Nat.div_le_div_right (Nat.mul_le_mul_right _ hv2)
      _ ≤ 4400000000 * 1000000000000 / (125000 * 1000000000000) :=
          Nat.div_le_div_left hp1 (by norm_num)
      _ = 35200 := by norm_num
  have hup : channelStepN (p : Int) (ofNat f) o ≤ 35200 := le_trans hle hq
  have key : ∀ k : Nat, k * 1000000000000 * p ≤ f * o * 1000000000000 * 1000000000000 →
      k ≤ f * o * 1000000000000 * 1000000000000 / p / 1000000000000 := by
    intro k hk
    apply (Nat.le_div_iff_mul_le (by norm_num)).mpr
    exact (Nat.le_div_iff_mul_le hp).mpr hk
  have hsmall : f * o * 1000000000000 * 1000000000000 / p / 1000000000000 < 4294967296 := by
    rw [Nat.div_div_eq_div_mul, Nat.mul_comm p, ← Nat.div_div_eq_div_mul,
      Nat.mul_div_cancel _ (by norm_num)]
    omega
  rw [channelStepN_eq, Nat.mod_eq_of_lt hsmall] at hup ⊢
  refine ⟨?_, hup, ?_⟩
  · apply key
    have h1 : 48 * 1000000000000 * p ≤ 48 * 1000000000000 * (45000000 * 1000000000000) :=
      Nat.mul_le_mul_left _ hp2
    have h2 : 2200000000 * (1000000000000 * 1000000000000)
        ≤ f * o * (1000000000000 * 1000000000000) := Nat.mul_le_mul_right _ hv1
    have e : f * o * 1000000000000 * 1000000000000
        = f * o * (1000000000000 * 1000000000000) := by ring
    rw [e]
    omega
  · intro ho hf
    subst ho
    apply key
    have h1 : 80 * 1000000000000 * p ≤ 80 * 1000000000000 * (45000000 * 1000000000000) :=
      Nat.mul_le_mul_left _ hp2
    have h2 : 3600000000 * (1000000000000 * 1000000000000)
        ≤ f * (1000000000000 * 1000000000000) := Nat.mul_le_mul_right _ hf
    have e : f * 1 * 1000000000000 * 1000000000000
        = f * (1000000000000 * 1000000000000) := by ring
    rw [e]
    omega

/-- The N returned by the precision branch under the same bounds lies in `[48, 35201]`. -/
theorem precisionBranch_N_range (millis : Nat → Nat) (p f o Max Timeout : Nat)
    (hp1 : 125000 * 1000000000000 ≤ p) (hp2 : p ≤ 45000000 * 1000000000000)
    (ho1 : 1 ≤ o) (ho2 : o ≤ 64)
    (hv1 : 2200000000 ≤ f * o) (hv2 : f * o ≤ 4400000000) :
    48 ≤ (precisionBranch millis (p : Int) (ofNat f) o Max Timeout 0).ADF4351_N_Int
    ∧ (precisionBranch millis (p : Int) (ofNat f) o Max Timeout 0).ADF4351_N_Int ≤ 35201
    ∧ (o = 1 → 3600000000 ≤ f →
        80 ≤ (precisionBranch millis (p : Int) (ofNat f) o Max Timeout 0).ADF4351_N_Int) := by
  obtain ⟨a1, a2, a3⟩ := precision_trialN_range p f o hp1 hp2 ho1 ho2 hv1 hv2
  rcases precisionBranch_N millis (p : Int) (ofNat f) o Max Timeout with h | h
  · rw [h]
    exact ⟨a1, by omega, a3⟩
  · rw [h, ← Nat.cast_one, ← Nat.cast_add, u32_cast]
    generalize u32 (toLong (mul (div (ofNat f) (p : Int)) (ofNat o))) = n at a1 a2 a3
    rw [Nat.mod_eq_of_lt (by omega)]
    exact ⟨by omega, by omega, fun h1 h2 => by have := a3 h1 h2; omega⟩

/-- The N of a decomposition is the N of the branch taken. -/
theorem decompose_N_cases (millis : Nat → Nat) (P : BigNumber) (step : Nat) (f : BigNumber)
    (Prec : Bool) (Max Timeout : Nat) (b : Decomposition)
    (hb : decompose millis P step f Prec Max Timeout = some b) :
    (Prec = true ∧ b.ADF4351_N_Int
      = (precisionBranch millis P f (selectOutputDivider f).1 Max Timeout 0).ADF4351_N_Int)
    ∨ (Prec = false ∧ b.ADF4351_N_Int = channelStepN P f (selectOutputDivider f).1) := by
  unfold decompose at hb
  by_cases hP : Prec = true
  · rw [if_pos hP] at hb
    have hb' := Option.some.inj hb
    exact Or.inl ⟨hP, by rw [← hb']⟩
  · rw [if_neg hP] at hb
    unfold channelStepBranch at hb
    split at hb
    · cases hb
    · cases hb
      exact Or.inr ⟨by simpa using hP, rfl⟩

/-- A phase-detector frequency in `[125 kHz, 45 MHz]` in the units of the decimal type. -/
theorem BN_ADF4351_PFDFreq_range (s : State) (hpl : 125000 ≤ ReadPFDfreq id s)
    (hph : ReadPFDfreq id s ≤ 45000000) :
    ReadR s ≠ 0 ∧ s.ADF4351_reffreq ≠ 0
    ∧ ∃ p : Nat, BN_ADF4351_PFDFreq s = (p : Int)
      ∧ 125000 * 1000000000000 ≤ p ∧ p ≤ 45000000 * 1000000000000 := by
  have hne : ReadPFDfreq id s ≠ 0 := by
    intro h0
    rw [h0] at hpl
    norm_num at hpl
  have hR : ReadR s ≠ 0 := fun h => hne ((ReadPFDfreq_eq_zero_iff id id_zero s).mpr (Or.inl h))
  have hf : s.ADF4351_reffreq ≠ 0 := fun h => hne ((ReadPFDfreq_eq_zero_iff id id_zero s).mpr (Or.inr h))
  refine ⟨hR, hf, _, BN_ADF4351_PFDFreq_cast s, ?_⟩
  have hfl := BN_ADF4351_PFDFreq_floor s (ReadRDIV2_le_one s)
  rw [← ReadPFDfreq_eq s hR, BN_ADF4351_PFDFreq_cast] at hfl
  generalize s.ADF4351_reffreq * (1 + ReadRefDoubler s) * (1000000000000 / (1 + ReadRDIV2 s))
    / ReadR s = p at hfl
  have h1 : ((125000 * 1000000000000 : Int) : ℚ) ≤ ReadPFDfreq id s * 1000000000000 := by
    push_cast
    nlinarith
  have h2 : ((⌊ReadPFDfreq id s * 1000000000000⌋ : Int) : ℚ) ≤ ReadPFDfreq id s * 1000000000000 :=
    Int.floor_le _
  have h3 : (125000 * 1000000000000 : Int) ≤ ⌊ReadPFDfreq id s * 1000000000000⌋ :=
    Int.le_floor.mpr h1
  have h4 : ((⌊ReadPFDfreq id s * 1000000000000⌋ : Int) : ℚ)
      ≤ ((45000000 * 1000000000000 : Int) : ℚ) := by
    push_cast
    nlinarith
  have h5 : ⌊ReadPFDfreq id s * 1000000000000⌋ ≤ (45000000 * 1000000000000 : Int) := by
    exact_mod_cast h4
  rw [← hfl] at h3 h5
  constructor
  · exact_mod_cast h3
  · exact_mod_cast h5

/-- The two N range errors of `checkAndCommit` come from the N range checks. -/
theorem checkAndCommit_n_range (s1 : State) (freq : BigNumber)
    (Frac N Mod Prescaler PFDFreq PowerLevel AuxPowerLevel AuxFrequencyDivider sel : Nat)
    (FE : Int) (Prec : Bool) (Max : Nat)
    (h : (checkAndCommit s1 freq Frac N Mod Prescaler PFDFreq PowerLevel AuxPowerLevel
        AuxFrequencyDivider sel FE Prec Max).code = ADF4351_ERROR_N_RANGE
      ∨ (checkAndCommit s1 freq Frac N Mod Prescaler PFDFreq PowerLevel AuxPowerLevel
        AuxFrequencyDivider sel FE Prec Max).code = ADF4351_ERROR_N_RANGE_OVER_3600_MHz) :
    (Prescaler = 0 ∧ (N < 23 ∨ N > 65535)) ∨ (Prescaler = 1 ∧ (N < 75 ∨ N > 65535)) := by
  unfold checkAndCommit at h
  by_cases h1 : Mod < 2 ∨ Mod > 4095
  · rw [if_pos h1] at h
    rcases h with h | h <;> (dsimp only at h; exact absurd h (by decide))
  rw [if_neg h1] at h
  by_cases h2 : Frac > Mod - 1
  · rw [if_pos h2] at h
    rcases h with h | h <;> (dsimp only at h; exact absurd h (by decide))
  rw [if_neg h2] at h
  by_cases h3 : Prescaler = 0 ∧ (N < 23 ∨ N > 65535)
  · exact Or.inl h3
  rw [if_neg h3] at h
  by_cases h4 : Prescaler = 1 ∧ (N < 75 ∨ N > 65535)
  · exact Or.inr h4
  rw [if_neg h4] at h
  by_cases h5 : Frac ≠ 0 ∧ PFDFreq > ADF4351_PFD_MAX_FRAC
  · rw [if_pos h5] at h
    rcases h with h | h <;> (dsimp only at h; exact absurd h (by decide))
  rw [if_neg h5] at h
  rcases reportFrequencyError_code
    (encodeRegisters s1 Frac N Mod Prescaler PFDFreq PowerLevel AuxPowerLevel
      AuxFrequencyDivider sel) freq FE Prec Max with h' | h'
  · rw [h'] at h
    rcases h with h | h <;> exact absurd h (by decide)
  · rw [h'] at h
    rcases h with h | h <;> exact absurd h (by decide)

/-- A `setf` call that returns one of the two N range errors computed an N that fails the
range check of its prescaler. -/
theorem setf_n_range_inv (fl : ℚ → ℚ)
    (millis : Nat → Nat) (s : State) (freq : BigNumber)
    (PowerLevel AuxPowerLevel AuxFrequencyDivider : Nat) (Prec : Bool) (Max Timeout : Nat)
    (r : SetfResult)
    (h : setf fl millis s freq PowerLevel AuxPowerLevel AuxFrequencyDivider Prec Max Timeout
      = some r)
    (hc : r.code = ADF4351_ERROR_N_RANGE ∨ r.code = ADF4351_ERROR_N_RANGE_OVER_3600_MHz) :
    ∃ b, decompose millis (BN_ADF4351_PFDFreq s) s.ADF4351_ChanStep (toLong freq * ONE) Prec
        Max Timeout = some b
      ∧ ((selectPrescaler (toLong freq * ONE) = 0
          ∧ (b.ADF4351_N_Int < 23 ∨ b.ADF4351_N_Int > 65535))
        ∨ (selectPrescaler (toLong freq * ONE) = 1
          ∧ (b.ADF4351_N_Int < 75 ∨ b.ADF4351_N_Int > 65535))) := by
  unfold setf at h
  split_ifs at h
  all_goals first
    | (cases h; rcases hc with hc | hc <;> (dsimp only at hc; exact absurd hc (by decide)))
    | skip
  unfold planAndCommit at h
  split at h
  · cases h
  · rename_i b hb
    split_ifs at h
    · cases h
      rcases hc with hc | hc <;> (dsimp only at hc; exact absurd hc (by decide))
    · cases h
      exact ⟨b, hb, checkAndCommit_n_range _ _ _ _ _ _ _ _ _ _ _ _ _ _ hc⟩

/-! ## The frame of `setf` -/

/-- Writing a bit field leaves every bit outside the field as it was. -/
theorem testBit_WriteBF_dword (o w d v i : Nat) (h : i < o ∨ o + w ≤ i) :
    (WriteBF_dword o w d v).testBit i = d.testBit i := by
  rcases h with h | h
  · have e := WriteBF_dword_mod o w d v
    have h1 := Nat.testBit_mod_two_pow (WriteBF_dword o w d v) o i
    have h2 := Nat.testBit_mod_two_pow d o i
    rw [e] at h1
    rw [h2] at h1
    simpa [h] using h1.symm
  · have e := WriteBF_dword_div o w d v
    have h1 : ∀ x : Nat, x.testBit i = (x / 2 ^ (o + w)).testBit (i - (o + w)) := by
      intro x
      rw [← Nat.shiftRight_eq_div_pow, Nat.testBit_shiftRight]
      congr 1; omega
    rw [h1 (WriteBF_dword o w d v), h1 d, e]

/-- The bits of the five words the register writes of `setf` can reach. -/
theorem encodeRegisters_frame (s1 : State) (Frac N Mod P PFD PL APL AFD sel : Nat) :
    (∀ i, ¬(3 ≤ i ∧ i ≤ 30) →
      (encodeRegisters s1 Frac N Mod P PFD PL APL AFD sel).R0.testBit i = s1.R0.testBit i)
    ∧ (∀ i, ¬((3 ≤ i ∧ i ≤ 14) ∨ i = 27 ∨ i = 28) →
      (encodeRegisters s1 Frac N Mod P PFD PL APL AFD sel).R1.testBit i = s1.R1.testBit i)
    ∧ (∀ i, ¬(7 ≤ i ∧ i ≤ 8) →
      (encodeRegisters s1 Frac N Mod P PFD PL APL AFD sel).R2.testBit i = s1.R2.testBit i)
    ∧ (∀ i, ¬(21 ≤ i ∧ i ≤ 22) →
      (encodeRegisters s1 Frac N Mod P PFD PL APL AFD sel).R3.testBit i = s1.R3.testBit i)
    ∧ (∀ i, ¬((3 ≤ i ∧ i ≤ 9) ∨ (20 ≤ i ∧ i ≤ 22)) →
      (encodeRegisters s1 Frac N Mod P PFD PL APL AFD sel).R4.testBit i = s1.R4.testBit i)
    ∧ (encodeRegisters s1 Frac N Mod P PFD PL APL AFD sel).R5 = s1.R5 := by
  refine ⟨?_, ?_, ?_, ?_, ?_, rfl⟩
  · intro i hi
    unfold encodeRegisters
    dsimp only
    rw [testBit_WriteBF_dword _ _ _ _ _ (by omega), testBit_WriteBF_dword _ _ _ _ _ (by omega)]
  · intro i hi
    unfold encodeRegisters
    dsimp only
    split_ifs <;>
      rw [testBit_WriteBF_dword _ _ _ _ _ (by omega), testBit_WriteBF_dword _ _ _ _ _ (by omega),
        testBit_WriteBF_dword _ _ _ _ _ (by omega)]
  · intro i hi
    unfold encodeRegisters
    dsimp only
    split_ifs <;>
      rw [testBit_WriteBF_dword _ _ _ _ _ (by omega), testBit_WriteBF_dword _ _ _ _ _ (by omega)]
  · intro i hi
    unfold encodeRegisters
    dsimp only
    split_ifs <;>
      rw [testBit_WriteBF_dword _ _ _ _ _ (by omega), testBit_WriteBF_dword _ _ _ _ _ (by omega)]
  · intro i hi
    rw [encodeRegisters_R4, testBit_WriteBF_dword _ _ _ _ _ (by omega)]
    split_ifs <;>
      simp only [testBit_WriteBF_dword _ _ _ _ _ (show i < 3 ∨ 3 + 2 ≤ i by omega),
        testBit_WriteBF_dword _ _ _ _ _ (show i < 5 ∨ 5 + 1 ≤ i by omega),
        testBit_WriteBF_dword _ _ _ _ _ (show i < 6 ∨ 6 + 2 ≤ i by omega),
        testBit_WriteBF_dword _ _ _ _ _ (show i < 8 ∨ 8 + 1 ≤ i by omega),
        testBit_WriteBF_dword _ _ _ _ _ (show i < 9 ∨ 9 + 1 ≤ i by omega)]

/-- The state a returning `setf` call leaves: the old state with a new frequency error, or
the encoded registers with a new frequency error. -/
theorem setf_state_cases (fl : ℚ → ℚ)
    (millis : Nat → Nat) (s : State) (freq : BigNumber)
    (PowerLevel AuxPowerLevel AuxFrequencyDivider : Nat) (Prec : Bool) (Max Timeout : Nat)
    (r : SetfResult)
    (h : setf fl millis s freq PowerLevel AuxPowerLevel AuxFrequencyDivider Prec Max Timeout
      = some r) :
    (∃ e, r.state = { s with ADF4351_FrequencyError := e })
    ∨ (∃ (e e' : Int) (Frac N Mod P PFD sel : Nat),
        r.state = { encodeRegisters { s with ADF4351_FrequencyError := e } Frac N Mod P PFD
            PowerLevel AuxPowerLevel AuxFrequencyDivider sel with
          ADF4351_FrequencyError := e' }) := by
  have hplan : ∀ f : BigNumber,
      planAndCommit millis s f PowerLevel AuxPowerLevel AuxFrequencyDivider Prec Max Timeout
        = some r →
      (∃ e, r.state = { s with ADF4351_FrequencyError := e })
      ∨ (∃ (e e' : Int) (Frac N Mod P PFD sel : Nat),
          r.state = { encodeRegisters { s with ADF4351_FrequencyError := e } Frac N Mod P PFD
              PowerLevel AuxPowerLevel AuxFrequencyDivider sel with
            ADF4351_FrequencyError := e' }) := by
    intro f hp
    unfold planAndCommit at hp
    split at hp
    · cases hp
    · rename_i b hb
      split_ifs at hp with ht
      · cases hp
        exact Or.inl ⟨_, rfl⟩
      · cases hp
        by_cases hc : ChecksPass b.ADF4351_Frac b.ADF4351_N_Int
            (correctMod b.ADF4351_Frac b.ADF4351_Mod) (selectPrescaler f) (PFDFreq s)
        · rw [checkAndCommit_of_pass _ _ _ _ _ _ _ _ _ _ _ _ _ _ hc]
          right
          unfold reportFrequencyError
          split_ifs <;> exact ⟨_, _, _, _, _, _, _, _, rfl⟩
        · obtain ⟨code, _, _, e⟩ := checkAndCommit_of_fail
            { s with ADF4351_FrequencyError :=
                (finalFrequencyError (BN_ADF4351_PFDFreq s) f (selectOutputDivider f).1
                  b.ADF4351_N_Int b.ADF4351_Frac b.ADF4351_Mod) }
            f b.ADF4351_Frac b.ADF4351_N_Int
            (correctMod b.ADF4351_Frac b.ADF4351_Mod) (selectPrescaler f) (PFDFreq s)
            PowerLevel AuxPowerLevel AuxFrequencyDivider (selectOutputDivider f).2
            (finalFrequencyError (BN_ADF4351_PFDFreq s) f (selectOutputDivider f).1
              b.ADF4351_N_Int b.ADF4351_Frac b.ADF4351_Mod) Prec Max hc
          rw [e]
          exact Or.inl ⟨_, rfl⟩
  unfold setf at h
  split_ifs at h <;> first
    | (cases h; exact Or.inl ⟨_, rfl⟩)
    | exact hplan _ h

/-- C1. Every error return leaves the register image untouched: if `setf` returns a code
other than `ADF4351_ERROR_NONE` (0) or `ADF4351_WARNING_FREQUENCY_ERROR` (14), the
precision-search timeout (13) included, and likewise if `setrf` (however its `double`
arithmetic rounds) or `SetStepFreq` returns a non-zero code, then the six words
`ADF4351_R[0..5]` are what they were before the call. -/
theorem error_returns_keep_registers (fl : ℚ → ℚ)
    (millis : Nat → Nat) (s : State) (freq : BigNumber)
    (PowerLevel AuxPowerLevel AuxFrequencyDivider : Nat) (PrecisionFrequency : Bool)
    (MaximumFrequencyError CalculationTimeout : Nat) (r : SetfResult)
    (f rdiv ReferenceDivisionType value : Nat) (q : Nat × State) :
    (setf fl millis s freq PowerLevel AuxPowerLevel AuxFrequencyDivider PrecisionFrequency
        MaximumFrequencyError CalculationTimeout = some r →
      r.code ≠ ADF4351_ERROR_NONE → r.code ≠ ADF4351_WARNING_FREQUENCY_ERROR →
      r.state.ADF4351_R = s.ADF4351_R)
    ∧ ((setrf fl s f rdiv ReferenceDivisionType).1 ≠ ADF4351_ERROR_NONE →
      (setrf fl s f rdiv ReferenceDivisionType).2.ADF4351_R = s.ADF4351_R)
    ∧ (SetStepFreq fl s value = some q → q.1 ≠ ADF4351_ERROR_NONE →
      q.2.ADF4351_R = s.ADF4351_R) :=
  ⟨fun h h0 h14 => setf_error_regs _ _ _ _ _ _ _ _ _ _ _ h h0 h14,
   fun h => setrf_error_regs _ _ _ _ _ h,
   fun h _ => SetStepFreq_regs _ _ _ _ h⟩

theorem setf_timeout_example :
    setf (roundBinary 53) lateClock powerOn (ofNat 2200000001) 1 0 0 true 0 1
      = some ⟨ADF4351_ERROR_PRECISION_FREQUENCY_CALCULATION_TIMEOUT,
          { powerOn with ADF4351_FrequencyError := 1 }, ofNat 2200000001⟩ := by
  rw [setf_of_valid _ binary64_zero _ _ _ _ _ _ _ _ _ (by decide) (by decide) (by decide)
      (by decide) (by decide)
    (by decide) (by decide) (by decide) (by decide)]
  decide

theorem SetStepFreq_exceeds_example :
    SetStepFreq (roundBinary 53) powerOn 20000000
      = some (ADF4351_ERROR_STEP_FREQUENCY_EXCEEDS_PFD, powerOn) := by
  unfold SetStepFreq
  rw [ReadPFDfreq_binary64_powerOn, roundBinary_natCast 53 20000000 (by norm_num),
    if_pos (by norm_num)]

/-- C1 at concrete calls on the power-on state: a precision search that times out (13), a
`setrf` call with `r = 0` (16) and a `SetStepFreq` call above the PFD frequency (1). -/
theorem error_returns_keep_registers_witness :
    ({ powerOn with ADF4351_FrequencyError := 1 } : State).ADF4351_R = powerOn.ADF4351_R
    ∧ (setrf (roundBinary 53) powerOn 10000000 0 0).2.ADF4351_R = powerOn.ADF4351_R
    ∧ (ADF4351_ERROR_STEP_FREQUENCY_EXCEEDS_PFD, powerOn).2.ADF4351_R = powerOn.ADF4351_R :=
  have h := error_returns_keep_registers (roundBinary 53) lateClock powerOn (ofNat 2200000001)
    1 0 0 true 0 1
    ⟨ADF4351_ERROR_PRECISION_FREQUENCY_CALCULATION_TIMEOUT,
      { powerOn with ADF4351_FrequencyError := 1 }, ofNat 2200000001⟩
    10000000 0 0 20000000 (ADF4351_ERROR_STEP_FREQUENCY_EXCEEDS_PFD, powerOn)
  ⟨h.1 setf_timeout_example (by decide) (by decide),
   h.2.1 (by decide),
   h.2.2 SetStepFreq_exceeds_example (by decide)⟩

/-! ## C8: output divider selection -/

/-- C8. Output divider selection. For every accepted target the divider chosen by `setf`
for the target cut at its decimal point is 64 with select code 6 when that target is
34,375,000 Hz and otherwise the smallest power of two strictly greater than
`floor(2,200,000,000 / target)`; in every case the divider is `2 ^ select code`, lies in
`[1, 64]` and the select code is at most 6 (so it fits the 3-bit field); every committing
call reads these two values back from register 4. -/
theorem output_divider_selection (fl : ℚ → ℚ) (hfl : ∀ x : ℚ, fl x = 0 ↔ x = 0)
    (freq : BigNumber) (hlo : ofNat 34375000 ≤ freq)
    (hhi : freq ≤ ofNat 4400000000) :
    ((toLong freq).toNat = 34375000 → selectOutputDivider (toLong freq * ONE) = (64, 6))
    ∧ ((toLong freq).toNat ≠ 34375000 →
        2200000000 / (toLong freq).toNat < (selectOutputDivider (toLong freq * ONE)).1
        ∧ ∀ k, 2200000000 / (toLong freq).toNat < 2 ^ k →
            (selectOutputDivider (toLong freq * ONE)).1 ≤ 2 ^ k)
    ∧ (selectOutputDivider (toLong freq * ONE)).1
        = 2 ^ (selectOutputDivider (toLong freq * ONE)).2
    ∧ (selectOutputDivider (toLong freq * ONE)).2 ≤ 6
    ∧ 1 ≤ (selectOutputDivider (toLong freq * ONE)).1
    ∧ (selectOutputDivider (toLong freq * ONE)).1 ≤ 64
    ∧ ∀ (millis : Nat → Nat) (s : State) (PowerLevel AuxPowerLevel AuxFrequencyDivider : Nat)
        (PrecisionFrequency : Bool) (MaximumFrequencyError CalculationTimeout : Nat)
        (r : SetfResult),
        setf fl millis s freq PowerLevel AuxPowerLevel AuxFrequencyDivider PrecisionFrequency
          MaximumFrequencyError CalculationTimeout = some r →
        (r.code = ADF4351_ERROR_NONE ∨ r.code = ADF4351_WARNING_FREQUENCY_ERROR) →
        ReadOutDivider r.state = (selectOutputDivider (toLong freq * ONE)).1
        ∧ ReadOutDivider_PowerOf2 r.state = (selectOutputDivider (toLong freq * ONE)).2 := by
  obtain ⟨e, h1, _⟩ := accepted_target freq hlo hhi
  rw [e]
  obtain ⟨p1, p2, p3, p4, p5, p6⟩ := selectOutputDivider_spec (toLong freq).toNat h1
  refine ⟨p1, p2, p3, p4, p5, p6, ?_⟩
  intro millis s PL APL AFD Prec Max Timeout r h hc
  obtain ⟨_, _, _, _, _, _, _, b, _, _, _, hr⟩ := setf_commit_inv _ hfl _ _ _ _ _ _ _ _ _ _ h hc
  rw [e] at hr
  have hR4 := (reportFrequencyError_regs
    (encodeRegisters
      { s with ADF4351_FrequencyError :=
          (finalFrequencyError (BN_ADF4351_PFDFreq s) (ofNat (toLong freq).toNat)
            (selectOutputDivider (ofNat (toLong freq).toNat)).1
            b.ADF4351_N_Int b.ADF4351_Frac b.ADF4351_Mod) }
      b.ADF4351_Frac b.ADF4351_N_Int (correctMod b.ADF4351_Frac b.ADF4351_Mod)
      (selectPrescaler (ofNat (toLong freq).toNat)) (PFDFreq s) PL APL AFD
      (selectOutputDivider (ofNat (toLong freq).toNat)).2)
    (ofNat (toLong freq).toNat)
    (finalFrequencyError (BN_ADF4351_PFDFreq s) (ofNat (toLong freq).toNat)
      (selectOutputDivider (ofNat (toLong freq).toNat)).1
      b.ADF4351_N_Int b.ADF4351_Frac b.ADF4351_Mod) Prec Max).2.2.2.2.1
  rw [← hr] at hR4
  have hsel := encodeRegisters_ReadOutDivider_PowerOf2
      { s with ADF4351_FrequencyError :=
          (finalFrequencyError (BN_ADF4351_PFDFreq s) (ofNat (toLong freq).toNat)
            (selectOutputDivider (ofNat (toLong freq).toNat)).1
            b.ADF4351_N_Int b.ADF4351_Frac b.ADF4351_Mod) }
      b.ADF4351_Frac b.ADF4351_N_Int (correctMod b.ADF4351_Frac b.ADF4351_Mod)
      (selectPrescaler (ofNat (toLong freq).toNat)) (PFDFreq s) PL APL AFD
      (selectOutputDivider (ofNat (toLong freq).toNat)).2
  unfold ReadOutDivider_PowerOf2 at hsel ⊢
  unfold ReadOutDivider
  rw [hR4, hsel, Nat.mod_eq_of_lt (by omega : (selectOutputDivider (ofNat (toLong freq).toNat)).2 < 8)]
  refine ⟨?_, rfl⟩
  rw [Nat.one_shiftLeft, ← p3]
  exact Nat.mod_eq_of_lt (by omega)

/-- C8 at the target 4,007,500,000 Hz. -/
theorem output_divider_selection_witness :
    selectOutputDivider (toLong (ofNat 4007500000) * ONE) = (1, 0)
    ∧ 2200000000 / (toLong (ofNat 4007500000)).toNat
        < (selectOutputDivider (toLong (ofNat 4007500000) * ONE)).1 :=
  ⟨by decide,
   ((output_divider_selection _ binary64_zero (ofNat 4007500000) (by decide) (by decide)).2.1
      (by decide)).1⟩

/-! ## C5: the worked scenario -/

theorem scenario_branch :
    precisionBranch stoppedClock (ofNat 10000000) (ofNat 4007500000) 1 0 0 0
      = ⟨400, 4, 3, 0, false⟩ := by
  decide

/-- C5 (as the code behaves). With reference 10,000,000 Hz, R = 1, no doubler and no
half-divider, `setf` on the target 4,007,500,000 Hz in precision mode with tolerance 0 and
no timeout returns `ADF4351_ERROR_NONE` and commits output divider 1 (select code 0), the
high prescaler, N = 400, FRAC = 3, MOD = 4, and reports frequency error 0. -/
theorem worked_scenario (fl : ℚ → ℚ) (hfl : ∀ x : ℚ, fl x = 0 ↔ x = 0)
    (millis : Nat → Nat) (s : State)
    (PowerLevel AuxPowerLevel AuxFrequencyDivider : Nat)
    (href : s.ADF4351_reffreq = 10000000) (hR : ReadR s = 1) (hT : ReadRDIV2 s = 0)
    (hD : ReadRefDoubler s = 0) (hP : PowerLevel ≤ 4) (hA : AuxPowerLevel ≤ 4)
    (hF : AuxFrequencyDivider = 0 ∨ AuxFrequencyDivider = 1) :
    ∃ r, setf fl millis s (ofNat 4007500000) PowerLevel AuxPowerLevel AuxFrequencyDivider true 0 0
        = some r
      ∧ r.code = ADF4351_ERROR_NONE
      ∧ ReadOutDivider r.state = 1 ∧ ReadOutDivider_PowerOf2 r.state = 0
      ∧ ReadBF_dword 27 1 r.state.R1 = 1
      ∧ ReadInt r.state = 400 ∧ ReadFraction r.state = 3 ∧ ReadMod r.state = 4
      ∧ ReadFrequencyError r.state = 0 := by
  have hpfd : BN_ADF4351_PFDFreq s = ofNat 10000000 := by
    rw [BN_ADF4351_PFDFreq_R1 s hR hT hD, href]
  have hpf : PFDFreq s = 10000000 := by
    rw [PFDFreq_R1 s hR hT hD (by omega), href]
  have hfreq : toLong (ofNat 4007500000) * ONE = ofNat 4007500000 := by decide
  have hdiv : selectOutputDivider (ofNat 4007500000) = (1, 0) := by decide
  have hb : decompose millis (BN_ADF4351_PFDFreq s) s.ADF4351_ChanStep
      (toLong (ofNat 4007500000) * ONE) true 0 0 = some ⟨400, 4, 3, 0, false⟩ := by
    rw [decompose_no_timeout millis stoppedClock, hpfd, hfreq]
    unfold decompose
    rw [if_pos rfl, hdiv, scenario_branch]
  have hc : ChecksPass 3 400 (correctMod 3 4) (selectPrescaler (toLong (ofNat 4007500000) * ONE))
      (PFDFreq s) := by
    rw [hpf]; unfold ChecksPass; decide
  have hfe : finalFrequencyError (BN_ADF4351_PFDFreq s) (toLong (ofNat 4007500000) * ONE)
      (selectOutputDivider (toLong (ofNat 4007500000) * ONE)).1 400 3 4 = 0 := by
    rw [hpfd]; decide
  obtain ⟨r, hr, hnone, _, q1, q2, q3, q4, q5, q6⟩ := setf_commit_summary _ hfl millis s
    (ofNat 4007500000) PowerLevel AuxPowerLevel AuxFrequencyDivider true 0 0
    ⟨400, 4, 3, 0, false⟩ 0 hP hA hF (by omega) (by omega)
    (by simp) (by decide) (by decide) (by simp) hb rfl hc hfe
  obtain ⟨c, e⟩ := hnone (by decide)
  refine ⟨r, hr, c, ?_, ?_, ?_, q2, q1, ?_, ?_⟩
  · rw [q6]; decide
  · rw [q5]; decide
  · rw [q4]; decide
  · rw [q3]; decide
  · unfold ReadFrequencyError; rw [e]; decide

/-- C5 at the power-on state with output power level 1 and the auxiliary output off. -/
theorem worked_scenario_witness :
    powerOn.ADF4351_reffreq = 10000000 ∧ ReadR powerOn = 1 ∧ ReadRDIV2 powerOn = 0
    ∧ ReadRefDoubler powerOn = 0
    ∧ ∃ r, setf (roundBinary 53) stoppedClock powerOn (ofNat 4007500000) 1 0 0 true 0 0 = some r
      ∧ r.code = ADF4351_ERROR_NONE
      ∧ ReadOutDivider r.state = 1 ∧ ReadOutDivider_PowerOf2 r.state = 0
      ∧ ReadBF_dword 27 1 r.state.R1 = 1
      ∧ ReadInt r.state = 400 ∧ ReadFraction r.state = 3 ∧ ReadMod r.state = 4
      ∧ ReadFrequencyError r.state = 0 :=
  ⟨rfl, ReadR_powerOn, ReadRDIV2_powerOn, ReadRefDoubler_powerOn,
   worked_scenario _ binary64_zero stoppedClock powerOn 1 0 0 rfl ReadR_powerOn ReadRDIV2_powerOn
     ReadRefDoubler_powerOn (by decide) (by decide) (by decide)⟩

/-- C5 as stated fails on the power-on state: the call commits, and the output divider it
commits is 1, not 2. -/
theorem worked_scenario_divider_counterexample :
    ¬∃ r, setf (roundBinary 53) stoppedClock powerOn (ofNat 4007500000) 1 0 0 true 0 0 = some r
      ∧ ReadOutDivider r.state = 2 := by
  have h : (setf (roundBinary 53) stoppedClock powerOn (ofNat 4007500000) 1 0 0 true 0 0).map
      (fun r => ReadOutDivider r.state) = some 1 := by
    rw [setf_of_valid _ binary64_zero _ _ _ _ _ _ _ _ _ (by decide) (by decide) (by decide)
        (by decide)
      (by decide) (by decide) (by decide) (by decide) (by decide)]
    decide
  rintro ⟨r, hr, h2⟩
  rw [hr, Option.map_some'] at h
  have := Option.some.inj h
  omega


/-! ## C7: the band edges -/

theorem band_edge_low_branch :
    decompose stoppedClock (BN_ADF4351_PFDFreq powerOn) powerOn.ADF4351_ChanStep
      (toLong (ofNat 34375000) * ONE) true 0 0 = some ⟨220, 2, 0, 0, false⟩ := by
  decide

theorem band_edge_high_branch (Prec : Bool) :
    decompose stoppedClock (BN_ADF4351_PFDFreq powerOn) powerOn.ADF4351_ChanStep
      (toLong (ofNat 4400000000) * ONE) Prec 0 0
      = some ⟨440, if Prec = true then 2 else 1, 0, 0, false⟩ := by
  cases Prec <;> decide

/-- C7 (as the code behaves). On the power-on default state (10 MHz reference, R = 1,
channel step 100 kHz), with tolerance 0, no timeout and valid power levels: `setf` with
target 4,400,000,000 Hz returns `ADF4351_ERROR_NONE` and commits output divider 1 (select
code 0) for either value of the precision flag; `setf` with target 34,375,000 Hz returns
`ADF4351_ERROR_NONE` and commits output divider 64 (select code 6) in precision mode; in
channel-step mode 34,375,000 Hz, which is not a multiple of the 100 kHz step, is rejected
with `ADF4351_ERROR_RF_FREQUENCY_AND_STEP_FREQUENCY_HAS_REMAINDER`. -/
theorem band_edge_targets (fl : ℚ → ℚ) (hfl : ∀ x : ℚ, fl x = 0 ↔ x = 0)
    (millis : Nat → Nat)
    (PowerLevel AuxPowerLevel AuxFrequencyDivider : Nat)
    (hP : PowerLevel ≤ 4) (hA : AuxPowerLevel ≤ 4)
    (hF : AuxFrequencyDivider = 0 ∨ AuxFrequencyDivider = 1) :
    (∀ Prec : Bool, ∃ r,
      setf fl millis powerOn (ofNat 4400000000) PowerLevel AuxPowerLevel AuxFrequencyDivider Prec 0 0
        = some r
      ∧ r.code = ADF4351_ERROR_NONE ∧ ReadOutDivider r.state = 1
      ∧ ReadOutDivider_PowerOf2 r.state = 0)
    ∧ (∃ r,
      setf fl millis powerOn (ofNat 34375000) PowerLevel AuxPowerLevel AuxFrequencyDivider true 0 0
        = some r
      ∧ r.code = ADF4351_ERROR_NONE ∧ ReadOutDivider r.state = 64
      ∧ ReadOutDivider_PowerOf2 r.state = 6)
    ∧ setf fl millis powerOn (ofNat 34375000) PowerLevel AuxPowerLevel AuxFrequencyDivider false 0 0
        = some ⟨ADF4351_ERROR_RF_FREQUENCY_AND_STEP_FREQUENCY_HAS_REMAINDER,
            { powerOn with ADF4351_FrequencyError := 0 }, ofNat 34375000⟩ := by
  refine ⟨?_, ?_, ?_⟩
  · intro Prec
    have hb : decompose millis (BN_ADF4351_PFDFreq powerOn) powerOn.ADF4351_ChanStep
        (toLong (ofNat 4400000000) * ONE) Prec 0 0
        = some ⟨440, if Prec = true then 2 else 1, 0, 0, false⟩ := by
      rw [decompose_no_timeout millis stoppedClock, band_edge_high_branch]
    obtain ⟨r, hr, hnone, _, _, _, _, _, q5, q6⟩ := setf_commit_summary _ hfl millis powerOn
      (ofNat 4400000000) PowerLevel AuxPowerLevel AuxFrequencyDivider Prec 0 0
      ⟨440, if Prec = true then 2 else 1, 0, 0, false⟩ 0 hP hA hF (by decide) (by decide)
      (by cases Prec <;> decide) (by decide) (by decide) (by cases Prec <;> decide) hb rfl
      (by unfold ChecksPass; cases Prec <;> decide) (by cases Prec <;> decide)
    refine ⟨r, hr, (hnone (by cases Prec <;> decide)).1, ?_, ?_⟩
    · rw [q6]; decide
    · rw [q5]; decide
  · have hb : decompose millis (BN_ADF4351_PFDFreq powerOn) powerOn.ADF4351_ChanStep
        (toLong (ofNat 34375000) * ONE) true 0 0 = some ⟨220, 2, 0, 0, false⟩ := by
      rw [decompose_no_timeout millis stoppedClock, band_edge_low_branch]
    obtain ⟨r, hr, hnone, _, _, _, _, _, q5, q6⟩ := setf_commit_summary _ hfl millis powerOn
      (ofNat 34375000) PowerLevel AuxPowerLevel AuxFrequencyDivider true 0 0
      ⟨220, 2, 0, 0, false⟩ 0 hP hA hF (by decide) (by decide)
      (by decide) (by decide) (by decide) (by decide) hb rfl
      (by unfold ChecksPass; decide) (by decide)
    refine ⟨r, hr, (hnone (by decide)).1, ?_, ?_⟩
    · rw [q6]; decide
    · rw [q5]; decide
  · rw [setf_of_step_remainder _ hfl millis powerOn (ofNat 34375000) PowerLevel AuxPowerLevel
      AuxFrequencyDivider false 0 0 hP hA hF (by decide) (by decide) (by decide) (by decide)
      (by decide) (by decide)]
    rfl

/-- C7 with output power level 1 and the auxiliary output off. -/
theorem band_edge_targets_witness :
    (∃ r, setf (roundBinary 53) stoppedClock powerOn (ofNat 4400000000) 1 0 0 false 0 0 = some r
      ∧ r.code = ADF4351_ERROR_NONE ∧ ReadOutDivider r.state = 1
      ∧ ReadOutDivider_PowerOf2 r.state = 0)
    ∧ (∃ r, setf (roundBinary 53) stoppedClock powerOn (ofNat 34375000) 1 0 0 true 0 0 = some r
      ∧ r.code = ADF4351_ERROR_NONE ∧ ReadOutDivider r.state = 64
      ∧ ReadOutDivider_PowerOf2 r.state = 6) :=
  have h := band_edge_targets _ binary64_zero stoppedClock 1 0 0 (by decide) (by decide) (by decide)
  ⟨h.1 false, h.2.1⟩

/-- C7 as stated fails for the lower band edge with the precision flag off: on the
power-on state the call does not return `ADF4351_ERROR_NONE`. -/
theorem band_edge_low_counterexample :
    ¬∃ r, setf (roundBinary 53) stoppedClock powerOn (ofNat 34375000) 1 0 0 false 0 0 = some r
      ∧ r.code = ADF4351_ERROR_NONE := by
  rintro ⟨r, hr, h0⟩
  rw [setf_of_step_remainder _ binary64_zero stoppedClock powerOn (ofNat 34375000) 1 0 0 false 0 0
    (by decide) (by decide) (by decide) (by decide) (by decide) (by decide) (by decide)
    (by decide) (by decide)] at hr
  cases hr
  exact absurd h0 (by decide)


/-! ## C6: target range rejection -/

/-- C6. Target range rejection. For every call whose power level, auxiliary power level and
auxiliary mode are valid, whose phase-detector frequency is non-zero and whose
PFD/channel-step check passes, `setf` returns `ADF4351_ERROR_RF_FREQUENCY` if and only if
the target, compared as a decimal with its fractional digits, is below 34,375,000 Hz or
above 4,400,000,000 Hz (and `setf` does return); in particular 34,374,999 and
4,400,000,001 are rejected with that code. -/
theorem target_range_rejection (fl : ℚ → ℚ)
    (millis : Nat → Nat) (s : State) (freq : BigNumber)
    (PowerLevel AuxPowerLevel AuxFrequencyDivider : Nat) (PrecisionFrequency : Bool)
    (MaximumFrequencyError CalculationTimeout : Nat)
    (hP : PowerLevel ≤ 4) (hA : AuxPowerLevel ≤ 4)
    (hF : AuxFrequencyDivider = ADF4351_AUX_DIVIDED
      ∨ AuxFrequencyDivider = ADF4351_AUX_FUNDAMENTAL)
    (hPFD : ReadPFDfreq fl s ≠ 0)
    (hstep : ¬(PrecisionFrequency = false ∧ s.ADF4351_ChanStep > 1
      ∧ (s.ADF4351_reffreq / ReadR s) % s.ADF4351_ChanStep ≠ 0)) :
    ((∃ r, setf fl millis s freq PowerLevel AuxPowerLevel AuxFrequencyDivider PrecisionFrequency
          MaximumFrequencyError CalculationTimeout = some r
        ∧ r.code = ADF4351_ERROR_RF_FREQUENCY)
      ↔ (freq < ofNat 34375000 ∨ freq > ofNat 4400000000))
    ∧ ((freq < ofNat 34375000 ∨ freq > ofNat 4400000000) →
        setf fl millis s freq PowerLevel AuxPowerLevel AuxFrequencyDivider PrecisionFrequency
          MaximumFrequencyError CalculationTimeout
          = some ⟨ADF4351_ERROR_RF_FREQUENCY, { s with ADF4351_FrequencyError := 0 }, freq⟩)
    ∧ (setf fl millis s (ofNat 34374999) PowerLevel AuxPowerLevel AuxFrequencyDivider
          PrecisionFrequency MaximumFrequencyError CalculationTimeout).map (fun r => r.code)
        = some ADF4351_ERROR_RF_FREQUENCY
    ∧ (setf fl millis s (ofNat 4400000001) PowerLevel AuxPowerLevel AuxFrequencyDivider
          PrecisionFrequency MaximumFrequencyError CalculationTimeout).map (fun r => r.code)
        = some ADF4351_ERROR_RF_FREQUENCY := by
  have h1 : ¬PowerLevel > 4 := by omega
  have h2 : ¬AuxPowerLevel > 4 := by omega
  have h3 : ¬(AuxFrequencyDivider ≠ ADF4351_AUX_DIVIDED
      ∧ AuxFrequencyDivider ≠ ADF4351_AUX_FUNDAMENTAL) := by tauto
  have out : ∀ f : BigNumber, (f < ofNat 34375000 ∨ f > ofNat 4400000000) →
      setf fl millis s f PowerLevel AuxPowerLevel AuxFrequencyDivider PrecisionFrequency
          MaximumFrequencyError CalculationTimeout
        = some ⟨ADF4351_ERROR_RF_FREQUENCY, { s with ADF4351_FrequencyError := 0 }, f⟩ := by
    intro f hf
    unfold setf
    rw [if_neg h1, if_neg h2, if_neg h3, if_neg hPFD, if_neg hstep, if_pos (Or.symm hf)]
  refine ⟨⟨?_, fun hf => ⟨_, out freq hf, rfl⟩⟩, out freq, ?_, ?_⟩
  · rintro ⟨r, hr, hc⟩
    by_contra hin
    have h6 : ¬(freq > ofNat 4400000000 ∨ freq < ofNat 34375000) := fun h => hin (Or.symm h)
    unfold setf at hr
    rw [if_neg h1, if_neg h2, if_neg h3, if_neg hPFD, if_neg hstep, if_neg h6] at hr
    split_ifs at hr
    · cases hr; dsimp only at hc; exact absurd hc (by decide)
    · exact planAndCommit_code_ne_two _ _ _ _ _ _ _ _ _ _ hr hc
  · rw [out (ofNat 34374999) (Or.inl (by decide))]; rfl
  · rw [out (ofNat 4400000001) (Or.inr (by decide))]; rfl

/-- C6 at the power-on state, for a target half a hertz above the upper band edge. -/
theorem target_range_rejection_witness :
    ReadPFDfreq (roundBinary 53) powerOn ≠ 0
    ∧ setf (roundBinary 53) stoppedClock powerOn (ofNat 4400000000 + HALF) 1 0 0 false 0 0
        = some ⟨ADF4351_ERROR_RF_FREQUENCY, { powerOn with ADF4351_FrequencyError := 0 },
            ofNat 4400000000 + HALF⟩ :=
  have hpfd : ReadPFDfreq (roundBinary 53) powerOn ≠ 0 := by
    rw [ReadPFDfreq_binary64_powerOn]; norm_num
  ⟨hpfd,
   (target_range_rejection _ stoppedClock powerOn (ofNat 4400000000 + HALF) 1 0 0 false 0 0
      (by decide) (by decide) (Or.inl rfl) hpfd (by decide)).2.1 (Or.inr (by decide))⟩


/-! ## C10: the rational reducer -/

/-- C10. Rational reducer. For every unreduced pair `(FRAC0, MOD0)` of `uint32_t` values with
`FRAC0 < MOD0`, the reduction step returns a pair `(MOD, FRAC)` (it does not divide by
zero and its loops end); if `MOD0 / gcd(FRAC0, MOD0) <= 4095` then `gcd(FRAC, MOD) = 1` and
`FRAC * MOD0 = FRAC0 * MOD`; otherwise the pair is the one the halving loop produced and
`2048 <= MOD <= 4095` and `FRAC < MOD`. -/
theorem rational_reducer (Mod0 Frac0 : Nat) (h : Frac0 < Mod0) (h32 : Mod0 < 4294967296) :
    ∃ Mod Frac, reduceFraction Mod0 Frac0 = some (Mod, Frac)
      ∧ (Mod0 / Nat.gcd Frac0 Mod0 ≤ 4095 →
          Nat.gcd Frac Mod = 1 ∧ Frac * Mod0 = Frac0 * Mod)
      ∧ (4095 < Mod0 / Nat.gcd Frac0 Mod0 →
          halveLoop 32 (Mod0 / Nat.gcd Frac0 Mod0) (Frac0 / Nat.gcd Frac0 Mod0) = some (Mod, Frac)
          ∧ 2048 ≤ Mod ∧ Mod ≤ 4095 ∧ Frac < Mod) :=
  reduceFraction_spec Mod0 Frac0 h h32

/-- C10 at the pairs `(3, 4)`, already in lowest terms, and `(1, 10000000)`, rescued by
halving. -/
theorem rational_reducer_witness :
    (3 < 4 ∧ ∃ Mod Frac, reduceFraction 4 3 = some (Mod, Frac)
      ∧ (4 / Nat.gcd 3 4 ≤ 4095 → Nat.gcd Frac Mod = 1 ∧ Frac * 4 = 3 * Mod)
      ∧ (4095 < 4 / Nat.gcd 3 4 →
          halveLoop 32 (4 / Nat.gcd 3 4) (3 / Nat.gcd 3 4) = some (Mod, Frac)
          ∧ 2048 ≤ Mod ∧ Mod ≤ 4095 ∧ Frac < Mod))
    ∧ ∃ Mod Frac, reduceFraction 10000000 1 = some (Mod, Frac)
      ∧ (10000000 / Nat.gcd 1 10000000 ≤ 4095 →
          Nat.gcd Frac Mod = 1 ∧ Frac * 10000000 = 1 * Mod)
      ∧ (4095 < 10000000 / Nat.gcd 1 10000000 →
          halveLoop 32 (10000000 / Nat.gcd 1 10000000) (1 / Nat.gcd 1 10000000) = some (Mod, Frac)
          ∧ 2048 ≤ Mod ∧ Mod ≤ 4095 ∧ Frac < Mod) :=
  ⟨⟨by decide, rational_reducer 4 3 (by decide) (by decide)⟩,
   rational_reducer 10000000 1 (by decide) (by decide)⟩


/-! ## C2: channel-step mode is exact -/

/-- C2. Channel-step mode is exact. For every state with no doubler and no half-divider
whose reference frequency is `pfd * R` with the phase-detector frequency `pfd` in
`[125 kHz, 45 MHz]` an integer multiple `m` of the channel step (`step >= 1`), and every
integer target `f = k * step` in `[34,375,000, 4,400,000,000]` Hz, with `o` the output
divider chosen for `f` and `r = k * o mod m` the unreduced FRAC, if
`m / gcd(r, m) <= 4095` and (`r = 0` or `pfd <= 32 MHz`), then `setf` in non-precision mode
returns `ADF4351_ERROR_NONE`, reports frequency error 0 and commits divider `o`,
`N = f * o / pfd`, `FRAC = r / gcd(r, m)` and `MOD = m / gcd(r, m)` (2 when `FRAC = 0`), for
which `pfd * (N + FRAC / MOD) / o = f` exactly, written here as
`pfd * (N * MOD + FRAC) = f * o * MOD`. -/
theorem channel_step_mode_exact (fl : ℚ → ℚ) (hfl : ∀ x : ℚ, fl x = 0 ↔ x = 0)
    (millis : Nat → Nat) (s : State)
    (PowerLevel AuxPowerLevel AuxFrequencyDivider MaximumFrequencyError CalculationTimeout : Nat)
    (pfd m k f o r : Nat)
    (hP : PowerLevel ≤ 4) (hA : AuxPowerLevel ≤ 4)
    (hF : AuxFrequencyDivider = 0 ∨ AuxFrequencyDivider = 1)
    (hT : ReadRDIV2 s = 0) (hD : ReadRefDoubler s = 0) (hR0 : 0 < ReadR s)
    (hpfd : s.ADF4351_reffreq = pfd * ReadR s)
    (hlo : 125000 ≤ pfd) (hhi : pfd ≤ 45000000)
    (hstep : 1 ≤ s.ADF4351_ChanStep) (hm : pfd = m * s.ADF4351_ChanStep)
    (hk : f = k * s.ADF4351_ChanStep) (hf1 : 34375000 ≤ f) (hf2 : f ≤ 4400000000)
    (ho : o = (selectOutputDivider (ofNat f)).1) (hr : r = k * o % m)
    (hmod : m / Nat.gcd r m ≤ 4095) (hfrac : r = 0 ∨ pfd ≤ 32000000) :
    ∃ res, setf fl millis s (ofNat f) PowerLevel AuxPowerLevel AuxFrequencyDivider false
        MaximumFrequencyError CalculationTimeout = some res
      ∧ res.code = ADF4351_ERROR_NONE
      ∧ ReadFrequencyError res.state = 0
      ∧ ReadOutDivider res.state = o
      ∧ ReadInt res.state = f * o / pfd
      ∧ ReadFraction res.state = r / Nat.gcd r m
      ∧ ReadMod res.state = (if r = 0 then 2 else m / Nat.gcd r m)
      ∧ pfd * (ReadInt res.state * ReadMod res.state + ReadFraction res.state)
          = f * ReadOutDivider res.state * ReadMod res.state := by
  -- basic facts
  have hs0 : 0 < s.ADF4351_ChanStep := hstep
  have hm0 : 0 < m := by
    rcases Nat.eq_zero_or_pos m with h | h
    · rw [h] at hm; omega
    · exact h
  have hmle : m ≤ pfd := by rw [hm]; exact Nat.le_mul_of_pos_right _ hs0
  obtain ⟨hod, ho0⟩ := outdiv_dvd f hf1
  rw [← ho] at hod ho0
  obtain ⟨hv1, hv2⟩ := vco_band f hf1 hf2
  rw [← ho] at hv1 hv2
  have hquot : f * o / pfd = k * o / m := by
    rw [hk, hm, show k * s.ADF4351_ChanStep * o = (k * o) * s.ADF4351_ChanStep by ring,
      Nat.mul_div_mul_right _ _ hs0]
  have hq1 : 48 ≤ f * o / pfd := by
    rw [Nat.le_div_iff_mul_le (by omega)]
    calc 48 * pfd ≤ 48 * 45000000 := Nat.mul_le_mul_left _ hhi
      _ ≤ f * o := by omega
  have hq2 : f * o / pfd ≤ 35200 := by
    calc f * o / pfd ≤ 4400000000 / pfd := Nat.div_le_div_right hv2
      _ ≤ 4400000000 / 125000 := Nat.div_le_div_left hlo (by norm_num)
      _ = 35200 := by norm_num
  have hq3 : 3600000000 < f → 80 ≤ f * o / pfd := by
    intro h36
    rw [Nat.le_div_iff_mul_le (by omega)]
    have : f ≤ f * o := Nat.le_mul_of_pos_right _ ho0
    calc 80 * pfd ≤ 80 * 45000000 := Nat.mul_le_mul_left _ hhi
      _ ≤ f * o := by omega
  have hkle : k ≤ f := by rw [hk]; exact Nat.le_mul_of_pos_right _ hs0
  have hrm : r < m := by rw [hr]; exact Nat.mod_lt _ hm0
  have hko : k * o = (f * o / pfd) * m + r := by
    rw [hquot, hr]
    calc k * o = m * (k * o / m) + k * o % m := (Nat.div_add_mod _ _).symm
      _ = k * o / m * m + k * o % m := by ring
  -- the reducer
  have hgpos : 0 < Nat.gcd r m := Nat.gcd_pos_of_pos_right _ hm0
  have hgm : m / Nat.gcd r m * Nat.gcd r m = m := Nat.div_mul_cancel (Nat.gcd_dvd_right _ _)
  have hgr : r / Nat.gcd r m * Nat.gcd r m = r := Nat.div_mul_cancel (Nat.gcd_dvd_left _ _)
  have hMODpos : 0 < m / Nat.gcd r m :=
    Nat.div_pos (Nat.le_of_dvd hm0 (Nat.gcd_dvd_right _ _)) hgpos
  have hFlt : r / Nat.gcd r m < m / Nat.gcd r m := by
    apply Nat.lt_of_mul_lt_mul_right (a := Nat.gcd r m)
    rw [hgm, hgr]; exact hrm
  have hF0 : r / Nat.gcd r m = 0 ↔ r = 0 := by
    constructor
    · intro h; rw [h] at hgr; omega
    · intro h; rw [h]; exact Nat.zero_div _
  -- the state
  have hBN := BN_ADF4351_PFDFreq_whole s pfd hT hD hR0 hpfd
  have hPF := PFDFreq_whole s pfd hT hD hR0 hpfd (by omega)
  have hfreq := toLong_ofNat f
  have hrefdiv : s.ADF4351_reffreq / ReadR s = pfd := by
    rw [hpfd]; exact Nat.mul_div_cancel _ hR0
  -- the branch
  have hb : decompose millis (BN_ADF4351_PFDFreq s) s.ADF4351_ChanStep (toLong (ofNat f) * ONE)
      false MaximumFrequencyError CalculationTimeout
      = some ⟨f * o / pfd, m / Nat.gcd r m, r / Nat.gcd r m, 0, false⟩ := by
    rw [hBN, hfreq]
    unfold decompose
    rw [if_neg (by decide)]
    unfold channelStepBranch
    rw [← ho]
    have e1 : channelStepMod0 (ofNat pfd) o s.ADF4351_ChanStep = m := by
      rw [hm]; exact channelStepMod0_multiple m _ o hs0 hod ho0 (by omega)
    have e2 : channelStepFrac0 (ofNat pfd) (ofNat f) o s.ADF4351_ChanStep = r := by
      rw [hm, hk, hr]
      exact channelStepFrac0_multiple k m _ o hs0 hm0 hod ho0 (by omega)
        (by rw [← hquot]; omega)
    have e3 : channelStepN (ofNat pfd) (ofNat f) o = f * o / pfd := by
      rw [hquot, hm, hk]
      exact channelStepN_multiple k m _ o hs0 (by rw [← hquot]; omega)
    rw [e1, e2, e3, reduceFraction_small m r hm0 hmod]
  -- the recomputed error
  have hfe : finalFrequencyError (BN_ADF4351_PFDFreq s) (toLong (ofNat f) * ONE)
      (selectOutputDivider (toLong (ofNat f) * ONE)).1 (f * o / pfd) (r / Nat.gcd r m)
      (m / Nat.gcd r m) = 0 := by
    rw [hBN, hfreq, ← ho, hm, hk]
    exact finalFrequencyError_multiple k m _ o _ r (Nat.gcd r m) _ _
      (by rw [← hk, ← hm]; exact hko) hgm hgr hMODpos ho0
  -- the range checks
  have hpre : selectPrescaler (toLong (ofNat f) * ONE) = if 3600000000 < f then 1 else 0 := by
    rw [hfreq]; unfold selectPrescaler
    by_cases h : 3600000000 < f
    · rw [if_pos h, if_pos ((ofNat_lt_ofNat _ _).mpr h)]
    · rw [if_neg h, if_neg (fun h' => h ((ofNat_lt_ofNat _ _).mp h'))]
  have hc : ChecksPass (r / Nat.gcd r m) (f * o / pfd)
      (correctMod (r / Nat.gcd r m) (m / Nat.gcd r m))
      (selectPrescaler (toLong (ofNat f) * ONE)) (PFDFreq s) := by
    rw [hpre, hPF]
    have hfr : r / Nat.gcd r m ≠ 0 → pfd ≤ 32000000 := by
      intro h
      rcases hfrac with h' | h'
      · exact absurd (hF0.mpr h') h
      · exact h'
    generalize r / Nat.gcd r m = FRAC at hFlt hfr ⊢
    generalize m / Nat.gcd r m = MOD at hFlt hmod ⊢
    generalize f * o / pfd = N at hq1 hq2 hq3 ⊢
    unfold ChecksPass correctMod ADF4351_PFD_MAX_FRAC
    by_cases h36 : 3600000000 < f
    · have := hq3 h36
      rw [if_pos h36]
      by_cases hF0' : FRAC = 0
      · rw [if_pos hF0']
        exact ⟨by omega, by omega, by omega, by omega, by omega⟩
      · rw [if_neg hF0']
        have := hfr hF0'
        exact ⟨by omega, by omega, by omega, by omega, by omega⟩
    · rw [if_neg h36]
      by_cases hF0' : FRAC = 0
      · rw [if_pos hF0']
        exact ⟨by omega, by omega, by omega, by omega, by omega⟩
      · rw [if_neg hF0']
        have := hfr hF0'
        exact ⟨by omega, by omega, by omega, by omega, by omega⟩
  have hremOK : ¬(false = false ∧ s.ADF4351_ChanStep > 1
      ∧ stepRemainder (toLong (ofNat f) * ONE) s.ADF4351_ChanStep ≠ 0) := by
    rintro ⟨_, hgt, hne⟩
    apply hne
    have h2 : k * 2 ≤ f := by
      rw [hk]; exact Nat.mul_le_mul_left _ hgt
    rw [hfreq, hk]
    exact stepRemainder_multiple k _ hs0 (by omega)
  obtain ⟨res, hres, hnone, _, q1, q2, q3, _, _, q6⟩ := setf_commit_summary _ hfl millis s (ofNat f)
    PowerLevel AuxPowerLevel AuxFrequencyDivider false MaximumFrequencyError CalculationTimeout
    ⟨f * o / pfd, m / Nat.gcd r m, r / Nat.gcd r m, 0, false⟩ 0 hP hA hF (by omega)
    (by rw [hpfd]; exact Nat.mul_ne_zero (by omega) (by omega))
    (by rw [hrefdiv, hm, Nat.mul_mod_left]; simp)
    ((ofNat_le_ofNat _ _).mpr hf1) ((ofNat_le_ofNat _ _).mpr hf2)
    hremOK hb rfl hc hfe
  have habs : absError 0 = 0 := by decide
  obtain ⟨c0, cfe⟩ := hnone (by
    rintro (⟨h, _⟩ | ⟨_, h⟩)
    · exact absurd h (by decide)
    · exact h habs)
  rw [hfreq, ← ho] at q6
  have hMod : ReadMod res.state = if r = 0 then 2 else m / Nat.gcd r m := by
    rw [q3]; unfold correctMod
    by_cases hr0 : r = 0
    · rw [if_pos hr0, if_pos (hF0.mpr hr0)]
    · rw [if_neg hr0, if_neg (fun h => hr0 (hF0.mp h))]
  refine ⟨res, hres, c0, ?_, q6, q2, q1, hMod, ?_⟩
  · unfold ReadFrequencyError; rw [cfe]; exact habs
  · rw [q2, q1, q6, hMod]
    have hpfdq : pfd * (f * o / pfd) + r * s.ADF4351_ChanStep = f * o := by
      calc pfd * (f * o / pfd) + r * s.ADF4351_ChanStep
          = ((f * o / pfd) * m + r) * s.ADF4351_ChanStep := by rw [hm]; ring
        _ = k * o * s.ADF4351_ChanStep := by rw [← hko]
        _ = f * o := by rw [hk]; ring
    by_cases hr0 : r = 0
    · rw [if_pos hr0, hF0.mpr hr0]
      rw [hr0] at hpfdq
      calc pfd * (f * o / pfd * 2 + 0) = (pfd * (f * o / pfd) + 0 * s.ADF4351_ChanStep) * 2 := by
            ring
        _ = f * o * 2 := by rw [hpfdq]
    · rw [if_neg hr0]
      have hpm : pfd = m / Nat.gcd r m * (Nat.gcd r m * s.ADF4351_ChanStep) := by
        rw [← Nat.mul_assoc, hgm]; exact hm
      calc pfd * (f * o / pfd * (m / Nat.gcd r m) + r / Nat.gcd r m)
          = pfd * (f * o / pfd) * (m / Nat.gcd r m) + pfd * (r / Nat.gcd r m) := by ring
        _ = pfd * (f * o / pfd) * (m / Nat.gcd r m)
            + m / Nat.gcd r m * (Nat.gcd r m * s.ADF4351_ChanStep) * (r / Nat.gcd r m) := by
            rw [← hpm]
        _ = pfd * (f * o / pfd) * (m / Nat.gcd r m)
            + (r / Nat.gcd r m * Nat.gcd r m) * s.ADF4351_ChanStep * (m / Nat.gcd r m) := by
            ring
        _ = (pfd * (f * o / pfd) + r * s.ADF4351_ChanStep) * (m / Nat.gcd r m) := by
            rw [hgr]; ring
        _ = f * o * (m / Nat.gcd r m) := by rw [hpfdq]

/-- C2 on the power-on state (PFD 10 MHz, channel step 100 kHz, so `m = 100`) for the target
4,007,500,000 Hz (`k = 40075`, divider 1, `r = 75`): N = 400, FRAC = 3, MOD = 4. -/
theorem channel_step_mode_exact_witness :
    ∃ res, setf (roundBinary 53) stoppedClock powerOn (ofNat 4007500000) 1 0 0 false 0 0 = some res
      ∧ res.code = ADF4351_ERROR_NONE
      ∧ ReadFrequencyError res.state = 0
      ∧ ReadOutDivider res.state = 1
      ∧ ReadInt res.state = 400
      ∧ ReadFraction res.state = 3
      ∧ ReadMod res.state = 4
      ∧ 10000000 * (ReadInt res.state * ReadMod res.state + ReadFraction res.state)
          = 4007500000 * ReadOutDivider res.state * ReadMod res.state :=
  channel_step_mode_exact _ binary64_zero stoppedClock powerOn 1 0 0 0 0 10000000 100 40075 4007500000 1 75
    (by decide) (by decide) (by decide) ReadRDIV2_powerOn ReadRefDoubler_powerOn
    (by decide) (by decide) (by decide) (by decide) (by decide) (by decide) (by decide)
    (by decide) (by decide) (by decide) (by decide) (by decide) (by decide)


/-! ## C4: success in precision mode -/

theorem tolerance_example :
    setf (roundBinary 53) stoppedClock powerOn (ofNat 2203333333) 1 0 0 true 0 0
      = some ⟨ADF4351_ERROR_NONE,
          tolerancePlan, ofNat 2203333333⟩ := by
  rw [setf_of_valid _ binary64_zero _ _ _ _ _ _ _ _ _ (by decide) (by decide) (by decide)
    (by decide) (by decide) (by decide) (by decide) (by decide) (by decide)]
  decide

/-- C3 (as the code behaves). Integer mode reproduces the target exactly when the target
is an integer-N frequency. For every state whose phase-detector frequency
`pfd = reffreq * (1 + doubler) / (R * (1 + half))` is a whole number of hertz (at least 2)
and every accepted target `f` (cut at its decimal point) with chosen divider `o` such that
`f * o = k * pfd` for an integer `k`: every committing `setf` call, in either mode,
commits the integer-mode result FRAC = 0, MOD = 2, N = k, for which
`N * pfd / o = f` exactly (written `N * pfd = f * o`). -/
theorem integer_mode_exact (fl : ℚ → ℚ) (hfl : ∀ x : ℚ, fl x = 0 ↔ x = 0)
    (millis : Nat → Nat) (s : State) (freq : BigNumber)
    (PowerLevel AuxPowerLevel AuxFrequencyDivider : Nat) (PrecisionFrequency : Bool)
    (MaximumFrequencyError CalculationTimeout : Nat) (res : SetfResult) (pfd k : Nat)
    (hpfd : s.ADF4351_reffreq * (1 + ReadRefDoubler s) = pfd * (ReadR s * (1 + ReadRDIV2 s)))
    (hp : 2 ≤ pfd)
    (hmul : (toLong freq).toNat * (selectOutputDivider (toLong freq * ONE)).1 = k * pfd)
    (h : setf fl millis s freq PowerLevel AuxPowerLevel AuxFrequencyDivider PrecisionFrequency
      MaximumFrequencyError CalculationTimeout = some res)
    (hc : res.code = ADF4351_ERROR_NONE ∨ res.code = ADF4351_WARNING_FREQUENCY_ERROR) :
    ReadFraction res.state = 0 ∧ ReadMod res.state = 2 ∧ ReadInt res.state = k
    ∧ ReadInt res.state * pfd = (toLong freq).toNat * ReadOutDivider res.state := by
  obtain ⟨_, _, _, hR, _, hlo, hhi, b, hb, _, hpass, hres⟩ :=
    setf_commit_inv _ hfl _ _ _ _ _ _ _ _ _ _ h hc
  obtain ⟨e, h1, h2⟩ := accepted_target freq hlo hhi
  obtain ⟨_, _, p3, p4, _, _⟩ := selectOutputDivider_spec (toLong freq).toNat h1
  obtain ⟨_, hv2⟩ := vco_band (toLong freq).toNat h1 h2
  rw [e] at hb hmul
  rw [← e] at p3 p4
  have hBN := BN_ADF4351_PFDFreq_exact s pfd (by omega) hpfd
  rw [hBN] at hb
  have hk : k < 4294967296 := by
    have : k * 2 ≤ k * pfd := Nat.mul_le_mul_left _ hp
    omega
  obtain ⟨hN, hF⟩ := decompose_multiple millis pfd _ k _ _ _ _ b (by omega) h1 hmul hk hb
  obtain ⟨q1, q2, q3, _, _, q6⟩ := committed_readback
    { s with ADF4351_FrequencyError :=
        (finalFrequencyError (BN_ADF4351_PFDFreq s) (toLong freq * ONE)
          (selectOutputDivider (toLong freq * ONE)).1
          b.ADF4351_N_Int b.ADF4351_Frac b.ADF4351_Mod) }
    (toLong freq * ONE) b.ADF4351_Frac b.ADF4351_N_Int
    (correctMod b.ADF4351_Frac b.ADF4351_Mod) (selectPrescaler (toLong freq * ONE)) (PFDFreq s)
    PowerLevel AuxPowerLevel AuxFrequencyDivider (selectOutputDivider (toLong freq * ONE)).2
    (finalFrequencyError (BN_ADF4351_PFDFreq s) (toLong freq * ONE)
      (selectOutputDivider (toLong freq * ONE)).1
      b.ADF4351_N_Int b.ADF4351_Frac b.ADF4351_Mod) PrecisionFrequency MaximumFrequencyError
    hpass (selectPrescaler_le_one _) p4
  rw [← hres] at q1 q2 q3 q6
  rw [q1, q2, q3, q6, hF, hN, ← p3, e]
  refine ⟨rfl, ?_, rfl, hmul.symm⟩
  unfold correctMod
  rw [if_pos rfl]

/-- C3 on the power-on state (PFD 10 MHz) for the target 4,400,000,000 Hz (divider 1,
`k = 440`) in channel-step mode. -/
theorem integer_mode_exact_witness :
    ∃ res, setf (roundBinary 53) stoppedClock powerOn (ofNat 4400000000) 1 0 0 false 0 0 = some res
      ∧ ReadFraction res.state = 0 ∧ ReadMod res.state = 2 ∧ ReadInt res.state = 440
      ∧ ReadInt res.state * 10000000
          = (toLong (ofNat 4400000000)).toNat * ReadOutDivider res.state := by
  have h : ∃ res, setf (roundBinary 53) stoppedClock powerOn (ofNat 4400000000) 1 0 0 false 0 0
      = some res
      ∧ res.code = ADF4351_ERROR_NONE := by
    rw [setf_of_valid _ binary64_zero _ _ _ _ _ _ _ _ _ (by decide) (by decide) (by decide)
        (by decide)
      (by decide) (by decide) (by decide) (by decide) (by decide)]
    exact ⟨_, rfl, by decide⟩
  obtain ⟨res, hres, hcode⟩ := h
  exact ⟨res, hres,
    integer_mode_exact _ binary64_zero stoppedClock powerOn (ofNat 4400000000) 1 0 0 false 0 0 res 10000000 440
      (by decide) (by decide) (by decide) hres (Or.inl hcode)⟩

/-- C3 as stated fails on the power-on state: for the target 4,007,500,000 Hz in precision
mode with a tolerance of 7,500,000 Hz the call commits the integer-mode result N = 400,
FRAC = 0 with divider 1, and 400 * 10 MHz is not the target. -/
theorem integer_mode_counterexample :
    setf (roundBinary 53) stoppedClock powerOn (ofNat 4007500000) 1 0 0 true 7500000 0
      = some ⟨ADF4351_ERROR_NONE, coarsePlan, ofNat 4007500000⟩
    ∧ ReadFraction coarsePlan = 0 ∧ ReadInt coarsePlan = 400 ∧ ReadOutDivider coarsePlan = 1
    ∧ ReadPFDfreq id coarsePlan = 10000000
    ∧ ReadInt coarsePlan * 10000000 ≠ 4007500000 * ReadOutDivider coarsePlan := by
  refine ⟨?_, by decide, by decide, by decide, ?_, by decide⟩
  · rw [setf_of_valid _ binary64_zero _ _ _ _ _ _ _ _ _ (by decide) (by decide) (by decide)
        (by decide)
      (by decide) (by decide) (by decide) (by decide) (by decide)]
    decide
  · have hR : ReadR coarsePlan = 1 := by decide
    have hT : ReadRDIV2 coarsePlan = 0 := by decide
    have hD : ReadRefDoubler coarsePlan = 0 := by decide
    unfold ReadPFDfreq
    simp only [hR, hT, hD]
    norm_num [coarsePlan]

/-! ## C9: the committed configuration -/

/-- C9 (as the code behaves). Committed-configuration invariant. Whenever `setf` returns
`ADF4351_ERROR_NONE` or `ADF4351_WARNING_FREQUENCY_ERROR`, the values read back from the
register image satisfy `ReadFraction() < ReadMod()`, `2 <= ReadMod() <= 4095`,
`ReadInt() <= 65535`; the prescaler bit (register 1 bit 27) is set exactly when the target
cut at its decimal point exceeds 3,600,000,000 Hz, with `ReadInt() >= 75` in that case and
`ReadInt() >= 23` otherwise; `ReadOutDivider()` is a power of two in `[1, 64]`; and if
`ReadFraction() != 0` the phase-detector frequency cut to whole hertz is at most
32,000,000 Hz, that is, the phase-detector frequency is below 32,000,001 Hz. -/
theorem committed_configuration_invariant (fl : ℚ → ℚ) (hfl : ∀ x : ℚ, fl x = 0 ↔ x = 0)
    (millis : Nat → Nat) (s : State) (freq : BigNumber)
    (PowerLevel AuxPowerLevel AuxFrequencyDivider : Nat) (PrecisionFrequency : Bool)
    (MaximumFrequencyError CalculationTimeout : Nat) (res : SetfResult)
    (h : setf fl millis s freq PowerLevel AuxPowerLevel AuxFrequencyDivider PrecisionFrequency
      MaximumFrequencyError CalculationTimeout = some res)
    (hc : res.code = ADF4351_ERROR_NONE ∨ res.code = ADF4351_WARNING_FREQUENCY_ERROR) :
    ReadFraction res.state < ReadMod res.state
    ∧ 2 ≤ ReadMod res.state ∧ ReadMod res.state ≤ 4095
    ∧ ReadInt res.state ≤ 65535
    ∧ ReadBF_dword 27 1 res.state.R1 = (if 3600000000 < (toLong freq).toNat then 1 else 0)
    ∧ (3600000000 < (toLong freq).toNat → 75 ≤ ReadInt res.state)
    ∧ (¬3600000000 < (toLong freq).toNat → 23 ≤ ReadInt res.state)
    ∧ (∃ j, j ≤ 6 ∧ ReadOutDivider res.state = 2 ^ j)
    ∧ 1 ≤ ReadOutDivider res.state ∧ ReadOutDivider res.state ≤ 64
    ∧ (ReadFraction res.state ≠ 0 →
        ⌊ReadPFDfreq id res.state⌋ ≤ 32000000 ∧ ReadPFDfreq id res.state < 32000001) := by
  obtain ⟨_, _, _, hR, _, hlo, hhi, b, hb, _, hpass, hres⟩ :=
    setf_commit_inv _ hfl _ _ _ _ _ _ _ _ _ _ h hc
  obtain ⟨e, h1, h2⟩ := accepted_target freq hlo hhi
  obtain ⟨_, _, p3, p4, p5, p6⟩ := selectOutputDivider_spec (toLong freq).toNat h1
  rw [← e] at p3 p4 p5 p6
  obtain ⟨q1, q2, q3, q4, _, q6⟩ := committed_readback
    { s with ADF4351_FrequencyError :=
        (finalFrequencyError (BN_ADF4351_PFDFreq s) (toLong freq * ONE)
          (selectOutputDivider (toLong freq * ONE)).1
          b.ADF4351_N_Int b.ADF4351_Frac b.ADF4351_Mod) }
    (toLong freq * ONE) b.ADF4351_Frac b.ADF4351_N_Int
    (correctMod b.ADF4351_Frac b.ADF4351_Mod) (selectPrescaler (toLong freq * ONE)) (PFDFreq s)
    PowerLevel AuxPowerLevel AuxFrequencyDivider (selectOutputDivider (toLong freq * ONE)).2
    (finalFrequencyError (BN_ADF4351_PFDFreq s) (toLong freq * ONE)
      (selectOutputDivider (toLong freq * ONE)).1
      b.ADF4351_N_Int b.ADF4351_Frac b.ADF4351_Mod) PrecisionFrequency MaximumFrequencyError
    hpass (selectPrescaler_le_one _) p4
  obtain ⟨f1, f2, f3, f4⟩ := committed_reference
    { s with ADF4351_FrequencyError :=
        (finalFrequencyError (BN_ADF4351_PFDFreq s) (toLong freq * ONE)
          (selectOutputDivider (toLong freq * ONE)).1
          b.ADF4351_N_Int b.ADF4351_Frac b.ADF4351_Mod) }
    (toLong freq * ONE) b.ADF4351_Frac b.ADF4351_N_Int
    (correctMod b.ADF4351_Frac b.ADF4351_Mod) (selectPrescaler (toLong freq * ONE)) (PFDFreq s)
    PowerLevel AuxPowerLevel AuxFrequencyDivider (selectOutputDivider (toLong freq * ONE)).2
    (finalFrequencyError (BN_ADF4351_PFDFreq s) (toLong freq * ONE)
      (selectOutputDivider (toLong freq * ONE)).1
      b.ADF4351_N_Int b.ADF4351_Frac b.ADF4351_Mod) PrecisionFrequency MaximumFrequencyError
  rw [← hres] at q1 q2 q3 q4 q6 f1 f2 f3 f4
  have hpre : selectPrescaler (toLong freq * ONE)
      = if 3600000000 < (toLong freq).toNat then 1 else 0 := by
    rw [e]; unfold selectPrescaler
    by_cases h36 : 3600000000 < (toLong freq).toNat
    · rw [if_pos h36, if_pos ((ofNat_lt_ofNat _ _).mpr h36)]
    · rw [if_neg h36, if_neg (fun h' => h36 ((ofNat_lt_ofNat _ _).mp h'))]
  have hsmall := committed_pfd_small millis s (toLong freq).toNat PrecisionFrequency
    MaximumFrequencyError CalculationTimeout b _ _ _ h1 h2 (by rw [← e]; exact hb)
    (selectPrescaler_le_one _) hpass
  have hpfdfreq : PFDFreq s
      = s.ADF4351_reffreq * (1 + ReadRefDoubler s) / (ReadR s * (1 + ReadRDIV2 s)) := by
    unfold PFDFreq
    rw [toLong_BN_ADF4351_PFDFreq, u32_cast]
    exact Nat.mod_eq_of_lt hsmall
  have hpfd : b.ADF4351_Frac ≠ 0 →
      ⌊ReadPFDfreq id res.state⌋ ≤ 32000000 ∧ ReadPFDfreq id res.state < 32000001 := by
    intro hF
    suffices hq : ReadPFDfreq id res.state < 32000001 by
      refine ⟨?_, hq⟩
      have hq' : ⌊ReadPFDfreq id res.state⌋ < 32000001 :=
        Int.floor_lt.mpr (by exact_mod_cast hq)
      omega
    rw [ReadPFDfreq_congr _ s res.state f1 f2 f3 f4, ReadPFDfreq_eq s hR]
    have hle : PFDFreq s ≤ 32000000 := by
      by_contra hn
      exact hpass.2.2.2.2 ⟨hF, by unfold ADF4351_PFD_MAX_FRAC; omega⟩
    rw [hpfdfreq] at hle
    have hden : 0 < ReadR s * (1 + ReadRDIV2 s) := Nat.mul_pos (by omega) (by omega)
    have hlt := rat_div_lt_floor_succ (s.ADF4351_reffreq * (1 + ReadRefDoubler s))
      (ReadR s * (1 + ReadRDIV2 s)) hden
    have hle' : ((s.ADF4351_reffreq * (1 + ReadRefDoubler s) / (ReadR s * (1 + ReadRDIV2 s)) : Nat)
        : ℚ) ≤ 32000000 := by exact_mod_cast hle
    linarith
  rw [q1, q2, q3, q4, q6, hpre, ← p3]
  obtain ⟨c1, c2, c3, c4, _⟩ := hpass
  rw [hpre] at c3 c4
  generalize correctMod b.ADF4351_Frac b.ADF4351_Mod = Mod' at c1 c2
  refine ⟨by omega, by omega, by omega, ?_, rfl, ?_, ?_, ⟨_, p4, p3⟩, p5, p6, hpfd⟩
  · by_cases h36 : 3600000000 < (toLong freq).toNat
    · rw [if_pos h36] at c4; by_contra hn; exact c4 ⟨rfl, Or.inr (by omega)⟩
    · rw [if_neg h36] at c3; by_contra hn; exact c3 ⟨rfl, Or.inr (by omega)⟩
  · intro h36
    rw [if_pos h36] at c4
    by_contra hn; exact c4 ⟨rfl, Or.inl (by omega)⟩
  · intro h36
    rw [if_neg h36] at c3
    by_contra hn; exact c3 ⟨rfl, Or.inl (by omega)⟩

/-- C9 as stated fails at two calls. On the power-on state the target 3,600,000,000.5 Hz
exceeds 3,600,000,000 Hz, yet the committed prescaler bit is 0. On the state reached from
power-on by `setrf(64000001, 1, ADF4351_REF_HALF)` the call for 2,256,000,035 Hz commits
FRAC = 1 although the phase-detector frequency, 32,000,000.5 Hz, is above 32,000,000 Hz. -/
theorem committed_invariant_counterexample :
    (setf (roundBinary 53) stoppedClock powerOn (ofNat 3600000000 + HALF) 1 0 0 true 0 0
        = some ⟨ADF4351_ERROR_NONE, fractionalTargetPlan, ofNat 3600000000⟩
      ∧ ofNat 3600000000 + HALF > ofNat 3600000000
      ∧ ReadBF_dword 27 1 fractionalTargetPlan.R1 = 0)
    ∧ (setrf (roundBinary 53) powerOn 64000001 1 ADF4351_REF_HALF
        = (ADF4351_ERROR_NONE, halfHertzState)
      ∧ setf (roundBinary 53) stoppedClock halfHertzState (ofNat 2256000035) 1 0 0 true 1 0
        = some ⟨ADF4351_ERROR_NONE, halfHertzPlan, ofNat 2256000035⟩
      ∧ ReadFraction halfHertzPlan ≠ 0
      ∧ ¬ReadPFDfreq id halfHertzPlan ≤ 32000000) := by
  refine ⟨⟨setf_fractionalTarget, by decide, by decide⟩,
    setrf_halfHertz, setf_halfHertz, by decide, ?_⟩
  have hR : ReadR halfHertzPlan = 1 := by decide
  have hT : ReadRDIV2 halfHertzPlan = 1 := by decide
  have hD : ReadRefDoubler halfHertzPlan = 0 := by decide
  unfold ReadPFDfreq
  simp only [hR, hT, hD]
  norm_num [halfHertzPlan]

/-- C9 on the power-on state for the target 2,203,333,333 Hz in precision mode with
tolerance 0, which commits N = 220, FRAC = 1, MOD = 3 with a phase-detector frequency of
10 MHz. -/
theorem committed_configuration_invariant_witness :
    ReadFraction tolerancePlan < ReadMod tolerancePlan
    ∧ 2 ≤ ReadMod tolerancePlan ∧ ReadMod tolerancePlan ≤ 4095
    ∧ ReadInt tolerancePlan ≤ 65535
    ∧ ReadBF_dword 27 1 tolerancePlan.R1
        = (if 3600000000 < (toLong (ofNat 2203333333)).toNat then 1 else 0)
    ∧ (3600000000 < (toLong (ofNat 2203333333)).toNat → 75 ≤ ReadInt tolerancePlan)
    ∧ (¬3600000000 < (toLong (ofNat 2203333333)).toNat → 23 ≤ ReadInt tolerancePlan)
    ∧ (∃ j, j ≤ 6 ∧ ReadOutDivider tolerancePlan = 2 ^ j)
    ∧ 1 ≤ ReadOutDivider tolerancePlan ∧ ReadOutDivider tolerancePlan ≤ 64
    ∧ (ReadFraction tolerancePlan ≠ 0 →
        ⌊ReadPFDfreq id tolerancePlan⌋ ≤ 32000000 ∧ ReadPFDfreq id tolerancePlan < 32000001) :=
  committed_configuration_invariant (roundBinary 53) binary64_zero stoppedClock powerOn
    (ofNat 2203333333) 1 0 0 true
    0 0 ⟨ADF4351_ERROR_NONE, tolerancePlan, ofNat 2203333333⟩ tolerance_example (Or.inl rfl)

/-! ## C11: reference path validation -/

/-- With the loop-frequency check evaluated without rounding (`fl = id`), `setrf(f, r, type)`
returns `ADF4351_ERROR_NONE` if and only if `1 <= r <= 1023`, `100,000 <= f <= 250,000,000`, the type is one of
undivided/half/double, the doubler is not requested with `f > 30,000,000`, and the
phase-detector frequency `f * (1 + doubler) / (r * (1 + half))` lies in
`[125,000, 45,000,000]` Hz; otherwise it returns, in this order of precedence,
`ADF4351_ERROR_R_RANGE`, `ADF4351_ERROR_REF_FREQUENCY`, `ADF4351_ERROR_REF_MULTIPLIER_TYPE`,
`ADF4351_ERROR_DOUBLER_EXCEEDED` or `ADF4351_ERROR_PFD_LIMITS`, and the stored reference
frequency (with the rest of the state) is unchanged. -/
theorem setrf_validation_exact (s : State) (f r ReferenceDivisionType : Nat) :
    ((setrf id s f r ReferenceDivisionType).1 = ADF4351_ERROR_NONE ↔
      (1 ≤ r ∧ r ≤ 1023 ∧ 100000 ≤ f ∧ f ≤ 250000000
        ∧ (ReferenceDivisionType = ADF4351_REF_UNDIVIDED
          ∨ ReferenceDivisionType = ADF4351_REF_HALF
          ∨ ReferenceDivisionType = ADF4351_REF_DOUBLE)
        ∧ ¬(ReferenceDivisionType = ADF4351_REF_DOUBLE ∧ 30000000 < f)
        ∧ 125000 ≤ requestedPFD f r ReferenceDivisionType
        ∧ requestedPFD f r ReferenceDivisionType ≤ 45000000))
    ∧ (setrf id s f r ReferenceDivisionType).1
      = (if ¬(1 ≤ r ∧ r ≤ 1023) then ADF4351_ERROR_R_RANGE
        else if ¬(100000 ≤ f ∧ f ≤ 250000000) then ADF4351_ERROR_REF_FREQUENCY
        else if ¬(ReferenceDivisionType = ADF4351_REF_UNDIVIDED
            ∨ ReferenceDivisionType = ADF4351_REF_HALF
            ∨ ReferenceDivisionType = ADF4351_REF_DOUBLE) then
          ADF4351_ERROR_REF_MULTIPLIER_TYPE
        else if ReferenceDivisionType = ADF4351_REF_DOUBLE ∧ 30000000 < f then
          ADF4351_ERROR_DOUBLER_EXCEEDED
        else if ¬(125000 ≤ requestedPFD f r ReferenceDivisionType
            ∧ requestedPFD f r ReferenceDivisionType ≤ 45000000) then ADF4351_ERROR_PFD_LIMITS
        else ADF4351_ERROR_NONE)
    ∧ ((setrf id s f r ReferenceDivisionType).1 ≠ ADF4351_ERROR_NONE →
        (setrf id s f r ReferenceDivisionType).2.ADF4351_reffreq = s.ADF4351_reffreq
        ∧ (setrf id s f r ReferenceDivisionType).2 = s) := by
  obtain ⟨hcode, hst⟩ := setrf_code id s f r ReferenceDivisionType
  rw [loopFrequency_exact] at hcode
  have hprec : (setrf id s f r ReferenceDivisionType).1
      = (if ¬(1 ≤ r ∧ r ≤ 1023) then ADF4351_ERROR_R_RANGE
        else if ¬(100000 ≤ f ∧ f ≤ 250000000) then ADF4351_ERROR_REF_FREQUENCY
        else if ¬(ReferenceDivisionType = ADF4351_REF_UNDIVIDED
            ∨ ReferenceDivisionType = ADF4351_REF_HALF
            ∨ ReferenceDivisionType = ADF4351_REF_DOUBLE) then
          ADF4351_ERROR_REF_MULTIPLIER_TYPE
        else if ReferenceDivisionType = ADF4351_REF_DOUBLE ∧ 30000000 < f then
          ADF4351_ERROR_DOUBLER_EXCEEDED
        else if ¬(125000 ≤ requestedPFD f r ReferenceDivisionType
            ∧ requestedPFD f r ReferenceDivisionType ≤ 45000000) then ADF4351_ERROR_PFD_LIMITS
        else ADF4351_ERROR_NONE) := by
    rw [hcode]
    have e1 : (r > 1023 ∨ r < 1) ↔ ¬(1 ≤ r ∧ r ≤ 1023) := by omega
    have e2 : (f < ADF4351_REFIN_MIN ∨ f > ADF4351_REFIN_MAX)
        ↔ ¬(100000 ≤ f ∧ f ≤ 250000000) := by
      unfold ADF4351_REFIN_MIN ADF4351_REFIN_MAX; omega
    have e3 : (ReferenceDivisionType ≠ ADF4351_REF_UNDIVIDED
          ∧ ReferenceDivisionType ≠ ADF4351_REF_HALF
          ∧ ReferenceDivisionType ≠ ADF4351_REF_DOUBLE)
        ↔ ¬(ReferenceDivisionType = ADF4351_REF_UNDIVIDED
            ∨ ReferenceDivisionType = ADF4351_REF_HALF
            ∨ ReferenceDivisionType = ADF4351_REF_DOUBLE) := by tauto
    have e4 : (f > 30000000 ∧ ReferenceDivisionType = ADF4351_REF_DOUBLE)
        ↔ (ReferenceDivisionType = ADF4351_REF_DOUBLE ∧ 30000000 < f) :=
      ⟨fun h => ⟨h.2, h.1⟩, fun h => ⟨h.2, h.1⟩⟩
    have e5 : (requestedPFD f r ReferenceDivisionType > (ADF4351_PFD_MAX : ℚ)
          ∨ requestedPFD f r ReferenceDivisionType < (ADF4351_PFD_MIN : ℚ))
        ↔ ¬(125000 ≤ requestedPFD f r ReferenceDivisionType
            ∧ requestedPFD f r ReferenceDivisionType ≤ 45000000) := by
      unfold ADF4351_PFD_MAX ADF4351_PFD_MIN
      push_cast
      constructor
      · rintro (h | h) ⟨h1, h2⟩
        · exact absurd h2 (not_le.mpr h)
        · exact absurd h1 (not_le.mpr h)
      · intro h
        by_cases h1 : 125000 ≤ requestedPFD f r ReferenceDivisionType
        · exact Or.inl (not_le.mp (fun h2 => h ⟨h1, h2⟩))
        · exact Or.inr (not_le.mp h1)
    simp only [e1, e2, e3, e4, e5]
  refine ⟨?_, hprec, fun h => ⟨by rw [hst h], hst h⟩⟩
  constructor
  · intro h0
    rw [hprec] at h0
    split_ifs at h0 with c1 c2 c3 c4 c5
    all_goals first
      | exact ⟨c1.1, c1.2, c2.1, c2.2, c3, c4, c5.1, c5.2⟩
      | exact absurd h0 (by decide)
  · rintro ⟨a1, a2, a3, a4, a5, a6, a7, a8⟩
    rw [hprec, if_neg (not_not.mpr ⟨a1, a2⟩), if_neg (not_not.mpr ⟨a3, a4⟩),
      if_neg (not_not.mpr a5), if_neg a6, if_neg (not_not.mpr ⟨a7, a8⟩)]

/-- C11 at the failing input. `setrf(13375000, 107, ADF4351_REF_UNDIVIDED)` has
`1 <= r <= 1023`, `100,000 <= f <= 250,000,000`, a valid type without the doubler, and asks
for the phase-detector frequency 13,375,000 / 107 = 125,000 Hz, which lies in
`[125,000, 45,000,000]`. The call nevertheless returns `ADF4351_ERROR_PFD_LIMITS` and leaves
the state as it was, both in binary64 arithmetic and where `double` is a 32-bit float: the
loop frequency is computed as `f * (1 / r)`, the quotient 1/107 is rounded, and the rounded
product is below 125,000 (124,999.99999999998... and 124,999.9921875). Evaluated without
rounding the same call returns `ADF4351_ERROR_NONE`. -/
theorem reference_validation_divergence :
    requestedPFD 13375000 107 ADF4351_REF_UNDIVIDED = 125000
    ∧ setrf (roundBinary 53) powerOn 13375000 107 ADF4351_REF_UNDIVIDED
        = (ADF4351_ERROR_PFD_LIMITS, powerOn)
    ∧ setrf (roundBinary 24) powerOn 13375000 107 ADF4351_REF_UNDIVIDED
        = (ADF4351_ERROR_PFD_LIMITS, powerOn)
    ∧ loopFrequency (roundBinary 53) 13375000 107 ADF4351_REF_UNDIVIDED
        = 8589934591999999 / 68719476736
    ∧ loopFrequency (roundBinary 24) 13375000 107 ADF4351_REF_UNDIVIDED = 15999999 / 128
    ∧ (setrf id powerOn 13375000 107 ADF4351_REF_UNDIVIDED).1 = ADF4351_ERROR_NONE := by
  have hreq : requestedPFD 13375000 107 ADF4351_REF_UNDIVIDED = 125000 := by
    unfold requestedPFD
    norm_num [ADF4351_REF_UNDIVIDED, ADF4351_REF_HALF, ADF4351_REF_DOUBLE]
  refine ⟨hreq, ?_, ?_, loopFrequency_boundary, loopFrequency_boundary_single, ?_⟩
  · exact setrf_reject _ _ _ _ _ (by decide) (by decide) (by decide) (by decide) (Or.inr (by
      rw [loopFrequency_boundary]
      norm_num [ADF4351_PFD_MIN]))
  · exact setrf_reject _ _ _ _ _ (by decide) (by decide) (by decide) (by decide) (Or.inr (by
      rw [loopFrequency_boundary_single]
      norm_num [ADF4351_PFD_MIN]))
  · rw [setrf_accept id powerOn _ _ _ (by decide) (by decide) (by decide) (by decide) (by
      rw [loopFrequency_exact, hreq]
      norm_num [ADF4351_PFD_MAX, ADF4351_PFD_MIN])]

/-! ## C12: reference path round trip -/

/-- C13 at the failing input. On the power-on state (PFD 10 MHz) `SetStepFreq(100000)`
succeeds and `SetStepFreq(333)` fails with the remainder error, as claimed. After
`setrf(10000000, 2, ADF4351_REF_UNDIVIDED)` the phase-detector frequency is 5 MHz, and
`SetStepFreq(2000000)` returns `ADF4351_ERROR_NONE` and stores the step although 2,000,000
does not divide 5,000,000: the remainder is taken of the reference frequency, not of the
phase-detector frequency. The next `setf` call in channel-step mode, which divides the
reference by R first, rejects that step with
`ADF4351_ERROR_PFD_AND_STEP_FREQUENCY_HAS_REMAINDER`. -/
theorem channel_step_validation_divergence :
    SetStepFreq (roundBinary 53) powerOn 100000 = some (ADF4351_ERROR_NONE, powerOn)
    ∧ SetStepFreq (roundBinary 53) powerOn 333
        = some (ADF4351_ERROR_PFD_AND_STEP_FREQUENCY_HAS_REMAINDER, powerOn)
    ∧ setrf (roundBinary 53) powerOn 10000000 2 ADF4351_REF_UNDIVIDED
        = (ADF4351_ERROR_NONE, dividedState)
    ∧ ReadPFDfreq id dividedState = 5000000
    ∧ ¬(2000000 ∣ 5000000)
    ∧ SetStepFreq (roundBinary 53) dividedState 2000000
        = some (ADF4351_ERROR_NONE, { dividedState with ADF4351_ChanStep := 2000000 })
    ∧ setf (roundBinary 53) stoppedClock { dividedState with ADF4351_ChanStep := 2000000 }
          (ofNat 4000000000) 1 0 0 false 0 0
        = some ⟨ADF4351_ERROR_PFD_AND_STEP_FREQUENCY_HAS_REMAINDER,
            { dividedState with ADF4351_ChanStep := 2000000 }, ofNat 4000000000⟩ := by
  refine ⟨?_, ?_, setrf_divided, ReadPFDfreq_divided, by decide, ?_, ?_⟩
  · unfold SetStepFreq
    rw [ReadPFDfreq_binary64_powerOn, roundBinary_natCast 53 100000 (by norm_num),
      if_neg (by norm_num)]
    decide
  · unfold SetStepFreq
    rw [ReadPFDfreq_binary64_powerOn, roundBinary_natCast 53 333 (by norm_num),
      if_neg (by norm_num)]
    decide
  · unfold SetStepFreq
    rw [ReadPFDfreq_roundBinary 53 (by norm_num) dividedState (by decide), ReadPFDfreq_divided,
      roundBinary_natCast 53 2000000 (by norm_num),
      show roundBinary 53 (5000000 : ℚ) = 5000000 from
        roundBinary_natCast 53 5000000 (by norm_num),
      if_neg (by norm_num)]
    decide
  · have hpfd : ReadPFDfreq (roundBinary 53)
        { dividedState with ADF4351_ChanStep := 2000000 } ≠ 0 :=
      fun h => absurd ((ReadPFDfreq_eq_zero_iff _ binary64_zero _).mp h) (by decide)
    unfold setf
    rw [if_neg (by decide), if_neg (by decide), if_neg (by decide), if_neg hpfd,
      if_pos (by decide)]
    rfl

/-! ## C14: the target must be a channel-step multiple -/

/-- C14. Target must be a channel-step multiple. In non-precision mode with a channel step
above 1 (a `uint32_t`), for every target that passes the earlier checks (valid power
levels and auxiliary mode, non-zero phase-detector frequency, the PFD/step check, the range
check), `setf` returns `ADF4351_ERROR_RF_FREQUENCY_AND_STEP_FREQUENCY_HAS_REMAINDER` if and
only if the target with its fractional digits dropped is not an integer multiple of the
channel step: the twelve-digit quotient leaves a non-zero remainder exactly for the
non-multiples. -/
theorem target_step_multiple (fl : ℚ → ℚ) (hfl : ∀ x : ℚ, fl x = 0 ↔ x = 0)
    (millis : Nat → Nat) (s : State) (freq : BigNumber)
    (PowerLevel AuxPowerLevel AuxFrequencyDivider MaximumFrequencyError CalculationTimeout : Nat)
    (hP : PowerLevel ≤ 4) (hA : AuxPowerLevel ≤ 4)
    (hF : AuxFrequencyDivider = ADF4351_AUX_DIVIDED
      ∨ AuxFrequencyDivider = ADF4351_AUX_FUNDAMENTAL)
    (hPFD : ReadPFDfreq fl s ≠ 0)
    (hstep : 1 < s.ADF4351_ChanStep) (h32 : s.ADF4351_ChanStep < 4294967296)
    (hpfdstep : (s.ADF4351_reffreq / ReadR s) % s.ADF4351_ChanStep = 0)
    (hlo : ofNat 34375000 ≤ freq) (hhi : freq ≤ ofNat 4400000000) :
    ((∃ r, setf fl millis s freq PowerLevel AuxPowerLevel AuxFrequencyDivider false
          MaximumFrequencyError CalculationTimeout = some r
        ∧ r.code = ADF4351_ERROR_RF_FREQUENCY_AND_STEP_FREQUENCY_HAS_REMAINDER)
      ↔ ¬(s.ADF4351_ChanStep ∣ (toLong freq).toNat))
    ∧ (stepRemainder (toLong freq * ONE) s.ADF4351_ChanStep ≠ 0
      ↔ ¬(s.ADF4351_ChanStep ∣ (toLong freq).toNat))
    ∧ (¬(s.ADF4351_ChanStep ∣ (toLong freq).toNat) →
        setf fl millis s freq PowerLevel AuxPowerLevel AuxFrequencyDivider false
          MaximumFrequencyError CalculationTimeout
          = some ⟨ADF4351_ERROR_RF_FREQUENCY_AND_STEP_FREQUENCY_HAS_REMAINDER,
              { s with ADF4351_FrequencyError := 0 }, toLong freq * ONE⟩) := by
  obtain ⟨e, h1, h2⟩ := accepted_target freq hlo hhi
  have hrem : stepRemainder (toLong freq * ONE) s.ADF4351_ChanStep ≠ 0
      ↔ ¬(s.ADF4351_ChanStep ∣ (toLong freq).toNat) := by
    rw [e]
    exact stepRemainder_ne_zero_iff _ _ hstep (by omega) h2
  have hR : ReadR s ≠ 0 := fun h => hPFD ((ReadPFDfreq_eq_zero_iff fl hfl s).mpr (Or.inl h))
  have href : s.ADF4351_reffreq ≠ 0 := fun h => hPFD ((ReadPFDfreq_eq_zero_iff fl hfl s).mpr (Or.inr h))
  have hD : AuxFrequencyDivider = 0 ∨ AuxFrequencyDivider = 1 := hF
  have hst : ¬(false = false ∧ s.ADF4351_ChanStep > 1
      ∧ (s.ADF4351_reffreq / ReadR s) % s.ADF4351_ChanStep ≠ 0) := fun h => h.2.2 hpfdstep
  have hfail : ¬(s.ADF4351_ChanStep ∣ (toLong freq).toNat) →
      setf fl millis s freq PowerLevel AuxPowerLevel AuxFrequencyDivider false
          MaximumFrequencyError CalculationTimeout
        = some ⟨ADF4351_ERROR_RF_FREQUENCY_AND_STEP_FREQUENCY_HAS_REMAINDER,
            { s with ADF4351_FrequencyError := 0 }, toLong freq * ONE⟩ := fun hnd =>
    setf_of_step_remainder _ hfl millis s freq PowerLevel AuxPowerLevel AuxFrequencyDivider false
      MaximumFrequencyError CalculationTimeout hP hA hD hR href hst hlo hhi
      ⟨rfl, hstep, hrem.mpr hnd⟩
  refine ⟨⟨?_, fun hnd => ⟨_, hfail hnd, rfl⟩⟩, hrem, hfail⟩
  rintro ⟨r, hr, hc⟩ hd
  have hno : ¬(false = false ∧ s.ADF4351_ChanStep > 1
      ∧ stepRemainder (toLong freq * ONE) s.ADF4351_ChanStep ≠ 0) :=
    fun h => (hrem.mp h.2.2) hd
  rw [setf_of_valid _ hfl millis s freq PowerLevel AuxPowerLevel AuxFrequencyDivider false
    MaximumFrequencyError CalculationTimeout hP hA hD hR href hst hlo hhi hno] at hr
  have hmem := planAndCommit_codes _ _ _ _ _ _ _ _ _ _ hr
  rw [hc] at hmem
  exact absurd hmem (by decide)

/-- C14 on the power-on state (channel step 100 kHz) for the target 34,375,000 Hz, which is
not a multiple of the step. -/
theorem target_step_multiple_witness :
    ReadPFDfreq (roundBinary 53) powerOn ≠ 0
    ∧ ¬(powerOn.ADF4351_ChanStep ∣ (toLong (ofNat 34375000)).toNat)
    ∧ setf (roundBinary 53) stoppedClock powerOn (ofNat 34375000) 1 0 0 false 0 0
        = some ⟨ADF4351_ERROR_RF_FREQUENCY_AND_STEP_FREQUENCY_HAS_REMAINDER,
            { powerOn with ADF4351_FrequencyError := 0 }, toLong (ofNat 34375000) * ONE⟩ :=
  have hpfd : ReadPFDfreq (roundBinary 53) powerOn ≠ 0 := by
    rw [ReadPFDfreq_binary64_powerOn]; norm_num
  ⟨hpfd, by decide,
   (target_step_multiple _ binary64_zero stoppedClock powerOn (ofNat 34375000) 1 0 0 0 0 (by decide) (by decide)
      (Or.inl rfl) hpfd (by decide) (by decide) (by decide) (by decide) (by decide)).2.2
      (by decide)⟩

/-! ## C15: output power encoding -/

/-- C15. Output power encoding. After every committing `setf` call, register 4 bit 5 is 0
when `PowerLevel = 0` and is 1 with bits 3..4 equal to `PowerLevel - 1` when `PowerLevel`
is 1..4; bit 8 is 0 when `AuxPowerLevel = 0` and is 1 with bits 6..7 equal to
`AuxPowerLevel - 1` and bit 9 equal to the auxiliary mode when `AuxPowerLevel` is 1..4. -/
theorem output_power_encoding (fl : ℚ → ℚ) (hfl : ∀ x : ℚ, fl x = 0 ↔ x = 0)
    (millis : Nat → Nat) (s : State) (freq : BigNumber)
    (PowerLevel AuxPowerLevel AuxFrequencyDivider : Nat) (PrecisionFrequency : Bool)
    (MaximumFrequencyError CalculationTimeout : Nat) (res : SetfResult)
    (h : setf fl millis s freq PowerLevel AuxPowerLevel AuxFrequencyDivider PrecisionFrequency
      MaximumFrequencyError CalculationTimeout = some res)
    (hc : res.code = ADF4351_ERROR_NONE ∨ res.code = ADF4351_WARNING_FREQUENCY_ERROR) :
    PowerLevel ≤ 4 ∧ AuxPowerLevel ≤ 4
    ∧ (PowerLevel = 0 → ReadBF_dword 5 1 res.state.R4 = 0)
    ∧ (1 ≤ PowerLevel →
        ReadBF_dword 5 1 res.state.R4 = 1 ∧ ReadBF_dword 3 2 res.state.R4 = PowerLevel - 1)
    ∧ (AuxPowerLevel = 0 → ReadBF_dword 8 1 res.state.R4 = 0)
    ∧ (1 ≤ AuxPowerLevel →
        ReadBF_dword 8 1 res.state.R4 = 1
        ∧ ReadBF_dword 6 2 res.state.R4 = AuxPowerLevel - 1
        ∧ ReadBF_dword 9 1 res.state.R4 = AuxFrequencyDivider) := by
  obtain ⟨hP, hA, hF, _, _, _, _, b, _, _, _, hres⟩ :=
    setf_commit_inv _ hfl _ _ _ _ _ _ _ _ _ _ h hc
  have hR4 := (reportFrequencyError_regs
    (encodeRegisters
      { s with ADF4351_FrequencyError :=
          (finalFrequencyError (BN_ADF4351_PFDFreq s) (toLong freq * ONE)
            (selectOutputDivider (toLong freq * ONE)).1
            b.ADF4351_N_Int b.ADF4351_Frac b.ADF4351_Mod) }
      b.ADF4351_Frac b.ADF4351_N_Int (correctMod b.ADF4351_Frac b.ADF4351_Mod)
      (selectPrescaler (toLong freq * ONE)) (PFDFreq s) PowerLevel AuxPowerLevel
      AuxFrequencyDivider (selectOutputDivider (toLong freq * ONE)).2)
    (toLong freq * ONE)
    (finalFrequencyError (BN_ADF4351_PFDFreq s) (toLong freq * ONE)
      (selectOutputDivider (toLong freq * ONE)).1
      b.ADF4351_N_Int b.ADF4351_Frac b.ADF4351_Mod)
    PrecisionFrequency MaximumFrequencyError).2.2.2.2.1
  rw [← hres] at hR4
  obtain ⟨p5, p3, p8, p69, _⟩ := encodeRegisters_power
    { s with ADF4351_FrequencyError :=
        (finalFrequencyError (BN_ADF4351_PFDFreq s) (toLong freq * ONE)
          (selectOutputDivider (toLong freq * ONE)).1
          b.ADF4351_N_Int b.ADF4351_Frac b.ADF4351_Mod) }
    b.ADF4351_Frac b.ADF4351_N_Int (correctMod b.ADF4351_Frac b.ADF4351_Mod)
    (selectPrescaler (toLong freq * ONE)) (PFDFreq s) PowerLevel AuxPowerLevel
    AuxFrequencyDivider (selectOutputDivider (toLong freq * ONE)).2
  rw [← hR4] at p5 p3 p8 p69
  refine ⟨hP, hA, ?_, ?_, ?_, ?_⟩
  · intro h0; rw [p5, if_pos h0]
  · intro h1
    have hne : PowerLevel ≠ 0 := by omega
    rw [p5, if_neg hne, p3 hne]
    exact ⟨rfl, Nat.mod_eq_of_lt (by omega)⟩
  · intro h0; rw [p8, if_pos h0]
  · intro h1
    have hne : AuxPowerLevel ≠ 0 := by omega
    rw [p8, if_neg hne, (p69 hne).1, (p69 hne).2]
    refine ⟨rfl, Nat.mod_eq_of_lt (by omega), Nat.mod_eq_of_lt ?_⟩
    rcases hF with h | h <;> omega

/-- C15 for power level 0, auxiliary level 2, fundamental mode, on the power-on state with
the target 4,007,500,000 Hz: bit 5 = 0, bit 8 = 1, bits 6..7 = 1, bit 9 = 1. -/
theorem output_power_encoding_witness :
    ∃ res, setf (roundBinary 53) stoppedClock powerOn (ofNat 4007500000) 0 2 ADF4351_AUX_FUNDAMENTAL true 0 0
        = some res
      ∧ ReadBF_dword 5 1 res.state.R4 = 0
      ∧ ReadBF_dword 8 1 res.state.R4 = 1
      ∧ ReadBF_dword 6 2 res.state.R4 = 1
      ∧ ReadBF_dword 9 1 res.state.R4 = 1 := by
  have h : ∃ res,
      setf (roundBinary 53) stoppedClock powerOn (ofNat 4007500000) 0 2 ADF4351_AUX_FUNDAMENTAL true 0 0
          = some res
      ∧ res.code = ADF4351_ERROR_NONE := by
    rw [setf_of_valid _ binary64_zero _ _ _ _ _ _ _ _ _ (by decide) (by decide) (by decide)
        (by decide)
      (by decide) (by decide) (by decide) (by decide) (by decide)]
    exact ⟨_, rfl, by decide⟩
  obtain ⟨res, hres, hcode⟩ := h
  have hw := output_power_encoding _ binary64_zero stoppedClock powerOn (ofNat 4007500000) 0 2
    ADF4351_AUX_FUNDAMENTAL true 0 0 res hres (Or.inl hcode)
  exact ⟨res, hres, hw.2.2.1 rfl, (hw.2.2.2.2.2 (by decide)).1, (hw.2.2.2.2.2 (by decide)).2.1,
    (hw.2.2.2.2.2 (by decide)).2.2⟩

/-! ## C16: encode/decode round trip -/

/-- C16. Encode/decode round trip. After every committing `setf` call the planner has chosen
a decomposition `b` (N, FRAC and the MOD before the correction `FRAC = 0 => MOD = 2`) and
`ReadInt()`, `ReadFraction()` and `ReadMod()` return exactly that N, that FRAC and the
corrected MOD; `ReadOutDivider_PowerOf2()` returns the chosen divider-select code and
`ReadOutDivider()` returns 2 to that power, which is the chosen output divider; the four
values fit their 16-, 12-, 12- and 3-bit fields. -/
theorem encode_decode_round_trip (fl : ℚ → ℚ) (hfl : ∀ x : ℚ, fl x = 0 ↔ x = 0)
    (millis : Nat → Nat) (s : State) (freq : BigNumber)
    (PowerLevel AuxPowerLevel AuxFrequencyDivider : Nat) (PrecisionFrequency : Bool)
    (MaximumFrequencyError CalculationTimeout : Nat) (res : SetfResult)
    (h : setf fl millis s freq PowerLevel AuxPowerLevel AuxFrequencyDivider PrecisionFrequency
      MaximumFrequencyError CalculationTimeout = some res)
    (hc : res.code = ADF4351_ERROR_NONE ∨ res.code = ADF4351_WARNING_FREQUENCY_ERROR) :
    ∃ b, decompose millis (BN_ADF4351_PFDFreq s) s.ADF4351_ChanStep (toLong freq * ONE)
        PrecisionFrequency MaximumFrequencyError CalculationTimeout = some b
      ∧ ReadInt res.state = b.ADF4351_N_Int
      ∧ ReadFraction res.state = b.ADF4351_Frac
      ∧ ReadMod res.state = correctMod b.ADF4351_Frac b.ADF4351_Mod
      ∧ ReadOutDivider_PowerOf2 res.state = (selectOutputDivider (toLong freq * ONE)).2
      ∧ ReadOutDivider res.state = 2 ^ (selectOutputDivider (toLong freq * ONE)).2
      ∧ ReadOutDivider res.state = (selectOutputDivider (toLong freq * ONE)).1
      ∧ b.ADF4351_N_Int < 2 ^ 16 ∧ b.ADF4351_Frac < 2 ^ 12
      ∧ correctMod b.ADF4351_Frac b.ADF4351_Mod < 2 ^ 12
      ∧ (selectOutputDivider (toLong freq * ONE)).2 < 2 ^ 3 := by
  obtain ⟨_, _, _, _, _, hlo, hhi, b, hb, _, hpass, hres⟩ :=
    setf_commit_inv _ hfl _ _ _ _ _ _ _ _ _ _ h hc
  obtain ⟨e, h1, _⟩ := accepted_target freq hlo hhi
  obtain ⟨_, _, p3, p4, _, _⟩ := selectOutputDivider_spec (toLong freq).toNat h1
  rw [← e] at p3 p4
  obtain ⟨q1, q2, q3, _, q5, q6⟩ := committed_readback
    { s with ADF4351_FrequencyError :=
        (finalFrequencyError (BN_ADF4351_PFDFreq s) (toLong freq * ONE)
          (selectOutputDivider (toLong freq * ONE)).1
          b.ADF4351_N_Int b.ADF4351_Frac b.ADF4351_Mod) }
    (toLong freq * ONE) b.ADF4351_Frac b.ADF4351_N_Int
    (correctMod b.ADF4351_Frac b.ADF4351_Mod) (selectPrescaler (toLong freq * ONE)) (PFDFreq s)
    PowerLevel AuxPowerLevel AuxFrequencyDivider (selectOutputDivider (toLong freq * ONE)).2
    (finalFrequencyError (BN_ADF4351_PFDFreq s) (toLong freq * ONE)
      (selectOutputDivider (toLong freq * ONE)).1
      b.ADF4351_N_Int b.ADF4351_Frac b.ADF4351_Mod) PrecisionFrequency MaximumFrequencyError
    hpass (selectPrescaler_le_one _) p4
  rw [← hres] at q1 q2 q3 q5 q6
  obtain ⟨c1, c2, c3, c4, _⟩ := hpass
  have hpre := selectPrescaler_le_one (toLong freq * ONE)
  refine ⟨b, hb, q2, q1, q3, q5, q6, by rw [q6, p3], ?_, ?_, ?_, ?_⟩
  · generalize selectPrescaler (toLong freq * ONE) = P at c3 c4 hpre
    norm_num
    by_contra hn
    rcases Nat.le_one_iff_eq_zero_or_eq_one.mp hpre with h0 | h1
    · exact c3 ⟨h0, Or.inr (by omega)⟩
    · exact c4 ⟨h1, Or.inr (by omega)⟩
  · generalize correctMod b.ADF4351_Frac b.ADF4351_Mod = M at c1 c2
    norm_num
    omega
  · generalize correctMod b.ADF4351_Frac b.ADF4351_Mod = M at c1 c2
    norm_num
    omega
  · norm_num
    omega

/-- C16 on the power-on state for the target 4,007,500,000 Hz in precision mode with
tolerance 0: N = 400, FRAC = 3, MOD = 4, select code 0, divider 1. -/
theorem encode_decode_round_trip_witness :
    ∃ res b, setf (roundBinary 53) stoppedClock powerOn (ofNat 4007500000) 1 0 0 true 0 0 = some res
      ∧ decompose stoppedClock (BN_ADF4351_PFDFreq powerOn) powerOn.ADF4351_ChanStep
          (toLong (ofNat 4007500000) * ONE) true 0 0 = some b
      ∧ ReadInt res.state = b.ADF4351_N_Int
      ∧ ReadFraction res.state = b.ADF4351_Frac
      ∧ ReadMod res.state = correctMod b.ADF4351_Frac b.ADF4351_Mod
      ∧ ReadOutDivider_PowerOf2 res.state
          = (selectOutputDivider (toLong (ofNat 4007500000) * ONE)).2
      ∧ ReadOutDivider res.state = (selectOutputDivider (toLong (ofNat 4007500000) * ONE)).1 := by
  have h : ∃ res, setf (roundBinary 53) stoppedClock powerOn (ofNat 4007500000) 1 0 0 true 0 0
      = some res
      ∧ res.code = ADF4351_ERROR_NONE := by
    rw [setf_of_valid _ binary64_zero _ _ _ _ _ _ _ _ _ (by decide) (by decide) (by decide)
        (by decide)
      (by decide) (by decide) (by decide) (by decide) (by decide)]
    exact ⟨_, rfl, by decide⟩
  obtain ⟨res, hres, hcode⟩ := h
  obtain ⟨b, hb, q1, q2, q3, q4, _, q6, _⟩ :=
    encode_decode_round_trip _ binary64_zero stoppedClock powerOn (ofNat 4007500000) 1 0 0 true 0 0 res hres
      (Or.inl hcode)
  exact ⟨res, b, hres, hb, q1, q2, q3, q4, q6⟩

/-! ## C17: idempotence -/

/-- C17. Idempotence. For every state and every argument list with `CalculationTimeout = 0`,
if a `setf` call returns, the same call made again on the state it left, reusing the target
buffer it left, returns the same code and leaves the same state (the six register words and
the stored frequency error included) and the same buffer: the second call is a call on a
fixed point of the first. -/
theorem planner_idempotent (fl : ℚ → ℚ) (hfl : ∀ x : ℚ, fl x = 0 ↔ x = 0)
    (millis millis' : Nat → Nat) (s : State) (freq : BigNumber)
    (PowerLevel AuxPowerLevel AuxFrequencyDivider : Nat) (PrecisionFrequency : Bool)
    (MaximumFrequencyError : Nat) (r1 : SetfResult)
    (h : setf fl millis s freq PowerLevel AuxPowerLevel AuxFrequencyDivider PrecisionFrequency
      MaximumFrequencyError 0 = some r1) :
    ∃ r2, setf fl millis' r1.state r1.freq PowerLevel AuxPowerLevel AuxFrequencyDivider
        PrecisionFrequency MaximumFrequencyError 0 = some r2
      ∧ r2.code = r1.code
      ∧ r2.state.ADF4351_R = r1.state.ADF4351_R
      ∧ ReadFrequencyError r2.state = ReadFrequencyError r1.state
      ∧ r2 = r1 := by
  suffices hs : setf fl millis' r1.state r1.freq PowerLevel AuxPowerLevel AuxFrequencyDivider
      PrecisionFrequency MaximumFrequencyError 0 = some r1 from ⟨r1, hs, rfl, rfl, rfl, rfl⟩
  have early : ∀ (c : Nat),
      setf fl millis' s freq PowerLevel AuxPowerLevel AuxFrequencyDivider PrecisionFrequency
        MaximumFrequencyError 0 = some ⟨c, { s with ADF4351_FrequencyError := 0 }, freq⟩ →
      r1 = ⟨c, { s with ADF4351_FrequencyError := 0 }, freq⟩ →
      setf fl millis' r1.state r1.freq PowerLevel AuxPowerLevel AuxFrequencyDivider
        PrecisionFrequency MaximumFrequencyError 0 = some r1 := by
    intro c h2 hr
    rw [hr]
    exact h2
  unfold setf at h
  by_cases h1 : PowerLevel > 4
  · rw [if_pos h1] at h
    exact early _ (by unfold setf; rw [if_pos h1]) (Option.some.inj h).symm
  rw [if_neg h1] at h
  by_cases h2 : AuxPowerLevel > 4
  · rw [if_pos h2] at h
    exact early _ (by unfold setf; rw [if_neg h1, if_pos h2]) (Option.some.inj h).symm
  rw [if_neg h2] at h
  by_cases h3 : AuxFrequencyDivider ≠ ADF4351_AUX_DIVIDED
      ∧ AuxFrequencyDivider ≠ ADF4351_AUX_FUNDAMENTAL
  · rw [if_pos h3] at h
    exact early _ (by unfold setf; rw [if_neg h1, if_neg h2, if_pos h3])
      (Option.some.inj h).symm
  rw [if_neg h3] at h
  by_cases h4 : ReadPFDfreq fl s = 0
  · rw [if_pos h4] at h
    exact early _ (by unfold setf; rw [if_neg h1, if_neg h2, if_neg h3, if_pos h4])
      (Option.some.inj h).symm
  rw [if_neg h4] at h
  by_cases h5 : PrecisionFrequency = false ∧ s.ADF4351_ChanStep > 1
      ∧ (s.ADF4351_reffreq / ReadR s) % s.ADF4351_ChanStep ≠ 0
  · rw [if_pos h5] at h
    exact early _ (by unfold setf; rw [if_neg h1, if_neg h2, if_neg h3, if_neg h4, if_pos h5])
      (Option.some.inj h).symm
  rw [if_neg h5] at h
  by_cases h6 : freq > ofNat 4400000000 ∨ freq < ofNat 34375000
  · rw [if_pos h6] at h
    exact early _ (by
      unfold setf; rw [if_neg h1, if_neg h2, if_neg h3, if_neg h4, if_neg h5, if_pos h6])
      (Option.some.inj h).symm
  rw [if_neg h6] at h
  have hlo : ofNat 34375000 ≤ freq := not_lt.mp (fun h' => h6 (Or.inr h'))
  have hhi : freq ≤ ofNat 4400000000 := not_lt.mp (fun h' => h6 (Or.inl h'))
  obtain ⟨e, n1, n2⟩ := accepted_target freq hlo hhi
  have hcut := toLong_ofNat (toLong freq).toNat
  have hP : PowerLevel ≤ 4 := by omega
  have hA : AuxPowerLevel ≤ 4 := by omega
  have hD : AuxFrequencyDivider = 0 ∨ AuxFrequencyDivider = 1 := by
    unfold ADF4351_AUX_DIVIDED ADF4351_AUX_FUNDAMENTAL at h3; omega
  have hR : ReadR s ≠ 0 := fun h' => h4 ((ReadPFDfreq_eq_zero_iff fl hfl s).mpr (Or.inl h'))
  have href : s.ADF4351_reffreq ≠ 0 :=
    fun h' => h4 ((ReadPFDfreq_eq_zero_iff fl hfl s).mpr (Or.inr h'))
  rw [e] at h
  by_cases h7 : PrecisionFrequency = false ∧ s.ADF4351_ChanStep > 1
      ∧ stepRemainder (ofNat (toLong freq).toNat) s.ADF4351_ChanStep ≠ 0
  · rw [if_pos h7] at h
    have hr := (Option.some.inj h).symm
    rw [hr]
    exact setf_of_step_remainder _ hfl millis' s (ofNat (toLong freq).toNat) PowerLevel AuxPowerLevel
      AuxFrequencyDivider PrecisionFrequency MaximumFrequencyError 0 hP hA hD hR href h5
      ((ofNat_le_ofNat _ _).mpr n1) ((ofNat_le_ofNat _ _).mpr n2) (by rw [hcut]; exact h7)
      |>.trans (by rw [hcut])
  rw [if_neg h7] at h
  exact planAndCommit_again _ hfl millis millis' s (toLong freq).toNat PowerLevel AuxPowerLevel
    AuxFrequencyDivider PrecisionFrequency MaximumFrequencyError r1 hP hA hD hR href h5 n1 n2 h7 h

/-- C17 on the power-on state for the target 2,203,333,333 Hz in precision mode with
tolerance 0: the second call, made on the state the first one left, returns
`ADF4351_ERROR_NONE` again and leaves that state. -/
theorem planner_idempotent_witness :
    ∃ r2, setf (roundBinary 53) stoppedClock tolerancePlan (ofNat 2203333333) 1 0 0 true 0 0 = some r2
      ∧ r2.code = ADF4351_ERROR_NONE
      ∧ r2.state.ADF4351_R = tolerancePlan.ADF4351_R
      ∧ ReadFrequencyError r2.state = ReadFrequencyError tolerancePlan
      ∧ r2 = ⟨ADF4351_ERROR_NONE, tolerancePlan, ofNat 2203333333⟩ :=
  planner_idempotent _ binary64_zero stoppedClock stoppedClock powerOn (ofNat 2203333333) 1 0 0 true 0
    ⟨ADF4351_ERROR_NONE, tolerancePlan, ofNat 2203333333⟩ tolerance_example

/-! ## C18: signed error reporting -/

/-- C18 at the failing inputs, on the power-on state in precision mode. For the target
4,007,500,000 Hz with tolerance 7,500,000 Hz the call returns `ADF4351_ERROR_NONE` having
committed N = 400, FRAC = 0, divider 1: the achieved frequency is 7,500,000 Hz below the
target, and `ReadFrequencyError()` returns +7,499,999. The sign is restored only on the
warning return, and adding 0.5 before dropping the fraction rounds a negative error towards
zero. For the target 2,203,333,334 Hz with tolerance 0 the call returns `ADF4351_ERROR_NONE`
having committed N = 220, FRAC = 1, MOD = 3: the achieved frequency is 2/3 Hz below the
target, which rounds to -1, and `ReadFrequencyError()` returns 0. -/
theorem signed_error_divergence :
    (setf (roundBinary 53) stoppedClock powerOn (ofNat 4007500000) 1 0 0 true 7500000 0
        = some ⟨ADF4351_ERROR_NONE, coarsePlan, ofNat 4007500000⟩
      ∧ encodedFrequency coarsePlan - 4007500000 = -7500000
      ∧ ReadFrequencyError coarsePlan = 7499999)
    ∧ (setf (roundBinary 53) stoppedClock powerOn (ofNat 2203333334) 1 0 0 true 0 0
        = some ⟨ADF4351_ERROR_NONE, tolerancePlan, ofNat 2203333334⟩
      ∧ encodedFrequency tolerancePlan - 2203333334 = -2 / 3
      ∧ ReadFrequencyError tolerancePlan = 0) := by
  refine ⟨⟨?_, ?_, by decide⟩, ?_, ?_, by decide⟩
  · rw [setf_of_valid _ binary64_zero _ _ _ _ _ _ _ _ _ (by decide) (by decide) (by decide)
        (by decide)
      (by decide) (by decide) (by decide) (by decide) (by decide)]
    decide
  · have hR : ReadR coarsePlan = 1 := by decide
    have hT : ReadRDIV2 coarsePlan = 0 := by decide
    have hD : ReadRefDoubler coarsePlan = 0 := by decide
    have hN : ReadInt coarsePlan = 400 := by decide
    have hFr : ReadFraction coarsePlan = 0 := by decide
    have hM : ReadMod coarsePlan = 2 := by decide
    have hO : ReadOutDivider coarsePlan = 1 := by decide
    unfold encodedFrequency ReadPFDfreq
    simp only [hR, hT, hD, hN, hFr, hM, hO]
    norm_num [coarsePlan]
  · rw [setf_of_valid _ binary64_zero _ _ _ _ _ _ _ _ _ (by decide) (by decide) (by decide)
        (by decide)
      (by decide) (by decide) (by decide) (by decide) (by decide)]
    decide
  · have hR : ReadR tolerancePlan = 1 := by decide
    have hT : ReadRDIV2 tolerancePlan = 0 := by decide
    have hD : ReadRefDoubler tolerancePlan = 0 := by decide
    have hN : ReadInt tolerancePlan = 220 := by decide
    have hFr : ReadFraction tolerancePlan = 1 := by decide
    have hM : ReadMod tolerancePlan = 3 := by decide
    have hO : ReadOutDivider tolerancePlan = 1 := by decide
    unfold encodedFrequency ReadPFDfreq
    simp only [hR, hT, hD, hN, hFr, hM, hO]
    norm_num [tolerancePlan]

/-! ## C19: the precision search -/

/-- C19. Precision search result. In precision mode, when the overflow test does not fire and
the integer-only error exceeds the tolerance, and the search does not run out of time, there
is a last examined candidate `M` in 2..4095 (4095, or the first MOD whose whole-Hz error is
within the tolerance) such that: if no candidate in 2..M has a whole-Hz error below the
integer-only error, the result stays FRAC = 0, MOD = 2; otherwise the kept pair
`(FRAC, MOD)` is a candidate in 2..M with `1 <= FRAC < MOD`, `2 <= MOD <= 4095`, whose
whole-Hz error is below the integer-only error, at most that of every candidate in 2..M and
strictly below that of every candidate with a smaller MOD. -/
theorem precision_search_result (millis : Nat → Nat) (PFD freq : BigNumber)
    (outdiv MaximumFrequencyError CalculationTimeout : Nat) (FE0 : Int)
    (hrun : searchRuns PFD freq outdiv MaximumFrequencyError)
    (hlate : (precisionBranch millis PFD freq outdiv MaximumFrequencyError CalculationTimeout
      FE0).CalculationTookTooLong = false) :
    ∃ M, 2 ≤ M ∧ M ≤ 4095
      ∧ (M = 4095 ∨ ∃ F e, candidate PFD (integerOnlyRemainder PFD freq outdiv) outdiv M
            = some (F, e) ∧ e ≤ MaximumFrequencyError)
      ∧ (∀ m F e, 2 ≤ m → m < M →
          candidate PFD (integerOnlyRemainder PFD freq outdiv) outdiv m = some (F, e) →
          MaximumFrequencyError < e)
      ∧ ((∀ m F e, 2 ≤ m → m ≤ M →
            candidate PFD (integerOnlyRemainder PFD freq outdiv) outdiv m = some (F, e) →
            integerOnlyError PFD freq outdiv ≤ e) →
          (precisionBranch millis PFD freq outdiv MaximumFrequencyError CalculationTimeout
              FE0).ADF4351_Frac = 0
          ∧ (precisionBranch millis PFD freq outdiv MaximumFrequencyError CalculationTimeout
              FE0).ADF4351_Mod = 2)
      ∧ ((∃ m F e, 2 ≤ m ∧ m ≤ M
            ∧ candidate PFD (integerOnlyRemainder PFD freq outdiv) outdiv m = some (F, e)
            ∧ e < integerOnlyError PFD freq outdiv) →
          ∃ e, candidate PFD (integerOnlyRemainder PFD freq outdiv) outdiv
                (precisionBranch millis PFD freq outdiv MaximumFrequencyError CalculationTimeout
                  FE0).ADF4351_Mod
              = some ((precisionBranch millis PFD freq outdiv MaximumFrequencyError
                  CalculationTimeout FE0).ADF4351_Frac, e)
            ∧ 2 ≤ (precisionBranch millis PFD freq outdiv MaximumFrequencyError
                CalculationTimeout FE0).ADF4351_Mod
            ∧ (precisionBranch millis PFD freq outdiv MaximumFrequencyError CalculationTimeout
                FE0).ADF4351_Mod ≤ M
            ∧ 1 ≤ (precisionBranch millis PFD freq outdiv MaximumFrequencyError
                CalculationTimeout FE0).ADF4351_Frac
            ∧ (precisionBranch millis PFD freq outdiv MaximumFrequencyError CalculationTimeout
                FE0).ADF4351_Frac
              < (precisionBranch millis PFD freq outdiv MaximumFrequencyError CalculationTimeout
                FE0).ADF4351_Mod
            ∧ e < integerOnlyError PFD freq outdiv
            ∧ (∀ m F e', 2 ≤ m → m ≤ M →
                candidate PFD (integerOnlyRemainder PFD freq outdiv) outdiv m = some (F, e') →
                e ≤ e')
            ∧ (∀ m F e', 2 ≤ m →
                m < (precisionBranch millis PFD freq outdiv MaximumFrequencyError
                  CalculationTimeout FE0).ADF4351_Mod →
                candidate PFD (integerOnlyRemainder PFD freq outdiv) outdiv m = some (F, e') →
                e < e')) := by
  obtain ⟨hM, hF, hT, _⟩ := precisionBranch_search millis PFD freq outdiv MaximumFrequencyError
    CalculationTimeout FE0 hrun
  rw [hT] at hlate
  have heq := modMatchLoop_in_time millis PFD (integerOnlyRemainder PFD freq outdiv) outdiv
    MaximumFrequencyError CalculationTimeout 4094 _ hlate
  rw [heq] at hM hF
  rw [hM, hF]
  have hRem := integerOnlyRemainder_nonneg PFD freq outdiv
  obtain ⟨M, m1, m2, m3, m4, m5, m6⟩ := modMatchLoop_best millis PFD
    (integerOnlyRemainder PFD freq outdiv) outdiv MaximumFrequencyError 4094
    ⟨i32 (toLong (integerOnlyRemainder PFD freq outdiv)), integerOnlyError PFD freq outdiv, 2, 0,
      false⟩ (le_refl _) (le_refl _) (fun m F e h2 hm _ => absurd hm (by omega))
    (Or.inl ⟨rfl, rfl, rfl⟩)
  generalize modMatchLoop millis PFD (integerOnlyRemainder PFD freq outdiv) outdiv
    MaximumFrequencyError 0 4094
    ⟨i32 (toLong (integerOnlyRemainder PFD freq outdiv)), integerOnlyError PFD freq outdiv, 2, 0,
      false⟩ = R at m5 m6 ⊢
  have he0 : integerOnlyError PFD freq outdiv
      = u32 (i32 (toLong (integerOnlyRemainder PFD freq outdiv))) := rfl
  rw [← he0] at m6
  refine ⟨M, m1, m2, m3, m4, ?_, ?_⟩
  · intro hall
    rcases m6 with ⟨_, k2, k3⟩ | ⟨k1, k2, k3, k4, _⟩
    · exact ⟨k3, k2⟩
    · have := hall _ _ _ k1 k2 k3
      omega
  · rintro ⟨m, F, e, h2, hm, hc, hlt⟩
    rcases m6 with ⟨k1, _, _⟩ | ⟨k1, k2, k3, k4, k5⟩
    · have := m5 m F e h2 hm hc
      omega
    · refine ⟨R.PreviousFrequencyError, k3, k1, k2, ?_, ?_, k4, m5, k5⟩
      · by_contra h0
        have hz : R.ADF4351_Frac = 0 := by omega
        rw [hz] at k3
        have := candidate_frac_zero PFD _ outdiv _ _ hRem k3
        rw [← he0] at this
        omega
      · exact candidate_frac_lt PFD _ outdiv _ _ _ k1 k3

/-- C19 on the worked scenario (PFD 10 MHz, target 4,007,500,000 Hz, divider 1, tolerance 0):
the search runs and keeps FRAC = 3, MOD = 4 with whole-Hz error 0, below the integer-only
error 7,500,000. -/
theorem precision_search_result_witness :
    searchRuns (ofNat 10000000) (ofNat 4007500000) 1 0
    ∧ (precisionBranch stoppedClock (ofNat 10000000) (ofNat 4007500000) 1 0 0 0).ADF4351_Mod = 4
    ∧ (precisionBranch stoppedClock (ofNat 10000000) (ofNat 4007500000) 1 0 0 0).ADF4351_Frac = 3
    ∧ candidate (ofNat 10000000) (integerOnlyRemainder (ofNat 10000000) (ofNat 4007500000) 1) 1 4
        = some (3, 0)
    ∧ integerOnlyError (ofNat 10000000) (ofNat 4007500000) 1 = 7500000
    ∧ ∃ M, 2 ≤ M ∧ M ≤ 4095
      ∧ (M = 4095 ∨ ∃ F e, candidate (ofNat 10000000)
            (integerOnlyRemainder (ofNat 10000000) (ofNat 4007500000) 1) 1 M = some (F, e)
          ∧ e ≤ 0)
      ∧ (∀ m F e, 2 ≤ m → m < M →
          candidate (ofNat 10000000)
            (integerOnlyRemainder (ofNat 10000000) (ofNat 4007500000) 1) 1 m = some (F, e) →
          0 < e) :=
  have h := precision_search_result stoppedClock (ofNat 10000000) (ofNat 4007500000) 1 0 0 0
    (by decide) (by decide)
  ⟨by decide, by decide, by decide, by decide, by decide,
    h.elim (fun M hM => ⟨M, hM.1, hM.2.1, hM.2.2.1, hM.2.2.2.1⟩)⟩

/-! ## C20: the edge band of the precision branch -/

/-- C20 (as the code behaves). Precision-mode edge band. For every state whose decimal
phase-detector frequency `p * 10^-12` Hz lies in `[125 kHz, 45 MHz]` and every committing
`setf` call in precision mode, with `f` the target cut at its decimal point, `o` the committed
output divider and `Q` the quotient `(f / PFD) * o` as `setf` computes it in twelve-digit
decimal arithmetic (in units of `10^-12`): if the fractional part of `Q` is at least
`1 - 0.00024421`, the search is skipped and the call commits `N = floor(Q) + 1`, FRAC = 0,
MOD = 2, and the committed frequency `N * PFD / o` is below `f + PFD / (4095 * o) + 1` Hz;
otherwise `N = floor(Q)`. In terms of the exact ratio `f * o / PFD`: whenever its fractional
part is below `1 - 0.00024421`, `N` is its floor. -/
theorem precision_edge_band (fl : ℚ → ℚ) (hfl : ∀ x : ℚ, fl x = 0 ↔ x = 0)
    (millis : Nat → Nat) (s : State) (freq : BigNumber)
    (PowerLevel AuxPowerLevel AuxFrequencyDivider MaximumFrequencyError CalculationTimeout : Nat)
    (res : SetfResult) (p : Nat)
    (hp : BN_ADF4351_PFDFreq s = (p : Int))
    (hplo : 125000000000000000 ≤ p) (hphi : p ≤ 45000000000000000000)
    (h : setf fl millis s freq PowerLevel AuxPowerLevel AuxFrequencyDivider true
      MaximumFrequencyError CalculationTimeout = some res)
    (hc : res.code = ADF4351_ERROR_NONE ∨ res.code = ADF4351_WARNING_FREQUENCY_ERROR) :
    ∃ Q : Nat,
      trialRatio (BN_ADF4351_PFDFreq s) (toLong freq * ONE) (ReadOutDivider res.state) = (Q : Int)
      ∧ (999755790000 ≤ Q % 1000000000000 →
          ReadInt res.state = Q / 1000000000000 + 1
          ∧ ReadFraction res.state = 0 ∧ ReadMod res.state = 2
          ∧ ReadInt res.state * p * 4095
              < (toLong freq).toNat * ReadOutDivider res.state * 1000000000000 * 4095
                + p + 4095 * ReadOutDivider res.state * 1000000000000)
      ∧ (Q % 1000000000000 < 999755790000 → ReadInt res.state = Q / 1000000000000)
      ∧ ((toLong freq).toNat * ReadOutDivider res.state * 1000000000000 % p * 1000000000000
            < 999755790000 * p →
          ReadInt res.state
            = (toLong freq).toNat * ReadOutDivider res.state * 1000000000000 / p) := by
  obtain ⟨_, _, _, _, _, hlo, hhi, b, hb, _, hpass, hres⟩ :=
    setf_commit_inv _ hfl _ _ _ _ _ _ _ _ _ _ h hc
  obtain ⟨e, h1, h2⟩ := accepted_target freq hlo hhi
  obtain ⟨_, _, p3, p4, p5, p6⟩ := selectOutputDivider_spec (toLong freq).toNat h1
  obtain ⟨v1, v2⟩ := vco_band (toLong freq).toNat h1 h2
  rw [← e] at p3 p4
  obtain ⟨q1, q2, q3, _, _, q6⟩ := committed_readback
    { s with ADF4351_FrequencyError :=
        (finalFrequencyError (BN_ADF4351_PFDFreq s) (toLong freq * ONE)
          (selectOutputDivider (toLong freq * ONE)).1
          b.ADF4351_N_Int b.ADF4351_Frac b.ADF4351_Mod) }
    (toLong freq * ONE) b.ADF4351_Frac b.ADF4351_N_Int
    (correctMod b.ADF4351_Frac b.ADF4351_Mod) (selectPrescaler (toLong freq * ONE)) (PFDFreq s)
    PowerLevel AuxPowerLevel AuxFrequencyDivider (selectOutputDivider (toLong freq * ONE)).2
    (finalFrequencyError (BN_ADF4351_PFDFreq s) (toLong freq * ONE)
      (selectOutputDivider (toLong freq * ONE)).1
      b.ADF4351_N_Int b.ADF4351_Frac b.ADF4351_Mod) true MaximumFrequencyError
    hpass (selectPrescaler_le_one _) p4
  rw [← hres] at q1 q2 q3 q6
  rw [← p3, e] at q6
  rw [e] at hb
  unfold decompose at hb
  rw [if_pos rfl] at hb
  have hb' := (Option.some.inj hb).symm
  rw [q1, q2, q3, q6, e, hp]
  generalize (selectOutputDivider (ofNat (toLong freq).toNat)).1 = o at *
  generalize (toLong freq).toNat = f at *
  rw [hp] at hb'
  have hp0 : 0 < p := by omega
  have ho0 : 0 < o := by omega
  obtain ⟨n1, n2⟩ := trialRatio_near p f o hp0 ho0
  have hQ := trialRatio_cast p f o
  -- the quotient is small
  have hbig : f * o * 1000000000000 * 1000000000000 / p ≤ 35200000000000000 := by
    calc f * o * 1000000000000 * 1000000000000 / p
        ≤ 4400000000 * 1000000000000 * 1000000000000 / p :=
          Nat.div_le_div_right (by
            rw [show f * o * 1000000000000 * 1000000000000
                = (f * o) * (1000000000000 * 1000000000000) by ring,
              show (4400000000 : Nat) * 1000000000000 * 1000000000000
                = 4400000000 * (1000000000000 * 1000000000000) by ring]
            exact Nat.mul_le_mul_right _ v2)
      _ ≤ 4400000000 * 1000000000000 * 1000000000000 / 125000000000000000 :=
          Nat.div_le_div_left hplo (by norm_num)
      _ = 35200000000000000 := by norm_num
  obtain ⟨ea, eb⟩ := precisionBranch_edge millis (p : Int) (ofNat f) o MaximumFrequencyError
    CalculationTimeout _ hQ (by omega)
  -- the exact ratio
  have hsplit := exact_ratio_split (f * o * 1000000000000) p hp0
  have hmul : f * 1000000000000 * 1000000000000 / p * o * p
      ≤ f * o * 1000000000000 * 1000000000000 :=
    le_trans (Nat.mul_le_mul_right _ n1) (Nat.div_mul_le_self _ _)
  generalize hQd : f * 1000000000000 * 1000000000000 / p * o = Q at *
  generalize hQe : f * o * 1000000000000 * 1000000000000 / p = Q' at *
  refine ⟨Q, hQ, ?_, ?_, ?_⟩
  · intro hge
    rw [hb', ea hge]
    refine ⟨rfl, rfl, by unfold correctMod; rw [if_pos rfl], ?_⟩
    dsimp only
    have hN : (Q / 1000000000000 + 1) * 1000000000000 ≤ Q + 244210000 := by omega
    have hY : (Q / 1000000000000 + 1) * p * 1000000000000
        ≤ f * o * 1000000000000 * 1000000000000 + 244210000 * p := by
      calc (Q / 1000000000000 + 1) * p * 1000000000000
          = (Q / 1000000000000 + 1) * 1000000000000 * p := by ring
        _ ≤ (Q + 244210000) * p := Nat.mul_le_mul_right _ hN
        _ = Q * p + 244210000 * p := by ring
        _ ≤ f * o * 1000000000000 * 1000000000000 + 244210000 * p :=
            Nat.add_le_add_right hmul _
    generalize (Q / 1000000000000 + 1) * p = Y at hY ⊢
    generalize f * o * 1000000000000 = A at hY ⊢
    omega
  · intro hlt
    rw [hb', eb hlt]
  · intro hfr
    have hr : f * o * 1000000000000 % p * 1000000000000 / p < 999755790000 :=
      (Nat.div_lt_iff_lt_mul hp0).mpr hfr
    generalize f * o * 1000000000000 % p * 1000000000000 / p = r' at hr hsplit
    generalize f * o * 1000000000000 / p = K at hsplit ⊢
    by_cases hge : 999755790000 ≤ Q % 1000000000000
    · rw [hb', ea hge]
      dsimp only
      omega
    · rw [hb', eb (by omega)]
      omega

/-- C20 on the power-on state (PFD 10 MHz) for the target 4,009,998,000 Hz in precision mode
with tolerance 0: the ratio is 400.9998, inside the edge band. -/
theorem precision_edge_band_witness :
    ∃ res, ∃ Q : Nat, setf (roundBinary 53) stoppedClock powerOn (ofNat 4009998000) 1 0 0 true 0 0
        = some res
      ∧ trialRatio (BN_ADF4351_PFDFreq powerOn) (toLong (ofNat 4009998000) * ONE)
          (ReadOutDivider res.state) = (Q : Int)
      ∧ (999755790000 ≤ Q % 1000000000000 →
          ReadInt res.state = Q / 1000000000000 + 1
          ∧ ReadFraction res.state = 0 ∧ ReadMod res.state = 2) := by
  have h : ∃ res, setf (roundBinary 53) stoppedClock powerOn (ofNat 4009998000) 1 0 0 true 0 0
      = some res
      ∧ res.code = ADF4351_WARNING_FREQUENCY_ERROR := by
    rw [setf_of_valid _ binary64_zero _ _ _ _ _ _ _ _ _ (by decide) (by decide) (by decide)
        (by decide)
      (by decide) (by decide) (by decide) (by decide) (by decide)]
    exact ⟨_, rfl, by decide⟩
  obtain ⟨res, hres, hcode⟩ := h
  obtain ⟨Q, hQ, ha, _, _⟩ := precision_edge_band _ binary64_zero stoppedClock powerOn (ofNat 4009998000)
    1 0 0 0 0 res 10000000000000000000 (by decide) (by decide) (by decide) hres (Or.inr hcode)
  exact ⟨res, Q, hres, hQ, fun hge => ⟨(ha hge).1, (ha hge).2.1, (ha hge).2.2.1⟩⟩

/-- C20 as stated fails after `setrf(26014497, 1, ADF4351_REF_UNDIVIDED)` for the target
91,863,494 Hz (divider 32) in precision mode with tolerance 300,000 Hz: the exact ratio
`91863494 * 32 / 26014497` is 112.99975579001..., whose fractional part is at least
`1 - 0.00024421`, yet the call runs the search and commits N = 112 with FRAC = 2, MOD = 3,
because the twelve-digit quotient is 112.999755789984. -/
theorem precision_edge_band_counterexample :
    setrf (roundBinary 53) powerOn 26014497 1 ADF4351_REF_UNDIVIDED
      = (ADF4351_ERROR_NONE, edgeState)
    ∧ setf (roundBinary 53) stoppedClock edgeState (ofNat 91863494) 1 0 0 true 300000 0
        = some ⟨ADF4351_ERROR_NONE, edgePlan, ofNat 91863494⟩
    ∧ ReadPFDfreq id edgePlan = 26014497 ∧ ReadOutDivider edgePlan = 32
    ∧ 91863494 * 32 / 26014497 = 112
    ∧ 99975579 * 26014497 ≤ 91863494 * 32 % 26014497 * 100000000
    ∧ trialRatio (BN_ADF4351_PFDFreq edgeState) (ofNat 91863494) 32 = 112999755789984
    ∧ ReadInt edgePlan = 112 ∧ ReadFraction edgePlan = 2 ∧ ReadMod edgePlan = 3 := by
  refine ⟨setrf_edge, setf_edge, ?_, by decide, by decide, by decide, by decide, by decide,
    by decide, by decide⟩
  have hR : ReadR edgePlan = 1 := by decide
  have hT : ReadRDIV2 edgePlan = 0 := by decide
  have hD : ReadRefDoubler edgePlan = 0 := by decide
  unfold ReadPFDfreq
  simp only [hR, hT, hD]
  norm_num [edgePlan]

/-! ## C21: the fixed-policy bits follow FRAC -/

/-- C21 (as the code behaves). Fixed-policy bits follow FRAC. After every committing `setf`
call, register 2 bits 7 and 8 (lock-detect precision and function) and register 3 bits 21
and 22 (charge cancellation, anti-backlash pulse width) are all 1 when the committed FRAC is
0 and all 0 otherwise, and register 1 bit 28 is 1 exactly when FRAC = 0 and the
phase-detector frequency is at least 45,000,001 Hz: `setf` compares the frequency cut to
whole hertz with 45,000,000. In particular, when the phase-detector frequency is a whole
number of hertz, bit 28 is 1 exactly when FRAC = 0 and that frequency exceeds
45,000,000 Hz. -/
theorem policy_bits_follow_frac (fl : ℚ → ℚ) (hfl : ∀ x : ℚ, fl x = 0 ↔ x = 0)
    (millis : Nat → Nat) (s : State) (freq : BigNumber)
    (PowerLevel AuxPowerLevel AuxFrequencyDivider : Nat) (PrecisionFrequency : Bool)
    (MaximumFrequencyError CalculationTimeout : Nat) (res : SetfResult)
    (h : setf fl millis s freq PowerLevel AuxPowerLevel AuxFrequencyDivider PrecisionFrequency
      MaximumFrequencyError CalculationTimeout = some res)
    (hc : res.code = ADF4351_ERROR_NONE ∨ res.code = ADF4351_WARNING_FREQUENCY_ERROR) :
    (ReadFraction res.state = 0 →
      ReadBF_dword 7 1 res.state.R2 = 1 ∧ ReadBF_dword 8 1 res.state.R2 = 1
      ∧ ReadBF_dword 21 1 res.state.R3 = 1 ∧ ReadBF_dword 22 1 res.state.R3 = 1)
    ∧ (ReadFraction res.state ≠ 0 →
      ReadBF_dword 7 1 res.state.R2 = 0 ∧ ReadBF_dword 8 1 res.state.R2 = 0
      ∧ ReadBF_dword 21 1 res.state.R3 = 0 ∧ ReadBF_dword 22 1 res.state.R3 = 0)
    ∧ (ReadBF_dword 28 1 res.state.R1 = 1 ↔
        ReadFraction res.state = 0 ∧ 45000001 ≤ ReadPFDfreq id res.state)
    ∧ (ReadBF_dword 28 1 res.state.R1 = 1 ∨ ReadBF_dword 28 1 res.state.R1 = 0)
    ∧ (∀ n : Nat, ReadPFDfreq id res.state = (n : ℚ) →
        (ReadBF_dword 28 1 res.state.R1 = 1 ↔ ReadFraction res.state = 0 ∧ 45000000 < n)) := by
  obtain ⟨_, _, _, hR, _, hlo, hhi, b, hb, _, hpass, hres⟩ :=
    setf_commit_inv _ hfl _ _ _ _ _ _ _ _ _ _ h hc
  obtain ⟨e, h1, h2⟩ := accepted_target freq hlo hhi
  obtain ⟨_, _, _, p4, _, _⟩ := selectOutputDivider_spec (toLong freq).toNat h1
  rw [← e] at p4
  have hsmall : s.ADF4351_reffreq * (1 + ReadRefDoubler s) / (ReadR s * (1 + ReadRDIV2 s))
      < 4294967296 := by
    rw [e] at hb hpass
    exact committed_pfd_small millis s (toLong freq).toNat PrecisionFrequency
      MaximumFrequencyError CalculationTimeout b _ _ _ h1 h2 hb (selectPrescaler_le_one _) hpass
  obtain ⟨q1, _, _, _, _, _⟩ := committed_readback
    { s with ADF4351_FrequencyError :=
        (finalFrequencyError (BN_ADF4351_PFDFreq s) (toLong freq * ONE)
          (selectOutputDivider (toLong freq * ONE)).1
          b.ADF4351_N_Int b.ADF4351_Frac b.ADF4351_Mod) }
    (toLong freq * ONE) b.ADF4351_Frac b.ADF4351_N_Int
    (correctMod b.ADF4351_Frac b.ADF4351_Mod) (selectPrescaler (toLong freq * ONE)) (PFDFreq s)
    PowerLevel AuxPowerLevel AuxFrequencyDivider (selectOutputDivider (toLong freq * ONE)).2
    (finalFrequencyError (BN_ADF4351_PFDFreq s) (toLong freq * ONE)
      (selectOutputDivider (toLong freq * ONE)).1
      b.ADF4351_N_Int b.ADF4351_Frac b.ADF4351_Mod) PrecisionFrequency MaximumFrequencyError
    hpass (selectPrescaler_le_one _) p4
  obtain ⟨r1, r2, r3, r4⟩ := committed_reference
    { s with ADF4351_FrequencyError :=
        (finalFrequencyError (BN_ADF4351_PFDFreq s) (toLong freq * ONE)
          (selectOutputDivider (toLong freq * ONE)).1
          b.ADF4351_N_Int b.ADF4351_Frac b.ADF4351_Mod) }
    (toLong freq * ONE) b.ADF4351_Frac b.ADF4351_N_Int
    (correctMod b.ADF4351_Frac b.ADF4351_Mod) (selectPrescaler (toLong freq * ONE)) (PFDFreq s)
    PowerLevel AuxPowerLevel AuxFrequencyDivider (selectOutputDivider (toLong freq * ONE)).2
    (finalFrequencyError (BN_ADF4351_PFDFreq s) (toLong freq * ONE)
      (selectOutputDivider (toLong freq * ONE)).1
      b.ADF4351_N_Int b.ADF4351_Frac b.ADF4351_Mod) PrecisionFrequency MaximumFrequencyError
  obtain ⟨_, g1, g2, g3, _, _⟩ := reportFrequencyError_regs
    (encodeRegisters
      { s with ADF4351_FrequencyError :=
          (finalFrequencyError (BN_ADF4351_PFDFreq s) (toLong freq * ONE)
            (selectOutputDivider (toLong freq * ONE)).1
            b.ADF4351_N_Int b.ADF4351_Frac b.ADF4351_Mod) }
      b.ADF4351_Frac b.ADF4351_N_Int
      (correctMod b.ADF4351_Frac b.ADF4351_Mod) (selectPrescaler (toLong freq * ONE)) (PFDFreq s)
      PowerLevel AuxPowerLevel AuxFrequencyDivider (selectOutputDivider (toLong freq * ONE)).2)
    (toLong freq * ONE)
    (finalFrequencyError (BN_ADF4351_PFDFreq s) (toLong freq * ONE)
      (selectOutputDivider (toLong freq * ONE)).1
      b.ADF4351_N_Int b.ADF4351_Frac b.ADF4351_Mod) PrecisionFrequency MaximumFrequencyError
  obtain ⟨t1, t2, t3, t4, t5⟩ := encodeRegisters_policy
    { s with ADF4351_FrequencyError :=
        (finalFrequencyError (BN_ADF4351_PFDFreq s) (toLong freq * ONE)
          (selectOutputDivider (toLong freq * ONE)).1
          b.ADF4351_N_Int b.ADF4351_Frac b.ADF4351_Mod) }
    b.ADF4351_Frac b.ADF4351_N_Int
    (correctMod b.ADF4351_Frac b.ADF4351_Mod) (selectPrescaler (toLong freq * ONE)) (PFDFreq s)
    PowerLevel AuxPowerLevel AuxFrequencyDivider (selectOutputDivider (toLong freq * ONE)).2
  rw [← g2] at t1 t2
  rw [← g3] at t3 t4
  rw [← g1] at t5
  rw [← hres] at q1 r1 r2 r3 r4 t1 t2 t3 t4 t5
  have hpfd : ReadPFDfreq id res.state = ReadPFDfreq id s :=
    ReadPFDfreq_congr _ s res.state r1 r2 r3 r4
  have hgt := PFDFreq_gt_iff s 45000000 hR hsmall
  have h28 : ReadBF_dword 28 1 res.state.R1 = 1 ↔
      ReadFraction res.state = 0 ∧ 45000001 ≤ ReadPFDfreq id res.state := by
    rw [t5, q1, hpfd]
    have e1 : ((45000000 : Nat) : ℚ) + 1 = 45000001 := by norm_num
    rw [e1] at hgt
    constructor
    · intro hx
      by_cases hcond : b.ADF4351_Frac = 0 ∧ PFDFreq s > 45000000
      · exact ⟨hcond.1, hgt.mp hcond.2⟩
      · rw [if_neg hcond] at hx
        exact absurd hx (by decide)
    · rintro ⟨hx1, hx2⟩
      rw [if_pos ⟨hx1, hgt.mpr hx2⟩]
  refine ⟨?_, ?_, h28, ?_, ?_⟩
  · intro hz
    rw [q1] at hz
    rw [t1, t2, t3, t4, if_pos hz]
    exact ⟨rfl, rfl, rfl, rfl⟩
  · intro hz
    rw [q1] at hz
    rw [t1, t2, t3, t4, if_neg hz]
    exact ⟨rfl, rfl, rfl, rfl⟩
  · rw [t5]
    by_cases hcond : b.ADF4351_Frac = 0 ∧ PFDFreq s > 45000000
    · rw [if_pos hcond]; exact Or.inl rfl
    · rw [if_neg hcond]; exact Or.inr rfl
  · intro n hn
    rw [h28, hn]
    constructor
    · rintro ⟨hx1, hx2⟩
      have : (45000001 : Nat) ≤ n := by exact_mod_cast hx2
      exact ⟨hx1, by omega⟩
    · rintro ⟨hx1, hx2⟩
      have : (45000001 : Nat) ≤ n := by omega
      exact ⟨hx1, by exact_mod_cast this⟩

/-- C21 on the power-on state for the target 2,203,333,333 Hz in precision mode with
tolerance 0, which commits FRAC = 1: the five bits are 0. -/
theorem policy_bits_follow_frac_witness :
    (ReadFraction tolerancePlan = 0 →
      ReadBF_dword 7 1 tolerancePlan.R2 = 1 ∧ ReadBF_dword 8 1 tolerancePlan.R2 = 1
      ∧ ReadBF_dword 21 1 tolerancePlan.R3 = 1 ∧ ReadBF_dword 22 1 tolerancePlan.R3 = 1)
    ∧ (ReadFraction tolerancePlan ≠ 0 →
      ReadBF_dword 7 1 tolerancePlan.R2 = 0 ∧ ReadBF_dword 8 1 tolerancePlan.R2 = 0
      ∧ ReadBF_dword 21 1 tolerancePlan.R3 = 0 ∧ ReadBF_dword 22 1 tolerancePlan.R3 = 0)
    ∧ (ReadBF_dword 28 1 tolerancePlan.R1 = 1 ↔
        ReadFraction tolerancePlan = 0 ∧ 45000001 ≤ ReadPFDfreq id tolerancePlan)
    ∧ (ReadBF_dword 28 1 tolerancePlan.R1 = 1 ∨ ReadBF_dword 28 1 tolerancePlan.R1 = 0)
    ∧ (∀ n : Nat, ReadPFDfreq id tolerancePlan = (n : ℚ) →
        (ReadBF_dword 28 1 tolerancePlan.R1 = 1 ↔
          ReadFraction tolerancePlan = 0 ∧ 45000000 < n)) :=
  policy_bits_follow_frac _ binary64_zero stoppedClock powerOn (ofNat 2203333333) 1 0 0 true 0 0
    ⟨ADF4351_ERROR_NONE, tolerancePlan, ofNat 2203333333⟩ tolerance_example (Or.inl rfl)

/-- C21 as stated fails at a phase-detector frequency of 45,000,000.5 Hz. Where `double` is
a 32-bit float, `setrf(90000001, 1, ADF4351_REF_HALF)` succeeds on the power-on state; the
call for 2,250,000,025 Hz (precision mode, tolerance 0) then commits N = 50 with FRAC = 0,
the phase-detector frequency exceeds 45,000,000 Hz, and register 1 bit 28 is 0. -/
theorem policy_bits_counterexample :
    setrf (roundBinary 24) powerOn 90000001 1 ADF4351_REF_HALF
      = (ADF4351_ERROR_NONE, overState)
    ∧ setf (roundBinary 53) stoppedClock overState (ofNat 2250000025) 1 0 0 true 0 0
      = some ⟨ADF4351_ERROR_NONE, overPlan, ofNat 2250000025⟩
    ∧ ReadFraction overPlan = 0
    ∧ ReadPFDfreq id overPlan = 90000001 / 2
    ∧ ReadPFDfreq id overPlan > 45000000
    ∧ ReadBF_dword 28 1 overPlan.R1 = 0 := by
  refine ⟨setrf_over, setf_over, by decide, ReadPFDfreq_overPlan, ?_, by decide⟩
  rw [ReadPFDfreq_overPlan]
  norm_num

/-! ## C22: the VCO band -/

/-- C22. VCO band. For every target accepted by the range check of `setf` (a decimal in
`[34,375,000, 4,400,000,000]`), the output divider `setf` chooses for the target with its
fractional digits dropped places the VCO frequency in its native band:
`2,200,000,000 <= target * divider <= 4,400,000,000`; and every committing call reads that
divider back with `ReadOutDivider()`. -/
theorem vco_band_selected (fl : ℚ → ℚ) (hfl : ∀ x : ℚ, fl x = 0 ↔ x = 0)
    (freq : BigNumber) (hlo : ofNat 34375000 ≤ freq)
    (hhi : freq ≤ ofNat 4400000000) :
    2200000000 ≤ (toLong freq).toNat * (selectOutputDivider (toLong freq * ONE)).1
    ∧ (toLong freq).toNat * (selectOutputDivider (toLong freq * ONE)).1 ≤ 4400000000
    ∧ ∀ (millis : Nat → Nat) (s : State)
        (PowerLevel AuxPowerLevel AuxFrequencyDivider : Nat) (PrecisionFrequency : Bool)
        (MaximumFrequencyError CalculationTimeout : Nat) (res : SetfResult),
        setf fl millis s freq PowerLevel AuxPowerLevel AuxFrequencyDivider PrecisionFrequency
          MaximumFrequencyError CalculationTimeout = some res →
        (res.code = ADF4351_ERROR_NONE ∨ res.code = ADF4351_WARNING_FREQUENCY_ERROR) →
        2200000000 ≤ (toLong freq).toNat * ReadOutDivider res.state
        ∧ (toLong freq).toNat * ReadOutDivider res.state ≤ 4400000000 := by
  obtain ⟨e, h1, h2⟩ := accepted_target freq hlo hhi
  obtain ⟨b1, b2⟩ := vco_band (toLong freq).toNat h1 h2
  rw [← e] at b1 b2
  refine ⟨b1, b2, ?_⟩
  intro millis s PowerLevel AuxPowerLevel AuxFrequencyDivider PrecisionFrequency
    MaximumFrequencyError CalculationTimeout res h hc
  obtain ⟨_, _, _, _, _, _, _, b, hb, _, hpass, hres⟩ :=
    setf_commit_inv _ hfl _ _ _ _ _ _ _ _ _ _ h hc
  obtain ⟨_, _, _, p4, _, _⟩ := selectOutputDivider_spec (toLong freq).toNat h1
  obtain ⟨_, _, p3, _, _, _⟩ := selectOutputDivider_spec (toLong freq).toNat h1
  rw [← e] at p3 p4
  obtain ⟨_, _, _, _, _, q6⟩ := committed_readback
    { s with ADF4351_FrequencyError :=
        (finalFrequencyError (BN_ADF4351_PFDFreq s) (toLong freq * ONE)
          (selectOutputDivider (toLong freq * ONE)).1
          b.ADF4351_N_Int b.ADF4351_Frac b.ADF4351_Mod) }
    (toLong freq * ONE) b.ADF4351_Frac b.ADF4351_N_Int
    (correctMod b.ADF4351_Frac b.ADF4351_Mod) (selectPrescaler (toLong freq * ONE)) (PFDFreq s)
    PowerLevel AuxPowerLevel AuxFrequencyDivider (selectOutputDivider (toLong freq * ONE)).2
    (finalFrequencyError (BN_ADF4351_PFDFreq s) (toLong freq * ONE)
      (selectOutputDivider (toLong freq * ONE)).1
      b.ADF4351_N_Int b.ADF4351_Frac b.ADF4351_Mod) PrecisionFrequency MaximumFrequencyError
    hpass (selectPrescaler_le_one _) p4
  rw [← hres] at q6
  rw [q6, ← p3]
  exact ⟨b1, b2⟩

/-- C22 for the target 91,863,494 Hz: the divider is 32, the VCO runs at 2,939,631,808 Hz,
and the committing call on `edgeState` reads 32 back. -/
theorem vco_band_selected_witness :
    2200000000 ≤ (toLong (ofNat 91863494)).toNat
        * (selectOutputDivider (toLong (ofNat 91863494) * ONE)).1
    ∧ (toLong (ofNat 91863494)).toNat
        * (selectOutputDivider (toLong (ofNat 91863494) * ONE)).1 ≤ 4400000000
    ∧ 2200000000 ≤ (toLong (ofNat 91863494)).toNat * ReadOutDivider edgePlan
    ∧ (toLong (ofNat 91863494)).toNat * ReadOutDivider edgePlan ≤ 4400000000
    ∧ (toLong (ofNat 91863494)).toNat * ReadOutDivider edgePlan = 2939631808 :=
  have h := vco_band_selected _ binary64_zero (ofNat 91863494) (by decide) (by decide)
  ⟨h.1, h.2.1,
    (h.2.2 stoppedClock edgeState 1 0 0 true 300000 0 ⟨ADF4351_ERROR_NONE, edgePlan,
      ofNat 91863494⟩ setf_edge (Or.inl rfl)).1,
    (h.2.2 stoppedClock edgeState 1 0 0 true 300000 0 ⟨ADF4351_ERROR_NONE, edgePlan,
      ofNat 91863494⟩ setf_edge (Or.inl rfl)).2, by decide⟩

/-! ## C23: no division by zero in the reducer -/

/-- C23 at the failing input. From the power-on state `SetStepFreq(10000000)` succeeds (the
step equals the 10 MHz phase-detector frequency) and `setrf(10000000, 1, ADF4351_REF_HALF)`
then succeeds, in binary64 arithmetic and where `double` is a 32-bit float alike, leaving a
5 MHz phase-detector frequency with the 10 MHz step. The call of `setf` for 4,000,000,000 Hz
in non-precision mode passes the whole validation (the PFD/step check divides the reference
by R only and ignores the half-divider) and reaches the reducer with MOD = 0 and FRAC = 0;
the subtraction loop returns `GCD_t = 0` at once, and the call divides by it. -/
theorem reducer_division_by_zero :
    SetStepFreq (roundBinary 53) powerOn 10000000 = some (ADF4351_ERROR_NONE, stepState)
    ∧ setrf (roundBinary 53) stepState 10000000 1 ADF4351_REF_HALF
        = (ADF4351_ERROR_NONE, halvedState)
    ∧ setrf (roundBinary 24) stepState 10000000 1 ADF4351_REF_HALF
        = (ADF4351_ERROR_NONE, halvedState)
    ∧ ReadPFDfreq id halvedState = 5000000
    ∧ (∀ millis : Nat → Nat,
        setf (roundBinary 53) millis halvedState (ofNat 4000000000) 1 0 0 false 0 0
          = planAndCommit millis halvedState (ofNat 4000000000) 1 0 0 false 0 0)
    ∧ channelStepMod0 (BN_ADF4351_PFDFreq halvedState)
        (selectOutputDivider (ofNat 4000000000)).1 halvedState.ADF4351_ChanStep = 0
    ∧ channelStepFrac0 (BN_ADF4351_PFDFreq halvedState) (ofNat 4000000000)
        (selectOutputDivider (ofNat 4000000000)).1 halvedState.ADF4351_ChanStep = 0
    ∧ gcdLoop (0 + 0 + 1) 0 0 = some 0
    ∧ reduceFraction 0 0 = none
    ∧ (∀ millis : Nat → Nat,
        setf (roundBinary 53) millis halvedState (ofNat 4000000000) 1 0 0 false 0 0 = none) := by
  have hv : ∀ millis : Nat → Nat,
      setf (roundBinary 53) millis halvedState (ofNat 4000000000) 1 0 0 false 0 0
        = planAndCommit millis halvedState (ofNat 4000000000) 1 0 0 false 0 0 := by
    intro millis
    rw [setf_of_valid _ binary64_zero _ _ _ _ _ _ _ _ _ (by decide) (by decide) (by decide)
        (by decide)
      (by decide) (by decide) (by decide) (by decide) (by decide)]
    rfl
  have hm : channelStepMod0 (BN_ADF4351_PFDFreq halvedState)
      (selectOutputDivider (ofNat 4000000000)).1 halvedState.ADF4351_ChanStep = 0 := by decide
  have hf : channelStepFrac0 (BN_ADF4351_PFDFreq halvedState) (ofNat 4000000000)
      (selectOutputDivider (ofNat 4000000000)).1 halvedState.ADF4351_ChanStep = 0 := by decide
  refine ⟨SetStepFreq_step, setrf_halved, setrf_halved_single, ReadPFDfreq_halved, hv, hm, hf,
    by decide, by decide, ?_⟩
  intro millis
  rw [hv millis]
  unfold planAndCommit decompose
  rw [if_neg (by decide)]
  unfold channelStepBranch
  rw [hm, hf]
  rfl

/-! ## C24: the N range errors are unreachable under a valid reference path -/

/-- C24. N-range errors are unreachable under a valid reference path. For every state whose
phase-detector frequency lies in `[125,000, 45,000,000]` Hz and every target in
`[34,375,000, 4,400,000,000]` Hz, the N computed by `setf` in the precision branch and the
N computed in the channel-step branch both satisfy `48 <= N <= 35,201`, and `N >= 80` when
the target exceeds 3.6 GHz; so does the N of the decomposition `setf` uses in either mode,
and `setf` never returns `ADF4351_ERROR_N_RANGE` or `ADF4351_ERROR_N_RANGE_OVER_3600_MHz`. -/
theorem n_range_unreachable (fl : ℚ → ℚ)
    (millis : Nat → Nat) (s : State) (freq : BigNumber)
    (PowerLevel AuxPowerLevel AuxFrequencyDivider : Nat) (PrecisionFrequency : Bool)
    (MaximumFrequencyError CalculationTimeout : Nat)
    (hpl : 125000 ≤ ReadPFDfreq id s) (hph : ReadPFDfreq id s ≤ 45000000)
    (hlo : ofNat 34375000 ≤ freq) (hhi : freq ≤ ofNat 4400000000) :
    (48 ≤ (precisionBranch millis (BN_ADF4351_PFDFreq s) (toLong freq * ONE)
          (selectOutputDivider (toLong freq * ONE)).1 MaximumFrequencyError
          CalculationTimeout 0).ADF4351_N_Int
      ∧ (precisionBranch millis (BN_ADF4351_PFDFreq s) (toLong freq * ONE)
          (selectOutputDivider (toLong freq * ONE)).1 MaximumFrequencyError
          CalculationTimeout 0).ADF4351_N_Int ≤ 35201
      ∧ (freq > ofNat 3600000000 →
          80 ≤ (precisionBranch millis (BN_ADF4351_PFDFreq s) (toLong freq * ONE)
            (selectOutputDivider (toLong freq * ONE)).1 MaximumFrequencyError
            CalculationTimeout 0).ADF4351_N_Int))
    ∧ (48 ≤ channelStepN (BN_ADF4351_PFDFreq s) (toLong freq * ONE)
          (selectOutputDivider (toLong freq * ONE)).1
      ∧ channelStepN (BN_ADF4351_PFDFreq s) (toLong freq * ONE)
          (selectOutputDivider (toLong freq * ONE)).1 ≤ 35201
      ∧ (freq > ofNat 3600000000 →
          80 ≤ channelStepN (BN_ADF4351_PFDFreq s) (toLong freq * ONE)
            (selectOutputDivider (toLong freq * ONE)).1))
    ∧ (∀ b, decompose millis (BN_ADF4351_PFDFreq s) s.ADF4351_ChanStep (toLong freq * ONE)
          PrecisionFrequency MaximumFrequencyError CalculationTimeout = some b →
        48 ≤ b.ADF4351_N_Int ∧ b.ADF4351_N_Int ≤ 35201
        ∧ (freq > ofNat 3600000000 → 80 ≤ b.ADF4351_N_Int))
    ∧ (∀ res, setf fl millis s freq PowerLevel AuxPowerLevel AuxFrequencyDivider
          PrecisionFrequency MaximumFrequencyError CalculationTimeout = some res →
        res.code ≠ ADF4351_ERROR_N_RANGE
        ∧ res.code ≠ ADF4351_ERROR_N_RANGE_OVER_3600_MHz) := by
  obtain ⟨hR, href, p, hp, hp1, hp2⟩ := BN_ADF4351_PFDFreq_range s hpl hph
  obtain ⟨e, h1, h2⟩ := accepted_target freq hlo hhi
  obtain ⟨v1, v2⟩ := vco_band (toLong freq).toNat h1 h2
  obtain ⟨_, d2, _, _, d5, d6⟩ := selectOutputDivider_spec (toLong freq).toNat h1
  have hone : 3600000000 ≤ (toLong freq).toNat →
      (selectOutputDivider (ofNat (toLong freq).toNat)).1 = 1 := by
    intro hf
    have hne : (toLong freq).toNat ≠ 34375000 := by omega
    have hq : 2200000000 / (toLong freq).toNat < 2 ^ 0 := by
      rw [Nat.pow_zero, Nat.lt_one_iff]
      exact Nat.div_eq_of_lt (by omega)
    have := (d2 hne).2 0 hq
    omega
  have hcut : freq > ofNat 3600000000 → 3600000000 ≤ (toLong freq).toNat := by
    intro hgt
    have hgt' : (3600000000 : Int) * 1000000000000 < freq := hgt
    have h0 : (0 : Int) ≤ freq := by omega
    unfold toLong ONE
    rw [Int.tdiv_eq_ediv h0 (by norm_num)]
    omega
  rw [hp, e]
  generalize (toLong freq).toNat = f at *
  obtain ⟨a1, a2, a3⟩ := precisionBranch_N_range millis p f (selectOutputDivider (ofNat f)).1
    MaximumFrequencyError CalculationTimeout hp1 hp2 d5 d6 v1 v2
  obtain ⟨c1, c2, c3⟩ := channelStepN_range p f (selectOutputDivider (ofNat f)).1
    hp1 hp2 v1 v2
  have hdec : ∀ b, decompose millis (p : Int) s.ADF4351_ChanStep (ofNat f)
        PrecisionFrequency MaximumFrequencyError CalculationTimeout = some b →
      48 ≤ b.ADF4351_N_Int ∧ b.ADF4351_N_Int ≤ 35201
      ∧ (3600000000 ≤ f → 80 ≤ b.ADF4351_N_Int) := by
    intro b hb
    rcases decompose_N_cases _ _ _ _ _ _ _ _ hb with ⟨_, hN⟩ | ⟨_, hN⟩
    · rw [hN]
      exact ⟨a1, a2, fun hf => a3 (hone hf) hf⟩
    · rw [hN]
      exact ⟨c1, by omega, fun hf => c3 (hone hf) hf⟩
  refine ⟨⟨a1, a2, fun hgt => a3 (hone (hcut hgt)) (hcut hgt)⟩,
    ⟨c1, by omega, fun hgt => c3 (hone (hcut hgt)) (hcut hgt)⟩,
    fun b hb => ⟨(hdec b hb).1, (hdec b hb).2.1, fun hgt => (hdec b hb).2.2 (hcut hgt)⟩, ?_⟩
  intro res hres
  have hno : ¬(res.code = ADF4351_ERROR_N_RANGE
      ∨ res.code = ADF4351_ERROR_N_RANGE_OVER_3600_MHz) := by
    intro hc
    obtain ⟨b, hb, hbad⟩ := setf_n_range_inv _ _ _ _ _ _ _ _ _ _ _ hres hc
    rw [hp, e] at hb
    obtain ⟨n1, n2, n3⟩ := hdec b hb
    rw [e] at hbad
    unfold selectPrescaler at hbad
    rcases hbad with ⟨hpre, hn⟩ | ⟨hpre, hn⟩
    · omega
    · by_cases hgt : ofNat f > ofNat 3600000000
      · have hf : 3600000000 < f := (ofNat_lt_ofNat _ _).mp hgt
        have := n3 (by omega)
        omega
      · rw [if_neg hgt] at hpre
        exact absurd hpre (by decide)
  exact ⟨fun h => hno (Or.inl h), fun h => hno (Or.inr h)⟩

/-- C24 on the power-on state (phase-detector frequency 10 MHz) for the target
4,000,000,000 Hz: both branches compute an N in `[80, 35201]` and no call with that target
returns an N range error. -/
theorem n_range_unreachable_witness :
    (48 ≤ (precisionBranch stoppedClock (BN_ADF4351_PFDFreq powerOn)
          (toLong (ofNat 4000000000) * ONE)
          (selectOutputDivider (toLong (ofNat 4000000000) * ONE)).1 0 0 0).ADF4351_N_Int
      ∧ (precisionBranch stoppedClock (BN_ADF4351_PFDFreq powerOn)
          (toLong (ofNat 4000000000) * ONE)
          (selectOutputDivider (toLong (ofNat 4000000000) * ONE)).1 0 0 0).ADF4351_N_Int
          ≤ 35201
      ∧ (ofNat 4000000000 > ofNat 3600000000 →
          80 ≤ (precisionBranch stoppedClock (BN_ADF4351_PFDFreq powerOn)
            (toLong (ofNat 4000000000) * ONE)
            (selectOutputDivider (toLong (ofNat 4000000000) * ONE)).1 0 0 0).ADF4351_N_Int))
    ∧ (48 ≤ channelStepN (BN_ADF4351_PFDFreq powerOn) (toLong (ofNat 4000000000) * ONE)
          (selectOutputDivider (toLong (ofNat 4000000000) * ONE)).1
      ∧ channelStepN (BN_ADF4351_PFDFreq powerOn) (toLong (ofNat 4000000000) * ONE)
          (selectOutputDivider (toLong (ofNat 4000000000) * ONE)).1 ≤ 35201
      ∧ (ofNat 4000000000 > ofNat 3600000000 →
          80 ≤ channelStepN (BN_ADF4351_PFDFreq powerOn) (toLong (ofNat 4000000000) * ONE)
            (selectOutputDivider (toLong (ofNat 4000000000) * ONE)).1))
    ∧ (∀ b, decompose stoppedClock (BN_ADF4351_PFDFreq powerOn) powerOn.ADF4351_ChanStep
          (toLong (ofNat 4000000000) * ONE) false 0 0 = some b →
        48 ≤ b.ADF4351_N_Int ∧ b.ADF4351_N_Int ≤ 35201
        ∧ (ofNat 4000000000 > ofNat 3600000000 → 80 ≤ b.ADF4351_N_Int))
    ∧ (∀ res, setf (roundBinary 53) stoppedClock powerOn (ofNat 4000000000) 1 0 0 false 0 0 = some res →
        res.code ≠ ADF4351_ERROR_N_RANGE
        ∧ res.code ≠ ADF4351_ERROR_N_RANGE_OVER_3600_MHz) :=
  n_range_unreachable _ stoppedClock powerOn (ofNat 4000000000) 1 0 0 false 0 0
    (by rw [ReadPFDfreq_powerOn]; norm_num) (by rw [ReadPFDfreq_powerOn]; norm_num)
    (by decide) (by decide)

/-! ## C25: the frame of `setf` -/

/-- C25. The frame of `setf`. For every state and argument list, a returning `setf` call
leaves the stored reference frequency, the channel step and register 5 as they were, and
with them the reference-path fields of register 2, so that `ReadR()`, `ReadRDIV2()`,
`ReadRefDoubler()` and the phase-detector frequency (as `ReadPFDfreq()` returns it, under
every rounding `g` of its `double` arithmetic, the exact value `g = id` included, and as
`setf` computes it) are the same before and after the call; the only bits it may change are
register 0 bits 3..30, register 1 bits 3..14, 27 and 28, register 2 bits 7..8, register 3
bits 21..22 and register 4 bits 3..9 and 20..22. -/
theorem setf_frame (fl : ℚ → ℚ)
    (millis : Nat → Nat) (s : State) (freq : BigNumber)
    (PowerLevel AuxPowerLevel AuxFrequencyDivider : Nat) (PrecisionFrequency : Bool)
    (MaximumFrequencyError CalculationTimeout : Nat) (res : SetfResult)
    (h : setf fl millis s freq PowerLevel AuxPowerLevel AuxFrequencyDivider PrecisionFrequency
      MaximumFrequencyError CalculationTimeout = some res) :
    res.state.ADF4351_reffreq = s.ADF4351_reffreq
    ∧ res.state.ADF4351_ChanStep = s.ADF4351_ChanStep
    ∧ res.state.R5 = s.R5
    ∧ ReadR res.state = ReadR s
    ∧ ReadRDIV2 res.state = ReadRDIV2 s
    ∧ ReadRefDoubler res.state = ReadRefDoubler s
    ∧ (∀ g : ℚ → ℚ, ReadPFDfreq g res.state = ReadPFDfreq g s)
    ∧ BN_ADF4351_PFDFreq res.state = BN_ADF4351_PFDFreq s
    ∧ (∀ i, ¬(3 ≤ i ∧ i ≤ 30) → res.state.R0.testBit i = s.R0.testBit i)
    ∧ (∀ i, ¬((3 ≤ i ∧ i ≤ 14) ∨ i = 27 ∨ i = 28) →
        res.state.R1.testBit i = s.R1.testBit i)
    ∧ (∀ i, ¬(7 ≤ i ∧ i ≤ 8) → res.state.R2.testBit i = s.R2.testBit i)
    ∧ (∀ i, ¬(21 ≤ i ∧ i ≤ 22) → res.state.R3.testBit i = s.R3.testBit i)
    ∧ (∀ i, ¬((3 ≤ i ∧ i ≤ 9) ∨ (20 ≤ i ∧ i ≤ 22)) →
        res.state.R4.testBit i = s.R4.testBit i) := by
  have key : res.state.ADF4351_reffreq = s.ADF4351_reffreq
      ∧ res.state.ADF4351_ChanStep = s.ADF4351_ChanStep
      ∧ res.state.R5 = s.R5
      ∧ ReadR res.state = ReadR s
      ∧ ReadRDIV2 res.state = ReadRDIV2 s
      ∧ ReadRefDoubler res.state = ReadRefDoubler s
      ∧ (∀ i, ¬(3 ≤ i ∧ i ≤ 30) → res.state.R0.testBit i = s.R0.testBit i)
      ∧ (∀ i, ¬((3 ≤ i ∧ i ≤ 14) ∨ i = 27 ∨ i = 28) →
          res.state.R1.testBit i = s.R1.testBit i)
      ∧ (∀ i, ¬(7 ≤ i ∧ i ≤ 8) → res.state.R2.testBit i = s.R2.testBit i)
      ∧ (∀ i, ¬(21 ≤ i ∧ i ≤ 22) → res.state.R3.testBit i = s.R3.testBit i)
      ∧ (∀ i, ¬((3 ≤ i ∧ i ≤ 9) ∨ (20 ≤ i ∧ i ≤ 22)) →
          res.state.R4.testBit i = s.R4.testBit i) := by
    rcases setf_state_cases _ _ _ _ _ _ _ _ _ _ _ h with ⟨e, he⟩ | ⟨e, e', Frac, N, Mod, P, PFD,
      sel, he⟩
    · rw [he]
      exact ⟨rfl, rfl, rfl, rfl, rfl, rfl, fun _ _ => rfl, fun _ _ => rfl, fun _ _ => rfl,
        fun _ _ => rfl, fun _ _ => rfl⟩
    · obtain ⟨a1, a2, a3, a4, a5⟩ := encodeRegisters_reference
        { s with ADF4351_FrequencyError := e } Frac N Mod P PFD PowerLevel AuxPowerLevel
        AuxFrequencyDivider sel
      obtain ⟨b0, b1, b2, b3, b4, b5⟩ := encodeRegisters_frame
        { s with ADF4351_FrequencyError := e } Frac N Mod P PFD PowerLevel AuxPowerLevel
        AuxFrequencyDivider sel
      rw [he]
      exact ⟨a4, a5, b5, a1, a2, a3, b0, b1, b2, b3, b4⟩
  obtain ⟨k1, k2, k3, k4, k5, k6, k7, k8, k9, k10, k11⟩ := key
  exact ⟨k1, k2, k3, k4, k5, k6, fun g => ReadPFDfreq_congr g s res.state k4 k5 k6 k1,
    BN_ADF4351_PFDFreq_congr s res.state k4 k5 k6 k1, k7, k8, k9, k10, k11⟩

/-- C25 on the power-on state for the committing call with target 2,203,333,333 Hz
(precision mode, tolerance 0), which leaves `tolerancePlan`. -/
theorem setf_frame_witness :
    tolerancePlan.ADF4351_reffreq = powerOn.ADF4351_reffreq
    ∧ tolerancePlan.ADF4351_ChanStep = powerOn.ADF4351_ChanStep
    ∧ tolerancePlan.R5 = powerOn.R5
    ∧ ReadR tolerancePlan = ReadR powerOn
    ∧ ReadRDIV2 tolerancePlan = ReadRDIV2 powerOn
    ∧ ReadRefDoubler tolerancePlan = ReadRefDoubler powerOn
    ∧ (∀ g : ℚ → ℚ, ReadPFDfreq g tolerancePlan = ReadPFDfreq g powerOn)
    ∧ BN_ADF4351_PFDFreq tolerancePlan = BN_ADF4351_PFDFreq powerOn
    ∧ (∀ i, ¬(3 ≤ i ∧ i ≤ 30) → tolerancePlan.R0.testBit i = powerOn.R0.testBit i)
    ∧ (∀ i, ¬((3 ≤ i ∧ i ≤ 14) ∨ i = 27 ∨ i = 28) →
        tolerancePlan.R1.testBit i = powerOn.R1.testBit i)
    ∧ (∀ i, ¬(7 ≤ i ∧ i ≤ 8) → tolerancePlan.R2.testBit i = powerOn.R2.testBit i)
    ∧ (∀ i, ¬(21 ≤ i ∧ i ≤ 22) → tolerancePlan.R3.testBit i = powerOn.R3.testBit i)
    ∧ (∀ i, ¬((3 ≤ i ∧ i ≤ 9) ∨ (20 ≤ i ∧ i ≤ 22)) →
        tolerancePlan.R4.testBit i = powerOn.R4.testBit i) :=
  setf_frame (roundBinary 53) stoppedClock powerOn (ofNat 2203333333) 1 0 0 true 0 0
    ⟨ADF4351_ERROR_NONE, tolerancePlan, ofNat 2203333333⟩ tolerance_example

end ADF4351
